import Mathlib

/-!
# Dual-energy photopeak analysis (dowiyogo/REE): embedding and properties

The analysis scripts under `Simulacion_Europio/build` and `Simulacion_Barrido`
compute with C++ `double`s.  They are embedded over an exact-arithmetic model
of `double`: a finite value is an element of a linearly ordered field `α`
(rounding and overflow are not modelled, every zero is `+0`), and the three
non-finite IEEE-754 values `+inf`, `-inf` and `NaN` are kept, so that a
division by zero, the square root of a negative number or a comparison with
`NaN` behave as they do in the program.  `std::sqrt` and `std::log` on finite
arguments are supplied by a `Libm` record; over `ℝ` it is `Real.sqrt` and
`Real.log`.
-/

namespace REE

/-! ## Model of `double` -/

/-- A C++ `double`: a finite value, or one of `+inf`, `-inf`, `NaN`. -/
inductive Dbl (α : Type) where
  | fin (x : α)
  | pinf
  | ninf
  | nan
deriving DecidableEq

/-- The functions of `<cmath>` the scripts call, on finite arguments of their
domain (`sqrt` on `x ≥ 0`, `log` on `x > 0`). -/
structure Libm (α : Type) where
  sqrt : α → α
  log : α → α

/-- The `<cmath>` functions over the reals. -/
noncomputable def libmReal : Libm ℝ where
  sqrt := Real.sqrt
  log := Real.log

namespace Dbl

variable {α : Type} [LinearOrderedField α]

/-- The infinity of the sign of `a`, for `a ≠ 0`; `NaN` for `a = 0`. -/
def infOfSign (a : α) : Dbl α :=
  if a = 0 then nan else if 0 < a then pinf else ninf

/-- IEEE negation. -/
def neg : Dbl α → Dbl α
  | fin a => fin (-a)
  | pinf => ninf
  | ninf => pinf
  | nan => nan

/-- IEEE addition (exact on finite values). -/
def add : Dbl α → Dbl α → Dbl α
  | fin a, fin b => fin (a + b)
  | fin _, pinf => pinf
  | fin _, ninf => ninf
  | pinf, fin _ => pinf
  | pinf, pinf => pinf
  | ninf, fin _ => ninf
  | ninf, ninf => ninf
  | pinf, ninf => nan
  | ninf, pinf => nan
  | nan, _ => nan
  | _, nan => nan

/-- IEEE subtraction. -/
def sub (x y : Dbl α) : Dbl α := add x (neg y)

/-- IEEE multiplication (exact on finite values); `0 * inf` is `NaN`. -/
def mul : Dbl α → Dbl α → Dbl α
  | fin a, fin b => fin (a * b)
  | fin a, pinf => infOfSign a
  | fin a, ninf => infOfSign (-a)
  | pinf, fin b => infOfSign b
  | ninf, fin b => infOfSign (-b)
  | pinf, pinf => pinf
  | ninf, ninf => pinf
  | pinf, ninf => ninf
  | ninf, pinf => ninf
  | nan, _ => nan
  | _, nan => nan

/-- IEEE division (exact on finite values): a non-zero finite value divided by
zero is the infinity of its sign, `0 / 0` and `inf / inf` are `NaN`. -/
def div : Dbl α → Dbl α → Dbl α
  | fin a, fin b => if b = 0 then infOfSign a else fin (a / b)
  | fin _, pinf => fin 0
  | fin _, ninf => fin 0
  | pinf, fin b => if 0 ≤ b then pinf else ninf
  | ninf, fin b => if 0 ≤ b then ninf else pinf
  | pinf, pinf => nan
  | pinf, ninf => nan
  | ninf, pinf => nan
  | ninf, ninf => nan
  | nan, _ => nan
  | _, nan => nan

instance : Neg (Dbl α) := ⟨neg⟩
instance : Add (Dbl α) := ⟨add⟩
instance : Sub (Dbl α) := ⟨sub⟩
instance : Mul (Dbl α) := ⟨mul⟩
instance : Div (Dbl α) := ⟨div⟩

/-- The call `std::sqrt(x)`: `NaN` below zero. -/
def sqrt (m : Libm α) : Dbl α → Dbl α
  | fin a => if a < 0 then nan else fin (m.sqrt a)
  | pinf => pinf
  | ninf => nan
  | nan => nan

/-- The call `std::log(x)`: `NaN` below zero, `-inf` at zero. -/
def log (m : Libm α) : Dbl α → Dbl α
  | fin a => if a < 0 then nan else if a = 0 then ninf else fin (m.log a)
  | pinf => pinf
  | ninf => nan
  | nan => nan

/-- The call `std::pow(x, 2)`. -/
def pow2 (x : Dbl α) : Dbl α := x * x

/-- The call `std::abs(x)`. -/
def abs : Dbl α → Dbl α
  | fin a => fin |a|
  | pinf => pinf
  | ninf => pinf
  | nan => nan

/-- The comparison `x < y`: false as soon as one side is `NaN`. -/
def lt : Dbl α → Dbl α → Bool
  | fin a, fin b => decide (a < b)
  | fin _, pinf => true
  | ninf, fin _ => true
  | ninf, pinf => true
  | _, _ => false

/-- The comparison `x <= y`: false as soon as one side is `NaN`. -/
def le : Dbl α → Dbl α → Bool
  | fin a, fin b => decide (a ≤ b)
  | fin _, pinf => true
  | ninf, fin _ => true
  | ninf, pinf => true
  | pinf, pinf => true
  | ninf, ninf => true
  | _, _ => false

/-- The comparison `x > y`. -/
def gt (x y : Dbl α) : Bool := lt y x

/-- Whether the value is finite. -/
def isFin : Dbl α → Bool
  | fin _ => true
  | _ => false

end Dbl

/-! ## The histogram interface (ROOT's `TH1D`) -/

/-- The part of a ROOT `TH1D` the peak integrators use: `FindBin(x)`, the bin
index of an abscissa, `Integral(b1, b2)`, the sum of the bin contents the
library returns for the bin range, and `GetEntries()`. -/
structure TH1D (α : Type) where
  FindBin : α → ℤ
  Integral : ℤ → ℤ → α
  GetEntries : α

/-- Sum of `n` consecutive bin contents from bin `b1` on: the loop
`for (binx = binx1; binx <= binx2; ++binx) integral += content(binx)`. -/
def sumaBins {α : Type} [LinearOrderedField α] (contents : ℤ → α) (b1 : ℤ) : ℕ → α
  | 0 => 0
  | n + 1 => sumaBins contents b1 n + contents (b1 + n)

/-- The histogram `new TH1D(name, title, nbins, xmin, xmax)` with the given bin
contents (bin `0` is the underflow, bin `nbins + 1` the overflow), as the ROOT
library implements it: `TAxis::FindBin` returns `0` below `xmin`, `nbins + 1`
from `xmax` on and `1 + int(nbins * (x - xmin) / (xmax - xmin))` in between;
`TH1::Integral(b1, b2)` first clamps `b1 < 0` to `0` and replaces `b2` by the
overflow bin `nbins + 1` when `b2 > nbins + 1` or `b2 < b1`, then sums the bins
`b1..b2`. -/
def TH1D.ofBins {α : Type} [LinearOrderedField α] [FloorRing α]
    (nbins : ℕ) (xmin xmax : α) (contents : ℤ → α) (entries : α) : TH1D α where
  FindBin := fun x =>
    if x < xmin then 0
    else if ¬ (x < xmax) then (nbins : ℤ) + 1
    else 1 + ⌊(nbins : α) * (x - xmin) / (xmax - xmin)⌋
  Integral := fun b1 b2 =>
    let binx1 : ℤ := if b1 < 0 then 0 else b1
    let binx2 : ℤ := if b2 ≥ (nbins : ℤ) + 2 ∨ b2 < binx1 then (nbins : ℤ) + 1 else b2
    sumaBins contents binx1 (binx2 - binx1 + 1).toNat
  GetEntries := entries

/-! ## `AnalisisEu152.cpp` (and the identical code of `AnalisisEu152_v2.cpp`) -/

namespace AnalisisEu152

/-- The `struct Pico` of `AnalisisEu152.cpp`. -/
structure Pico (α : Type) where
  cuentas_brutas : Dbl α
  cuentas_netas : Dbl α
  error : Dbl α
  fondo : Dbl α
  ok : Bool

/-- The constructor `Pico()`: every count zero, `ok` false. -/
def Pico.nuevo {α : Type} [LinearOrderedField α] : Pico α :=
  ⟨Dbl.fin 0, Dbl.fin 0, Dbl.fin 0, Dbl.fin 0, false⟩

/-- The function `IntegrarFotopico(h, E_centro, semi_ancho)` of
`AnalisisEu152.cpp`, lines 65-111 (`none` is the null pointer). -/
def IntegrarFotopico {α : Type} [LinearOrderedField α] (m : Libm α)
    (h : Option (TH1D α)) (E_centro semi_ancho : α) : Pico α :=
  match h with
  | none => Pico.nuevo
  | some h =>
    let bin_pico_min := h.FindBin (E_centro - semi_ancho)
    let bin_pico_max := h.FindBin (E_centro + semi_ancho)
    let cuentas_brutas := Dbl.fin (h.Integral bin_pico_min bin_pico_max)
    let bin_bg_L1 := h.FindBin (E_centro - 2 * semi_ancho)
    let bin_bg_L2 := h.FindBin (E_centro - semi_ancho) - 1
    let bin_bg_R1 := h.FindBin (E_centro + semi_ancho) + 1
    let bin_bg_R2 := h.FindBin (E_centro + 2 * semi_ancho)
    let bg_izq := Dbl.fin (h.Integral bin_bg_L1 bin_bg_L2)
    let bg_der := Dbl.fin (h.Integral bin_bg_R1 bin_bg_R2)
    let n_pico : ℤ := bin_pico_max - bin_pico_min + 1
    let n_bg_izq : ℤ := bin_bg_L2 - bin_bg_L1 + 1
    let n_bg_der : ℤ := bin_bg_R2 - bin_bg_R1 + 1
    let n_bg_total : ℤ := n_bg_izq + n_bg_der
    let bg_total := bg_izq + bg_der
    let fondo := bg_total * Dbl.fin (n_pico : α) / Dbl.fin (n_bg_total : α)
    let cuentas_netas := cuentas_brutas - fondo
    let error := Dbl.sqrt m (cuentas_brutas + fondo)
    let ok := Dbl.gt cuentas_netas (Dbl.fin 0) && Dbl.gt cuentas_netas (Dbl.fin 3 * error)
    ⟨cuentas_brutas, cuentas_netas, error, fondo, ok⟩

/-- What one pass of the sample loop of `AnalisisEu152` stores in its vectors
(`T_low_vec`, `T_high_vec`, `L_low_vec`, `L_high_vec`, `R_vec`, `errR_vec`). -/
structure Indices (α : Type) where
  T_low : Dbl α
  T_high : Dbl α
  L_low : Dbl α
  L_high : Dbl α
  R : Dbl α
  errR : Dbl α

/-- The body of the sample loop of `AnalisisEu152`, lines 244-293, from the
integrated peaks of the sample and of the reference. -/
def procesarMuestra {α : Type} [LinearOrderedField α] (m : Libm α)
    (ref_low ref_high p_low p_high : Pico α) : Indices α :=
  let T_low := p_low.cuentas_netas / ref_low.cuentas_netas
  let T_high := p_high.cuentas_netas / ref_high.cuentas_netas
  let L_low := if Dbl.gt T_low (Dbl.fin 0) then -(Dbl.log m T_low) else Dbl.fin 0
  let L_high := if Dbl.gt T_high (Dbl.fin 0) then -(Dbl.log m T_high) else Dbl.fin 0
  if Dbl.gt L_high (Dbl.fin 0.001) then
    let R := L_low / L_high
    let I := p_low.cuentas_netas
    let I0 := ref_low.cuentas_netas
    let J := p_high.cuentas_netas
    let J0 := ref_high.cuentas_netas
    let dI := p_low.error
    let dI0 := ref_low.error
    let dJ := p_high.error
    let dJ0 := ref_high.error
    let dR_dI := Dbl.fin (-1) / (I * L_high)
    let dR_dI0 := Dbl.fin 1 / (I0 * L_high)
    let dR_dJ := R / (J * L_high)
    let dR_dJ0 := (-R) / (J0 * L_high)
    let errR := Dbl.sqrt m (Dbl.pow2 (dR_dI * dI) + Dbl.pow2 (dR_dI0 * dI0)
      + Dbl.pow2 (dR_dJ * dJ) + Dbl.pow2 (dR_dJ0 * dJ0))
    ⟨T_low, T_high, L_low, L_high, R, errR⟩
  else
    ⟨T_low, T_high, L_low, L_high, Dbl.fin 0, Dbl.fin 0⟩

end AnalisisEu152

/-! ## `AnalisisEu152_v2.cpp` -/

namespace AnalisisEu152_v2

/-- The function `IntegrarFotopico` of `AnalisisEu152_v2.cpp`, lines 65-111:
the same text as in `AnalisisEu152.cpp`. -/
def IntegrarFotopico {α : Type} [LinearOrderedField α] (m : Libm α)
    (h : Option (TH1D α)) (E_centro semi_ancho : α) : AnalisisEu152.Pico α :=
  AnalisisEu152.IntegrarFotopico m h E_centro semi_ancho

/-- The count ratio of the second loop of `AnalisisEu152_v2`, lines 377-380:
the pair `(Q, errQ)`. -/
def indiceQ {α : Type} [LinearOrderedField α] (m : Libm α)
    (p_low p_high : AnalisisEu152.Pico α) : Dbl α × Dbl α :=
  let Q := p_low.cuentas_netas / p_high.cuentas_netas
  let errQ := Q * Dbl.sqrt m (Dbl.pow2 (p_low.error / p_low.cuentas_netas)
    + Dbl.pow2 (p_high.error / p_high.cuentas_netas))
  (Q, errQ)

end AnalisisEu152_v2

/-! ## `AnalisisEu152_v4.cpp` -/

namespace AnalisisEu152_v4

/-- The `struct Pico` of `AnalisisEu152_v4.cpp`, with the normalised values. -/
structure Pico (α : Type) where
  cuentas_brutas : Dbl α
  cuentas_netas : Dbl α
  error : Dbl α
  fondo : Dbl α
  ok : Bool
  netas_norm : Dbl α
  error_norm : Dbl α

/-- The constructor `Pico()`. -/
def Pico.nuevo {α : Type} [LinearOrderedField α] : Pico α :=
  ⟨Dbl.fin 0, Dbl.fin 0, Dbl.fin 0, Dbl.fin 0, false, Dbl.fin 0, Dbl.fin 0⟩

/-- The function `IntegrarFotopico(h, E_centro, semi_ancho, factor_norm)` of
`AnalisisEu152_v4.cpp`, lines 150-200. -/
def IntegrarFotopico {α : Type} [LinearOrderedField α] (m : Libm α)
    (h : Option (TH1D α)) (E_centro semi_ancho : α) (factor_norm : Dbl α) : Pico α :=
  match h with
  | none => Pico.nuevo
  | some h =>
    let bin_pico_min := h.FindBin (E_centro - semi_ancho)
    let bin_pico_max := h.FindBin (E_centro + semi_ancho)
    let cuentas_brutas := Dbl.fin (h.Integral bin_pico_min bin_pico_max)
    let bin_bg_L1 := h.FindBin (E_centro - 2 * semi_ancho)
    let bin_bg_L2 := h.FindBin (E_centro - semi_ancho) - 1
    let bin_bg_R1 := h.FindBin (E_centro + semi_ancho) + 1
    let bin_bg_R2 := h.FindBin (E_centro + 2 * semi_ancho)
    let bg_izq := Dbl.fin (h.Integral bin_bg_L1 bin_bg_L2)
    let bg_der := Dbl.fin (h.Integral bin_bg_R1 bin_bg_R2)
    let n_pico : ℤ := bin_pico_max - bin_pico_min + 1
    let n_bg_izq : ℤ := bin_bg_L2 - bin_bg_L1 + 1
    let n_bg_der : ℤ := bin_bg_R2 - bin_bg_R1 + 1
    let n_bg_total : ℤ := n_bg_izq + n_bg_der
    let bg_total := bg_izq + bg_der
    let fondo := bg_total * Dbl.fin (n_pico : α) / Dbl.fin (n_bg_total : α)
    let cuentas_netas := cuentas_brutas - fondo
    let error := Dbl.sqrt m (cuentas_brutas + fondo)
    let netas_norm := cuentas_netas * factor_norm
    let error_norm := error * factor_norm
    let ok := Dbl.gt cuentas_netas (Dbl.fin 0) && Dbl.gt cuentas_netas (Dbl.fin 3 * error)
    ⟨cuentas_brutas, cuentas_netas, error, fondo, ok, netas_norm, error_norm⟩

/-- The `struct ResultadoMuestra` of `AnalisisEu152_v4.cpp`. -/
structure ResultadoMuestra (α : Type) where
  conc : α
  esFino : Bool
  N_low : Dbl α
  errN_low : Dbl α
  N_high : Dbl α
  errN_high : Dbl α
  T_low : Dbl α
  errT_low : Dbl α
  T_high : Dbl α
  errT_high : Dbl α
  L_low : Dbl α
  errL_low : Dbl α
  L_high : Dbl α
  errL_high : Dbl α
  R : Dbl α
  errR : Dbl α
  Q : Dbl α
  errQ : Dbl α
  Delta : Dbl α
  errDelta : Dbl α
  Z_score : Dbl α
  detectable : Bool
  cuantificable : Bool

/-- The reference ratio `Q0` of `AnalisisEu152_v4`, line 262. -/
def Q0 {α : Type} [LinearOrderedField α] (ref_low ref_high : Pico α) : Dbl α :=
  ref_low.cuentas_netas / ref_high.cuentas_netas

/-- The uncertainty `errQ0` of `AnalisisEu152_v4`, lines 263-264. -/
def errQ0 {α : Type} [LinearOrderedField α] (m : Libm α) (ref_low ref_high : Pico α) : Dbl α :=
  Q0 ref_low ref_high * Dbl.sqrt m (Dbl.pow2 (ref_low.error / ref_low.cuentas_netas)
    + Dbl.pow2 (ref_high.error / ref_high.cuentas_netas))

/-- The body of the sample loop of `AnalisisEu152_v4`, lines 311-406, from the
integrated peaks of the sample, those of the reference and the reference
ratio: the `ResultadoMuestra` pushed to `resultados`.
Fields the loop does not assign keep the zero of the constructor. -/
def calcularResultado {α : Type} [LinearOrderedField α] (m : Libm α)
    (ref_low ref_high : Pico α) (Q0 errQ0 : Dbl α)
    (conc : α) (esFino : Bool) (p_low p_high : Pico α) : ResultadoMuestra α :=
  let N_low := p_low.cuentas_netas
  let errN_low := p_low.error
  let N_high := p_high.cuentas_netas
  let errN_high := p_high.error
  let T_low := p_low.netas_norm / ref_low.cuentas_netas
  let T_high := p_high.netas_norm / ref_high.cuentas_netas
  let errT_low := T_low * Dbl.sqrt m (Dbl.pow2 (p_low.error_norm / p_low.netas_norm)
    + Dbl.pow2 (ref_low.error / ref_low.cuentas_netas))
  let errT_high := T_high * Dbl.sqrt m (Dbl.pow2 (p_high.error_norm / p_high.netas_norm)
    + Dbl.pow2 (ref_high.error / ref_high.cuentas_netas))
  let L_low := if Dbl.gt T_low (Dbl.fin 0) then -(Dbl.log m T_low) else Dbl.fin 0
  let L_high := if Dbl.gt T_high (Dbl.fin 0) then -(Dbl.log m T_high) else Dbl.fin 0
  let errL_low := errT_low / T_low
  let errL_high := errT_high / T_high
  let Q := p_low.cuentas_netas / p_high.cuentas_netas
  let rel_err_low := p_low.error / p_low.cuentas_netas
  let rel_err_high := p_high.error / p_high.cuentas_netas
  let errQ := Q * Dbl.sqrt m (rel_err_low * rel_err_low + rel_err_high * rel_err_high)
  let R_errR : Dbl α × Dbl α :=
    if Dbl.gt L_high (Dbl.fin 0.001) then
      let R := L_low / L_high
      let I := p_low.netas_norm
      let dI := p_low.error_norm
      let I0 := ref_low.cuentas_netas
      let dI0 := ref_low.error
      let J := p_high.netas_norm
      let dJ := p_high.error_norm
      let J0 := ref_high.cuentas_netas
      let dJ0 := ref_high.error
      let dR_dI := Dbl.fin (-1) / (I * L_high)
      let dR_dI0 := Dbl.fin 1 / (I0 * L_high)
      let dR_dJ := R / (J * L_high)
      let dR_dJ0 := (-R) / (J0 * L_high)
      (R, Dbl.sqrt m (Dbl.pow2 (dR_dI * dI) + Dbl.pow2 (dR_dI0 * dI0)
        + Dbl.pow2 (dR_dJ * dJ) + Dbl.pow2 (dR_dJ0 * dJ0)))
    else (Dbl.fin 0, Dbl.fin 0)
  let Delta := L_low - L_high
  let errDelta := Dbl.sqrt m (errL_low * errL_low + errL_high * errL_high)
  let sigma_real := Dbl.sqrt m (errQ * errQ + errQ0 * errQ0)
  let Z_real := if Dbl.gt sigma_real (Dbl.fin 0) then (Q - Q0) / sigma_real else Dbl.fin 0
  let Z_score := Z_real
  let detectable := Dbl.gt (Dbl.abs Z_real) (Dbl.fin 3)
  let cuantificable := Dbl.gt (Dbl.abs Z_real) (Dbl.fin 10)
  { conc := conc, esFino := esFino,
    N_low := N_low, errN_low := errN_low, N_high := N_high, errN_high := errN_high,
    T_low := T_low, errT_low := errT_low, T_high := T_high, errT_high := errT_high,
    L_low := L_low, errL_low := errL_low, L_high := L_high, errL_high := errL_high,
    R := R_errR.1, errR := R_errR.2, Q := Q, errQ := errQ,
    Delta := Delta, errDelta := errDelta,
    Z_score := Z_score, detectable := detectable, cuantificable := cuantificable }

/-- The three lists the detectability map of step 8 sorts the samples into
(`C_cuant`, `C_det`, `C_nodet`). -/
inductive Clase where
  | C_cuant
  | C_det
  | C_nodet
deriving DecidableEq

/-- The list a result goes to in the loop of step 8, lines 797-808. -/
def clasificar {α : Type} (r : ResultadoMuestra α) : Clase :=
  if r.cuantificable then Clase.C_cuant
  else if r.detectable then Clase.C_det
  else Clase.C_nodet

end AnalisisEu152_v4

/-! ## `AnalisisEu152_v3.cpp` -/

namespace AnalisisEu152_v3

/-- The function `IntegrarPico(h, E_centro, semi_ancho, N_netas, error)` of
`AnalisisEu152_v3.cpp`, lines 52-75.  The two reference parameters are state:
the function takes their values before the call and returns them after it
(a null histogram leaves them untouched).  `Fondo` is returned as well, for
the properties that speak of it. -/
def IntegrarPico {α : Type} [LinearOrderedField α] (m : Libm α)
    (h : Option (TH1D α)) (E_centro semi_ancho : α) (N_netas error : Dbl α) :
    Dbl α × Dbl α × Dbl α :=
  match h with
  | none => (N_netas, error, Dbl.fin 0)
  | some h =>
    let bin_min := h.FindBin (E_centro - semi_ancho)
    let bin_max := h.FindBin (E_centro + semi_ancho)
    let N_brutas := Dbl.fin (h.Integral bin_min bin_max)
    let bg_L1 := h.FindBin (E_centro - 2 * semi_ancho)
    let bg_L2 := h.FindBin (E_centro - 1 * semi_ancho)
    let bg_R1 := h.FindBin (E_centro + 1 * semi_ancho)
    let bg_R2 := h.FindBin (E_centro + 2 * semi_ancho)
    let N_bg_counts := Dbl.fin (h.Integral bg_L1 bg_L2) + Dbl.fin (h.Integral bg_R1 bg_R2)
    let n_bins_pico : ℤ := bin_max - bin_min + 1
    let n_bins_bg : ℤ := (bg_L2 - bg_L1 + 1) + (bg_R2 - bg_R1 + 1)
    let Fondo :=
      if n_bins_bg > 0 then N_bg_counts * Dbl.fin (n_bins_pico : α) / Dbl.fin (n_bins_bg : α)
      else Dbl.fin 0
    let N_netas := N_brutas - Fondo
    let ratio :=
      if n_bins_bg > 0 then Dbl.fin (n_bins_pico : α) / Dbl.fin (n_bins_bg : α)
      else Dbl.fin 0
    let var_fondo := ratio * ratio * N_bg_counts
    let error := Dbl.sqrt m (N_brutas + var_fondo)
    (N_netas, error, Fondo)

/-- The count ratio of the sample loop of `AnalisisEu152_v3`, lines 156-159:
the pair `(m.Q, m.err_Q)` from the integrated peaks. -/
def indiceQ {α : Type} [LinearOrderedField α] (m : Libm α)
    (N_low err_N_low N_high err_N_high : Dbl α) : Dbl α × Dbl α :=
  if Dbl.gt N_high (Dbl.fin 0) then
    let Q := N_low / N_high
    (Q, Q * Dbl.sqrt m (Dbl.pow2 (err_N_low / N_low) + Dbl.pow2 (err_N_high / N_high)))
  else (Dbl.fin 0, Dbl.fin 0)

end AnalisisEu152_v3

/-! ## `Simulacion_Barrido/Resultados2/analisis_final.cpp` -/

namespace analisis_final

/-- The `struct Medicion`. -/
structure Medicion (α : Type) where
  cuentas : Dbl α
  error : Dbl α

/-- The transmissions and attenuations of one pass of the loop of
`analisis_final`, lines 59-66: `(T_Am, T_Na, L_Am, L_Na)`, `T_Am` after its
clamp to `1e-5`. -/
def atenuaciones {α : Type} [LinearOrderedField α] (m : Libm α)
    (Am0 Na0 Am Na : Medicion α) : Dbl α × Dbl α × Dbl α × Dbl α :=
  let T_Am := Am.cuentas / Am0.cuentas
  let T_Na := Na.cuentas / Na0.cuentas
  let T_Am := if Dbl.lt T_Am (Dbl.fin 1e-5) then Dbl.fin 1e-5 else T_Am
  let L_Am := -(Dbl.log m T_Am)
  let L_Na := -(Dbl.log m T_Na)
  (T_Am, T_Na, L_Am, L_Na)

end analisis_final

/-! ## The runs of the scripts -/

/-- What `TFile::Open(name)` followed by `Get("Scoring")` gives a script: for a
file name, the values of branch `Energy` (in MeV) of the TTree, one per row,
or `none` when the file cannot be opened or holds no such tree. -/
abbrev Archivos (α : Type) := String → Option (List α)

/-- The bin of an abscissa on a fixed-bin axis, as ROOT's `TAxis::FindBin`
computes it (the `FindBin` of `TH1D.ofBins`). -/
def TAxis.FindBin {α : Type} [LinearOrderedField α] [FloorRing α]
    (nbins : ℕ) (xmin xmax x : α) : ℤ :=
  if x < xmin then 0
  else if ¬ (x < xmax) then (nbins : ℤ) + 1
  else 1 + ⌊(nbins : α) * (x - xmin) / (xmax - xmin)⌋

/-- The histogram `new TH1D(name, title, nbins, xmin, xmax)` after
`t->Draw("Energy*1000>>name", "", "goff")`: every row of the tree adds one
count to the bin of `Energy*1000` (underflow and overflow included) and one
entry. -/
def llenar {α : Type} [LinearOrderedField α] [FloorRing α]
    (nbins : ℕ) (xmin xmax : α) (Energy : List α) : TH1D α :=
  TH1D.ofBins nbins xmin xmax
    (fun i => ((Energy.countP
      (fun e => decide (TAxis.FindBin nbins xmin xmax (e * 1000) = i)) : ℕ) : α))
    (Energy.length : α)

/-- The places where a run of `AnalisisEu152`, `_v2` or `_v4` returns early. -/
inductive Fallo where
  | referencia_no_disponible
  | cuentas_netas_referencia
  | pocas_muestras
deriving DecidableEq

namespace AnalisisEu152

/-- The constant `E_122` (keV). -/
def E_122 {α : Type} [LinearOrderedField α] : α := 121.78

/-- The constant `E_779` (keV). -/
def E_779 {α : Type} [LinearOrderedField α] : α := 778.90

/-- The constant `E_1408` (keV). -/
def E_1408 {α : Type} [LinearOrderedField α] : α := 1408.01

/-- The local `E_HIGH` of `AnalisisEu152`, line 126. -/
def E_HIGH {α : Type} [LinearOrderedField α] (usar_1408 : Bool) : α :=
  if usar_1408 then E_1408 else E_779

/-- The local `ventana_low` of `AnalisisEu152`, line 130. -/
def ventana_low {α : Type} [LinearOrderedField α] : α := 12

/-- The local `ventana_high` of `AnalisisEu152`, line 131. -/
def ventana_high {α : Type} [LinearOrderedField α] (usar_1408 : Bool) : α :=
  if usar_1408 then 25 else 20

/-- The samples of the loop of `AnalisisEu152`: the file name that
`Form("%sEu152_REE_0p%02d.root", directorio, (int)CONC[i])` yields after the
directory, with `CONC[i]`. -/
def MUESTRAS {α : Type} [LinearOrderedField α] : List (String × α) :=
  [("Eu152_REE_0p00.root", 0), ("Eu152_REE_0p01.root", 1), ("Eu152_REE_0p02.root", 2),
   ("Eu152_REE_0p03.root", 3), ("Eu152_REE_0p04.root", 4), ("Eu152_REE_0p05.root", 5)]

/-- Step 1 of `AnalisisEu152`, lines 145-179: the two reference peaks, or the
early return (reference file or tree missing; net counts `<= 0`). -/
def referencia {α : Type} [LinearOrderedField α] [FloorRing α] (m : Libm α)
    (fs : Archivos α) (directorio : String) (usar_1408 : Bool) :
    Except Fallo (Pico α × Pico α) :=
  match fs (directorio ++ "Eu152_REE_0p00.root") with
  | none => Except.error Fallo.referencia_no_disponible
  | some Energy =>
    let h_ref := llenar 1600 0 1600 Energy
    let ref_low := IntegrarFotopico m (some h_ref) E_122 ventana_low
    let ref_high := IntegrarFotopico m (some h_ref) (E_HIGH usar_1408) (ventana_high usar_1408)
    if Dbl.le ref_low.cuentas_netas (Dbl.fin 0) || Dbl.le ref_high.cuentas_netas (Dbl.fin 0) then
      Except.error Fallo.cuentas_netas_referencia
    else Except.ok (ref_low, ref_high)

/-- One pass of the sample loop of `AnalisisEu152`, lines 198-308: nothing for
a file that cannot be read, else `CONC[i]` with the values stored. -/
def pasoMuestra {α : Type} [LinearOrderedField α] [FloorRing α] (m : Libm α)
    (fs : Archivos α) (directorio : String) (usar_1408 : Bool) (ref_low ref_high : Pico α)
    (muestra : String × α) : Option (α × Indices α) :=
  match fs (directorio ++ muestra.1) with
  | none => none
  | some Energy =>
    let h := llenar 1600 0 1600 Energy
    let p_low := IntegrarFotopico m (some h) E_122 ventana_low
    let p_high := IntegrarFotopico m (some h) (E_HIGH usar_1408) (ventana_high usar_1408)
    some (muestra.2, procesarMuestra m ref_low ref_high p_low p_high)

end AnalisisEu152

/-- The run of `AnalisisEu152(directorio, usar_1408)` up to the end of step 2:
the rows of the vectors `C_vec`, `T_low_vec`, ..., `errR_vec` from which the
plots and the calibration are made, or the early return. -/
def AnalisisEu152 {α : Type} [LinearOrderedField α] [FloorRing α] (m : Libm α)
    (fs : Archivos α) (directorio : String) (usar_1408 : Bool) :
    Except Fallo (List (α × AnalisisEu152.Indices α)) :=
  match AnalisisEu152.referencia m fs directorio usar_1408 with
  | Except.error e => Except.error e
  | Except.ok (ref_low, ref_high) =>
    Except.ok (AnalisisEu152.MUESTRAS.filterMap
      (AnalisisEu152.pasoMuestra m fs directorio usar_1408 ref_low ref_high))

/-- The run of `AnalisisEu152_v2(directorio, usar_1408)` up to the end of
step 2, lines 117-310: the same text as `AnalisisEu152`. -/
def AnalisisEu152_v2 {α : Type} [LinearOrderedField α] [FloorRing α] (m : Libm α)
    (fs : Archivos α) (directorio : String) (usar_1408 : Bool) :
    Except Fallo (List (α × AnalisisEu152.Indices α)) :=
  AnalisisEu152 m fs directorio usar_1408

namespace AnalisisEu152_v4

/-- The `struct MuestraInfo`. -/
structure MuestraInfo (α : Type) where
  nombre : String
  concentracion : α
  esFino : Bool

/-- The constant list `MUESTRAS`. -/
def MUESTRAS {α : Type} [LinearOrderedField α] : List (MuestraInfo α) :=
  [⟨"Eu152_REE_0p00.root", 0.00, true⟩, ⟨"Eu152_REE_0p002.root", 0.20, true⟩,
   ⟨"Eu152_REE_0p004.root", 0.40, true⟩, ⟨"Eu152_REE_0p006.root", 0.60, true⟩,
   ⟨"Eu152_REE_0p008.root", 0.80, true⟩, ⟨"Eu152_REE_0p01.root", 1.00, true⟩,
   ⟨"Eu152_REE_0p02.root", 2.00, false⟩, ⟨"Eu152_REE_0p03.root", 3.00, false⟩,
   ⟨"Eu152_REE_0p04.root", 4.00, false⟩, ⟨"Eu152_REE_0p05.root", 5.00, false⟩]

/-- The local `E_HIGH` of `AnalisisEu152_v4`, line 216. -/
def E_HIGH {α : Type} [LinearOrderedField α] (usar_1408 : Bool) : α :=
  if usar_1408 then 1408.01 else 778.90

/-- The local `ventana_high` of `AnalisisEu152_v4`, line 218. -/
def ventana_high {α : Type} [LinearOrderedField α] (usar_1408 : Bool) : α :=
  if usar_1408 then 25 else 20

/-- Step 1 of `AnalisisEu152_v4`, lines 232-270: the two reference peaks and
`N_eventos_ref`, or the early return. -/
def referencia {α : Type} [LinearOrderedField α] [FloorRing α] (m : Libm α)
    (fs : Archivos α) (directorio : String) (usar_1408 : Bool) :
    Except Fallo (Pico α × Pico α × α) :=
  match fs (directorio ++ "Eu152_REE_0p00.root") with
  | none => Except.error Fallo.referencia_no_disponible
  | some Energy =>
    let h_ref := llenar 1600 0 1600 Energy
    let ref_low := IntegrarFotopico m (some h_ref) 121.78 12 (Dbl.fin 1)
    let ref_high := IntegrarFotopico m (some h_ref) (E_HIGH usar_1408) (ventana_high usar_1408)
      (Dbl.fin 1)
    if Dbl.le ref_low.cuentas_netas (Dbl.fin 0) || Dbl.le ref_high.cuentas_netas (Dbl.fin 0) then
      Except.error Fallo.cuentas_netas_referencia
    else Except.ok (ref_low, ref_high, h_ref.GetEntries)

/-- One pass of the sample loop of `AnalisisEu152_v4`, lines 284-419: nothing
for a file that cannot be read, else the result pushed to `resultados`. -/
def pasoMuestra {α : Type} [LinearOrderedField α] [FloorRing α] (m : Libm α)
    (fs : Archivos α) (directorio : String) (usar_1408 : Bool) (ref_low ref_high : Pico α)
    (N_eventos_ref : α) (muestra : MuestraInfo α) : Option (ResultadoMuestra α) :=
  match fs (directorio ++ muestra.nombre) with
  | none => none
  | some Energy =>
    let h := llenar 1600 0 1600 Energy
    let N_eventos := h.GetEntries
    let factor_norm := Dbl.fin N_eventos_ref / Dbl.fin N_eventos
    let p_low := IntegrarFotopico m (some h) 121.78 12 factor_norm
    let p_high := IntegrarFotopico m (some h) (E_HIGH usar_1408) (ventana_high usar_1408)
      factor_norm
    some (calcularResultado m ref_low ref_high (Q0 ref_low ref_high) (errQ0 m ref_low ref_high)
      muestra.concentracion muestra.esFino p_low p_high)

/-- The theoretical limits of `AnalisisEu152_v4`, lines 561-564:
`(precision_teorica, LOD_teorico, LOQ_teorico)` from `errQ0` and the slope. -/
def limites {α : Type} [LinearOrderedField α] (errQ0 p1 : Dbl α) : Dbl α × Dbl α × Dbl α :=
  let precision_teorica :=
    if Dbl.gt (Dbl.abs p1) (Dbl.fin 1e-9) then errQ0 / Dbl.abs p1 else Dbl.fin 999
  (precision_teorica, Dbl.fin 3 * precision_teorica, Dbl.fin 10 * precision_teorica)

/-- What a complete run of `AnalisisEu152_v4` reports: the results of the
samples (also written to the CSV file), the fitted line and the theoretical
limits. -/
structure Informe (α : Type) where
  resultados : List (ResultadoMuestra α)
  p0 : Dbl α
  p1 : Dbl α
  precision_teorica : Dbl α
  LOD_teorico : Dbl α
  LOQ_teorico : Dbl α

end AnalisisEu152_v4

/-- The run of `AnalisisEu152_v4(directorio, usar_1408)`.  `ajuste` stands for
ROOT's `grAll->Fit("fLin", "RQ")` of the line `[0] + [1]*x` to the points
`(C_all, Q_all, errQ_all)`: it returns the parameters `(p0, p1)`. -/
def AnalisisEu152_v4 {α : Type} [LinearOrderedField α] [FloorRing α] (m : Libm α)
    (ajuste : List (α × Dbl α × Dbl α) → Dbl α × Dbl α)
    (fs : Archivos α) (directorio : String) (usar_1408 : Bool) :
    Except Fallo (AnalisisEu152_v4.Informe α) :=
  match AnalisisEu152_v4.referencia m fs directorio usar_1408 with
  | Except.error e => Except.error e
  | Except.ok (ref_low, ref_high, N_eventos_ref) =>
    let resultados := AnalisisEu152_v4.MUESTRAS.filterMap
      (AnalisisEu152_v4.pasoMuestra m fs directorio usar_1408 ref_low ref_high N_eventos_ref)
    let nMuestrasOK := resultados.length
    if nMuestrasOK < 3 then Except.error Fallo.pocas_muestras
    else
      let p := ajuste (resultados.map (fun r => (r.conc, r.Q, r.errQ)))
      let l := AnalisisEu152_v4.limites (AnalisisEu152_v4.errQ0 m ref_low ref_high) p.2
      Except.ok ⟨resultados, p.1, p.2, l.1, l.2.1, l.2.2⟩

namespace AnalisisEu152_v3

/-- The `struct Muestra`. -/
structure Muestra (α : Type) where
  nombre_archivo : String
  concentracion_real : α
  N_low : Dbl α
  err_N_low : Dbl α
  N_high : Dbl α
  err_N_high : Dbl α
  Q : Dbl α
  err_Q : Dbl α

/-- The local `lista_archivos`. -/
def lista_archivos {α : Type} [LinearOrderedField α] : List (String × α) :=
  [("0p00", 0.0), ("0p002", 0.2), ("0p004", 0.4), ("0p006", 0.6), ("0p008", 0.8),
   ("0p01", 1.0), ("0p02", 2.0), ("0p03", 3.0), ("0p04", 4.0), ("0p05", 5.0)]

/-- One pass of the file loop of `AnalisisEu152_v3`, lines 118-178: nothing for
a file that cannot be opened (`continue`), else the `Muestra` pushed to
`resultados`.  The script does not test the tree it gets from an opened file:
a file that opens is taken to hold the tree.  The fields `N_low`, ... of the
fresh `Muestra` are uninitialised before `IntegrarPico` assigns them; `0`
stands for that value. -/
def pasoArchivo {α : Type} [LinearOrderedField α] [FloorRing α] (m : Libm α)
    (fs : Archivos α) (item : String × α) : Option (Muestra α) :=
  let filename := "Eu152_REE_" ++ item.1 ++ ".root"
  match fs filename with
  | none => none
  | some Energy =>
    let h := llenar 2000 0 2000 Energy
    let low := IntegrarPico m (some h) 121.78 10.0 (Dbl.fin 0) (Dbl.fin 0)
    let high := IntegrarPico m (some h) 778.90 18.0 (Dbl.fin 0) (Dbl.fin 0)
    let q := indiceQ m low.1 low.2.1 high.1 high.2.1
    some ⟨filename, item.2, low.1, low.2.1, high.1, high.2.1, q.1, q.2⟩

/-- The limits of `AnalisisEu152_v3`, lines 207-211, with the slope they use:
`sigma_blank`, `LOD`, `LOQ`. -/
structure Limites (α : Type) where
  p1 : Dbl α
  sigma_blank : Dbl α
  LOD : Dbl α
  LOQ : Dbl α

/-- The limits of `AnalisisEu152_v3`, lines 205-211, from `resultados` (not
empty: `n > 0`) and the fitted slope. -/
def limites {α : Type} [LinearOrderedField α] (primero : Muestra α) (p1 : Dbl α) : Limites α :=
  let sigma_blank := primero.err_Q
  ⟨p1, sigma_blank, Dbl.fin 3.0 * sigma_blank / Dbl.abs p1,
    Dbl.fin 10.0 * sigma_blank / Dbl.abs p1⟩

end AnalisisEu152_v3

/-- The run of `AnalisisEu152_v3()`: `resultados`, and the limits when
`resultados` is not empty.  `ajuste` stands for ROOT's `gr->Fit("fLin", "Q")`
of the line `[0] + [1]*x` to the points `(x, y, ey)`: it returns `(p0, p1)`. -/
def AnalisisEu152_v3 {α : Type} [LinearOrderedField α] [FloorRing α] (m : Libm α)
    (ajuste : List (α × Dbl α × Dbl α) → Dbl α × Dbl α) (fs : Archivos α) :
    List (AnalisisEu152_v3.Muestra α) × Option (AnalisisEu152_v3.Limites α) :=
  let resultados := AnalisisEu152_v3.lista_archivos.filterMap (AnalisisEu152_v3.pasoArchivo m fs)
  match resultados with
  | [] => (resultados, none)
  | primero :: _ =>
    let p := ajuste (resultados.map (fun r => (r.concentracion_real, r.Q, r.err_Q)))
    (resultados, some (AnalisisEu152_v3.limites primero p.2))

/-! ## `Simulacion_Barrido/Resultados1/analisis.cpp` and `analisis_Am241.cpp` -/

namespace analisis

/-- Step 3 of `analisis`, lines 71-78: the pairs `(T_Am[i], eT_Am[i])` from the
vectors `I_Am` and `e_Am`. -/
def transmisiones {α : Type} [LinearOrderedField α] (m : Libm α)
    (I_Am e_Am : List (Dbl α)) : List (Dbl α × Dbl α) :=
  (List.range I_Am.length).map (fun i =>
    let T := I_Am.getD i (Dbl.fin 0) / I_Am.getD 0 (Dbl.fin 0)
    let term1 := Dbl.pow2 (e_Am.getD i (Dbl.fin 0) / I_Am.getD i (Dbl.fin 0))
    let term2 := Dbl.pow2 (e_Am.getD 0 (Dbl.fin 0) / I_Am.getD 0 (Dbl.fin 0))
    (T, T * Dbl.sqrt m (term1 + term2)))

end analisis

namespace analisis_Am241

/-- Step 3 of `analisis_Am241`, lines 88-106: the pairs `(T_Am[i], eT_Am[i])`
from the vectors `I_Am` and `e_Am`. -/
def transmisiones {α : Type} [LinearOrderedField α] (m : Libm α)
    (I_Am e_Am : List (Dbl α)) : List (Dbl α × Dbl α) :=
  let I0 := I_Am.getD 0 (Dbl.fin 0)
  let eI0 := e_Am.getD 0 (Dbl.fin 0)
  (List.range I_Am.length).map (fun i =>
    let T := I_Am.getD i (Dbl.fin 0) / I0
    let eT :=
      if i = 0 then Dbl.fin 0.0
      else
        let term1 := Dbl.pow2 (e_Am.getD i (Dbl.fin 0) / I_Am.getD i (Dbl.fin 0))
        let term2 := Dbl.pow2 (eI0 / I0)
        T * Dbl.sqrt m (term1 + term2)
    (T, eT))

end analisis_Am241

/-! ## `AnalisisEu152_v4.cpp`: normalised uncertainty and validation of the LOD -/

namespace AnalisisEu152_v4

/-- The normalised values of the sample loop of `AnalisisEu152_v4`, lines
346-365 and 397-399, which the loop prints: `(errQ_norm, Z_norm)` from the
event counts of the sample and of the reference, the reference ratio and the
integrated peaks of the sample. -/
def normalizados {α : Type} [LinearOrderedField α] (m : Libm α)
    (N_eventos N_eventos_ref : α) (Q0 errQ0 : Dbl α) (p_low p_high : Pico α) :
    Dbl α × Dbl α :=
  let Q := p_low.cuentas_netas / p_high.cuentas_netas
  let rel_err_low := p_low.error / p_low.cuentas_netas
  let rel_err_high := p_high.error / p_high.cuentas_netas
  let ratio_estadistica := Dbl.sqrt m (Dbl.fin N_eventos / Dbl.fin N_eventos_ref)
  let rel_err_low_norm := rel_err_low * ratio_estadistica
  let rel_err_high_norm := rel_err_high * ratio_estadistica
  let errQ_norm := Q * Dbl.sqrt m (rel_err_low_norm * rel_err_low_norm
    + rel_err_high_norm * rel_err_high_norm)
  let sigma_norm := Dbl.sqrt m (errQ_norm * errQ_norm + errQ0 * errQ0)
  let Z_norm := if Dbl.gt sigma_norm (Dbl.fin 0) then (Q - Q0) / sigma_norm else Dbl.fin 0
  (errQ_norm, Z_norm)

/-- The local `factor_needed` of step 4 of `AnalisisEu152_v4`, line 498, from
the `Z_score` of a sample of the fine sweep. -/
def factor_needed {α : Type} [LinearOrderedField α] (Z : Dbl α) : Dbl α :=
  if Dbl.gt (Dbl.abs Z) (Dbl.fin 0.1) then Dbl.pow2 (Dbl.fin 3.0 / Dbl.abs Z) else Dbl.fin 999

/-- What step 4 prints in the column `Factor para Z=3`, lines 500-509. -/
inductive Factor where
  | ya_detectado
  | mas_eventos
  | muy_dificil
deriving DecidableEq

/-- The branch of lines 500-509 a `factor_needed` selects. -/
def columnaFactor {α : Type} [LinearOrderedField α] (factor : Dbl α) : Factor :=
  if Dbl.lt factor (Dbl.fin 1.0) then Factor.ya_detectado
  else if Dbl.lt factor (Dbl.fin 100) then Factor.mas_eventos
  else Factor.muy_dificil

/-- One pass of the scan of step 4 of `AnalisisEu152_v4`, lines 479-494, on the
pair `(LOD_experimental, LOQ_experimental)`. -/
def pasoExploracion {α : Type} [LinearOrderedField α] (acc : α × α)
    (r : ResultadoMuestra α) : α × α :=
  if !r.esFino then acc
  else if r.conc < 0.01 then acc
  else if r.cuantificable then (acc.1, if acc.2 < 0 then r.conc else acc.2)
  else if r.detectable then (if acc.1 < 0 then r.conc else acc.1, acc.2)
  else acc

/-- The pair `(LOD_experimental, LOQ_experimental)` after the scan of step 4,
lines 470-510: both start at `-1`. -/
def LOD_LOQ_experimental {α : Type} [LinearOrderedField α]
    (resultados : List (ResultadoMuestra α)) : α × α :=
  resultados.foldl pasoExploracion (-1, -1)

/-- The line of the report on the observed LOD, lines 875-879 (and the label
of lines 638-642). -/
inductive LineaLOD (α : Type) where
  | observado (LOD_experimental : α)
  | menor_que_primera_conc
deriving DecidableEq

/-- The line of lines 875-879 for a value of `LOD_experimental`:
`LOD observado: %.2f %% REE` when it is positive, else
`LOD observado: < 0.20 %% REE (primera conc. medida)`. -/
def lineaLOD {α : Type} [LinearOrderedField α] (LOD_experimental : α) : LineaLOD α :=
  if LOD_experimental > 0 then LineaLOD.observado LOD_experimental
  else LineaLOD.menor_que_primera_conc

end AnalisisEu152_v4

/-! ## `Simulacion_TierrasRaras`: `EventAction` and `SteppingAction` -/

namespace EventAction

/-- What the event bookkeeping acts on: the member `fEdep` of `EventAction`
and the rows (column 0) the analysis manager has been given so far. -/
structure Estado (α : Type) where
  fEdep : Dbl α
  filas : List (Dbl α)

/-- The method `EventAction::BeginOfEventAction` of
`Simulacion_TierrasRaras/src/EventAction.cc`, lines 14-17. -/
def BeginOfEventAction {α : Type} [LinearOrderedField α] (e : Estado α) : Estado α :=
  { e with fEdep := Dbl.fin 0 }

/-- The method `EventAction::AddEdep`, as
`Simulacion_Europio/include/EventAction.hh` line 17 defines it (the header of
`Simulacion_TierrasRaras` is not among the sources). -/
def AddEdep {α : Type} [LinearOrderedField α] (e : Estado α) (edep : Dbl α) : Estado α :=
  { e with fEdep := e.fEdep + edep }

/-- The method `EventAction::EndOfEventAction` of
`Simulacion_TierrasRaras/src/EventAction.cc`, lines 19-30. -/
def EndOfEventAction {α : Type} [LinearOrderedField α] (e : Estado α) : Estado α :=
  if Dbl.gt e.fEdep (Dbl.fin 0) then { e with filas := e.filas ++ [e.fEdep] } else e

end EventAction

namespace SteppingAction

/-- What `UserSteppingAction` reads of a `G4Step`: the name of the logical
volume of the pre-step point and `GetTotalEnergyDeposit()`. -/
structure G4Step (α : Type) where
  volumen : String
  edep : Dbl α

/-- The method `SteppingAction::UserSteppingAction` of
`Simulacion_TierrasRaras/src/SteppingAction.cc`, lines 14-30, on the state of
its `fEventAction`. -/
def UserSteppingAction {α : Type} [LinearOrderedField α] (e : EventAction.Estado α)
    (step : G4Step α) : EventAction.Estado α :=
  if step.volumen ≠ "Det_LV" then e
  else if Dbl.gt step.edep (Dbl.fin 0) then EventAction.AddEdep e step.edep
  else e

end SteppingAction

/-- One event as the Geant4 kernel runs it: `BeginOfEventAction`, then
`UserSteppingAction` for every step of the event in order, then
`EndOfEventAction`. -/
def procesarEvento {α : Type} [LinearOrderedField α] (e : EventAction.Estado α)
    (pasos : List (SteppingAction.G4Step α)) : EventAction.Estado α :=
  EventAction.EndOfEventAction
    (pasos.foldl SteppingAction.UserSteppingAction (EventAction.BeginOfEventAction e))

/-! ## The calibration fits of the Eu-152 scripts: graphs and ranges -/

/-- The points a fit with ROOT's option `R` (`gr->Fit(name, "R")` or `"RQ"`)
uses: those of the graph whose abscissa lies in the range `[xmin, xmax]` of the
function (the library skips a point with `x < xmin` or `x > xmax`). -/
def puntosEnRango {α : Type} [LinearOrderedField α] (rango : α × α)
    (gr : List (α × Dbl α × Dbl α)) : List (α × Dbl α × Dbl α) :=
  gr.filter (fun p => !(decide (p.1 < rango.1) || decide (p.1 > rango.2)))

namespace AnalisisEu152

/-- The range of `fLin` in step 4 of `AnalisisEu152`, line 369:
`new TF1("fLin", "[0] + [1]*x", 0.5, 5.5)`. -/
def rango_fLin {α : Type} [LinearOrderedField α] : α × α := (0.5, 5.5)

/-- The graph `gr` of step 4 of `AnalisisEu152`, lines 354-356: the points
`(C_vec, R_vec, errR_vec)`. -/
def gr {α : Type} (filas : List (α × Indices α)) : List (α × Dbl α × Dbl α) :=
  filas.map (fun f => (f.1, f.2.R, f.2.errR))

/-- The points of `gr->Fit("fLin", "R")`, line 372. -/
def puntos_fLin {α : Type} [LinearOrderedField α] (filas : List (α × Indices α)) :
    List (α × Dbl α × Dbl α) :=
  puntosEnRango rango_fLin (gr filas)

end AnalisisEu152

namespace AnalisisEu152_v2

/-- What one pass of the second loop of `AnalisisEu152_v2`, lines 365-396,
stores in `Q_vec`, `errQ_vec`, `Delta_vec`, `errDelta_vec` and
`errL_low_vec`. -/
structure OtrosIndices (α : Type) where
  Q : Dbl α
  errQ : Dbl α
  Delta : Dbl α
  errDelta : Dbl α
  errL_low : Dbl α

/-- The body of the second loop of `AnalisisEu152_v2`, lines 378-393, from
`L_low_vec[i]`, `L_high_vec[i]` and the peaks integrated again. -/
def otrosIndices {α : Type} [LinearOrderedField α] (m : Libm α)
    (L_low L_high : Dbl α) (p_low p_high : AnalisisEu152.Pico α) : OtrosIndices α :=
  let Q := p_low.cuentas_netas / p_high.cuentas_netas
  let errQ := Q * Dbl.sqrt m (Dbl.pow2 (p_low.error / p_low.cuentas_netas)
    + Dbl.pow2 (p_high.error / p_high.cuentas_netas))
  let Delta := L_low - L_high
  let errDelta := Dbl.sqrt m (Dbl.pow2 (p_low.error / p_low.cuentas_netas)
    + Dbl.pow2 (p_high.error / p_high.cuentas_netas))
  let errL := p_low.error / p_low.cuentas_netas
  ⟨Q, errQ, Delta, errDelta, errL⟩

/-- One row of the vectors of `AnalisisEu152_v2` after step 4: `C_vec[i]`, what
the first loop stored and what the second loop stored. -/
structure Fila (α : Type) where
  C : α
  indices : AnalisisEu152.Indices α
  otros : OtrosIndices α

/-- One sample through both loops of `AnalisisEu152_v2`: the pass of the first
loop, lines 198-308 (nothing for a file that cannot be read), and, for a sample
the first loop stored, the pass of the second loop, lines 365-396, which opens
the file of the same name again
(`Form("%sEu152_REE_0p%02d.root", directorio, (int)C_vec[i])`), fills the same
histogram and integrates the same windows. -/
def pasoMuestra {α : Type} [LinearOrderedField α] [FloorRing α] (m : Libm α)
    (fs : Archivos α) (directorio : String) (usar_1408 : Bool)
    (ref_low ref_high : AnalisisEu152.Pico α) (muestra : String × α) : Option (Fila α) :=
  match fs (directorio ++ muestra.1) with
  | none => none
  | some Energy =>
    let h := llenar 1600 0 1600 Energy
    let p_low := IntegrarFotopico m (some h) AnalisisEu152.E_122 AnalisisEu152.ventana_low
    let p_high := IntegrarFotopico m (some h) (AnalisisEu152.E_HIGH usar_1408)
      (AnalisisEu152.ventana_high usar_1408)
    let indices := AnalisisEu152.procesarMuestra m ref_low ref_high p_low p_high
    some ⟨muestra.2, indices, otrosIndices m indices.L_low indices.L_high p_low p_high⟩

/-- The rows of the vectors of `AnalisisEu152_v2` after step 4, or the early
return of step 1. -/
def filas {α : Type} [LinearOrderedField α] [FloorRing α] (m : Libm α)
    (fs : Archivos α) (directorio : String) (usar_1408 : Bool) :
    Except Fallo (List (Fila α)) :=
  match AnalisisEu152.referencia m fs directorio usar_1408 with
  | Except.error e => Except.error e
  | Except.ok (ref_low, ref_high) =>
    Except.ok (AnalisisEu152.MUESTRAS.filterMap
      (pasoMuestra m fs directorio usar_1408 ref_low ref_high))

/-- The graph of the index `idx` in step 5 of `AnalisisEu152_v2`: `gr1`
(`R_vec`, `errR_vec`, line 413), `gr2` (`Q_vec`, `errQ_vec`, line 425), `gr3`
(`Delta_vec`, `errDelta_vec`, line 437) and `gr4` (`L_low_vec`,
`errL_low_vec`, line 449), each against `C_vec`. -/
def grafico {α : Type} (filas : List (Fila α)) (idx : ℕ) : List (α × Dbl α × Dbl α) :=
  match idx with
  | 0 => filas.map (fun f => (f.C, f.indices.R, f.indices.errR))
  | 1 => filas.map (fun f => (f.C, f.otros.Q, f.otros.errQ))
  | 2 => filas.map (fun f => (f.C, f.otros.Delta, f.otros.errDelta))
  | _ => filas.map (fun f => (f.C, f.indices.L_low, f.otros.errL_low))

/-- The range of the function of the index `idx` in step 5 of
`AnalisisEu152_v2`: `f1`, line 417, has the range `(0.5, 5.5)`; `f2`, `f3` and
`f4`, lines 429, 441 and 453, have the range `(-0.5, 5.5)`. -/
def rango {α : Type} [LinearOrderedField α] (idx : ℕ) : α × α :=
  match idx with
  | 0 => (0.5, 5.5)
  | _ => (-0.5, 5.5)

/-- The points of the fit of the index `idx` in step 5 of `AnalisisEu152_v2`
(`gr1->Fit("f1", "RQ")`, line 418, and lines 430, 442 and 454). -/
def puntos {α : Type} [LinearOrderedField α] (filas : List (Fila α)) (idx : ℕ) :
    List (α × Dbl α × Dbl α) :=
  puntosEnRango (rango idx) (grafico filas idx)

/-- The array `sens` of step 5 of `AnalisisEu152_v2`: the slope
`GetParameter(1)` of each of the four fits.  `ajuste` stands for ROOT's fit of
the line `[0]+[1]*x` to the points it is given: it returns `(p0, p1)`. -/
def sens {α : Type} [LinearOrderedField α]
    (ajuste : List (α × Dbl α × Dbl α) → Dbl α × Dbl α) (filas : List (Fila α)) (idx : ℕ) :
    Dbl α :=
  (ajuste (puntos filas idx)).2

/-- The vectors `err_vecs` of step 6 of `AnalisisEu152_v2`, line 471:
`errR_vec`, `errQ_vec`, `errDelta_vec` and `errL_low_vec`. -/
def err_vecs {α : Type} (filas : List (Fila α)) (idx : ℕ) : List (Dbl α) :=
  match idx with
  | 0 => filas.map (fun f => f.indices.errR)
  | 1 => filas.map (fun f => f.otros.errQ)
  | 2 => filas.map (fun f => f.otros.errDelta)
  | _ => filas.map (fun f => f.otros.errL_low)

/-- The local `sigma_medio` of step 6 of `AnalisisEu152_v2`, lines 474-480:
the mean of the uncertainties with `err > 0 && err < 1e6` from index `1` on,
`0` when there is none. -/
def sigma_medio {α : Type} [LinearOrderedField α] (errs : List (Dbl α)) : Dbl α :=
  let validos := (errs.drop 1).filter
    (fun err => Dbl.gt err (Dbl.fin 0) && Dbl.lt err (Dbl.fin 1e6))
  let suma := validos.foldl (· + ·) (Dbl.fin 0)
  if validos.length > 0 then suma / Dbl.fin (validos.length : α) else suma

/-- The array `precision_arr` of step 6 of `AnalisisEu152_v2`, line 481. -/
def precision_arr {α : Type} [LinearOrderedField α]
    (ajuste : List (α × Dbl α × Dbl α) → Dbl α × Dbl α) (filas : List (Fila α)) (idx : ℕ) :
    Dbl α :=
  if Dbl.gt (Dbl.abs (sens ajuste filas idx)) (Dbl.fin 1e-9) then
    sigma_medio (err_vecs filas idx) / Dbl.abs (sens ajuste filas idx)
  else Dbl.fin 999

/-- The local `mejor` of step 6 of `AnalisisEu152_v2`, lines 488-491:
`int mejor = 0; for (idx = 1; idx < 4; idx++) if (precision_arr[idx] <
precision_arr[mejor]) mejor = idx;`. -/
def mejor {α : Type} [LinearOrderedField α] (precision_arr : ℕ → Dbl α) : ℕ :=
  [1, 2, 3].foldl
    (fun mejor idx => if Dbl.lt (precision_arr idx) (precision_arr mejor) then idx else mejor) 0

/-- The graph `gr` of step 7 of `AnalisisEu152_v2`, lines 503-505: the points
`(C_vec, Q_vec, errQ_vec)`. -/
def gr {α : Type} (filas : List (Fila α)) : List (α × Dbl α × Dbl α) :=
  filas.map (fun f => (f.C, f.otros.Q, f.otros.errQ))

/-- The range of `fLin` in step 7 of `AnalisisEu152_v2`, line 517. -/
def rango_fLin {α : Type} [LinearOrderedField α] : α × α := (-0.5, 5.5)

end AnalisisEu152_v2

/-- The range of `fLinear`, the line fitted to the graph of R against the
concentration in `Simulacion_Barrido/Resultados2/analisis_final.cpp`, line 108:
`new TF1("fLinear", "[0] + [1]*x", 0.8, 3.2)`, fitted with the option `R`. -/
def analisis_final.rango_fLinear {α : Type} [LinearOrderedField α] : α × α := (0.8, 3.2)

/-- The range of `f`, the line fitted to the graph of R against the
concentration in `Simulacion_Barrido/Resultados2/analisis_LaBr3_ROI.cpp`, line
113: `new TF1("f", "pol1", 0.9, 3.1)`, fitted with the option `R`. -/
def analisis_LaBr3_ROI.rango_f {α : Type} [LinearOrderedField α] : α × α := (0.9, 3.1)

/-- The range of `fLin`, the line fitted to the graph of R against the
concentration in `Simulacion_Barrido/build/analisis_final.cpp`, line 93:
`new TF1("fLin", "pol1", 0.5, 5.5)`, fitted with the option `R`. -/
def build.analisis_final.rango_fLin {α : Type} [LinearOrderedField α] : α × α := (0.5, 5.5)

/-- The range of `fLin`, the line fitted to the graph of R against the
concentration in `Simulacion_Barrido/build/analisis_dual.cpp`, line 129:
`new TF1("fLin", "pol1", 0.5, 5.5)`, fitted with the option `R`. -/
def build.analisis_dual.rango_fLin {α : Type} [LinearOrderedField α] : α × α := (0.5, 5.5)

/-! ## The calibration fitter of the specification -/

/-- Modelled from the spec: the result `CalibrationModel` of the calibration
fitter (section 4.4): the parameters `θ0` and `θ1`, their standard errors, the
chi-square statistic and the degrees of freedom.  The scripts delegate the fit
to ROOT's `TGraphErrors::Fit`, which is not among the sources. -/
structure CalibrationModel (α : Type) where
  theta0 : Dbl α
  theta1 : Dbl α
  err_theta0 : Dbl α
  err_theta1 : Dbl α
  chi2 : Dbl α
  ndf : ℤ

/-- Modelled from the spec: the failure `InsufficientPoints` of the calibration
fitter (section 4.4). -/
inductive FalloAjuste where
  | InsufficientPoints
deriving DecidableEq

/-- Modelled from the spec: the points the calibration fitter uses (section
4.4): a point with a zero or non-finite uncertainty, or with an undefined
value, is excluded. -/
def puntoUsado {α : Type} [LinearOrderedField α] (p : α × Dbl α × Dbl α) : Option (α × α × α) :=
  match p.2.1, p.2.2 with
  | Dbl.fin y, Dbl.fin e => if e = 0 then none else some (p.1, y, e)
  | _, _ => none

/-- Modelled from the spec: `fit_linear(points)` of the calibration fitter
(section 4.4), which stands for ROOT's `TGraphErrors::Fit` of the line
`[0] + [1]*x` (not among the sources): the weighted least-squares line
`observable = θ0 + θ1 * concentration` through the points used, with the
weights `1 / uncertainty²`; the standard errors come from the covariance of the
weighted least squares, the degrees of freedom are the number of points used
minus `2`, and the fit fails with `InsufficientPoints` when fewer than `3`
points are used. -/
def fit_linear {α : Type} [LinearOrderedField α] (m : Libm α)
    (points : List (α × Dbl α × Dbl α)) : Except FalloAjuste (CalibrationModel α) :=
  let usados := points.filterMap puntoUsado
  if usados.length < 3 then Except.error FalloAjuste.InsufficientPoints
  else
    let S := (usados.map (fun p => 1 / (p.2.2 * p.2.2))).sum
    let Sx := (usados.map (fun p => p.1 / (p.2.2 * p.2.2))).sum
    let Sy := (usados.map (fun p => p.2.1 / (p.2.2 * p.2.2))).sum
    let Sxx := (usados.map (fun p => p.1 * p.1 / (p.2.2 * p.2.2))).sum
    let Sxy := (usados.map (fun p => p.1 * p.2.1 / (p.2.2 * p.2.2))).sum
    let D := S * Sxx - Sx * Sx
    let theta0 := Dbl.fin (Sxx * Sy - Sx * Sxy) / Dbl.fin D
    let theta1 := Dbl.fin (S * Sxy - Sx * Sy) / Dbl.fin D
    let chi2 := (usados.map (fun p =>
      Dbl.pow2 ((Dbl.fin p.2.1 - (theta0 + theta1 * Dbl.fin p.1)) / Dbl.fin p.2.2))).foldl
        (· + ·) (Dbl.fin 0)
    Except.ok ⟨theta0, theta1, Dbl.sqrt m (Dbl.fin Sxx / Dbl.fin D),
      Dbl.sqrt m (Dbl.fin S / Dbl.fin D), chi2, (usados.length : ℤ) - 2⟩

/-! ## Sample data -/

/-- A spectrum of 1600 bins of 1 keV on `[0, 1600)`, as the Eu-152 scripts
book it: a flat level of 10 counts per bin, a peak of 100 counts per bin in
the bins 110..134 (the window of the 121.78 keV line) and a peak of 50 counts
per bin in the bins 759..799 (the window of the 778.90 keV line). -/
def espectroEjemplo (α : Type) [LinearOrderedField α] [FloorRing α] : TH1D α :=
  TH1D.ofBins 1600 0 1600
    (fun i =>
      if 1 ≤ i ∧ i ≤ 1600 then
        (if 110 ≤ i ∧ i ≤ 134 then 100 else if 759 ≤ i ∧ i ≤ 799 then 50 else 10)
      else 0)
    19890

/-- Integrated peaks as `IntegrarFotopico` of `AnalisisEu152.cpp` returns them
(`error` is the square root of `cuentas_brutas + fondo`): the two lines of a
reference (2500 and 1600 net counts), those of a doped sample (900 and 1225
net counts), and a peak whose background estimate exceeds its raw counts
(net counts `-9`). -/
def AnalisisEu152.refLow (α : Type) [LinearOrderedField α] : AnalisisEu152.Pico α :=
  ⟨Dbl.fin 2500, Dbl.fin 2500, Dbl.fin 50, Dbl.fin 0, true⟩

/-- See `AnalisisEu152.refLow`. -/
def AnalisisEu152.refHigh (α : Type) [LinearOrderedField α] : AnalisisEu152.Pico α :=
  ⟨Dbl.fin 1600, Dbl.fin 1600, Dbl.fin 40, Dbl.fin 0, true⟩

/-- See `AnalisisEu152.refLow`. -/
def AnalisisEu152.muestraLow (α : Type) [LinearOrderedField α] : AnalisisEu152.Pico α :=
  ⟨Dbl.fin 900, Dbl.fin 900, Dbl.fin 30, Dbl.fin 0, true⟩

/-- See `AnalisisEu152.refLow`. -/
def AnalisisEu152.muestraHigh (α : Type) [LinearOrderedField α] : AnalisisEu152.Pico α :=
  ⟨Dbl.fin 1225, Dbl.fin 1225, Dbl.fin 35, Dbl.fin 0, true⟩

/-- See `AnalisisEu152.refLow`. -/
def AnalisisEu152.picoNegativo (α : Type) [LinearOrderedField α] : AnalisisEu152.Pico α :=
  ⟨Dbl.fin 20, Dbl.fin (-9), Dbl.fin 7, Dbl.fin 29, false⟩

/-- The same peaks as `IntegrarFotopico` of `AnalisisEu152_v4.cpp` returns them
under the normalisation factor 1. -/
def AnalisisEu152_v4.refLow (α : Type) [LinearOrderedField α] : AnalisisEu152_v4.Pico α :=
  ⟨Dbl.fin 2500, Dbl.fin 2500, Dbl.fin 50, Dbl.fin 0, true, Dbl.fin 2500, Dbl.fin 50⟩

/-- See `AnalisisEu152_v4.refLow`. -/
def AnalisisEu152_v4.refHigh (α : Type) [LinearOrderedField α] : AnalisisEu152_v4.Pico α :=
  ⟨Dbl.fin 1600, Dbl.fin 1600, Dbl.fin 40, Dbl.fin 0, true, Dbl.fin 1600, Dbl.fin 40⟩

/-- See `AnalisisEu152_v4.refLow`. -/
def AnalisisEu152_v4.muestraLow (α : Type) [LinearOrderedField α] : AnalisisEu152_v4.Pico α :=
  ⟨Dbl.fin 900, Dbl.fin 900, Dbl.fin 30, Dbl.fin 0, true, Dbl.fin 900, Dbl.fin 30⟩

/-- See `AnalisisEu152_v4.refLow`. -/
def AnalisisEu152_v4.muestraHigh (α : Type) [LinearOrderedField α] : AnalisisEu152_v4.Pico α :=
  ⟨Dbl.fin 1225, Dbl.fin 1225, Dbl.fin 35, Dbl.fin 0, true, Dbl.fin 1225, Dbl.fin 35⟩

/-- See `AnalisisEu152_v4.refLow`. -/
def AnalisisEu152_v4.picoNegativo (α : Type) [LinearOrderedField α] : AnalisisEu152_v4.Pico α :=
  ⟨Dbl.fin 20, Dbl.fin (-9), Dbl.fin 7, Dbl.fin 29, false, Dbl.fin (-9), Dbl.fin 7⟩

/-- A peak window over a flat spectrum as `IntegrarFotopico` of
`AnalisisEu152_v4.cpp` returns it: raw counts 800, background estimate 800,
net counts exactly 0, error `sqrt(1600) = 40`. -/
def AnalisisEu152_v4.picoPlano (α : Type) [LinearOrderedField α] : AnalisisEu152_v4.Pico α :=
  ⟨Dbl.fin 800, Dbl.fin 0, Dbl.fin 40, Dbl.fin 800, false, Dbl.fin 0, Dbl.fin 40⟩

/-- The result of the sample loop of `AnalisisEu152_v4` for the doped sample
against the sample reference. -/
def AnalisisEu152_v4.resultadoDopada {α : Type} [LinearOrderedField α] (m : Libm α) :
    AnalisisEu152_v4.ResultadoMuestra α :=
  AnalisisEu152_v4.calcularResultado m (AnalisisEu152_v4.refLow α) (AnalisisEu152_v4.refHigh α)
    (AnalisisEu152_v4.Q0 (AnalisisEu152_v4.refLow α) (AnalisisEu152_v4.refHigh α))
    (AnalisisEu152_v4.errQ0 m (AnalisisEu152_v4.refLow α) (AnalisisEu152_v4.refHigh α))
    1 true (AnalisisEu152_v4.muestraLow α) (AnalisisEu152_v4.muestraHigh α)

/-- The result of the sample loop of `AnalisisEu152_v4` for a sample with the
low-energy peak of the doped sample and a flat high-energy window, against
the sample reference. -/
def AnalisisEu152_v4.resultadoPlano {α : Type} [LinearOrderedField α] (m : Libm α) :
    AnalisisEu152_v4.ResultadoMuestra α :=
  AnalisisEu152_v4.calcularResultado m (AnalisisEu152_v4.refLow α) (AnalisisEu152_v4.refHigh α)
    (AnalisisEu152_v4.Q0 (AnalisisEu152_v4.refLow α) (AnalisisEu152_v4.refHigh α))
    (AnalisisEu152_v4.errQ0 m (AnalisisEu152_v4.refLow α) (AnalisisEu152_v4.refHigh α))
    1 true (AnalisisEu152_v4.muestraLow α) (AnalisisEu152_v4.picoPlano α)

/-- The energies (MeV) of a tree of three rows, one at each of the lines
121.78 keV, 778.90 keV and 1408.01 keV. -/
def energiasEjemplo (α : Type) [LinearOrderedField α] : List α := [0.12178, 0.7789, 1.40801]

/-- A directory with the files of the samples 0 %, 0.2 % and 1 %, each holding
the tree `energiasEjemplo`; no other file can be opened. -/
def archivosEjemplo (α : Type) [LinearOrderedField α] : Archivos α := fun nombre =>
  if nombre = "Eu152_REE_0p00.root" ∨ nombre = "Eu152_REE_0p002.root"
      ∨ nombre = "Eu152_REE_0p01.root" then some (energiasEjemplo α)
  else none

/-- A directory with the file of the 0.2 % sample only: the file of the 0 %
sample cannot be opened. -/
def archivosSinBlanco (α : Type) [LinearOrderedField α] : Archivos α := fun nombre =>
  if nombre = "Eu152_REE_0p002.root" then some (energiasEjemplo α) else none

/-- A directory with the file of the 0 % sample only. -/
def archivosSoloReferencia (α : Type) [LinearOrderedField α] : Archivos α := fun nombre =>
  if nombre = "Eu152_REE_0p00.root" then some (energiasEjemplo α) else none

/-- A directory in which every file opens and holds a tree without rows. -/
def archivosSinFilas (α : Type) : Archivos α := fun _ => some []

/-- A stand-in for the fit of the calibration line: intercept `1` and slope
`-1/10`, whatever the points. -/
def ajusteEjemplo (α : Type) [LinearOrderedField α] :
    List (α × Dbl α × Dbl α) → Dbl α × Dbl α :=
  fun _ => (Dbl.fin 1, Dbl.fin (-1 / 10))

/-- A stand-in for the fit of a line to a graph whose points share one
ordinate: the horizontal line through the first point (the least-squares line
of such a graph), and the parameters `0` for a graph without points. -/
def ajustePlano (α : Type) [LinearOrderedField α] :
    List (α × Dbl α × Dbl α) → Dbl α × Dbl α :=
  fun puntos =>
    match puntos with
    | [] => (Dbl.fin 0, Dbl.fin 0)
    | p :: _ => (p.2.1, Dbl.fin 0)

/-- The peak of the 121.78 keV line in the histogram of `energiasEjemplo`, as
`IntegrarFotopico` of `AnalisisEu152.cpp` returns it. -/
def picoEjemploLow {α : Type} [LinearOrderedField α] [FloorRing α] (m : Libm α) :
    AnalisisEu152.Pico α :=
  AnalisisEu152.IntegrarFotopico m (some (llenar 1600 0 1600 (energiasEjemplo α)))
    AnalisisEu152.E_122 AnalisisEu152.ventana_low

/-- The peak of the 778.90 keV line in the histogram of `energiasEjemplo`, as
`IntegrarFotopico` of `AnalisisEu152.cpp` returns it. -/
def picoEjemploHigh {α : Type} [LinearOrderedField α] [FloorRing α] (m : Libm α) :
    AnalisisEu152.Pico α :=
  AnalisisEu152.IntegrarFotopico m (some (llenar 1600 0 1600 (energiasEjemplo α)))
    (AnalisisEu152.E_HIGH false) (AnalisisEu152.ventana_high false)

/-- The row of `AnalisisEu152_v2` for a sample of concentration `C` whose file
holds the tree `energiasEjemplo`, against a reference file with the same
tree. -/
def AnalisisEu152_v2.filaEjemplo {α : Type} [LinearOrderedField α] [FloorRing α]
    (m : Libm α) (C : α) : AnalisisEu152_v2.Fila α :=
  ⟨C, AnalisisEu152.procesarMuestra m (picoEjemploLow m) (picoEjemploHigh m)
      (picoEjemploLow m) (picoEjemploHigh m),
    AnalisisEu152_v2.otrosIndices m
      (AnalisisEu152.procesarMuestra m (picoEjemploLow m) (picoEjemploHigh m)
        (picoEjemploLow m) (picoEjemploHigh m)).L_low
      (AnalisisEu152.procesarMuestra m (picoEjemploLow m) (picoEjemploHigh m)
        (picoEjemploLow m) (picoEjemploHigh m)).L_high
      (picoEjemploLow m) (picoEjemploHigh m)⟩

/-! ## Arithmetic of the `double` model on finite values -/

namespace Dbl

variable {α : Type} [LinearOrderedField α]

@[simp] theorem fin_add_fin (a b : α) : (fin a + fin b : Dbl α) = fin (a + b) := rfl

@[simp] theorem fin_sub_fin (a b : α) : (fin a - fin b : Dbl α) = fin (a - b) := by
  show add (fin a) (neg (fin b)) = fin (a - b)
  simp [add, neg, sub_eq_add_neg]

@[simp] theorem fin_mul_fin (a b : α) : (fin a * fin b : Dbl α) = fin (a * b) := rfl

theorem fin_div_fin (a b : α) (hb : b ≠ 0) : (fin a / fin b : Dbl α) = fin (a / b) := by
  show div (fin a) (fin b) = fin (a / b)
  simp [div, hb]

theorem fin_div_zero (a : α) : (fin a / fin 0 : Dbl α) = infOfSign a := by
  show div (fin a) (fin 0) = infOfSign a
  simp [div]

@[simp] theorem neg_fin (a : α) : (-(fin a) : Dbl α) = fin (-a) := rfl

theorem infOfSign_ne_fin (a b : α) : (infOfSign a : Dbl α) ≠ fin b := by
  unfold infOfSign
  split_ifs <;> simp

@[simp] theorem gt_fin_fin (a b : α) : gt (fin a) (fin b) = decide (b < a) := rfl

@[simp] theorem lt_fin_fin (a b : α) : lt (fin a) (fin b) = decide (a < b) := rfl

@[simp] theorem le_fin_fin (a b : α) : le (fin a) (fin b) = decide (a ≤ b) := rfl

@[simp] theorem abs_fin (a : α) : abs (fin a) = fin |a| := rfl

theorem sqrt_fin (m : Libm α) (a : α) (ha : 0 ≤ a) : sqrt m (fin a) = fin (m.sqrt a) := by
  simp [sqrt, not_lt.mpr ha]

theorem log_fin (m : Libm α) (a : α) (ha : 0 < a) : log m (fin a) = fin (m.log a) := by
  simp [log, not_lt.mpr ha.le, ha.ne']

theorem infOfSign_pos {a : α} (ha : 0 < a) : (infOfSign a : Dbl α) = pinf := by
  simp [infOfSign, ha, ha.ne']

theorem infOfSign_neg {a : α} (ha : a < 0) : (infOfSign a : Dbl α) = ninf := by
  simp [infOfSign, ha.ne, not_lt.mpr ha.le]

@[simp] theorem infOfSign_zero : (infOfSign (0 : α) : Dbl α) = nan := by
  simp [infOfSign]

@[simp] theorem fin_mul_pinf (a : α) : (fin a * pinf : Dbl α) = infOfSign a := rfl

@[simp] theorem fin_mul_ninf (a : α) : (fin a * ninf : Dbl α) = infOfSign (-a) := rfl

@[simp] theorem pinf_mul_fin (a : α) : (pinf * fin a : Dbl α) = infOfSign a := rfl

@[simp] theorem ninf_mul_fin (a : α) : (ninf * fin a : Dbl α) = infOfSign (-a) := rfl

@[simp] theorem pinf_mul_pinf : (pinf * pinf : Dbl α) = pinf := rfl

@[simp] theorem ninf_mul_ninf : (ninf * ninf : Dbl α) = pinf := rfl

@[simp] theorem pinf_mul_ninf : (pinf * ninf : Dbl α) = ninf := rfl

@[simp] theorem ninf_mul_pinf : (ninf * pinf : Dbl α) = ninf := rfl

@[simp] theorem nan_mul (x : Dbl α) : (nan * x : Dbl α) = nan := by
  cases x <;> rfl

@[simp] theorem mul_nan (x : Dbl α) : (x * nan : Dbl α) = nan := by
  cases x <;> rfl

@[simp] theorem fin_div_pinf (a : α) : (fin a / pinf : Dbl α) = fin 0 := rfl

@[simp] theorem fin_div_ninf (a : α) : (fin a / ninf : Dbl α) = fin 0 := rfl

@[simp] theorem pinf_div_fin (b : α) :
    (pinf / fin b : Dbl α) = if 0 ≤ b then pinf else ninf := rfl

@[simp] theorem ninf_div_fin (b : α) :
    (ninf / fin b : Dbl α) = if 0 ≤ b then ninf else pinf := rfl

@[simp] theorem pinf_div_pinf : (pinf / pinf : Dbl α) = nan := rfl

@[simp] theorem pinf_div_ninf : (pinf / ninf : Dbl α) = nan := rfl

@[simp] theorem ninf_div_pinf : (ninf / pinf : Dbl α) = nan := rfl

@[simp] theorem ninf_div_ninf : (ninf / ninf : Dbl α) = nan := rfl

@[simp] theorem nan_div (x : Dbl α) : (nan / x : Dbl α) = nan := by
  cases x <;> rfl

@[simp] theorem div_nan (x : Dbl α) : (x / nan : Dbl α) = nan := by
  cases x <;> rfl

@[simp] theorem nan_add (x : Dbl α) : (nan + x : Dbl α) = nan := by
  cases x <;> rfl

@[simp] theorem add_nan (x : Dbl α) : (x + nan : Dbl α) = nan := by
  cases x <;> rfl

@[simp] theorem sqrt_nan (m : Libm α) : sqrt m (nan : Dbl α) = nan := rfl

@[simp] theorem sqrt_pinf (m : Libm α) : sqrt m (pinf : Dbl α) = pinf := rfl

@[simp] theorem fin_add_pinf (a : α) : (fin a + pinf : Dbl α) = pinf := rfl

@[simp] theorem pinf_add_fin (a : α) : (pinf + fin a : Dbl α) = pinf := rfl

@[simp] theorem pinf_add_pinf : (pinf + pinf : Dbl α) = pinf := rfl

@[simp] theorem pinf_sub_fin (a : α) : (pinf - fin a : Dbl α) = pinf := rfl

@[simp] theorem abs_nan : abs (nan : Dbl α) = nan := rfl

theorem gt_eq_false_of_le {x y : Dbl α} (hxy : le x y = true) : gt x y = false := by
  cases x <;> cases y <;> simp_all [gt, lt, le]

theorem gt_eq_false_iff_le {x : Dbl α} (hx : x ≠ nan) (c : α) :
    gt x (fin c) = false ↔ le x (fin c) = true := by
  cases x <;> simp_all [gt, lt, le]

theorem abs_ne_nan {x : Dbl α} (hx : x ≠ nan) : abs x ≠ nan := by
  cases x <;> simp_all [abs]

theorem mul_swap (x y : Dbl α) : x * y = y * x := by
  cases x <;> cases y <;>
    simp only [fin_mul_fin, fin_mul_pinf, fin_mul_ninf, pinf_mul_fin, ninf_mul_fin,
      pinf_mul_pinf, ninf_mul_ninf, pinf_mul_ninf, ninf_mul_pinf, nan_mul, mul_nan,
      mul_comm]

/-- Squaring removes the sign of an infinity. -/
theorem pow2_infOfSign_neg (a : α) :
    pow2 (infOfSign (-a) : Dbl α) = pow2 (infOfSign a) := by
  rcases lt_trichotomy a 0 with h | h | h
  · rw [infOfSign_neg h, infOfSign_pos (neg_pos.mpr h)]; rfl
  · subst h; simp
  · rw [infOfSign_pos h, infOfSign_neg (neg_neg_of_pos h)]; rfl

/-- A common finite non-zero factor of numerator and denominator does not
change the square of a quotient of doubles, whatever the two doubles are. -/
theorem pow2_div_mul_cancel (e n : Dbl α) (f : α) (hf : f ≠ 0) :
    pow2 ((e * fin f) / (n * fin f)) = pow2 (e / n) := by
  rcases lt_or_gt_of_ne hf with hneg | hpos
  · have hnf : 0 < -f := neg_pos.mpr hneg
    have hle : ¬ (0 ≤ f) := not_le.mpr hneg
    cases e with
    | nan => simp
    | fin a =>
      cases n with
      | nan => simp
      | pinf => simp [infOfSign_neg hneg]
      | ninf => simp [infOfSign_pos hnf]
      | fin b =>
        by_cases hb : b = 0
        · subst hb
          simp only [fin_mul_fin, zero_mul, fin_div_zero]
          rcases lt_trichotomy a 0 with h | h | h
          · rw [infOfSign_neg h, infOfSign_pos (mul_pos_of_neg_of_neg h hneg)]; rfl
          · subst h; simp
          · rw [infOfSign_pos h, infOfSign_neg (mul_neg_of_pos_of_neg h hneg)]; rfl
        · have hbf : b * f ≠ 0 := mul_ne_zero hb hf
          simp only [fin_mul_fin, fin_div_fin _ _ hbf, fin_div_fin _ _ hb]
          congr 2
          field_simp
          ring
    | pinf =>
      cases n with
      | nan => simp
      | pinf => simp [infOfSign_neg hneg]
      | ninf => simp [infOfSign_neg hneg, infOfSign_pos hnf]
      | fin b =>
        simp only [pinf_mul_fin, infOfSign_neg hneg, fin_mul_fin, ninf_div_fin, pinf_div_fin]
        split_ifs <;> rfl
    | ninf =>
      cases n with
      | nan => simp
      | pinf => simp [infOfSign_neg hneg, infOfSign_pos hnf]
      | ninf => simp [infOfSign_pos hnf]
      | fin b =>
        simp only [ninf_mul_fin, infOfSign_pos hnf, fin_mul_fin, ninf_div_fin, pinf_div_fin]
        split_ifs <;> rfl
  · have hnf : -f < 0 := neg_neg_of_pos hpos
    cases e with
    | nan => simp
    | fin a =>
      cases n with
      | nan => simp
      | pinf => simp [infOfSign_pos hpos]
      | ninf => simp [infOfSign_neg hnf]
      | fin b =>
        by_cases hb : b = 0
        · subst hb
          simp only [fin_mul_fin, zero_mul, fin_div_zero]
          rcases lt_trichotomy a 0 with h | h | h
          · rw [infOfSign_neg h, infOfSign_neg (mul_neg_of_neg_of_pos h hpos)]
          · subst h; simp
          · rw [infOfSign_pos h, infOfSign_pos (mul_pos h hpos)]
        · have hbf : b * f ≠ 0 := mul_ne_zero hb hf
          simp only [fin_mul_fin, fin_div_fin _ _ hbf, fin_div_fin _ _ hb]
          congr 2
          field_simp
          ring
    | pinf =>
      cases n with
      | nan => simp
      | pinf => simp [infOfSign_pos hpos]
      | ninf => simp [infOfSign_pos hpos, infOfSign_neg hnf]
      | fin b =>
        simp only [pinf_mul_fin, infOfSign_pos hpos, fin_mul_fin, ninf_div_fin, pinf_div_fin]
        split_ifs <;> rfl
    | ninf =>
      cases n with
      | nan => simp
      | pinf => simp [infOfSign_pos hpos, infOfSign_neg hnf]
      | ninf => simp [infOfSign_neg hnf]
      | fin b =>
        simp only [ninf_mul_fin, infOfSign_neg hnf, fin_mul_fin, ninf_div_fin, pinf_div_fin]
        split_ifs <;> rfl

end Dbl

/-! ## Properties of the peak integrators -/

/-- C2 (amended): for every histogram, centre and half-width, `IntegrarFotopico`
of `AnalisisEu152`, `_v2` and `_v4` reports `error = sqrt(cuentas_brutas +
fondo)`, `fondo` being the scaled sideband sum it subtracts; `IntegrarPico` of
`AnalisisEu152_v3` subtracts `Fondo = ratio * N_bg_counts` and reports
`error = sqrt(N_brutas + ratio * Fondo)`, that is `sqrt(N_brutas + ratio^2 *
N_bg_counts)`, with `ratio = n_bins_pico / n_bins_bg` (`0` when
`n_bins_bg <= 0`). -/
theorem C2_error_estadistico {α : Type} [LinearOrderedField α] (m : Libm α)
    (h : TH1D α) (E s : α) (factor_norm N0 e0 : Dbl α) :
    let p := AnalisisEu152.IntegrarFotopico m (some h) E s
    let p2 := AnalisisEu152_v2.IntegrarFotopico m (some h) E s
    let p4 := AnalisisEu152_v4.IntegrarFotopico m (some h) E s factor_norm
    let r := AnalisisEu152_v3.IntegrarPico m (some h) E s N0 e0
    let N_brutas : α := h.Integral (h.FindBin (E - s)) (h.FindBin (E + s))
    let N_bg_counts : α := h.Integral (h.FindBin (E - 2 * s)) (h.FindBin (E - s))
      + h.Integral (h.FindBin (E + s)) (h.FindBin (E + 2 * s))
    let n_bins_pico : ℤ := h.FindBin (E + s) - h.FindBin (E - s) + 1
    let n_bins_bg : ℤ := (h.FindBin (E - s) - h.FindBin (E - 2 * s) + 1)
      + (h.FindBin (E + 2 * s) - h.FindBin (E + s) + 1)
    let ratio : α := if n_bins_bg > 0 then (n_bins_pico : α) / (n_bins_bg : α) else 0
    p.error = Dbl.sqrt m (p.cuentas_brutas + p.fondo)
    ∧ p.cuentas_netas = p.cuentas_brutas - p.fondo
    ∧ p2.error = Dbl.sqrt m (p2.cuentas_brutas + p2.fondo)
    ∧ p2.cuentas_netas = p2.cuentas_brutas - p2.fondo
    ∧ p4.error = Dbl.sqrt m (p4.cuentas_brutas + p4.fondo)
    ∧ p4.cuentas_netas = p4.cuentas_brutas - p4.fondo
    ∧ r.2.2 = Dbl.fin (ratio * N_bg_counts)
    ∧ r.1 = Dbl.fin (N_brutas - ratio * N_bg_counts)
    ∧ r.2.1 = Dbl.sqrt m (Dbl.fin (N_brutas + ratio * (ratio * N_bg_counts)))
    ∧ r.2.1 = Dbl.sqrt m (Dbl.fin (N_brutas + ratio ^ 2 * N_bg_counts)) := by
  intro p p2 p4 r N_brutas N_bg_counts n_bins_pico n_bins_bg ratio
  refine ⟨rfl, rfl, rfl, rfl, rfl, rfl, ?_, ?_, ?_, ?_⟩
  all_goals
    by_cases hbg : n_bins_bg > 0
    · have hne : ((n_bins_bg : ℤ) : α) ≠ 0 := by
        have : (0 : ℤ) < n_bins_bg := hbg
        exact_mod_cast this.ne'
      have hbg' := hbg
      have hne' := hne
      simp only [n_bins_bg] at hbg' hne'
      simp only [r, ratio, N_brutas, N_bg_counts, n_bins_pico, AnalisisEu152_v3.IntegrarPico,
        one_mul, if_pos hbg, if_pos hbg', Dbl.fin_add_fin, Dbl.fin_mul_fin,
        Dbl.fin_div_fin _ _ hne', Dbl.fin_sub_fin]
      first
        | rfl
        | (congr 2; simp only [n_bins_bg]; ring)
    · have hbg' := hbg
      simp only [n_bins_bg] at hbg'
      simp only [r, ratio, N_brutas, N_bg_counts, n_bins_pico, AnalisisEu152_v3.IntegrarPico,
        one_mul, if_neg hbg, if_neg hbg', Dbl.fin_add_fin, Dbl.fin_mul_fin, Dbl.fin_sub_fin]
      first
        | rfl
        | (congr 2; ring)

/-- C2, counterexample: on the sample spectrum (line 121.78 keV, half-width 12)
`IntegrarPico` of `AnalisisEu152_v3` sums 2500 raw counts, subtracts the
background estimate `Fondo = 5500/13` and reports the error
`sqrt(2500 + 68750/169)`, which is not `sqrt(raw counts + Fondo)`. -/
theorem C2_IntegrarPico_counterexample :
    (espectroEjemplo ℝ).Integral ((espectroEjemplo ℝ).FindBin (121.78 - 12))
        ((espectroEjemplo ℝ).FindBin (121.78 + 12)) = 2500
    ∧ (AnalisisEu152_v3.IntegrarPico libmReal (some (espectroEjemplo ℝ)) 121.78 12
        (Dbl.fin 0) (Dbl.fin 0)).2.2 = Dbl.fin (5500 / 13)
    ∧ (AnalisisEu152_v3.IntegrarPico libmReal (some (espectroEjemplo ℝ)) 121.78 12
        (Dbl.fin 0) (Dbl.fin 0)).2.1 = Dbl.fin (Real.sqrt (2500 + 68750 / 169))
    ∧ (AnalisisEu152_v3.IntegrarPico libmReal (some (espectroEjemplo ℝ)) 121.78 12
        (Dbl.fin 0) (Dbl.fin 0)).2.1
      ≠ Dbl.sqrt libmReal (Dbl.fin 2500
          + (AnalisisEu152_v3.IntegrarPico libmReal (some (espectroEjemplo ℝ)) 121.78 12
              (Dbl.fin 0) (Dbl.fin 0)).2.2) := by
  have f1 : (espectroEjemplo ℝ).FindBin (121.78 - 12) = 110 := by
    simp only [espectroEjemplo, TH1D.ofBins]; norm_num [Int.floor_eq_iff]
  have f2 : (espectroEjemplo ℝ).FindBin (121.78 + 12) = 134 := by
    simp only [espectroEjemplo, TH1D.ofBins]; norm_num [Int.floor_eq_iff]
  have f3 : (espectroEjemplo ℝ).FindBin (121.78 - 2 * 12) = 98 := by
    simp only [espectroEjemplo, TH1D.ofBins]; norm_num [Int.floor_eq_iff]
  have f4 : (espectroEjemplo ℝ).FindBin (121.78 + 2 * 12) = 146 := by
    simp only [espectroEjemplo, TH1D.ofBins]; norm_num [Int.floor_eq_iff]
  have i1 : (espectroEjemplo ℝ).Integral 110 134 = 2500 := by
    simp only [espectroEjemplo, TH1D.ofBins]; norm_num [sumaBins]
  have i2 : (espectroEjemplo ℝ).Integral 98 110 = 220 := by
    simp only [espectroEjemplo, TH1D.ofBins]; norm_num [sumaBins]
  have i3 : (espectroEjemplo ℝ).Integral 134 146 = 220 := by
    simp only [espectroEjemplo, TH1D.ofBins]; norm_num [sumaBins]
  have hF : (AnalisisEu152_v3.IntegrarPico libmReal (some (espectroEjemplo ℝ)) 121.78 12
      (Dbl.fin 0) (Dbl.fin 0)).2.2 = Dbl.fin (5500 / 13) := by
    simp only [AnalisisEu152_v3.IntegrarPico, one_mul, f1, f2, f3, f4, i2, i3]
    norm_num [Dbl.fin_div_fin]
  have hE : (AnalisisEu152_v3.IntegrarPico libmReal (some (espectroEjemplo ℝ)) 121.78 12
      (Dbl.fin 0) (Dbl.fin 0)).2.1 = Dbl.fin (Real.sqrt (2500 + 68750 / 169)) := by
    simp only [AnalisisEu152_v3.IntegrarPico, one_mul, f1, f2, f3, f4, i1, i2, i3]
    norm_num [Dbl.fin_div_fin]
    rw [Dbl.sqrt_fin _ _ (by norm_num)]
    simp only [libmReal]
    norm_num
  refine ⟨by rw [f1, f2, i1], hF, hE, ?_⟩
  rw [hE, hF, Dbl.fin_add_fin, Dbl.sqrt_fin _ _ (by norm_num)]
  simp only [libmReal, ne_eq, Dbl.fin.injEq]
  rw [Real.sqrt_inj (by norm_num) (by norm_num)]
  norm_num

/-- With half-width `0` the four sideband bounds of `IntegrarFotopico` of
`AnalisisEu152.cpp` coincide, `n_bg_total` is `0` and `fondo` is the result of
a division by zero: never a finite value, whatever the histogram. -/
theorem IntegrarFotopico_semi_ancho_cero {α : Type} [LinearOrderedField α] (m : Libm α)
    (h : TH1D α) (E : α) (v : α) :
    (AnalisisEu152.IntegrarFotopico m (some h) E 0).fondo ≠ Dbl.fin v := by
  simp only [AnalisisEu152.IntegrarFotopico, mul_zero, sub_zero, add_zero, Dbl.fin_add_fin,
    Dbl.fin_mul_fin]
  have h0 : ((h.FindBin E - 1 - h.FindBin E + 1 + (h.FindBin E - (h.FindBin E + 1) + 1) : ℤ) : α)
      = 0 := by
    have : (h.FindBin E - 1 - h.FindBin E + 1 + (h.FindBin E - (h.FindBin E + 1) + 1) : ℤ) = 0 := by
      ring
    rw [this]; simp
  rw [h0, Dbl.fin_div_zero]
  exact Dbl.infOfSign_ne_fin _ _

/-- The peak of the sample spectrum at 121.78 keV with half-width 12, as
`IntegrarFotopico` of `AnalisisEu152.cpp` integrates it. -/
theorem espectroEjemplo_pico_122 :
    AnalisisEu152.IntegrarFotopico libmReal (some (espectroEjemplo ℝ)) 121.78 12
      = ⟨Dbl.fin 2500, Dbl.fin 2250, Dbl.fin (Real.sqrt 2750), Dbl.fin 250, true⟩ := by
  have f1 : (espectroEjemplo ℝ).FindBin (121.78 - 12) = 110 := by
    simp only [espectroEjemplo, TH1D.ofBins]; norm_num [Int.floor_eq_iff]
  have f2 : (espectroEjemplo ℝ).FindBin (121.78 + 12) = 134 := by
    simp only [espectroEjemplo, TH1D.ofBins]; norm_num [Int.floor_eq_iff]
  have f3 : (espectroEjemplo ℝ).FindBin (121.78 - 2 * 12) = 98 := by
    simp only [espectroEjemplo, TH1D.ofBins]; norm_num [Int.floor_eq_iff]
  have f4 : (espectroEjemplo ℝ).FindBin (121.78 + 2 * 12) = 146 := by
    simp only [espectroEjemplo, TH1D.ofBins]; norm_num [Int.floor_eq_iff]
  have i1 : (espectroEjemplo ℝ).Integral 110 134 = 2500 := by
    simp only [espectroEjemplo, TH1D.ofBins]; norm_num [sumaBins]
  have i2 : (espectroEjemplo ℝ).Integral 98 (110 - 1) = 120 := by
    simp only [espectroEjemplo, TH1D.ofBins]; norm_num [sumaBins]
  have i3 : (espectroEjemplo ℝ).Integral (134 + 1) 146 = 120 := by
    simp only [espectroEjemplo, TH1D.ofBins]; norm_num [sumaBins]
  have hs : Real.sqrt 2750 < 750 := by
    rw [Real.sqrt_lt' (by norm_num)]; norm_num
  simp only [AnalisisEu152.IntegrarFotopico, f1, f2, f3, f4, i1, i2, i3]
  norm_num [Dbl.fin_div_fin, Dbl.sqrt_fin, libmReal]
  linarith

/-- C4: for every non-null histogram, `IntegrarFotopico` (of `AnalisisEu152.cpp`
and of `AnalisisEu152_v4.cpp`) sets `ok` to true exactly when
`cuentas_netas > 0` and `cuentas_netas > 3 * error` hold as comparisons of
doubles, and to false otherwise; for finite net counts `n` and error `e` this
is `0 < n` and `3 * e < n`. -/
theorem C4_ok_tres_sigma {α : Type} [LinearOrderedField α] (m : Libm α)
    (h : TH1D α) (E s : α) (factor_norm : Dbl α) :
    let p := AnalisisEu152.IntegrarFotopico m (some h) E s
    let p4 := AnalisisEu152_v4.IntegrarFotopico m (some h) E s factor_norm
    (p.ok = (Dbl.gt p.cuentas_netas (Dbl.fin 0)
        && Dbl.gt p.cuentas_netas (Dbl.fin 3 * p.error)))
    ∧ (∀ n e : α, p.cuentas_netas = Dbl.fin n → p.error = Dbl.fin e →
        (p.ok = true ↔ 0 < n ∧ 3 * e < n))
    ∧ (p4.ok = (Dbl.gt p4.cuentas_netas (Dbl.fin 0)
        && Dbl.gt p4.cuentas_netas (Dbl.fin 3 * p4.error)))
    ∧ (∀ n e : α, p4.cuentas_netas = Dbl.fin n → p4.error = Dbl.fin e →
        (p4.ok = true ↔ 0 < n ∧ 3 * e < n)) := by
  intro p p4
  have h1 : p.ok = (Dbl.gt p.cuentas_netas (Dbl.fin 0)
      && Dbl.gt p.cuentas_netas (Dbl.fin 3 * p.error)) := rfl
  have h4 : p4.ok = (Dbl.gt p4.cuentas_netas (Dbl.fin 0)
      && Dbl.gt p4.cuentas_netas (Dbl.fin 3 * p4.error)) := rfl
  refine ⟨h1, ?_, h4, ?_⟩
  · intro n e hn he
    rw [h1, hn, he]
    simp
  · intro n e hn he
    rw [h4, hn, he]
    simp

/-- Witness of C4 on the sample spectrum: net counts 2250 and error
`sqrt 2750`, so `ok` is true. -/
theorem C4_ok_tres_sigma_witness :
    (AnalisisEu152.IntegrarFotopico libmReal (some (espectroEjemplo ℝ)) 121.78 12).ok = true
    ∧ (0 : ℝ) < 2250 ∧ 3 * Real.sqrt 2750 < 2250 := by
  have hC := (C4_ok_tres_sigma libmReal (espectroEjemplo ℝ) 121.78 12 (Dbl.fin 1)).2.1
    2250 (Real.sqrt 2750) (by rw [espectroEjemplo_pico_122]) (by rw [espectroEjemplo_pico_122])
  have hok : (AnalisisEu152.IntegrarFotopico libmReal (some (espectroEjemplo ℝ)) 121.78 12).ok
      = true := by rw [espectroEjemplo_pico_122]
  exact ⟨hok, hC.mp hok⟩

/-! ## Properties of the observables -/

/-- The net counts of the 121.78 keV peak of the sample spectrum, as
`IntegrarFotopico` of `AnalisisEu152_v4.cpp` integrates it. -/
theorem espectroEjemplo_netas_v4 (factor_norm : Dbl ℝ) :
    (AnalisisEu152_v4.IntegrarFotopico libmReal (some (espectroEjemplo ℝ)) 121.78 12
      factor_norm).cuentas_netas = Dbl.fin 2250 := by
  have f1 : (espectroEjemplo ℝ).FindBin (121.78 - 12) = 110 := by
    simp only [espectroEjemplo, TH1D.ofBins]; norm_num [Int.floor_eq_iff]
  have f2 : (espectroEjemplo ℝ).FindBin (121.78 + 12) = 134 := by
    simp only [espectroEjemplo, TH1D.ofBins]; norm_num [Int.floor_eq_iff]
  have f3 : (espectroEjemplo ℝ).FindBin (121.78 - 2 * 12) = 98 := by
    simp only [espectroEjemplo, TH1D.ofBins]; norm_num [Int.floor_eq_iff]
  have f4 : (espectroEjemplo ℝ).FindBin (121.78 + 2 * 12) = 146 := by
    simp only [espectroEjemplo, TH1D.ofBins]; norm_num [Int.floor_eq_iff]
  have i1 : (espectroEjemplo ℝ).Integral 110 134 = 2500 := by
    simp only [espectroEjemplo, TH1D.ofBins]; norm_num [sumaBins]
  have i2 : (espectroEjemplo ℝ).Integral 98 (110 - 1) = 120 := by
    simp only [espectroEjemplo, TH1D.ofBins]; norm_num [sumaBins]
  have i3 : (espectroEjemplo ℝ).Integral (134 + 1) 146 = 120 := by
    simp only [espectroEjemplo, TH1D.ofBins]; norm_num [sumaBins]
  simp only [AnalisisEu152_v4.IntegrarFotopico, f1, f2, f3, f4, i1, i2, i3]
  norm_num [Dbl.fin_div_fin]

/-- C5: in `AnalisisEu152_v4`, for every sample with a (finite) non-zero
normalisation factor, the transmission in each ROI is `T = netas_norm /
reference net counts = factor_norm * cuentas_netas / reference net counts` and
its uncertainty is `errT = T * sqrt((error / cuentas_netas)^2 + (reference
error / reference net counts)^2)`: the factor cancels in the relative error of
the sample. -/
theorem C5_transmision_normalizada {α : Type} [LinearOrderedField α] (m : Libm α)
    (h : TH1D α) (E_LOW ventana_low E_HIGH ventana_high : α)
    (ref_low ref_high : AnalisisEu152_v4.Pico α) (Q0 errQ0 : Dbl α) (conc : α) (esFino : Bool)
    (f : α) (hf : f ≠ 0) :
    let p_low := AnalisisEu152_v4.IntegrarFotopico m (some h) E_LOW ventana_low (Dbl.fin f)
    let p_high := AnalisisEu152_v4.IntegrarFotopico m (some h) E_HIGH ventana_high (Dbl.fin f)
    let res := AnalisisEu152_v4.calcularResultado m ref_low ref_high Q0 errQ0 conc esFino
      p_low p_high
    res.T_low = p_low.netas_norm / ref_low.cuentas_netas
    ∧ res.T_low = (Dbl.fin f * p_low.cuentas_netas) / ref_low.cuentas_netas
    ∧ res.errT_low = res.T_low * Dbl.sqrt m
        (Dbl.pow2 (p_low.error / p_low.cuentas_netas)
          + Dbl.pow2 (ref_low.error / ref_low.cuentas_netas))
    ∧ res.T_high = p_high.netas_norm / ref_high.cuentas_netas
    ∧ res.T_high = (Dbl.fin f * p_high.cuentas_netas) / ref_high.cuentas_netas
    ∧ res.errT_high = res.T_high * Dbl.sqrt m
        (Dbl.pow2 (p_high.error / p_high.cuentas_netas)
          + Dbl.pow2 (ref_high.error / ref_high.cuentas_netas)) := by
  intro p_low p_high res
  have klow : Dbl.pow2 (p_low.error_norm / p_low.netas_norm)
      = Dbl.pow2 (p_low.error / p_low.cuentas_netas) :=
    Dbl.pow2_div_mul_cancel p_low.error p_low.cuentas_netas f hf
  have khigh : Dbl.pow2 (p_high.error_norm / p_high.netas_norm)
      = Dbl.pow2 (p_high.error / p_high.cuentas_netas) :=
    Dbl.pow2_div_mul_cancel p_high.error p_high.cuentas_netas f hf
  refine ⟨rfl, ?_, ?_, rfl, ?_, ?_⟩
  · show p_low.cuentas_netas * Dbl.fin f / ref_low.cuentas_netas = _
    rw [Dbl.mul_swap]
  · show res.T_low * Dbl.sqrt m (Dbl.pow2 (p_low.error_norm / p_low.netas_norm)
      + Dbl.pow2 (ref_low.error / ref_low.cuentas_netas)) = _
    rw [klow]
  · show p_high.cuentas_netas * Dbl.fin f / ref_high.cuentas_netas = _
    rw [Dbl.mul_swap]
  · show res.T_high * Dbl.sqrt m (Dbl.pow2 (p_high.error_norm / p_high.netas_norm)
      + Dbl.pow2 (ref_high.error / ref_high.cuentas_netas)) = _
    rw [khigh]

/-- Witness of C5: the sample spectrum compared with itself as reference under
the normalisation factor 2 has the low-energy transmission `2 * 2250 / 2250`. -/
theorem C5_transmision_normalizada_witness :
    (2 : ℝ) ≠ 0
    ∧ (AnalisisEu152_v4.calcularResultado libmReal
        (AnalisisEu152_v4.IntegrarFotopico libmReal (some (espectroEjemplo ℝ)) 121.78 12
          (Dbl.fin 1))
        (AnalisisEu152_v4.IntegrarFotopico libmReal (some (espectroEjemplo ℝ)) 778.90 20
          (Dbl.fin 1))
        (Dbl.fin 1) (Dbl.fin 1) 0 true
        (AnalisisEu152_v4.IntegrarFotopico libmReal (some (espectroEjemplo ℝ)) 121.78 12
          (Dbl.fin 2))
        (AnalisisEu152_v4.IntegrarFotopico libmReal (some (espectroEjemplo ℝ)) 778.90 20
          (Dbl.fin 2))).T_low = Dbl.fin 2 := by
  have hC := (C5_transmision_normalizada libmReal (espectroEjemplo ℝ) 121.78 12 778.90 20
    (AnalisisEu152_v4.IntegrarFotopico libmReal (some (espectroEjemplo ℝ)) 121.78 12 (Dbl.fin 1))
    (AnalisisEu152_v4.IntegrarFotopico libmReal (some (espectroEjemplo ℝ)) 778.90 20 (Dbl.fin 1))
    (Dbl.fin 1) (Dbl.fin 1) 0 true 2 (by norm_num)).2.1
  refine ⟨by norm_num, ?_⟩
  rw [hC, espectroEjemplo_netas_v4, espectroEjemplo_netas_v4]
  norm_num [Dbl.fin_div_fin]

/-- The fields of one pass of the sample loop of `AnalisisEu152`. -/
theorem procesarMuestra_campos {α : Type} [LinearOrderedField α] (m : Libm α)
    (ref_low ref_high p_low p_high : AnalisisEu152.Pico α) :
    let r := AnalisisEu152.procesarMuestra m ref_low ref_high p_low p_high
    r.T_low = p_low.cuentas_netas / ref_low.cuentas_netas
    ∧ r.T_high = p_high.cuentas_netas / ref_high.cuentas_netas
    ∧ r.L_low = (if Dbl.gt r.T_low (Dbl.fin 0) then -(Dbl.log m r.T_low) else Dbl.fin 0)
    ∧ r.L_high = (if Dbl.gt r.T_high (Dbl.fin 0) then -(Dbl.log m r.T_high) else Dbl.fin 0)
    ∧ r.R = (if Dbl.gt r.L_high (Dbl.fin 0.001) then r.L_low / r.L_high else Dbl.fin 0)
    ∧ r.errR = (if Dbl.gt r.L_high (Dbl.fin 0.001) then
        Dbl.sqrt m (Dbl.pow2 (Dbl.fin (-1) / (p_low.cuentas_netas * r.L_high) * p_low.error)
          + Dbl.pow2 (Dbl.fin 1 / (ref_low.cuentas_netas * r.L_high) * ref_low.error)
          + Dbl.pow2 (r.R / (p_high.cuentas_netas * r.L_high) * p_high.error)
          + Dbl.pow2 ((-r.R) / (ref_high.cuentas_netas * r.L_high) * ref_high.error))
        else Dbl.fin 0) := by
  intro r
  simp only [r, AnalisisEu152.procesarMuestra]
  split_ifs <;> exact ⟨rfl, rfl, rfl, rfl, rfl, rfl⟩

/-- C6 (amended): for every sample whose transmission is `T <= 0`,
`AnalisisEu152` and `AnalisisEu152_v4` leave the attenuation `L` at its
initial value `0`, which is also the attenuation of a sample with `T = 1`
(`log 1 = 0`); `analisis_final` replaces every `T_Am < 1e-5` by `1e-5` and
produces `L_Am = -log(1e-5)`, the attenuation of a sample with `T_Am = 1e-5`. -/
theorem C6_atenuacion_T_no_positiva {α : Type} [LinearOrderedField α] (m : Libm α)
    (hlog : m.log 1 = 0)
    (ref_low ref_high p_low p_high : AnalisisEu152.Pico α)
    (ref_low4 ref_high4 p_low4 p_high4 : AnalisisEu152_v4.Pico α) (Q0 errQ0 : Dbl α)
    (conc : α) (esFino : Bool)
    (Am0 Na0 Am Na : analisis_final.Medicion α) :
    let r := AnalisisEu152.procesarMuestra m ref_low ref_high p_low p_high
    let r4 := AnalisisEu152_v4.calcularResultado m ref_low4 ref_high4 Q0 errQ0 conc esFino
      p_low4 p_high4
    let a := analisis_final.atenuaciones m Am0 Na0 Am Na
    (Dbl.le r.T_low (Dbl.fin 0) = true → r.L_low = Dbl.fin 0)
    ∧ (Dbl.le r.T_high (Dbl.fin 0) = true → r.L_high = Dbl.fin 0)
    ∧ (r.T_low = Dbl.fin 1 → r.L_low = Dbl.fin 0)
    ∧ (r.T_high = Dbl.fin 1 → r.L_high = Dbl.fin 0)
    ∧ (Dbl.le r4.T_low (Dbl.fin 0) = true → r4.L_low = Dbl.fin 0)
    ∧ (Dbl.le r4.T_high (Dbl.fin 0) = true → r4.L_high = Dbl.fin 0)
    ∧ (r4.T_low = Dbl.fin 1 → r4.L_low = Dbl.fin 0)
    ∧ (r4.T_high = Dbl.fin 1 → r4.L_high = Dbl.fin 0)
    ∧ (Dbl.lt (Am.cuentas / Am0.cuentas) (Dbl.fin 1e-5) = true →
        a.1 = Dbl.fin 1e-5 ∧ a.2.2.1 = -(Dbl.log m (Dbl.fin 1e-5)))
    ∧ (Am.cuentas / Am0.cuentas = Dbl.fin 1e-5 →
        a.1 = Dbl.fin 1e-5 ∧ a.2.2.1 = -(Dbl.log m (Dbl.fin 1e-5))) := by
  intro r r4 a
  have hone : -(Dbl.log m (Dbl.fin (1 : α))) = Dbl.fin 0 := by
    rw [Dbl.log_fin m 1 one_pos, hlog]; simp
  have hc := procesarMuestra_campos m ref_low ref_high p_low p_high
  obtain ⟨-, -, hL, hH, -, -⟩ := hc
  have hL4 : r4.L_low
      = (if Dbl.gt r4.T_low (Dbl.fin 0) then -(Dbl.log m r4.T_low) else Dbl.fin 0) := rfl
  have hH4 : r4.L_high
      = (if Dbl.gt r4.T_high (Dbl.fin 0) then -(Dbl.log m r4.T_high) else Dbl.fin 0) := rfl
  have ha1 : a.1 = (if Dbl.lt (Am.cuentas / Am0.cuentas) (Dbl.fin 1e-5) then Dbl.fin 1e-5
      else Am.cuentas / Am0.cuentas) := rfl
  have ha3 : a.2.2.1 = -(Dbl.log m a.1) := rfl
  refine ⟨?_, ?_, ?_, ?_, ?_, ?_, ?_, ?_, ?_, ?_⟩
  · intro hT
    show r.L_low = _
    rw [hL, Dbl.gt_eq_false_of_le hT]; simp
  · intro hT
    show r.L_high = _
    rw [hH, Dbl.gt_eq_false_of_le hT]; simp
  · intro hT
    show r.L_low = _
    rw [hL]
    show (if Dbl.gt r.T_low (Dbl.fin 0) = true then -(Dbl.log m r.T_low) else Dbl.fin 0) = _
    rw [hT, hone]; simp
  · intro hT
    show r.L_high = _
    rw [hH]
    show (if Dbl.gt r.T_high (Dbl.fin 0) = true then -(Dbl.log m r.T_high) else Dbl.fin 0) = _
    rw [hT, hone]; simp
  · intro hT
    rw [hL4, Dbl.gt_eq_false_of_le hT]; simp
  · intro hT
    rw [hH4, Dbl.gt_eq_false_of_le hT]; simp
  · intro hT
    rw [hL4, hT, hone]; simp
  · intro hT
    rw [hH4, hT, hone]; simp
  · intro hT
    have h1 : a.1 = Dbl.fin 1e-5 := by rw [ha1, if_pos hT]
    exact ⟨h1, by rw [ha3, h1]⟩
  · intro hT
    have h1 : a.1 = Dbl.fin 1e-5 := by rw [ha1, hT]; simp
    exact ⟨h1, by rw [ha3, h1]⟩

/-- Witness of C6 (amended): a peak of net counts `-9` against a reference of
2500 net counts (`T = -9/2500`) gets `L = 0` in `AnalisisEu152` and in
`AnalisisEu152_v4`; a measurement of 0 counts against 100000 gets
`L_Am = -log(1e-5)` in `analisis_final`. -/
theorem C6_atenuacion_T_no_positiva_witness :
    Real.log 1 = 0
    ∧ (AnalisisEu152.procesarMuestra libmReal (AnalisisEu152.refLow ℝ) (AnalisisEu152.refHigh ℝ)
        (AnalisisEu152.picoNegativo ℝ) (AnalisisEu152.muestraHigh ℝ)).L_low = Dbl.fin 0
    ∧ (AnalisisEu152_v4.calcularResultado libmReal (AnalisisEu152_v4.refLow ℝ)
        (AnalisisEu152_v4.refHigh ℝ) (Dbl.fin 1) (Dbl.fin 1) 1 true
        (AnalisisEu152_v4.picoNegativo ℝ) (AnalisisEu152_v4.muestraHigh ℝ)).L_low = Dbl.fin 0
    ∧ (analisis_final.atenuaciones libmReal ⟨Dbl.fin 100000, Dbl.fin 316⟩
        ⟨Dbl.fin 100000, Dbl.fin 316⟩ ⟨Dbl.fin 0, Dbl.fin 0⟩
        ⟨Dbl.fin 50000, Dbl.fin 223⟩).2.2.1 = -(Dbl.log libmReal (Dbl.fin 1e-5)) := by
  have hC := C6_atenuacion_T_no_positiva libmReal Real.log_one
    (AnalisisEu152.refLow ℝ) (AnalisisEu152.refHigh ℝ)
    (AnalisisEu152.picoNegativo ℝ) (AnalisisEu152.muestraHigh ℝ)
    (AnalisisEu152_v4.refLow ℝ) (AnalisisEu152_v4.refHigh ℝ)
    (AnalisisEu152_v4.picoNegativo ℝ) (AnalisisEu152_v4.muestraHigh ℝ) (Dbl.fin 1) (Dbl.fin 1)
    1 true ⟨Dbl.fin 100000, Dbl.fin 316⟩ ⟨Dbl.fin 100000, Dbl.fin 316⟩ ⟨Dbl.fin 0, Dbl.fin 0⟩
    ⟨Dbl.fin 50000, Dbl.fin 223⟩
  obtain ⟨h1, -, -, -, h5, -, -, -, h9, -⟩ := hC
  refine ⟨Real.log_one, h1 ?_, h5 ?_, (h9 ?_).2⟩
  · rw [(procesarMuestra_campos _ _ _ _ _).1]
    norm_num [AnalisisEu152.picoNegativo, AnalisisEu152.refLow, Dbl.fin_div_fin]
  · show Dbl.le ((AnalisisEu152_v4.picoNegativo ℝ).netas_norm
      / (AnalisisEu152_v4.refLow ℝ).cuentas_netas) (Dbl.fin 0) = true
    norm_num [AnalisisEu152_v4.picoNegativo, AnalisisEu152_v4.refLow, Dbl.fin_div_fin]
  · norm_num [Dbl.fin_div_fin]

/-- C6, counterexample: in `AnalisisEu152` a sample with transmission
`T = -9/2500 <= 0` and the reference compared with itself (`T = 1 > 0`) get the
same attenuation `L = 0`; in `analisis_final` a sample with `T_Am = 0` and a
sample with `T_Am = 1e-5 > 0` get the same attenuation, through the clamp of
`T_Am` to `1e-5`. -/
theorem C6_atenuacion_counterexample :
    (AnalisisEu152.procesarMuestra libmReal (AnalisisEu152.refLow ℝ) (AnalisisEu152.refHigh ℝ)
        (AnalisisEu152.picoNegativo ℝ) (AnalisisEu152.muestraHigh ℝ)).T_low
      = Dbl.fin (-9 / 2500)
    ∧ (AnalisisEu152.procesarMuestra libmReal (AnalisisEu152.refLow ℝ) (AnalisisEu152.refHigh ℝ)
        (AnalisisEu152.refLow ℝ) (AnalisisEu152.refHigh ℝ)).T_low = Dbl.fin 1
    ∧ (AnalisisEu152.procesarMuestra libmReal (AnalisisEu152.refLow ℝ) (AnalisisEu152.refHigh ℝ)
        (AnalisisEu152.picoNegativo ℝ) (AnalisisEu152.muestraHigh ℝ)).L_low
      = (AnalisisEu152.procesarMuestra libmReal (AnalisisEu152.refLow ℝ)
          (AnalisisEu152.refHigh ℝ) (AnalisisEu152.refLow ℝ) (AnalisisEu152.refHigh ℝ)).L_low
    ∧ (analisis_final.atenuaciones libmReal ⟨Dbl.fin 100000, Dbl.fin 316⟩
        ⟨Dbl.fin 100000, Dbl.fin 316⟩ ⟨Dbl.fin 0, Dbl.fin 0⟩
        ⟨Dbl.fin 50000, Dbl.fin 223⟩).2.2.1
      = (analisis_final.atenuaciones libmReal ⟨Dbl.fin 100000, Dbl.fin 316⟩
          ⟨Dbl.fin 100000, Dbl.fin 316⟩ ⟨Dbl.fin 1, Dbl.fin 1⟩
          ⟨Dbl.fin 50000, Dbl.fin 223⟩).2.2.1 := by
  have hT1 := (procesarMuestra_campos libmReal (AnalisisEu152.refLow ℝ)
    (AnalisisEu152.refHigh ℝ) (AnalisisEu152.picoNegativo ℝ) (AnalisisEu152.muestraHigh ℝ)).1
  have hL1 := (procesarMuestra_campos libmReal (AnalisisEu152.refLow ℝ)
    (AnalisisEu152.refHigh ℝ) (AnalisisEu152.picoNegativo ℝ) (AnalisisEu152.muestraHigh ℝ)).2.2.1
  have hT2 := (procesarMuestra_campos libmReal (AnalisisEu152.refLow ℝ)
    (AnalisisEu152.refHigh ℝ) (AnalisisEu152.refLow ℝ) (AnalisisEu152.refHigh ℝ)).1
  have hL2 := (procesarMuestra_campos libmReal (AnalisisEu152.refLow ℝ)
    (AnalisisEu152.refHigh ℝ) (AnalisisEu152.refLow ℝ) (AnalisisEu152.refHigh ℝ)).2.2.1
  have e1 : (AnalisisEu152.picoNegativo ℝ).cuentas_netas / (AnalisisEu152.refLow ℝ).cuentas_netas
      = Dbl.fin (-9 / 2500) := by
    norm_num [AnalisisEu152.picoNegativo, AnalisisEu152.refLow, Dbl.fin_div_fin]
  have e2 : (AnalisisEu152.refLow ℝ).cuentas_netas / (AnalisisEu152.refLow ℝ).cuentas_netas
      = Dbl.fin 1 := by
    norm_num [AnalisisEu152.refLow, Dbl.fin_div_fin]
  simp only [] at hT1 hL1 hT2 hL2
  rw [e1] at hT1
  rw [e2] at hT2
  rw [hT1] at hL1
  rw [hT2] at hL2
  refine ⟨hT1, hT2, ?_, ?_⟩
  · rw [hL1, hL2]
    norm_num [Dbl.log_fin, libmReal]
  · simp only [analisis_final.atenuaciones]
    norm_num [Dbl.fin_div_fin]

/-- The ratio fields of one pass of the sample loop of `AnalisisEu152_v4`. -/
theorem calcularResultado_R {α : Type} [LinearOrderedField α] (m : Libm α)
    (ref_low ref_high p_low p_high : AnalisisEu152_v4.Pico α) (Q0 errQ0 : Dbl α)
    (conc : α) (esFino : Bool) :
    let r := AnalisisEu152_v4.calcularResultado m ref_low ref_high Q0 errQ0 conc esFino
      p_low p_high
    r.R = (if Dbl.gt r.L_high (Dbl.fin 0.001) then r.L_low / r.L_high else Dbl.fin 0)
    ∧ r.errR = (if Dbl.gt r.L_high (Dbl.fin 0.001) then
        Dbl.sqrt m (Dbl.pow2 (Dbl.fin (-1) / (p_low.netas_norm * r.L_high) * p_low.error_norm)
          + Dbl.pow2 (Dbl.fin 1 / (ref_low.cuentas_netas * r.L_high) * ref_low.error)
          + Dbl.pow2 (r.R / (p_high.netas_norm * r.L_high) * p_high.error_norm)
          + Dbl.pow2 ((-r.R) / (ref_high.cuentas_netas * r.L_high) * ref_high.error))
        else Dbl.fin 0) := by
  intro r
  simp only [r, AnalisisEu152_v4.calcularResultado]
  split_ifs <;> exact ⟨rfl, rfl⟩

/-- C7: in `AnalisisEu152` and `AnalisisEu152_v4`, for every sample the ratio is
`R = L_low / L_high` when `L_high > 0.001`, and otherwise (in particular when
`L_high <= 0.001`) `R = 0` with `errR = 0`, no quotient by `L_high` entering
the result. -/
theorem C7_ratio_con_piso {α : Type} [LinearOrderedField α] (m : Libm α)
    (ref_low ref_high p_low p_high : AnalisisEu152.Pico α)
    (ref_low4 ref_high4 p_low4 p_high4 : AnalisisEu152_v4.Pico α) (Q0 errQ0 : Dbl α)
    (conc : α) (esFino : Bool) :
    let r := AnalisisEu152.procesarMuestra m ref_low ref_high p_low p_high
    let r4 := AnalisisEu152_v4.calcularResultado m ref_low4 ref_high4 Q0 errQ0 conc esFino
      p_low4 p_high4
    (Dbl.gt r.L_high (Dbl.fin 0.001) = true → r.R = r.L_low / r.L_high)
    ∧ (Dbl.gt r.L_high (Dbl.fin 0.001) = false → r.R = Dbl.fin 0 ∧ r.errR = Dbl.fin 0)
    ∧ (Dbl.le r.L_high (Dbl.fin 0.001) = true → r.R = Dbl.fin 0 ∧ r.errR = Dbl.fin 0)
    ∧ (Dbl.gt r4.L_high (Dbl.fin 0.001) = true → r4.R = r4.L_low / r4.L_high)
    ∧ (Dbl.gt r4.L_high (Dbl.fin 0.001) = false → r4.R = Dbl.fin 0 ∧ r4.errR = Dbl.fin 0)
    ∧ (Dbl.le r4.L_high (Dbl.fin 0.001) = true → r4.R = Dbl.fin 0 ∧ r4.errR = Dbl.fin 0) := by
  intro r r4
  obtain ⟨-, -, -, -, hR, hE⟩ := procesarMuestra_campos m ref_low ref_high p_low p_high
  obtain ⟨hR4, hE4⟩ := calcularResultado_R m ref_low4 ref_high4 p_low4 p_high4 Q0 errQ0
    conc esFino
  have hfalse : Dbl.gt r.L_high (Dbl.fin 0.001) = false → r.R = Dbl.fin 0 ∧ r.errR = Dbl.fin 0 := by
    intro hg
    constructor
    · show r.R = _
      rw [hR]
      show (if Dbl.gt r.L_high (Dbl.fin 0.001) = true then _ else _) = _
      rw [hg]; simp
    · show r.errR = _
      rw [hE]
      show (if Dbl.gt r.L_high (Dbl.fin 0.001) = true then _ else _) = _
      rw [hg]; simp
  have hfalse4 : Dbl.gt r4.L_high (Dbl.fin 0.001) = false →
      r4.R = Dbl.fin 0 ∧ r4.errR = Dbl.fin 0 := by
    intro hg
    constructor
    · show r4.R = _
      rw [hR4]
      show (if Dbl.gt r4.L_high (Dbl.fin 0.001) = true then _ else _) = _
      rw [hg]; simp
    · show r4.errR = _
      rw [hE4]
      show (if Dbl.gt r4.L_high (Dbl.fin 0.001) = true then _ else _) = _
      rw [hg]; simp
  refine ⟨?_, hfalse, fun hle => hfalse (Dbl.gt_eq_false_of_le hle), ?_, hfalse4,
    fun hle => hfalse4 (Dbl.gt_eq_false_of_le hle)⟩
  · intro hg
    show r.R = _
    rw [hR]
    show (if Dbl.gt r.L_high (Dbl.fin 0.001) = true then _ else _) = _
    rw [hg]; simp
  · intro hg
    show r4.R = _
    rw [hR4]
    show (if Dbl.gt r4.L_high (Dbl.fin 0.001) = true then _ else _) = _
    rw [hg]; simp

/-- The attenuations of the doped sample peaks against the reference peaks in
`AnalisisEu152`: `T_high = 49/64`, `L_low = -log(9/25)`, `L_high = -log(49/64)`,
the latter above the floor `0.001`. -/
theorem muestra_atenuaciones :
    (AnalisisEu152.procesarMuestra libmReal (AnalisisEu152.refLow ℝ) (AnalisisEu152.refHigh ℝ)
        (AnalisisEu152.muestraLow ℝ) (AnalisisEu152.muestraHigh ℝ)).L_low
      = Dbl.fin (-(Real.log (9 / 25)))
    ∧ (AnalisisEu152.procesarMuestra libmReal (AnalisisEu152.refLow ℝ) (AnalisisEu152.refHigh ℝ)
        (AnalisisEu152.muestraLow ℝ) (AnalisisEu152.muestraHigh ℝ)).L_high
      = Dbl.fin (-(Real.log (49 / 64)))
    ∧ (0.001 : ℝ) < -(Real.log (49 / 64)) := by
  obtain ⟨hTl, hTh, hL, hH, -, -⟩ := procesarMuestra_campos libmReal (AnalisisEu152.refLow ℝ)
    (AnalisisEu152.refHigh ℝ) (AnalisisEu152.muestraLow ℝ) (AnalisisEu152.muestraHigh ℝ)
  have e1 : (AnalisisEu152.muestraLow ℝ).cuentas_netas / (AnalisisEu152.refLow ℝ).cuentas_netas
      = Dbl.fin (9 / 25) := by
    norm_num [AnalisisEu152.muestraLow, AnalisisEu152.refLow, Dbl.fin_div_fin]
  have e2 : (AnalisisEu152.muestraHigh ℝ).cuentas_netas
      / (AnalisisEu152.refHigh ℝ).cuentas_netas = Dbl.fin (49 / 64) := by
    norm_num [AnalisisEu152.muestraHigh, AnalisisEu152.refHigh, Dbl.fin_div_fin]
  rw [e1] at hTl
  rw [e2] at hTh
  rw [hTl] at hL
  rw [hTh] at hH
  have hlog : Real.log (49 / 64) ≤ 49 / 64 - 1 := Real.log_le_sub_one_of_pos (by norm_num)
  refine ⟨?_, ?_, by linarith⟩
  · rw [hL]; norm_num [Dbl.log_fin, libmReal]
  · rw [hH]; norm_num [Dbl.log_fin, libmReal]

/-- Witness of C7: the doped sample has `L_high = -log(49/64) > 0.001` and gets
`R = L_low / L_high`; the reference compared with itself has `L_high = 0` and
gets `R = 0`, `errR = 0`. -/
theorem C7_ratio_con_piso_witness :
    (AnalisisEu152.procesarMuestra libmReal (AnalisisEu152.refLow ℝ) (AnalisisEu152.refHigh ℝ)
        (AnalisisEu152.muestraLow ℝ) (AnalisisEu152.muestraHigh ℝ)).R
      = Dbl.fin (-(Real.log (9 / 25))) / Dbl.fin (-(Real.log (49 / 64)))
    ∧ (AnalisisEu152.procesarMuestra libmReal (AnalisisEu152.refLow ℝ) (AnalisisEu152.refHigh ℝ)
        (AnalisisEu152.refLow ℝ) (AnalisisEu152.refHigh ℝ)).R = Dbl.fin 0
    ∧ (AnalisisEu152.procesarMuestra libmReal (AnalisisEu152.refLow ℝ) (AnalisisEu152.refHigh ℝ)
        (AnalisisEu152.refLow ℝ) (AnalisisEu152.refHigh ℝ)).errR = Dbl.fin 0 := by
  obtain ⟨hl, hh, hpos⟩ := muestra_atenuaciones
  have hC := (C7_ratio_con_piso libmReal (AnalisisEu152.refLow ℝ) (AnalisisEu152.refHigh ℝ)
    (AnalisisEu152.muestraLow ℝ) (AnalisisEu152.muestraHigh ℝ)
    (AnalisisEu152_v4.refLow ℝ) (AnalisisEu152_v4.refHigh ℝ)
    (AnalisisEu152_v4.muestraLow ℝ) (AnalisisEu152_v4.muestraHigh ℝ) (Dbl.fin 1) (Dbl.fin 1)
    1 true).1
  have hD := (C7_ratio_con_piso libmReal (AnalisisEu152.refLow ℝ) (AnalisisEu152.refHigh ℝ)
    (AnalisisEu152.refLow ℝ) (AnalisisEu152.refHigh ℝ)
    (AnalisisEu152_v4.refLow ℝ) (AnalisisEu152_v4.refHigh ℝ)
    (AnalisisEu152_v4.muestraLow ℝ) (AnalisisEu152_v4.muestraHigh ℝ) (Dbl.fin 1) (Dbl.fin 1)
    1 true).2.2.1
  obtain ⟨-, hTh, -, hH, -, -⟩ := procesarMuestra_campos libmReal (AnalisisEu152.refLow ℝ)
    (AnalisisEu152.refHigh ℝ) (AnalisisEu152.refLow ℝ) (AnalisisEu152.refHigh ℝ)
  have e2 : (AnalisisEu152.refHigh ℝ).cuentas_netas / (AnalisisEu152.refHigh ℝ).cuentas_netas
      = Dbl.fin 1 := by
    norm_num [AnalisisEu152.refHigh, Dbl.fin_div_fin]
  rw [e2] at hTh
  rw [hTh] at hH
  have hH0 : (AnalisisEu152.procesarMuestra libmReal (AnalisisEu152.refLow ℝ)
      (AnalisisEu152.refHigh ℝ) (AnalisisEu152.refLow ℝ) (AnalisisEu152.refHigh ℝ)).L_high
      = Dbl.fin 0 := by
    rw [hH]; norm_num [Dbl.log_fin, libmReal]
  refine ⟨?_, hD ?_⟩
  · have := hC (by rw [hh]; simpa using hpos)
    rw [this, hl, hh]
  · rw [hH0]; norm_num

/-- The four partial derivatives of `R(I, I0, J, J0) = log(I0/I) / log(J0/J)` at
positive arguments with `log(J0/J) ≠ 0`. -/
theorem derivadas_R (I I0 J J0 : ℝ) (hI : 0 < I) (hI0 : 0 < I0) (hJ : 0 < J) (hJ0 : 0 < J0)
    (hL : Real.log (J0 / J) ≠ 0) :
    HasDerivAt (fun x => Real.log (I0 / x) / Real.log (J0 / J))
        (-1 / (I * Real.log (J0 / J))) I
    ∧ HasDerivAt (fun x => Real.log (x / I) / Real.log (J0 / J))
        (1 / (I0 * Real.log (J0 / J))) I0
    ∧ HasDerivAt (fun x => Real.log (I0 / I) / Real.log (J0 / x))
        (Real.log (I0 / I) / Real.log (J0 / J) / (J * Real.log (J0 / J))) J
    ∧ HasDerivAt (fun x => Real.log (I0 / I) / Real.log (x / J))
        (-(Real.log (I0 / I) / Real.log (J0 / J)) / (J0 * Real.log (J0 / J))) J0 := by
  have hIne := hI.ne'
  have hI0ne := hI0.ne'
  have hJne := hJ.ne'
  have hJ0ne := hJ0.ne'
  have inv_at : ∀ c a : ℝ, a ≠ 0 → HasDerivAt (fun x => c / x) (-c / a ^ 2) a := by
    intro c a ha
    have h := (hasDerivAt_inv ha).const_mul c
    have e : (fun x => c / x) = fun x => c * x⁻¹ := by
      funext x; rw [div_eq_mul_inv]
    rw [e]
    convert h using 1
    field_simp
  have lin_at : ∀ c a : ℝ, c ≠ 0 → HasDerivAt (fun x => x / c) (1 / c) a := by
    intro c a _
    simpa using (hasDerivAt_id a).div_const c
  have e1 : ∀ L : ℝ, L ≠ 0 → -I0 / I ^ 2 / (I0 / I) / L = -1 / (I * L) := by
    intro L hL'
    field_simp
    ring
  have e2 : ∀ L : ℝ, L ≠ 0 → 1 / I / (I0 / I) / L = 1 / (I0 * L) := by
    intro L hL'
    field_simp
  have e3 : ∀ A L : ℝ, L ≠ 0 →
      (0 * L - A * (-J0 / J ^ 2 / (J0 / J))) / L ^ 2 = A / L / (J * L) := by
    intro A L hL'
    field_simp
    ring
  have e4 : ∀ A L : ℝ, L ≠ 0 →
      (0 * L - A * (1 / J / (J0 / J))) / L ^ 2 = -(A / L) / (J0 * L) := by
    intro A L hL'
    have hx : (1 : ℝ) / J / (J0 / J) = 1 / J0 := by field_simp
    rw [hx, zero_mul, zero_sub, neg_div, neg_div]
    congr 1
    field_simp
    left
    ring
  refine ⟨?_, ?_, ?_, ?_⟩
  · have h := ((inv_at I0 I hIne).log (div_ne_zero hI0ne hIne)).div_const (Real.log (J0 / J))
    rw [e1 _ hL] at h
    exact h
  · have h := ((lin_at I I0 hIne).log (div_ne_zero hI0ne hIne)).div_const (Real.log (J0 / J))
    rw [e2 _ hL] at h
    exact h
  · have hg := (inv_at J0 J hJne).log (div_ne_zero hJ0ne hJne)
    have h := (hasDerivAt_const J (Real.log (I0 / I))).div hg hL
    rw [e3 _ _ hL] at h
    exact h
  · have hg := (lin_at J J0 hJne).log (div_ne_zero hJ0ne hJne)
    have h := (hasDerivAt_const J0 (Real.log (I0 / I))).div hg hL
    rw [e4 _ _ hL] at h
    exact h

/-- The ratio `R` and its uncertainty in `AnalisisEu152_v4` for positive finite
(normalised) net counts `I`, `J`, reference net counts `I0`, `J0` and
`log(J0/J) > 0.001`. -/
theorem calcularResultado_R_finito (I I0 J J0 dI dI0 dJ dJ0 : ℝ)
    (hI : 0 < I) (hI0 : 0 < I0) (hJ : 0 < J) (hJ0 : 0 < J0)
    (hL : 0.001 < Real.log (J0 / J))
    (ref_low ref_high p_low p_high : AnalisisEu152_v4.Pico ℝ) (Q0 errQ0 : Dbl ℝ)
    (conc : ℝ) (esFino : Bool)
    (hpl : p_low.netas_norm = Dbl.fin I) (hel : p_low.error_norm = Dbl.fin dI)
    (hrl : ref_low.cuentas_netas = Dbl.fin I0) (herl : ref_low.error = Dbl.fin dI0)
    (hph : p_high.netas_norm = Dbl.fin J) (heh : p_high.error_norm = Dbl.fin dJ)
    (hrh : ref_high.cuentas_netas = Dbl.fin J0) (herh : ref_high.error = Dbl.fin dJ0) :
    let r := AnalisisEu152_v4.calcularResultado libmReal ref_low ref_high Q0 errQ0 conc esFino
      p_low p_high
    let L : ℝ := Real.log (J0 / J)
    let Rv : ℝ := Real.log (I0 / I) / Real.log (J0 / J)
    r.L_high = Dbl.fin L ∧ r.R = Dbl.fin Rv
    ∧ Dbl.fin (-1) / (p_low.netas_norm * r.L_high) = Dbl.fin (-1 / (I * L))
    ∧ Dbl.fin 1 / (ref_low.cuentas_netas * r.L_high) = Dbl.fin (1 / (I0 * L))
    ∧ r.R / (p_high.netas_norm * r.L_high) = Dbl.fin (Rv / (J * L))
    ∧ (-r.R) / (ref_high.cuentas_netas * r.L_high) = Dbl.fin (-Rv / (J0 * L))
    ∧ r.errR = Dbl.fin (Real.sqrt ((-1 / (I * L) * dI) ^ 2 + (1 / (I0 * L) * dI0) ^ 2
        + (Rv / (J * L) * dJ) ^ 2 + (-Rv / (J0 * L) * dJ0) ^ 2)) := by
  intro r L Rv
  have hLpos : 0 < L := lt_trans (by norm_num) hL
  have hLne : L ≠ 0 := hLpos.ne'
  obtain ⟨hR, hE⟩ := calcularResultado_R libmReal ref_low ref_high p_low p_high Q0 errQ0
    conc esFino
  have hTl : r.T_low = p_low.netas_norm / ref_low.cuentas_netas := rfl
  have hTh : r.T_high = p_high.netas_norm / ref_high.cuentas_netas := rfl
  have hLl : r.L_low
      = (if Dbl.gt r.T_low (Dbl.fin 0) then -(Dbl.log libmReal r.T_low) else Dbl.fin 0) := rfl
  have hLh : r.L_high
      = (if Dbl.gt r.T_high (Dbl.fin 0) then -(Dbl.log libmReal r.T_high) else Dbl.fin 0) := rfl
  have hT1 : r.T_low = Dbl.fin (I / I0) := by
    rw [hTl, hpl, hrl, Dbl.fin_div_fin _ _ hI0.ne']
  have hT2 : r.T_high = Dbl.fin (J / J0) := by
    rw [hTh, hph, hrh, Dbl.fin_div_fin _ _ hJ0.ne']
  have hlogl : -(Real.log (I / I0)) = Real.log (I0 / I) := by
    rw [← Real.log_inv, inv_div]
  have hlogh : -(Real.log (J / J0)) = L := by
    show -(Real.log (J / J0)) = Real.log (J0 / J)
    rw [← Real.log_inv, inv_div]
  have hL1 : r.L_low = Dbl.fin (Real.log (I0 / I)) := by
    rw [hLl, hT1, Dbl.gt_fin_fin, decide_eq_true (div_pos hI hI0), if_pos rfl,
      Dbl.log_fin _ _ (div_pos hI hI0), Dbl.neg_fin]
    show Dbl.fin (-(Real.log (I / I0))) = _
    rw [hlogl]
  have hL2 : r.L_high = Dbl.fin L := by
    rw [hLh, hT2, Dbl.gt_fin_fin, decide_eq_true (div_pos hJ hJ0), if_pos rfl,
      Dbl.log_fin _ _ (div_pos hJ hJ0), Dbl.neg_fin]
    show Dbl.fin (-(Real.log (J / J0))) = _
    rw [hlogh]
  have hgt : Dbl.gt r.L_high (Dbl.fin 0.001) = true := by
    rw [hL2, Dbl.gt_fin_fin]
    exact decide_eq_true hL
  have hRv : r.R = Dbl.fin Rv := by
    rw [hR, if_pos hgt, hL1, hL2, Dbl.fin_div_fin _ _ hLne]
  have hIL : I * L ≠ 0 := mul_ne_zero hI.ne' hLne
  have hI0L : I0 * L ≠ 0 := mul_ne_zero hI0.ne' hLne
  have hJL : J * L ≠ 0 := mul_ne_zero hJ.ne' hLne
  have hJ0L : J0 * L ≠ 0 := mul_ne_zero hJ0.ne' hLne
  have c1 : Dbl.fin (-1) / (p_low.netas_norm * r.L_high) = Dbl.fin (-1 / (I * L)) := by
    rw [hpl, hL2, Dbl.fin_mul_fin, Dbl.fin_div_fin _ _ hIL]
  have c2 : Dbl.fin 1 / (ref_low.cuentas_netas * r.L_high) = Dbl.fin (1 / (I0 * L)) := by
    rw [hrl, hL2, Dbl.fin_mul_fin, Dbl.fin_div_fin _ _ hI0L]
  have c3 : r.R / (p_high.netas_norm * r.L_high) = Dbl.fin (Rv / (J * L)) := by
    rw [hRv, hph, hL2, Dbl.fin_mul_fin, Dbl.fin_div_fin _ _ hJL]
  have c4 : (-r.R) / (ref_high.cuentas_netas * r.L_high) = Dbl.fin (-Rv / (J0 * L)) := by
    rw [hRv, hrh, hL2, Dbl.neg_fin, Dbl.fin_mul_fin, Dbl.fin_div_fin _ _ hJ0L]
  refine ⟨hL2, hRv, c1, c2, c3, c4, ?_⟩
  rw [hE, if_pos hgt, c1, c2, c3, c4, hel, herl, heh, herh]
  simp only [Dbl.fin_mul_fin, Dbl.pow2, Dbl.fin_add_fin]
  rw [Dbl.sqrt_fin _ _ (add_nonneg (add_nonneg (add_nonneg (mul_self_nonneg _)
    (mul_self_nonneg _)) (mul_self_nonneg _)) (mul_self_nonneg _))]
  simp only [libmReal]
  congr 2
  ring

/-- C8: for all positive net counts `I`, `I0`, `J`, `J0` with
`L_high = log(J0/J) > 0.001` (and finite count errors), the sample loops of
`AnalisisEu152` and of `AnalisisEu152_v4` (there on the normalised counts)
have `L_high = log(J0/J)` and `R = log(I0/I) / log(J0/J)`, the four
coefficients they compute are `-1/(I*L_high)`, `1/(I0*L_high)`,
`R/(J*L_high)` and `-R/(J0*L_high)`, these are the partial derivatives of
`R(I, I0, J, J0) = log(I0/I) / log(J0/J)` in `I`, `I0`, `J` and `J0`, and
`errR` is the square root of the sum of the squares of each derivative times
the corresponding count error. -/
theorem C8_derivadas_parciales_R (I I0 J J0 dI dI0 dJ dJ0 : ℝ)
    (hI : 0 < I) (hI0 : 0 < I0) (hJ : 0 < J) (hJ0 : 0 < J0)
    (hL : 0.001 < Real.log (J0 / J))
    (ref_low ref_high p_low p_high : AnalisisEu152.Pico ℝ)
    (hpl : p_low.cuentas_netas = Dbl.fin I) (hel : p_low.error = Dbl.fin dI)
    (hrl : ref_low.cuentas_netas = Dbl.fin I0) (herl : ref_low.error = Dbl.fin dI0)
    (hph : p_high.cuentas_netas = Dbl.fin J) (heh : p_high.error = Dbl.fin dJ)
    (hrh : ref_high.cuentas_netas = Dbl.fin J0) (herh : ref_high.error = Dbl.fin dJ0)
    (ref_low4 ref_high4 p_low4 p_high4 : AnalisisEu152_v4.Pico ℝ) (Q0 errQ0 : Dbl ℝ)
    (conc : ℝ) (esFino : Bool)
    (hpl4 : p_low4.netas_norm = Dbl.fin I) (hel4 : p_low4.error_norm = Dbl.fin dI)
    (hrl4 : ref_low4.cuentas_netas = Dbl.fin I0) (herl4 : ref_low4.error = Dbl.fin dI0)
    (hph4 : p_high4.netas_norm = Dbl.fin J) (heh4 : p_high4.error_norm = Dbl.fin dJ)
    (hrh4 : ref_high4.cuentas_netas = Dbl.fin J0) (herh4 : ref_high4.error = Dbl.fin dJ0) :
    let r := AnalisisEu152.procesarMuestra libmReal ref_low ref_high p_low p_high
    let r4 := AnalisisEu152_v4.calcularResultado libmReal ref_low4 ref_high4 Q0 errQ0 conc
      esFino p_low4 p_high4
    let L : ℝ := Real.log (J0 / J)
    let Rv : ℝ := Real.log (I0 / I) / Real.log (J0 / J)
    r.L_high = Dbl.fin L ∧ r.R = Dbl.fin Rv
    ∧ Dbl.fin (-1) / (p_low.cuentas_netas * r.L_high) = Dbl.fin (-1 / (I * L))
    ∧ Dbl.fin 1 / (ref_low.cuentas_netas * r.L_high) = Dbl.fin (1 / (I0 * L))
    ∧ r.R / (p_high.cuentas_netas * r.L_high) = Dbl.fin (Rv / (J * L))
    ∧ (-r.R) / (ref_high.cuentas_netas * r.L_high) = Dbl.fin (-Rv / (J0 * L))
    ∧ HasDerivAt (fun x => Real.log (I0 / x) / Real.log (J0 / J)) (-1 / (I * L)) I
    ∧ HasDerivAt (fun x => Real.log (x / I) / Real.log (J0 / J)) (1 / (I0 * L)) I0
    ∧ HasDerivAt (fun x => Real.log (I0 / I) / Real.log (J0 / x)) (Rv / (J * L)) J
    ∧ HasDerivAt (fun x => Real.log (I0 / I) / Real.log (x / J)) (-Rv / (J0 * L)) J0
    ∧ r.errR = Dbl.fin (Real.sqrt ((-1 / (I * L) * dI) ^ 2 + (1 / (I0 * L) * dI0) ^ 2
        + (Rv / (J * L) * dJ) ^ 2 + (-Rv / (J0 * L) * dJ0) ^ 2))
    ∧ r4.L_high = Dbl.fin L ∧ r4.R = Dbl.fin Rv
    ∧ Dbl.fin (-1) / (p_low4.netas_norm * r4.L_high) = Dbl.fin (-1 / (I * L))
    ∧ Dbl.fin 1 / (ref_low4.cuentas_netas * r4.L_high) = Dbl.fin (1 / (I0 * L))
    ∧ r4.R / (p_high4.netas_norm * r4.L_high) = Dbl.fin (Rv / (J * L))
    ∧ (-r4.R) / (ref_high4.cuentas_netas * r4.L_high) = Dbl.fin (-Rv / (J0 * L))
    ∧ r4.errR = Dbl.fin (Real.sqrt ((-1 / (I * L) * dI) ^ 2 + (1 / (I0 * L) * dI0) ^ 2
        + (Rv / (J * L) * dJ) ^ 2 + (-Rv / (J0 * L) * dJ0) ^ 2)) := by
  intro r r4 L Rv
  have h4 := calcularResultado_R_finito I I0 J J0 dI dI0 dJ dJ0 hI hI0 hJ hJ0 hL
    ref_low4 ref_high4 p_low4 p_high4 Q0 errQ0 conc esFino hpl4 hel4 hrl4 herl4 hph4 heh4
    hrh4 herh4
  have hLpos : 0 < L := lt_trans (by norm_num) hL
  have hLne : L ≠ 0 := hLpos.ne'
  obtain ⟨hTl, hTh, hLl, hLh, hR, hE⟩ :=
    procesarMuestra_campos libmReal ref_low ref_high p_low p_high
  have hT1 : r.T_low = Dbl.fin (I / I0) := by
    rw [hTl, hpl, hrl, Dbl.fin_div_fin _ _ hI0.ne']
  have hT2 : r.T_high = Dbl.fin (J / J0) := by
    rw [hTh, hph, hrh, Dbl.fin_div_fin _ _ hJ0.ne']
  have hlogl : -(Real.log (I / I0)) = Real.log (I0 / I) := by
    rw [← Real.log_inv, inv_div]
  have hlogh : -(Real.log (J / J0)) = L := by
    show -(Real.log (J / J0)) = Real.log (J0 / J)
    rw [← Real.log_inv, inv_div]
  have hL1 : r.L_low = Dbl.fin (Real.log (I0 / I)) := by
    rw [hLl, hT1, Dbl.gt_fin_fin, decide_eq_true (div_pos hI hI0), if_pos rfl,
      Dbl.log_fin _ _ (div_pos hI hI0), Dbl.neg_fin]
    show Dbl.fin (-(Real.log (I / I0))) = _
    rw [hlogl]
  have hL2 : r.L_high = Dbl.fin L := by
    rw [hLh, hT2, Dbl.gt_fin_fin, decide_eq_true (div_pos hJ hJ0), if_pos rfl,
      Dbl.log_fin _ _ (div_pos hJ hJ0), Dbl.neg_fin]
    show Dbl.fin (-(Real.log (J / J0))) = _
    rw [hlogh]
  have hgt : Dbl.gt r.L_high (Dbl.fin 0.001) = true := by
    rw [hL2, Dbl.gt_fin_fin]
    exact decide_eq_true hL
  have hRv : r.R = Dbl.fin Rv := by
    rw [hR, if_pos hgt, hL1, hL2, Dbl.fin_div_fin _ _ hLne]
  have hIL : I * L ≠ 0 := mul_ne_zero hI.ne' hLne
  have hI0L : I0 * L ≠ 0 := mul_ne_zero hI0.ne' hLne
  have hJL : J * L ≠ 0 := mul_ne_zero hJ.ne' hLne
  have hJ0L : J0 * L ≠ 0 := mul_ne_zero hJ0.ne' hLne
  have c1 : Dbl.fin (-1) / (p_low.cuentas_netas * r.L_high) = Dbl.fin (-1 / (I * L)) := by
    rw [hpl, hL2, Dbl.fin_mul_fin, Dbl.fin_div_fin _ _ hIL]
  have c2 : Dbl.fin 1 / (ref_low.cuentas_netas * r.L_high) = Dbl.fin (1 / (I0 * L)) := by
    rw [hrl, hL2, Dbl.fin_mul_fin, Dbl.fin_div_fin _ _ hI0L]
  have c3 : r.R / (p_high.cuentas_netas * r.L_high) = Dbl.fin (Rv / (J * L)) := by
    rw [hRv, hph, hL2, Dbl.fin_mul_fin, Dbl.fin_div_fin _ _ hJL]
  have c4 : (-r.R) / (ref_high.cuentas_netas * r.L_high) = Dbl.fin (-Rv / (J0 * L)) := by
    rw [hRv, hrh, hL2, Dbl.neg_fin, Dbl.fin_mul_fin, Dbl.fin_div_fin _ _ hJ0L]
  obtain ⟨d1, d2, d3, d4⟩ := derivadas_R I I0 J J0 hI hI0 hJ hJ0 hLne
  refine ⟨hL2, hRv, c1, c2, c3, c4, d1, d2, d3, ?_, ?_, h4⟩
  · have e : -Rv / (J0 * L) = -(Real.log (I0 / I) / Real.log (J0 / J)) / (J0 * Real.log (J0 / J)) :=
      rfl
    rw [e]; exact d4
  · rw [hE, if_pos hgt, c1, c2, c3, c4, hel, herl, heh, herh]
    simp only [Dbl.fin_mul_fin, Dbl.pow2, Dbl.fin_add_fin]
    rw [Dbl.sqrt_fin _ _ (add_nonneg (add_nonneg (add_nonneg (mul_self_nonneg _)
      (mul_self_nonneg _)) (mul_self_nonneg _)) (mul_self_nonneg _))]
    simp only [libmReal]
    congr 2
    ring

/-- Witness of C8: the doped sample (`I = 900`, `J = 1225`) against the
reference (`I0 = 2500`, `J0 = 1600`), with `log(1600/1225) > 0.001`. -/
theorem C8_derivadas_parciales_R_witness :
    (0.001 : ℝ) < Real.log (1600 / 1225)
    ∧ (AnalisisEu152.procesarMuestra libmReal (AnalisisEu152.refLow ℝ) (AnalisisEu152.refHigh ℝ)
        (AnalisisEu152.muestraLow ℝ) (AnalisisEu152.muestraHigh ℝ)).R
      = Dbl.fin (Real.log (2500 / 900) / Real.log (1600 / 1225))
    ∧ HasDerivAt (fun x => Real.log (2500 / x) / Real.log (1600 / 1225))
        (-1 / (900 * Real.log (1600 / 1225))) 900 := by
  have hlog : (0.001 : ℝ) < Real.log (1600 / 1225) := by
    have h1 : Real.log (1225 / 1600) ≤ 1225 / 1600 - 1 :=
      Real.log_le_sub_one_of_pos (by norm_num)
    have h2 : Real.log (1600 / 1225) = -Real.log (1225 / 1600) := by
      rw [← Real.log_inv, inv_div]
    rw [h2]
    linarith
  have hC := C8_derivadas_parciales_R 900 2500 1225 1600 30 50 35 40
    (by norm_num) (by norm_num) (by norm_num) (by norm_num) hlog
    (AnalisisEu152.refLow ℝ) (AnalisisEu152.refHigh ℝ)
    (AnalisisEu152.muestraLow ℝ) (AnalisisEu152.muestraHigh ℝ)
    rfl rfl rfl rfl rfl rfl rfl rfl
    (AnalisisEu152_v4.refLow ℝ) (AnalisisEu152_v4.refHigh ℝ)
    (AnalisisEu152_v4.muestraLow ℝ) (AnalisisEu152_v4.muestraHigh ℝ) (Dbl.fin 1) (Dbl.fin 1)
    1 true rfl rfl rfl rfl rfl rfl rfl rfl
  exact ⟨hlog, hC.2.1, hC.2.2.2.2.2.2.1⟩

/-- C9: for every sample whose high-energy net counts `N_high` are positive and
whose low-energy net counts `N_low` are non-zero, `AnalisisEu152_v2`, `_v3`
and `_v4` all compute `Q = N_low / N_high` and
`errQ = Q * sqrt((errN_low/N_low)^2 + (errN_high/N_high)^2)` from the
un-normalised net counts and their errors; for finite errors `a`, `b` this is
the finite value `N_low/N_high * sqrt((a/N_low)^2 + (b/N_high)^2)`. -/
theorem C9_indice_Q {α : Type} [LinearOrderedField α] (m : Libm α)
    (N_low N_high : α) (eL eH : Dbl α) (hH : 0 < N_high) (hLo : N_low ≠ 0)
    (p_low p_high : AnalisisEu152.Pico α)
    (h1 : p_low.cuentas_netas = Dbl.fin N_low) (h2 : p_low.error = eL)
    (h3 : p_high.cuentas_netas = Dbl.fin N_high) (h4 : p_high.error = eH)
    (ref_low4 ref_high4 p_low4 p_high4 : AnalisisEu152_v4.Pico α) (Q0 errQ0 : Dbl α)
    (conc : α) (esFino : Bool)
    (h5 : p_low4.cuentas_netas = Dbl.fin N_low) (h6 : p_low4.error = eL)
    (h7 : p_high4.cuentas_netas = Dbl.fin N_high) (h8 : p_high4.error = eH) :
    let Q : Dbl α := Dbl.fin (N_low / N_high)
    let errQ : Dbl α := Q * Dbl.sqrt m (Dbl.pow2 (eL / Dbl.fin N_low)
      + Dbl.pow2 (eH / Dbl.fin N_high))
    let r4 := AnalisisEu152_v4.calcularResultado m ref_low4 ref_high4 Q0 errQ0 conc esFino
      p_low4 p_high4
    AnalisisEu152_v2.indiceQ m p_low p_high = (Q, errQ)
    ∧ AnalisisEu152_v3.indiceQ m (Dbl.fin N_low) eL (Dbl.fin N_high) eH = (Q, errQ)
    ∧ r4.Q = Q ∧ r4.errQ = errQ
    ∧ (∀ a b : α, eL = Dbl.fin a → eH = Dbl.fin b →
        errQ = Dbl.fin (N_low / N_high * m.sqrt ((a / N_low) ^ 2 + (b / N_high) ^ 2))) := by
  intro Q errQ r4
  have hq : (Dbl.fin N_low / Dbl.fin N_high : Dbl α) = Q := Dbl.fin_div_fin _ _ hH.ne'
  refine ⟨?_, ?_, ?_, ?_, ?_⟩
  · simp only [AnalisisEu152_v2.indiceQ, h1, h2, h3, h4, hq, errQ]
  · simp only [AnalisisEu152_v3.indiceQ, Dbl.gt_fin_fin, decide_eq_true hH, if_pos, hq, errQ]
  · show p_low4.cuentas_netas / p_high4.cuentas_netas = Q
    rw [h5, h7, hq]
  · show (p_low4.cuentas_netas / p_high4.cuentas_netas)
        * Dbl.sqrt m (p_low4.error / p_low4.cuentas_netas * (p_low4.error / p_low4.cuentas_netas)
          + p_high4.error / p_high4.cuentas_netas * (p_high4.error / p_high4.cuentas_netas))
      = errQ
    rw [h5, h6, h7, h8, hq]
    rfl
  · intro a b ha hb
    simp only [errQ, Q, ha, hb, Dbl.fin_div_fin _ _ hLo, Dbl.fin_div_fin _ _ hH.ne', Dbl.pow2,
      Dbl.fin_mul_fin, Dbl.fin_add_fin]
    rw [Dbl.sqrt_fin _ _ (add_nonneg (mul_self_nonneg _) (mul_self_nonneg _)), Dbl.fin_mul_fin]
    congr 3
    ring

/-- Witness of C9: the doped sample, `N_low = 900 ± 30`, `N_high = 1225 ± 35`. -/
theorem C9_indice_Q_witness :
    (0 : ℝ) < 1225 ∧ (900 : ℝ) ≠ 0
    ∧ AnalisisEu152_v3.indiceQ libmReal (Dbl.fin 900) (Dbl.fin 30) (Dbl.fin 1225) (Dbl.fin 35)
      = (Dbl.fin (900 / 1225),
          Dbl.fin (900 / 1225 * Real.sqrt ((30 / 900) ^ 2 + (35 / 1225) ^ 2))) := by
  have hC := C9_indice_Q libmReal (900 : ℝ) 1225 (Dbl.fin 30) (Dbl.fin 35)
    (by norm_num) (by norm_num)
    (AnalisisEu152.muestraLow ℝ) (AnalisisEu152.muestraHigh ℝ) rfl rfl rfl rfl
    (AnalisisEu152_v4.refLow ℝ) (AnalisisEu152_v4.refHigh ℝ)
    (AnalisisEu152_v4.muestraLow ℝ) (AnalisisEu152_v4.muestraHigh ℝ) (Dbl.fin 1) (Dbl.fin 1)
    1 true rfl rfl rfl rfl
  refine ⟨by norm_num, by norm_num, ?_⟩
  rw [hC.2.1, hC.2.2.2.2 30 35 rfl rfl]
  rfl

/-! ## Properties of the detectability analysis -/

/-- C10 (amended): in `AnalisisEu152_v4`, for every processed sample with
`sqrt(errQ^2 + errQ0^2) > 0` the stored `Z_score` equals
`(Q - Q0) / sqrt(errQ^2 + errQ0^2)`; every sample falls in exactly one of the
three classes: quantifiable iff `|Z| > 10`, detectable iff `|Z| > 3` and not
`|Z| > 10`, not detectable iff not `|Z| > 3`.  When `Z_score` is not `NaN`
this is the rule with thresholds 3 and 10 (detectable iff `3 < |Z| <= 10`,
not detectable iff `|Z| <= 3`); a `NaN` `Z_score` is counted as not
detectable. -/
theorem C10_Z_score_y_clases {α : Type} [LinearOrderedField α] (m : Libm α)
    (ref_low ref_high p_low p_high : AnalisisEu152_v4.Pico α) (Q0 errQ0 : Dbl α)
    (conc : α) (esFino : Bool) :
    let r := AnalisisEu152_v4.calcularResultado m ref_low ref_high Q0 errQ0 conc esFino
      p_low p_high
    let sigma := Dbl.sqrt m (r.errQ * r.errQ + errQ0 * errQ0)
    let absZ := Dbl.abs r.Z_score
    (Dbl.gt sigma (Dbl.fin 0) = true → r.Z_score = (r.Q - Q0) / sigma)
    ∧ (AnalisisEu152_v4.clasificar r = AnalisisEu152_v4.Clase.C_cuant
        ↔ Dbl.gt absZ (Dbl.fin 10) = true)
    ∧ (AnalisisEu152_v4.clasificar r = AnalisisEu152_v4.Clase.C_det
        ↔ Dbl.gt absZ (Dbl.fin 3) = true ∧ Dbl.gt absZ (Dbl.fin 10) = false)
    ∧ (AnalisisEu152_v4.clasificar r = AnalisisEu152_v4.Clase.C_nodet
        ↔ Dbl.gt absZ (Dbl.fin 3) = false)
    ∧ (r.Z_score ≠ Dbl.nan →
        (AnalisisEu152_v4.clasificar r = AnalisisEu152_v4.Clase.C_det
          ↔ Dbl.gt absZ (Dbl.fin 3) = true ∧ Dbl.le absZ (Dbl.fin 10) = true)
        ∧ (AnalisisEu152_v4.clasificar r = AnalisisEu152_v4.Clase.C_nodet
          ↔ Dbl.le absZ (Dbl.fin 3) = true))
    ∧ (r.Z_score = Dbl.nan →
        AnalisisEu152_v4.clasificar r = AnalisisEu152_v4.Clase.C_nodet) := by
  intro r sigma absZ
  have hZ : r.Z_score
      = (if Dbl.gt sigma (Dbl.fin 0) then (r.Q - Q0) / sigma else Dbl.fin 0) := rfl
  have hdet : r.detectable = Dbl.gt absZ (Dbl.fin 3) := rfl
  have hcua : r.cuantificable = Dbl.gt absZ (Dbl.fin 10) := rfl
  have hmono : Dbl.gt absZ (Dbl.fin 10) = true → Dbl.gt absZ (Dbl.fin 3) = true := by
    intro h10
    cases habs : absZ with
    | fin a =>
      rw [habs] at h10
      simp only [Dbl.gt_fin_fin, decide_eq_true_eq] at h10 ⊢
      exact lt_trans (by norm_num) h10
    | pinf => rfl
    | ninf => rw [habs] at h10; simp [Dbl.gt, Dbl.lt] at h10
    | nan => rw [habs] at h10; simp [Dbl.gt, Dbl.lt] at h10
  have hc1 : AnalisisEu152_v4.clasificar r = AnalisisEu152_v4.Clase.C_cuant
      ↔ Dbl.gt absZ (Dbl.fin 10) = true := by
    unfold AnalisisEu152_v4.clasificar
    rw [hcua, hdet]
    split_ifs <;> simp_all
  have hc2 : AnalisisEu152_v4.clasificar r = AnalisisEu152_v4.Clase.C_det
      ↔ Dbl.gt absZ (Dbl.fin 3) = true ∧ Dbl.gt absZ (Dbl.fin 10) = false := by
    unfold AnalisisEu152_v4.clasificar
    rw [hcua, hdet]
    split_ifs <;> simp_all
  have hc3 : AnalisisEu152_v4.clasificar r = AnalisisEu152_v4.Clase.C_nodet
      ↔ Dbl.gt absZ (Dbl.fin 3) = false := by
    unfold AnalisisEu152_v4.clasificar
    rw [hcua, hdet]
    split_ifs with h10 h3
    · simp [hmono h10]
    · simp [h3]
    · simp_all
  refine ⟨?_, hc1, hc2, hc3, ?_, ?_⟩
  · intro hs
    rw [hZ, if_pos hs]
  · intro hnan
    have habs : absZ ≠ Dbl.nan := Dbl.abs_ne_nan hnan
    exact ⟨by rw [hc2, Dbl.gt_eq_false_iff_le habs], by rw [hc3, Dbl.gt_eq_false_iff_le habs]⟩
  · intro hnan
    rw [hc3]
    show Dbl.gt (Dbl.abs r.Z_score) (Dbl.fin 3) = false
    rw [hnan]
    rfl

/-- The reference ratio of the sample reference peaks: `Q0 = 25/16` with a
finite positive uncertainty. -/
theorem referencia_Q0 :
    AnalisisEu152_v4.Q0 (AnalisisEu152_v4.refLow ℝ) (AnalisisEu152_v4.refHigh ℝ)
      = Dbl.fin (25 / 16)
    ∧ AnalisisEu152_v4.errQ0 libmReal (AnalisisEu152_v4.refLow ℝ) (AnalisisEu152_v4.refHigh ℝ)
      = Dbl.fin (25 / 16 * Real.sqrt (1 / 50 * (1 / 50) + 1 / 40 * (1 / 40)))
    ∧ (0 : ℝ) < 25 / 16 * Real.sqrt (1 / 50 * (1 / 50) + 1 / 40 * (1 / 40)) := by
  have hq : AnalisisEu152_v4.Q0 (AnalisisEu152_v4.refLow ℝ) (AnalisisEu152_v4.refHigh ℝ)
      = Dbl.fin (25 / 16) := by
    norm_num [AnalisisEu152_v4.Q0, AnalisisEu152_v4.refLow, AnalisisEu152_v4.refHigh,
      Dbl.fin_div_fin]
  refine ⟨hq, ?_, ?_⟩
  · unfold AnalisisEu152_v4.errQ0
    rw [hq]
    have e1 : (AnalisisEu152_v4.refLow ℝ).error / (AnalisisEu152_v4.refLow ℝ).cuentas_netas
        = Dbl.fin (1 / 50) := by
      norm_num [AnalisisEu152_v4.refLow, Dbl.fin_div_fin]
    have e2 : (AnalisisEu152_v4.refHigh ℝ).error / (AnalisisEu152_v4.refHigh ℝ).cuentas_netas
        = Dbl.fin (1 / 40) := by
      norm_num [AnalisisEu152_v4.refHigh, Dbl.fin_div_fin]
    rw [e1, e2]
    simp only [Dbl.pow2, Dbl.fin_mul_fin, Dbl.fin_add_fin]
    rw [Dbl.sqrt_fin _ _ (by norm_num), Dbl.fin_mul_fin]
    rfl
  · have : (0 : ℝ) < Real.sqrt (1 / 50 * (1 / 50) + 1 / 40 * (1 / 40)) :=
      Real.sqrt_pos.mpr (by norm_num)
    positivity

/-- C10, counterexample: a sample whose high-energy window lies on a flat
spectrum (net counts exactly 0, error 40) and whose low-energy peak has 900
net counts has `Q = +inf`, `sqrt(errQ^2 + errQ0^2) = +inf > 0` and the
`Z_score` `inf / inf = NaN`; it is counted as not detectable although
`|Z| <= 3` does not hold. -/
theorem C10_Z_score_counterexample :
    (AnalisisEu152_v4.resultadoPlano libmReal).Q = Dbl.pinf
    ∧ Dbl.gt (Dbl.sqrt libmReal
        ((AnalisisEu152_v4.resultadoPlano libmReal).errQ
          * (AnalisisEu152_v4.resultadoPlano libmReal).errQ
          + AnalisisEu152_v4.errQ0 libmReal (AnalisisEu152_v4.refLow ℝ)
              (AnalisisEu152_v4.refHigh ℝ)
            * AnalisisEu152_v4.errQ0 libmReal (AnalisisEu152_v4.refLow ℝ)
              (AnalisisEu152_v4.refHigh ℝ))) (Dbl.fin 0) = true
    ∧ (AnalisisEu152_v4.resultadoPlano libmReal).Z_score = Dbl.nan
    ∧ AnalisisEu152_v4.clasificar (AnalisisEu152_v4.resultadoPlano libmReal)
      = AnalisisEu152_v4.Clase.C_nodet
    ∧ Dbl.le (Dbl.abs (AnalisisEu152_v4.resultadoPlano libmReal).Z_score) (Dbl.fin 3)
      = false := by
  unfold AnalisisEu152_v4.resultadoPlano
  obtain ⟨hq, he, -⟩ := referencia_Q0
  rw [hq, he]
  have hQ : ∀ q e : Dbl ℝ,
      (AnalisisEu152_v4.calcularResultado libmReal (AnalisisEu152_v4.refLow ℝ)
        (AnalisisEu152_v4.refHigh ℝ) q e 1 true (AnalisisEu152_v4.muestraLow ℝ)
        (AnalisisEu152_v4.picoPlano ℝ)).Q = Dbl.pinf := by
    intro q e
    show (AnalisisEu152_v4.muestraLow ℝ).cuentas_netas
      / (AnalisisEu152_v4.picoPlano ℝ).cuentas_netas = Dbl.pinf
    simp only [AnalisisEu152_v4.muestraLow, AnalisisEu152_v4.picoPlano, Dbl.fin_div_zero]
    exact Dbl.infOfSign_pos (by norm_num)
  have hE : ∀ q e : Dbl ℝ,
      (AnalisisEu152_v4.calcularResultado libmReal (AnalisisEu152_v4.refLow ℝ)
        (AnalisisEu152_v4.refHigh ℝ) q e 1 true (AnalisisEu152_v4.muestraLow ℝ)
        (AnalisisEu152_v4.picoPlano ℝ)).errQ = Dbl.pinf := by
    intro q e
    show (AnalisisEu152_v4.muestraLow ℝ).cuentas_netas
        / (AnalisisEu152_v4.picoPlano ℝ).cuentas_netas
      * Dbl.sqrt libmReal
        ((AnalisisEu152_v4.muestraLow ℝ).error / (AnalisisEu152_v4.muestraLow ℝ).cuentas_netas
          * ((AnalisisEu152_v4.muestraLow ℝ).error
            / (AnalisisEu152_v4.muestraLow ℝ).cuentas_netas)
        + (AnalisisEu152_v4.picoPlano ℝ).error / (AnalisisEu152_v4.picoPlano ℝ).cuentas_netas
          * ((AnalisisEu152_v4.picoPlano ℝ).error
            / (AnalisisEu152_v4.picoPlano ℝ).cuentas_netas)) = Dbl.pinf
    have i1 : (Dbl.infOfSign (900 : ℝ) : Dbl ℝ) = Dbl.pinf := Dbl.infOfSign_pos (by norm_num)
    have i2 : (Dbl.infOfSign (40 : ℝ) : Dbl ℝ) = Dbl.pinf := Dbl.infOfSign_pos (by norm_num)
    have hne : (900 : ℝ) ≠ 0 := by norm_num
    simp only [AnalisisEu152_v4.muestraLow, AnalisisEu152_v4.picoPlano, Dbl.fin_div_zero, i1, i2,
      Dbl.fin_div_fin _ _ hne, Dbl.fin_mul_fin, Dbl.pinf_mul_pinf, Dbl.fin_add_pinf,
      Dbl.sqrt_pinf]
  have hZ : ∀ (q : ℝ) (e : Dbl ℝ),
      (AnalisisEu152_v4.calcularResultado libmReal (AnalisisEu152_v4.refLow ℝ)
        (AnalisisEu152_v4.refHigh ℝ) (Dbl.fin q) e 1 true (AnalisisEu152_v4.muestraLow ℝ)
        (AnalisisEu152_v4.picoPlano ℝ)).Z_score
      = (if Dbl.gt (Dbl.sqrt libmReal (Dbl.pinf * Dbl.pinf + e * e)) (Dbl.fin 0)
          then (Dbl.pinf - Dbl.fin q) / Dbl.sqrt libmReal (Dbl.pinf * Dbl.pinf + e * e)
          else Dbl.fin 0) := by
    intro q e
    have h0 : (AnalisisEu152_v4.calcularResultado libmReal (AnalisisEu152_v4.refLow ℝ)
        (AnalisisEu152_v4.refHigh ℝ) (Dbl.fin q) e 1 true (AnalisisEu152_v4.muestraLow ℝ)
        (AnalisisEu152_v4.picoPlano ℝ)).Z_score
      = (if Dbl.gt (Dbl.sqrt libmReal
            ((AnalisisEu152_v4.calcularResultado libmReal (AnalisisEu152_v4.refLow ℝ)
              (AnalisisEu152_v4.refHigh ℝ) (Dbl.fin q) e 1 true (AnalisisEu152_v4.muestraLow ℝ)
              (AnalisisEu152_v4.picoPlano ℝ)).errQ
            * (AnalisisEu152_v4.calcularResultado libmReal (AnalisisEu152_v4.refLow ℝ)
              (AnalisisEu152_v4.refHigh ℝ) (Dbl.fin q) e 1 true (AnalisisEu152_v4.muestraLow ℝ)
              (AnalisisEu152_v4.picoPlano ℝ)).errQ + e * e)) (Dbl.fin 0)
          then ((AnalisisEu152_v4.calcularResultado libmReal (AnalisisEu152_v4.refLow ℝ)
              (AnalisisEu152_v4.refHigh ℝ) (Dbl.fin q) e 1 true (AnalisisEu152_v4.muestraLow ℝ)
              (AnalisisEu152_v4.picoPlano ℝ)).Q - Dbl.fin q)
            / Dbl.sqrt libmReal
              ((AnalisisEu152_v4.calcularResultado libmReal (AnalisisEu152_v4.refLow ℝ)
                (AnalisisEu152_v4.refHigh ℝ) (Dbl.fin q) e 1 true (AnalisisEu152_v4.muestraLow ℝ)
                (AnalisisEu152_v4.picoPlano ℝ)).errQ
              * (AnalisisEu152_v4.calcularResultado libmReal (AnalisisEu152_v4.refLow ℝ)
                (AnalisisEu152_v4.refHigh ℝ) (Dbl.fin q) e 1 true (AnalisisEu152_v4.muestraLow ℝ)
                (AnalisisEu152_v4.picoPlano ℝ)).errQ + e * e)
          else Dbl.fin 0) := rfl
    rw [h0, hE, hQ]
  have hZnan : (AnalisisEu152_v4.calcularResultado libmReal (AnalisisEu152_v4.refLow ℝ)
        (AnalisisEu152_v4.refHigh ℝ) (Dbl.fin (25 / 16))
        (Dbl.fin (25 / 16 * Real.sqrt (1 / 50 * (1 / 50) + 1 / 40 * (1 / 40)))) 1 true
        (AnalisisEu152_v4.muestraLow ℝ) (AnalisisEu152_v4.picoPlano ℝ)).Z_score = Dbl.nan := by
    rw [hZ]
    simp [Dbl.gt, Dbl.lt]
  refine ⟨hQ _ _, ?_, hZnan, ?_, ?_⟩
  · rw [hE]
    simp [Dbl.gt, Dbl.lt]
  · unfold AnalisisEu152_v4.clasificar
    have hd : ∀ r : AnalisisEu152_v4.ResultadoMuestra ℝ, r.Z_score = Dbl.nan →
        Dbl.gt (Dbl.abs r.Z_score) (Dbl.fin 3) = false
        ∧ Dbl.gt (Dbl.abs r.Z_score) (Dbl.fin 10) = false := by
      intro r hr
      rw [hr]
      exact ⟨rfl, rfl⟩
    obtain ⟨h3, h10⟩ := hd _ hZnan
    have hdet : (AnalisisEu152_v4.calcularResultado libmReal (AnalisisEu152_v4.refLow ℝ)
        (AnalisisEu152_v4.refHigh ℝ) (Dbl.fin (25 / 16))
        (Dbl.fin (25 / 16 * Real.sqrt (1 / 50 * (1 / 50) + 1 / 40 * (1 / 40)))) 1 true
        (AnalisisEu152_v4.muestraLow ℝ) (AnalisisEu152_v4.picoPlano ℝ)).detectable = false := h3
    have hcua : (AnalisisEu152_v4.calcularResultado libmReal (AnalisisEu152_v4.refLow ℝ)
        (AnalisisEu152_v4.refHigh ℝ) (Dbl.fin (25 / 16))
        (Dbl.fin (25 / 16 * Real.sqrt (1 / 50 * (1 / 50) + 1 / 40 * (1 / 40)))) 1 true
        (AnalisisEu152_v4.muestraLow ℝ) (AnalisisEu152_v4.picoPlano ℝ)).cuantificable = false :=
      h10
    rw [hdet, hcua]
    rfl
  · rw [hZnan]
    rfl

/-- Witness of C10 (amended): the doped sample has a finite positive
`sqrt(errQ^2 + errQ0^2)` and a finite `Z_score`, equal to
`(Q - Q0) / sqrt(errQ^2 + errQ0^2)`, and it is counted as not detectable
exactly when `|Z| <= 3`. -/
theorem C10_Z_score_y_clases_witness :
    (AnalisisEu152_v4.resultadoDopada libmReal).Z_score
      = ((AnalisisEu152_v4.resultadoDopada libmReal).Q
          - AnalisisEu152_v4.Q0 (AnalisisEu152_v4.refLow ℝ) (AnalisisEu152_v4.refHigh ℝ))
        / Dbl.sqrt libmReal
          ((AnalisisEu152_v4.resultadoDopada libmReal).errQ
            * (AnalisisEu152_v4.resultadoDopada libmReal).errQ
            + AnalisisEu152_v4.errQ0 libmReal (AnalisisEu152_v4.refLow ℝ)
                (AnalisisEu152_v4.refHigh ℝ)
              * AnalisisEu152_v4.errQ0 libmReal (AnalisisEu152_v4.refLow ℝ)
                (AnalisisEu152_v4.refHigh ℝ))
    ∧ (AnalisisEu152_v4.clasificar (AnalisisEu152_v4.resultadoDopada libmReal)
        = AnalisisEu152_v4.Clase.C_nodet
      ↔ Dbl.le (Dbl.abs (AnalisisEu152_v4.resultadoDopada libmReal).Z_score) (Dbl.fin 3)
        = true) := by
  obtain ⟨hq, he, hepos⟩ := referencia_Q0
  have hC := C10_Z_score_y_clases libmReal (AnalisisEu152_v4.refLow ℝ)
    (AnalisisEu152_v4.refHigh ℝ) (AnalisisEu152_v4.muestraLow ℝ) (AnalisisEu152_v4.muestraHigh ℝ)
    (AnalisisEu152_v4.Q0 (AnalisisEu152_v4.refLow ℝ) (AnalisisEu152_v4.refHigh ℝ))
    (AnalisisEu152_v4.errQ0 libmReal (AnalisisEu152_v4.refLow ℝ) (AnalisisEu152_v4.refHigh ℝ))
    1 true
  obtain ⟨h1, -, -, -, h5, -⟩ := hC
  have hEq : (AnalisisEu152_v4.resultadoDopada libmReal).errQ
      = Dbl.fin (900 / 1225 * Real.sqrt (1 / 30 * (1 / 30) + 1 / 35 * (1 / 35))) := by
    show (AnalisisEu152_v4.muestraLow ℝ).cuentas_netas
        / (AnalisisEu152_v4.muestraHigh ℝ).cuentas_netas
      * Dbl.sqrt libmReal
        ((AnalisisEu152_v4.muestraLow ℝ).error / (AnalisisEu152_v4.muestraLow ℝ).cuentas_netas
          * ((AnalisisEu152_v4.muestraLow ℝ).error
            / (AnalisisEu152_v4.muestraLow ℝ).cuentas_netas)
        + (AnalisisEu152_v4.muestraHigh ℝ).error / (AnalisisEu152_v4.muestraHigh ℝ).cuentas_netas
          * ((AnalisisEu152_v4.muestraHigh ℝ).error
            / (AnalisisEu152_v4.muestraHigh ℝ).cuentas_netas)) = _
    have e1 : (Dbl.fin (30 : ℝ) / Dbl.fin 900 : Dbl ℝ) = Dbl.fin (1 / 30) := by
      rw [Dbl.fin_div_fin _ _ (by norm_num)]; norm_num
    have e2 : (Dbl.fin (35 : ℝ) / Dbl.fin 1225 : Dbl ℝ) = Dbl.fin (1 / 35) := by
      rw [Dbl.fin_div_fin _ _ (by norm_num)]; norm_num
    have e3 : (Dbl.fin (900 : ℝ) / Dbl.fin 1225 : Dbl ℝ) = Dbl.fin (900 / 1225) :=
      Dbl.fin_div_fin _ _ (by norm_num)
    simp only [AnalisisEu152_v4.muestraLow, AnalisisEu152_v4.muestraHigh, e1, e2, e3,
      Dbl.fin_mul_fin, Dbl.fin_add_fin]
    rw [Dbl.sqrt_fin _ _ (by norm_num), Dbl.fin_mul_fin]
    rfl
  have hQ : (AnalisisEu152_v4.resultadoDopada libmReal).Q = Dbl.fin (900 / 1225) := by
    show (AnalisisEu152_v4.muestraLow ℝ).cuentas_netas
        / (AnalisisEu152_v4.muestraHigh ℝ).cuentas_netas = _
    simp only [AnalisisEu152_v4.muestraLow, AnalisisEu152_v4.muestraHigh]
    exact Dbl.fin_div_fin _ _ (by norm_num)
  have hsig : ∃ sg : ℝ, 0 < sg ∧ Dbl.sqrt libmReal
      ((AnalisisEu152_v4.resultadoDopada libmReal).errQ
        * (AnalisisEu152_v4.resultadoDopada libmReal).errQ
        + AnalisisEu152_v4.errQ0 libmReal (AnalisisEu152_v4.refLow ℝ)
            (AnalisisEu152_v4.refHigh ℝ)
          * AnalisisEu152_v4.errQ0 libmReal (AnalisisEu152_v4.refLow ℝ)
            (AnalisisEu152_v4.refHigh ℝ)) = Dbl.fin sg := by
    rw [hEq, he, Dbl.fin_mul_fin, Dbl.fin_mul_fin, Dbl.fin_add_fin]
    have hpos : 0 < 900 / 1225 * Real.sqrt (1 / 30 * (1 / 30) + 1 / 35 * (1 / 35))
        * (900 / 1225 * Real.sqrt (1 / 30 * (1 / 30) + 1 / 35 * (1 / 35)))
        + 25 / 16 * Real.sqrt (1 / 50 * (1 / 50) + 1 / 40 * (1 / 40))
        * (25 / 16 * Real.sqrt (1 / 50 * (1 / 50) + 1 / 40 * (1 / 40))) := by
      have := mul_pos hepos hepos
      have := mul_self_nonneg (900 / 1225 * Real.sqrt (1 / 30 * (1 / 30) + 1 / 35 * (1 / 35)))
      linarith
    rw [Dbl.sqrt_fin _ _ hpos.le]
    exact ⟨_, Real.sqrt_pos.mpr hpos, rfl⟩
  obtain ⟨sg, hsg, hsq⟩ := hsig
  have hgt : Dbl.gt (Dbl.sqrt libmReal
      ((AnalisisEu152_v4.resultadoDopada libmReal).errQ
        * (AnalisisEu152_v4.resultadoDopada libmReal).errQ
        + AnalisisEu152_v4.errQ0 libmReal (AnalisisEu152_v4.refLow ℝ)
            (AnalisisEu152_v4.refHigh ℝ)
          * AnalisisEu152_v4.errQ0 libmReal (AnalisisEu152_v4.refLow ℝ)
            (AnalisisEu152_v4.refHigh ℝ))) (Dbl.fin 0) = true := by
    rw [hsq, Dbl.gt_fin_fin]
    exact decide_eq_true hsg
  have hZ := h1 hgt
  have hZne : (AnalisisEu152_v4.resultadoDopada libmReal).Z_score ≠ Dbl.nan := by
    have hZ' : (AnalisisEu152_v4.resultadoDopada libmReal).Z_score
        = ((AnalisisEu152_v4.resultadoDopada libmReal).Q
          - AnalisisEu152_v4.Q0 (AnalisisEu152_v4.refLow ℝ) (AnalisisEu152_v4.refHigh ℝ))
        / Dbl.sqrt libmReal
          ((AnalisisEu152_v4.resultadoDopada libmReal).errQ
            * (AnalisisEu152_v4.resultadoDopada libmReal).errQ
            + AnalisisEu152_v4.errQ0 libmReal (AnalisisEu152_v4.refLow ℝ)
                (AnalisisEu152_v4.refHigh ℝ)
              * AnalisisEu152_v4.errQ0 libmReal (AnalisisEu152_v4.refLow ℝ)
                (AnalisisEu152_v4.refHigh ℝ)) := hZ
    rw [hZ', hsq, hQ, hq, Dbl.fin_sub_fin, Dbl.fin_div_fin _ _ hsg.ne']
    simp
  exact ⟨hZ, (h5 hZne).2⟩

/-! ## Filled histograms -/

/-- Counting the elements that satisfy one of two exclusive conditions. -/
theorem countP_union {β : Type} (es : List β) (p q r : β → Bool)
    (hr : ∀ e, r e = (p e || q e)) (hd : ∀ e, ¬ (p e = true ∧ q e = true)) :
    es.countP r = es.countP p + es.countP q := by
  induction es with
  | nil => simp
  | cons e es ih =>
    have h1 := hr e
    have h2 := hd e
    simp only [List.countP_cons, ih, h1]
    cases hp : p e <;> cases hq : q e <;> simp_all <;> omega

/-- The sum of `n` consecutive bins of a filled histogram from bin `b1` on is
the number of rows whose bin lies in `b1 .. b1 + n - 1`. -/
theorem sumaBins_llenar {α : Type} [LinearOrderedField α] [FloorRing α]
    (nbins : ℕ) (xmin xmax : α) (Energy : List α) (b1 : ℤ) (n : ℕ) :
    sumaBins (fun i => ((Energy.countP
        (fun e => decide (TAxis.FindBin nbins xmin xmax (e * 1000) = i)) : ℕ) : α)) b1 n
      = ((Energy.countP (fun e => decide (b1 ≤ TAxis.FindBin nbins xmin xmax (e * 1000)
          ∧ TAxis.FindBin nbins xmin xmax (e * 1000) < b1 + n)) : ℕ) : α) := by
  induction n with
  | zero =>
    have h0 : Energy.countP (fun e => decide (b1 ≤ TAxis.FindBin nbins xmin xmax (e * 1000)
        ∧ TAxis.FindBin nbins xmin xmax (e * 1000) < b1 + ((0 : ℕ) : ℤ))) = 0 := by
      rw [List.countP_eq_zero]
      intro e _
      simp only [decide_eq_true_eq, Nat.cast_zero, add_zero]
      omega
    rw [h0]
    simp [sumaBins]
  | succ n ih =>
    rw [sumaBins, ih]
    rw [countP_union Energy
      (fun e => decide (b1 ≤ TAxis.FindBin nbins xmin xmax (e * 1000)
          ∧ TAxis.FindBin nbins xmin xmax (e * 1000) < b1 + n))
      (fun e => decide (TAxis.FindBin nbins xmin xmax (e * 1000) = b1 + n))
      (fun e => decide (b1 ≤ TAxis.FindBin nbins xmin xmax (e * 1000)
          ∧ TAxis.FindBin nbins xmin xmax (e * 1000) < b1 + ((n + 1 : ℕ) : ℤ)))]
    · push_cast
      ring
    · intro e
      simp only [Bool.decide_and, Bool.decide_eq_true, Nat.cast_add, Nat.cast_one]
      rw [Bool.eq_iff_iff]
      simp only [Bool.and_eq_true, Bool.or_eq_true, decide_eq_true_eq]
      omega
    · intro e
      simp only [decide_eq_true_eq]
      omega

/-- The bin sum ROOT returns for a filled histogram over a bin range inside
`0 .. nbins + 1` is the number of rows whose bin lies in the range. -/
theorem llenar_Integral {α : Type} [LinearOrderedField α] [FloorRing α]
    (nbins : ℕ) (xmin xmax : α) (Energy : List α) (b1 b2 : ℤ)
    (h1 : 0 ≤ b1) (h12 : b1 ≤ b2) (h2 : b2 ≤ nbins + 1) :
    (llenar nbins xmin xmax Energy).Integral b1 b2
      = ((Energy.countP (fun e => decide (b1 ≤ TAxis.FindBin nbins xmin xmax (e * 1000)
          ∧ TAxis.FindBin nbins xmin xmax (e * 1000) ≤ b2)) : ℕ) : α) := by
  have c1 : ¬ (b1 < 0) := not_lt.mpr h1
  have c2 : ¬ (b2 ≥ (nbins : ℤ) + 2 ∨ b2 < b1) := by omega
  simp only [llenar, TH1D.ofBins, if_neg c1, if_neg c2]
  rw [sumaBins_llenar]
  have hn : (((b2 - b1 + 1).toNat : ℕ) : ℤ) = b2 - b1 + 1 := Int.toNat_of_nonneg (by omega)
  congr 2
  funext e
  congr 1
  rw [hn]
  apply propext
  constructor <;> intro h <;> constructor <;> omega

/-- A histogram filled from no row sums to `0` over every bin range. -/
theorem llenar_nil_Integral {α : Type} [LinearOrderedField α] [FloorRing α]
    (nbins : ℕ) (xmin xmax : α) (b1 b2 : ℤ) :
    (llenar nbins xmin xmax ([] : List α)).Integral b1 b2 = 0 := by
  simp only [llenar, TH1D.ofBins, List.countP_nil, Nat.cast_zero]
  generalize ((if b2 ≥ (nbins : ℤ) + 2 ∨ b2 < (if b1 < 0 then 0 else b1) then (nbins : ℤ) + 1
    else b2) - (if b1 < 0 then 0 else b1) + 1).toNat = n
  induction n with
  | zero => rfl
  | succ n ih => simp [sumaBins, ih]

/-- The bin of an abscissa `x` with `k - 1 <= x < k` on the axis of 1600 bins
of `[0, 1600)`, for `1 <= k <= 1600`. -/
theorem findBin_1600 {α : Type} [LinearOrderedField α] [FloorRing α] (x : α) (k : ℤ)
    (hk1 : 1 ≤ k) (hk2 : k ≤ 1600) (h1 : (k : α) - 1 ≤ x) (h2 : x < k) :
    TAxis.FindBin 1600 0 1600 x = k := by
  have hk1' : (1 : α) ≤ (k : α) := by exact_mod_cast hk1
  have hk2' : (k : α) ≤ 1600 := by exact_mod_cast hk2
  have c1 : ¬ (x < 0) := by
    intro h; linarith
  have c2 : x < (1600 : α) := by linarith
  unfold TAxis.FindBin
  rw [if_neg c1, if_neg (not_not.mpr c2)]
  have hf : ⌊((1600 : ℕ) : α) * (x - 0) / ((1600 : α) - 0)⌋ = k - 1 := by
    rw [Int.floor_eq_iff]
    push_cast
    constructor
    · rw [sub_zero, sub_zero, mul_div_assoc, mul_comm, div_mul_cancel₀ _ (by norm_num)]
      exact h1
    · rw [sub_zero, sub_zero, mul_div_assoc, mul_comm, div_mul_cancel₀ _ (by norm_num)]
      linarith
  rw [hf]
  ring

/-- The bins of the window bounds of the three configured lines on the axis of
1600 bins of `[0, 1600)`. -/
theorem bines_configurados {α : Type} [LinearOrderedField α] [FloorRing α] :
    (TAxis.FindBin 1600 0 1600 ((121.78 : α) - 12) = 110
      ∧ TAxis.FindBin 1600 0 1600 ((121.78 : α) + 12) = 134
      ∧ TAxis.FindBin 1600 0 1600 ((121.78 : α) - 2 * 12) = 98
      ∧ TAxis.FindBin 1600 0 1600 ((121.78 : α) + 2 * 12) = 146)
    ∧ (TAxis.FindBin 1600 0 1600 ((778.90 : α) - 20) = 759
      ∧ TAxis.FindBin 1600 0 1600 ((778.90 : α) + 20) = 799
      ∧ TAxis.FindBin 1600 0 1600 ((778.90 : α) - 2 * 20) = 739
      ∧ TAxis.FindBin 1600 0 1600 ((778.90 : α) + 2 * 20) = 819)
    ∧ (TAxis.FindBin 1600 0 1600 ((1408.01 : α) - 25) = 1384
      ∧ TAxis.FindBin 1600 0 1600 ((1408.01 : α) + 25) = 1434
      ∧ TAxis.FindBin 1600 0 1600 ((1408.01 : α) - 2 * 25) = 1359
      ∧ TAxis.FindBin 1600 0 1600 ((1408.01 : α) + 2 * 25) = 1459) := by
  refine ⟨⟨?_, ?_, ?_, ?_⟩, ⟨?_, ?_, ?_, ?_⟩, ⟨?_, ?_, ?_, ?_⟩⟩ <;>
    (apply findBin_1600 <;> norm_num)

/-- The net counts `IntegrarFotopico` of `AnalisisEu152.cpp` returns when the
combined sideband bin count is not zero: a finite value. -/
theorem IntegrarFotopico_netas {α : Type} [LinearOrderedField α] (m : Libm α)
    (h : TH1D α) (E s : α)
    (hne : ((h.FindBin (E - s) - 1) - h.FindBin (E - 2 * s) + 1)
      + (h.FindBin (E + 2 * s) - (h.FindBin (E + s) + 1) + 1) ≠ 0) :
    (AnalisisEu152.IntegrarFotopico m (some h) E s).cuentas_netas
      = Dbl.fin (h.Integral (h.FindBin (E - s)) (h.FindBin (E + s))
          - (h.Integral (h.FindBin (E - 2 * s)) (h.FindBin (E - s) - 1)
              + h.Integral (h.FindBin (E + s) + 1) (h.FindBin (E + 2 * s)))
            * ((h.FindBin (E + s) - h.FindBin (E - s) + 1 : ℤ) : α)
            / ((((h.FindBin (E - s) - 1) - h.FindBin (E - 2 * s) + 1)
              + (h.FindBin (E + 2 * s) - (h.FindBin (E + s) + 1) + 1) : ℤ) : α)) := by
  have hne' : (((((h.FindBin (E - s) - 1) - h.FindBin (E - 2 * s) + 1)
      + (h.FindBin (E + 2 * s) - (h.FindBin (E + s) + 1) + 1) : ℤ)) : α) ≠ 0 := by
    exact_mod_cast hne
  simp only [AnalisisEu152.IntegrarFotopico, Dbl.fin_add_fin, Dbl.fin_mul_fin,
    Dbl.fin_div_fin _ _ hne', Dbl.fin_sub_fin]

/-- On a histogram of 1600 bins of `[0, 1600)` filled from a tree, the net
counts of the configured lines are finite, and `0` when the tree has no row. -/
theorem netas_llenar {α : Type} [LinearOrderedField α] [FloorRing α] (m : Libm α)
    (Energy : List α) (usar_1408 : Bool) :
    (∃ x : α, (AnalisisEu152.IntegrarFotopico m (some (llenar 1600 0 1600 Energy))
        AnalisisEu152.E_122 AnalisisEu152.ventana_low).cuentas_netas = Dbl.fin x
      ∧ (Energy = [] → x = 0))
    ∧ (∃ y : α, (AnalisisEu152.IntegrarFotopico m (some (llenar 1600 0 1600 Energy))
        (AnalisisEu152.E_HIGH usar_1408) (AnalisisEu152.ventana_high usar_1408)).cuentas_netas
        = Dbl.fin y
      ∧ (Energy = [] → y = 0)) := by
  obtain ⟨⟨a1, a2, a3, a4⟩, ⟨b1, b2, b3, b4⟩, ⟨c1, c2, c3, c4⟩⟩ := bines_configurados (α := α)
  have hF : ∀ x : α, (llenar 1600 0 1600 Energy).FindBin x = TAxis.FindBin 1600 0 1600 x :=
    fun _ => rfl
  have hnil : ∀ b1 b2 : ℤ, Energy = [] → (llenar 1600 0 1600 Energy).Integral b1 b2 = 0 := by
    intro b1 b2 he
    rw [he]
    exact llenar_nil_Integral _ _ _ _ _
  constructor
  · refine ⟨_, IntegrarFotopico_netas m _ _ _ ?_, ?_⟩
    · simp only [hF, AnalisisEu152.E_122, AnalisisEu152.ventana_low, a1, a2, a3, a4]
      norm_num
    · intro he
      simp only [hnil _ _ he]
      simp
  · cases usar_1408
    · refine ⟨_, IntegrarFotopico_netas m _ _ _ ?_, ?_⟩
      · simp only [hF, AnalisisEu152.E_HIGH, AnalisisEu152.ventana_high, AnalisisEu152.E_779,
          Bool.false_eq_true, if_false, b1, b2, b3, b4]
        norm_num
      · intro he
        simp only [hnil _ _ he]
        simp
    · refine ⟨_, IntegrarFotopico_netas m _ _ _ ?_, ?_⟩
      · simp only [hF, AnalisisEu152.E_HIGH, AnalisisEu152.ventana_high, AnalisisEu152.E_1408,
          if_true, c1, c2, c3, c4]
        norm_num
      · intro he
        simp only [hnil _ _ he]
        simp

/-! ## Properties of the runs -/

/-- A passed reference guard of `AnalisisEu152`: the reference file was read,
its tree has rows, and both reference net counts are finite and positive. -/
theorem referencia_ok {α : Type} [LinearOrderedField α] [FloorRing α] (m : Libm α)
    (fs : Archivos α) (directorio : String) (usar_1408 : Bool)
    (ref_low ref_high : AnalisisEu152.Pico α)
    (hr : AnalisisEu152.referencia m fs directorio usar_1408 = Except.ok (ref_low, ref_high)) :
    ∃ (Energy : List α) (I0 J0 : α),
      fs (directorio ++ "Eu152_REE_0p00.root") = some Energy ∧ Energy ≠ []
      ∧ ref_low = AnalisisEu152.IntegrarFotopico m (some (llenar 1600 0 1600 Energy))
          AnalisisEu152.E_122 AnalisisEu152.ventana_low
      ∧ ref_high = AnalisisEu152.IntegrarFotopico m (some (llenar 1600 0 1600 Energy))
          (AnalisisEu152.E_HIGH usar_1408) (AnalisisEu152.ventana_high usar_1408)
      ∧ 0 < I0 ∧ 0 < J0
      ∧ ref_low.cuentas_netas = Dbl.fin I0 ∧ ref_high.cuentas_netas = Dbl.fin J0 := by
  unfold AnalisisEu152.referencia at hr
  cases hfs : fs (directorio ++ "Eu152_REE_0p00.root") with
  | none => rw [hfs] at hr; simp at hr
  | some Energy =>
    rw [hfs] at hr
    simp only at hr
    obtain ⟨⟨x, hx, hx0⟩, ⟨y, hy, hy0⟩⟩ := netas_llenar m Energy usar_1408
    rw [hx, hy] at hr
    by_cases hg : (Dbl.le (Dbl.fin x) (Dbl.fin 0) || Dbl.le (Dbl.fin y) (Dbl.fin 0)) = true
    · rw [if_pos hg] at hr
      simp at hr
    · rw [if_neg hg] at hr
      have hpair : (AnalisisEu152.IntegrarFotopico m (some (llenar 1600 0 1600 Energy))
            AnalisisEu152.E_122 AnalisisEu152.ventana_low,
          AnalisisEu152.IntegrarFotopico m (some (llenar 1600 0 1600 Energy))
            (AnalisisEu152.E_HIGH usar_1408) (AnalisisEu152.ventana_high usar_1408))
          = (ref_low, ref_high) := by
        injection hr
      have hl := (Prod.mk.inj hpair).1
      have hh := (Prod.mk.inj hpair).2
      simp only [Dbl.le_fin_fin, Bool.or_eq_true, decide_eq_true_eq, not_or, not_le] at hg
      refine ⟨Energy, x, y, rfl, ?_, hl.symm, hh.symm, hg.1, hg.2, ?_, ?_⟩
      · intro he
        have := hx0 he
        linarith [hg.1]
      · rw [← hl]; exact hx
      · rw [← hh]; exact hy

/-- A failed reference guard of `AnalisisEu152`: the run returns before the
sample loop. -/
theorem referencia_guardia {α : Type} [LinearOrderedField α] [FloorRing α] (m : Libm α)
    (fs : Archivos α) (directorio : String) (usar_1408 : Bool) (Energy : List α)
    (hfs : fs (directorio ++ "Eu152_REE_0p00.root") = some Energy)
    (hg : Dbl.le (AnalisisEu152.IntegrarFotopico m (some (llenar 1600 0 1600 Energy))
          AnalisisEu152.E_122 AnalisisEu152.ventana_low).cuentas_netas (Dbl.fin 0) = true
      ∨ Dbl.le (AnalisisEu152.IntegrarFotopico m (some (llenar 1600 0 1600 Energy))
          (AnalisisEu152.E_HIGH usar_1408)
          (AnalisisEu152.ventana_high usar_1408)).cuentas_netas (Dbl.fin 0) = true) :
    AnalisisEu152.referencia m fs directorio usar_1408
      = Except.error Fallo.cuentas_netas_referencia := by
  unfold AnalisisEu152.referencia
  rw [hfs]
  simp only
  rw [if_pos]
  simpa [Bool.or_eq_true] using hg

/-- The rows of a run of `AnalisisEu152` that passes the reference guard. -/
theorem AnalisisEu152_ok {α : Type} [LinearOrderedField α] [FloorRing α] (m : Libm α)
    (fs : Archivos α) (directorio : String) (usar_1408 : Bool)
    (filas : List (α × AnalisisEu152.Indices α))
    (hrun : AnalisisEu152 m fs directorio usar_1408 = Except.ok filas) :
    ∃ ref_low ref_high,
      AnalisisEu152.referencia m fs directorio usar_1408 = Except.ok (ref_low, ref_high)
      ∧ filas = AnalisisEu152.MUESTRAS.filterMap
          (AnalisisEu152.pasoMuestra m fs directorio usar_1408 ref_low ref_high) := by
  unfold AnalisisEu152 at hrun
  cases hr : AnalisisEu152.referencia m fs directorio usar_1408 with
  | error e => rw [hr] at hrun; simp at hrun
  | ok refs =>
    obtain ⟨ref_low, ref_high⟩ := refs
    rw [hr] at hrun
    simp only at hrun
    injection hrun with hrun
    exact ⟨ref_low, ref_high, rfl, hrun.symm⟩

/-- A peak with finite positive net counts compared with itself in the sample
loop of `AnalisisEu152`: `T = 1`, `L = 0`, `R = 0`, `errR = 0`. -/
theorem procesarMuestra_auto {α : Type} [LinearOrderedField α] (m : Libm α)
    (hlog : m.log 1 = 0) (p_low p_high : AnalisisEu152.Pico α) (I0 J0 : α)
    (hI : 0 < I0) (hJ : 0 < J0)
    (hl : p_low.cuentas_netas = Dbl.fin I0) (hh : p_high.cuentas_netas = Dbl.fin J0) :
    let r := AnalisisEu152.procesarMuestra m p_low p_high p_low p_high
    r.T_low = Dbl.fin 1 ∧ r.T_high = Dbl.fin 1 ∧ r.L_low = Dbl.fin 0 ∧ r.L_high = Dbl.fin 0
    ∧ r.R = Dbl.fin 0 ∧ r.errR = Dbl.fin 0 := by
  intro r
  obtain ⟨hTl, hTh, hLl, hLh, hR, hE⟩ := procesarMuestra_campos m p_low p_high p_low p_high
  have hone : -(Dbl.log m (Dbl.fin (1 : α))) = Dbl.fin 0 := by
    rw [Dbl.log_fin m 1 one_pos, hlog]; simp
  have h1 : r.T_low = Dbl.fin 1 := by
    rw [hTl, hl, Dbl.fin_div_fin _ _ hI.ne', div_self hI.ne']
  have h2 : r.T_high = Dbl.fin 1 := by
    rw [hTh, hh, Dbl.fin_div_fin _ _ hJ.ne', div_self hJ.ne']
  have h3 : r.L_low = Dbl.fin 0 := by
    rw [hLl, h1, hone]; simp
  have h4 : r.L_high = Dbl.fin 0 := by
    rw [hLh, h2, hone]; simp
  have hgt : Dbl.gt r.L_high (Dbl.fin 0.001) = false := by
    rw [h4, Dbl.gt_fin_fin]
    simp only [decide_eq_false_iff_not, not_lt]
    norm_num
  refine ⟨h1, h2, h3, h4, ?_, ?_⟩
  · rw [hR]
    show (if Dbl.gt r.L_high (Dbl.fin 0.001) = true then _ else _) = _
    rw [hgt]; simp
  · rw [hE]
    show (if Dbl.gt r.L_high (Dbl.fin 0.001) = true then _ else _) = _
    rw [hgt]; simp

/-- The line and half-width of the high-energy ROI are the same in
`AnalisisEu152_v4` as in `AnalisisEu152`. -/
theorem E_HIGH_v4 {α : Type} [LinearOrderedField α] (usar_1408 : Bool) :
    (AnalisisEu152_v4.E_HIGH usar_1408 : α) = AnalisisEu152.E_HIGH usar_1408
    ∧ (AnalisisEu152_v4.ventana_high usar_1408 : α) = AnalisisEu152.ventana_high usar_1408 := by
  cases usar_1408 <;> exact ⟨rfl, rfl⟩

/-- A passed reference guard of `AnalisisEu152_v4`: the reference file was
read, its tree has rows (`N_eventos_ref` is their number), and both reference
net counts are finite and positive. -/
theorem referencia_v4_ok {α : Type} [LinearOrderedField α] [FloorRing α] (m : Libm α)
    (fs : Archivos α) (directorio : String) (usar_1408 : Bool)
    (ref_low ref_high : AnalisisEu152_v4.Pico α) (N_eventos_ref : α)
    (hr : AnalisisEu152_v4.referencia m fs directorio usar_1408
      = Except.ok (ref_low, ref_high, N_eventos_ref)) :
    ∃ (Energy : List α) (I0 J0 : α),
      fs (directorio ++ "Eu152_REE_0p00.root") = some Energy ∧ Energy ≠ []
      ∧ N_eventos_ref = (Energy.length : α)
      ∧ ref_low = AnalisisEu152_v4.IntegrarFotopico m (some (llenar 1600 0 1600 Energy))
          121.78 12 (Dbl.fin 1)
      ∧ ref_high = AnalisisEu152_v4.IntegrarFotopico m (some (llenar 1600 0 1600 Energy))
          (AnalisisEu152_v4.E_HIGH usar_1408) (AnalisisEu152_v4.ventana_high usar_1408)
          (Dbl.fin 1)
      ∧ 0 < I0 ∧ 0 < J0
      ∧ ref_low.cuentas_netas = Dbl.fin I0 ∧ ref_high.cuentas_netas = Dbl.fin J0 := by
  unfold AnalisisEu152_v4.referencia at hr
  cases hfs : fs (directorio ++ "Eu152_REE_0p00.root") with
  | none => rw [hfs] at hr; simp at hr
  | some Energy =>
    rw [hfs] at hr
    simp only at hr
    obtain ⟨⟨x, hx, hx0⟩, ⟨y, hy, hy0⟩⟩ := netas_llenar m Energy usar_1408
    have hx4 : (AnalisisEu152_v4.IntegrarFotopico m (some (llenar 1600 0 1600 Energy))
        121.78 12 (Dbl.fin 1)).cuentas_netas = Dbl.fin x := hx
    have hy4 : (AnalisisEu152_v4.IntegrarFotopico m (some (llenar 1600 0 1600 Energy))
        (AnalisisEu152_v4.E_HIGH usar_1408) (AnalisisEu152_v4.ventana_high usar_1408)
        (Dbl.fin 1)).cuentas_netas = Dbl.fin y := by
      rw [(E_HIGH_v4 usar_1408).1, (E_HIGH_v4 usar_1408).2]
      exact hy
    rw [hx4, hy4] at hr
    by_cases hg : (Dbl.le (Dbl.fin x) (Dbl.fin 0) || Dbl.le (Dbl.fin y) (Dbl.fin 0)) = true
    · rw [if_pos hg] at hr
      simp at hr
    · rw [if_neg hg] at hr
      have htriple : (AnalisisEu152_v4.IntegrarFotopico m (some (llenar 1600 0 1600 Energy))
            121.78 12 (Dbl.fin 1),
          AnalisisEu152_v4.IntegrarFotopico m (some (llenar 1600 0 1600 Energy))
            (AnalisisEu152_v4.E_HIGH usar_1408) (AnalisisEu152_v4.ventana_high usar_1408)
            (Dbl.fin 1),
          (llenar 1600 0 1600 Energy).GetEntries)
          = (ref_low, ref_high, N_eventos_ref) := by
        injection hr
      have hl := (Prod.mk.inj htriple).1
      have hh := (Prod.mk.inj (Prod.mk.inj htriple).2).1
      have hN := (Prod.mk.inj (Prod.mk.inj htriple).2).2
      simp only [Dbl.le_fin_fin, Bool.or_eq_true, decide_eq_true_eq, not_or, not_le] at hg
      refine ⟨Energy, x, y, rfl, ?_, hN.symm, hl.symm, hh.symm, hg.1, hg.2, ?_, ?_⟩
      · intro he
        have := hx0 he
        linarith [hg.1]
      · rw [← hl]; exact hx4
      · rw [← hh]; exact hy4

/-- The first result of the sample loop of `AnalisisEu152_v4` after a passed
reference guard: the reference file is processed again, with the normalisation
factor `1`, so that its peaks are the reference peaks. -/
theorem resultados_v4_cabeza {α : Type} [LinearOrderedField α] [FloorRing α] (m : Libm α)
    (fs : Archivos α) (directorio : String) (usar_1408 : Bool)
    (ref_low ref_high : AnalisisEu152_v4.Pico α) (N_eventos_ref : α)
    (hr : AnalisisEu152_v4.referencia m fs directorio usar_1408
      = Except.ok (ref_low, ref_high, N_eventos_ref)) :
    ∃ resto, AnalisisEu152_v4.MUESTRAS.filterMap
        (AnalisisEu152_v4.pasoMuestra m fs directorio usar_1408 ref_low ref_high N_eventos_ref)
      = AnalisisEu152_v4.calcularResultado m ref_low ref_high
          (AnalisisEu152_v4.Q0 ref_low ref_high) (AnalisisEu152_v4.errQ0 m ref_low ref_high)
          0 true ref_low ref_high :: resto := by
  obtain ⟨Energy, I0, J0, hfs, hne, hN, hl, hh, -, -, -, -⟩ :=
    referencia_v4_ok m fs directorio usar_1408 ref_low ref_high N_eventos_ref hr
  have hlen : ((Energy.length : ℕ) : α) ≠ 0 := by
    have : Energy.length ≠ 0 := fun h0 => hne (List.length_eq_zero.mp h0)
    exact_mod_cast this
  have hfac : (Dbl.fin N_eventos_ref / Dbl.fin (llenar 1600 0 1600 Energy).GetEntries : Dbl α)
      = Dbl.fin 1 := by
    have hE : (llenar 1600 0 1600 Energy).GetEntries = (Energy.length : α) := rfl
    rw [hE, hN, Dbl.fin_div_fin _ _ hlen, div_self hlen]
  have hpaso : AnalisisEu152_v4.pasoMuestra m fs directorio usar_1408 ref_low ref_high
      N_eventos_ref ⟨"Eu152_REE_0p00.root", 0.00, true⟩
      = some (AnalisisEu152_v4.calcularResultado m ref_low ref_high
          (AnalisisEu152_v4.Q0 ref_low ref_high) (AnalisisEu152_v4.errQ0 m ref_low ref_high)
          0 true ref_low ref_high) := by
    unfold AnalisisEu152_v4.pasoMuestra
    simp only [hfs, hfac]
    rw [← hl, ← hh]
    norm_num
  unfold AnalisisEu152_v4.MUESTRAS
  rw [List.filterMap_cons, hpaso]
  exact ⟨_, rfl⟩

/-- A peak of `AnalisisEu152_v4` with finite positive net counts and the
normalisation factor `1` (normalised counts equal to the counts) compared with
itself in the sample loop: `T = 1`, `L = 0`, `R = 0`, `errR = 0`, `Q = Q0`,
`errQ = errQ0`, `Z_score = 0`, neither detectable nor quantifiable. -/
theorem calcularResultado_auto {α : Type} [LinearOrderedField α] (m : Libm α)
    (p_low p_high : AnalisisEu152_v4.Pico α) (I0 J0 : α) (conc : α) (esFino : Bool)
    (hI : 0 < I0) (hJ : 0 < J0)
    (hl : p_low.cuentas_netas = Dbl.fin I0) (hh : p_high.cuentas_netas = Dbl.fin J0)
    (hln : p_low.netas_norm = Dbl.fin I0) (hhn : p_high.netas_norm = Dbl.fin J0) :
    let r := AnalisisEu152_v4.calcularResultado m p_low p_high
      (AnalisisEu152_v4.Q0 p_low p_high) (AnalisisEu152_v4.errQ0 m p_low p_high)
      conc esFino p_low p_high
    r.T_low = Dbl.fin 1 ∧ r.T_high = Dbl.fin 1
    ∧ (m.log 1 = 0 → r.L_low = Dbl.fin 0 ∧ r.L_high = Dbl.fin 0
        ∧ r.R = Dbl.fin 0 ∧ r.errR = Dbl.fin 0)
    ∧ r.Q = AnalisisEu152_v4.Q0 p_low p_high
    ∧ r.errQ = AnalisisEu152_v4.errQ0 m p_low p_high
    ∧ r.Z_score = Dbl.fin 0 ∧ r.detectable = false ∧ r.cuantificable = false := by
  intro r
  have h1 : r.T_low = Dbl.fin 1 := by
    show p_low.netas_norm / p_low.cuentas_netas = _
    rw [hln, hl, Dbl.fin_div_fin _ _ hI.ne', div_self hI.ne']
  have h2 : r.T_high = Dbl.fin 1 := by
    show p_high.netas_norm / p_high.cuentas_netas = _
    rw [hhn, hh, Dbl.fin_div_fin _ _ hJ.ne', div_self hJ.ne']
  have hQ : r.Q = AnalisisEu152_v4.Q0 p_low p_high := rfl
  have hE : r.errQ = AnalisisEu152_v4.errQ0 m p_low p_high := rfl
  have hQ0 : AnalisisEu152_v4.Q0 p_low p_high = Dbl.fin (I0 / J0) := by
    unfold AnalisisEu152_v4.Q0
    rw [hl, hh, Dbl.fin_div_fin _ _ hJ.ne']
  have hZ : r.Z_score = Dbl.fin 0 := by
    have hZdef : r.Z_score
        = (if Dbl.gt (Dbl.sqrt m (r.errQ * r.errQ
              + AnalisisEu152_v4.errQ0 m p_low p_high * AnalisisEu152_v4.errQ0 m p_low p_high))
            (Dbl.fin 0)
          then (r.Q - AnalisisEu152_v4.Q0 p_low p_high)
            / Dbl.sqrt m (r.errQ * r.errQ
              + AnalisisEu152_v4.errQ0 m p_low p_high * AnalisisEu152_v4.errQ0 m p_low p_high)
          else Dbl.fin 0) := rfl
    rw [hZdef, hQ, hQ0, Dbl.fin_sub_fin, sub_self]
    split_ifs with hs
    · generalize Dbl.sqrt m (r.errQ * r.errQ
        + AnalisisEu152_v4.errQ0 m p_low p_high * AnalisisEu152_v4.errQ0 m p_low p_high) = sg
        at hs
      cases sg with
      | fin a =>
        have ha : (0 : α) < a := by simpa using hs
        rw [Dbl.fin_div_fin _ _ ha.ne', zero_div]
      | pinf => rfl
      | ninf => simp [Dbl.gt, Dbl.lt] at hs
      | nan => simp [Dbl.gt, Dbl.lt] at hs
    · rfl
  have hdet : r.detectable = Dbl.gt (Dbl.abs r.Z_score) (Dbl.fin 3) := rfl
  have hcua : r.cuantificable = Dbl.gt (Dbl.abs r.Z_score) (Dbl.fin 10) := rfl
  refine ⟨h1, h2, ?_, hQ, hE, hZ, ?_, ?_⟩
  · intro hlog
    have hone : -(Dbl.log m (Dbl.fin (1 : α))) = Dbl.fin 0 := by
      rw [Dbl.log_fin m 1 one_pos, hlog]; simp
    have hLl : r.L_low
        = (if Dbl.gt r.T_low (Dbl.fin 0) then -(Dbl.log m r.T_low) else Dbl.fin 0) := rfl
    have hLh : r.L_high
        = (if Dbl.gt r.T_high (Dbl.fin 0) then -(Dbl.log m r.T_high) else Dbl.fin 0) := rfl
    have h3 : r.L_low = Dbl.fin 0 := by
      rw [hLl, h1, hone]; simp
    have h4 : r.L_high = Dbl.fin 0 := by
      rw [hLh, h2, hone]; simp
    have hgt : Dbl.gt r.L_high (Dbl.fin 0.001) = false := by
      rw [h4, Dbl.gt_fin_fin]
      simp only [decide_eq_false_iff_not, not_lt]
      norm_num
    obtain ⟨hR, hER⟩ := calcularResultado_R m p_low p_high p_low p_high
      (AnalisisEu152_v4.Q0 p_low p_high) (AnalisisEu152_v4.errQ0 m p_low p_high) conc esFino
    refine ⟨h3, h4, ?_, ?_⟩
    · rw [hR]
      show (if Dbl.gt r.L_high (Dbl.fin 0.001) = true then _ else _) = _
      rw [hgt]; simp
    · rw [hER]
      show (if Dbl.gt r.L_high (Dbl.fin 0.001) = true then _ else _) = _
      rw [hgt]; simp
  · rw [hdet, hZ]
    simp only [Dbl.abs_fin, abs_zero, Dbl.gt_fin_fin, decide_eq_false_iff_not, not_lt]
    norm_num
  · rw [hcua, hZ]
    simp only [Dbl.abs_fin, abs_zero, Dbl.gt_fin_fin, decide_eq_false_iff_not, not_lt]
    norm_num

/-- Scaling by a positive finite factor commutes with a division, whatever the
two doubles are. -/
theorem Dbl.mul_div_assoc_pos {α : Type} [LinearOrderedField α] (c : α) (hc : 0 < c)
    (x y : Dbl α) : Dbl.fin c * (x / y) = Dbl.fin c * x / y := by
  have hp : (Dbl.infOfSign c : Dbl α) = Dbl.pinf := Dbl.infOfSign_pos hc
  have hn : (Dbl.infOfSign (-c) : Dbl α) = Dbl.ninf := Dbl.infOfSign_neg (neg_neg_of_pos hc)
  cases x with
  | nan => simp
  | fin a =>
    cases y with
    | nan => simp
    | pinf => simp
    | ninf => simp
    | fin b =>
      by_cases hb : b = 0
      · subst hb
        rw [Dbl.fin_div_zero, Dbl.fin_mul_fin, Dbl.fin_div_zero]
        rcases lt_trichotomy a 0 with ha | ha | ha
        · rw [Dbl.infOfSign_neg ha, Dbl.infOfSign_neg (mul_neg_of_pos_of_neg hc ha),
            Dbl.fin_mul_ninf, hn]
        · subst ha; simp
        · rw [Dbl.infOfSign_pos ha, Dbl.infOfSign_pos (mul_pos hc ha), Dbl.fin_mul_pinf, hp]
      · rw [Dbl.fin_div_fin _ _ hb, Dbl.fin_mul_fin, Dbl.fin_mul_fin, Dbl.fin_div_fin _ _ hb,
          mul_div_assoc]
  | pinf =>
    cases y with
    | nan => simp
    | pinf => simp [hp]
    | ninf => simp [hp]
    | fin b =>
      rw [Dbl.fin_mul_pinf, hp, Dbl.pinf_div_fin]
      split_ifs
      · rw [Dbl.fin_mul_pinf, hp]
      · rw [Dbl.fin_mul_ninf, hn]
  | ninf =>
    cases y with
    | nan => simp
    | pinf => simp [hn]
    | ninf => simp [hn]
    | fin b =>
      rw [Dbl.fin_mul_ninf, hn, Dbl.ninf_div_fin]
      split_ifs
      · rw [Dbl.fin_mul_ninf, hn]
      · rw [Dbl.fin_mul_pinf, hp]

/-- The bins of the three rows of `energiasEjemplo` on the axis of 1600 bins
of `[0, 1600)`. -/
theorem energiasEjemplo_bines {α : Type} [LinearOrderedField α] [FloorRing α] :
    TAxis.FindBin 1600 0 1600 ((0.12178 : α) * 1000) = 122
    ∧ TAxis.FindBin 1600 0 1600 ((0.7789 : α) * 1000) = 779
    ∧ TAxis.FindBin 1600 0 1600 ((1.40801 : α) * 1000) = 1409 := by
  refine ⟨?_, ?_, ?_⟩ <;> (apply findBin_1600 <;> norm_num)

/-- The net counts of the two lines (121.78 keV and 778.90 keV) in the
histogram of `energiasEjemplo`: one count each, no background. -/
theorem energiasEjemplo_netas {α : Type} [LinearOrderedField α] [FloorRing α] (m : Libm α) :
    (AnalisisEu152.IntegrarFotopico m (some (llenar 1600 0 1600 (energiasEjemplo α)))
        AnalisisEu152.E_122 AnalisisEu152.ventana_low).cuentas_netas = Dbl.fin 1
    ∧ (AnalisisEu152.IntegrarFotopico m (some (llenar 1600 0 1600 (energiasEjemplo α)))
        (AnalisisEu152.E_HIGH false) (AnalisisEu152.ventana_high false)).cuentas_netas
        = Dbl.fin 1 := by
  obtain ⟨⟨a1, a2, a3, a4⟩, ⟨b1, b2, b3, b4⟩, -⟩ := bines_configurados (α := α)
  obtain ⟨e1, e2, e3⟩ := energiasEjemplo_bines (α := α)
  have hF : ∀ x : α, (llenar 1600 0 1600 (energiasEjemplo α)).FindBin x
      = TAxis.FindBin 1600 0 1600 x := fun _ => rfl
  have hI : ∀ b1 b2 : ℤ, 0 ≤ b1 → b1 ≤ b2 → b2 ≤ 1601 →
      (llenar 1600 0 1600 (energiasEjemplo α)).Integral b1 b2
        = (((if b1 ≤ 122 ∧ 122 ≤ b2 then 1 else 0) + (if b1 ≤ 779 ∧ 779 ≤ b2 then 1 else 0)
            + (if b1 ≤ 1409 ∧ 1409 ≤ b2 then 1 else 0) : ℕ) : α) := by
    intro b1 b2 h1 h12 h2
    rw [llenar_Integral 1600 0 1600 _ b1 b2 h1 h12 (by push_cast; omega)]
    congr 1
    simp only [energiasEjemplo, List.countP_cons, List.countP_nil, e1, e2, e3,
      decide_eq_true_eq]
    omega
  constructor
  · rw [IntegrarFotopico_netas]
    · simp only [hF, AnalisisEu152.E_122, AnalisisEu152.ventana_low, a1, a2, a3, a4]
      rw [hI 110 134 (by norm_num) (by norm_num) (by norm_num),
        hI 98 (110 - 1) (by norm_num) (by norm_num) (by norm_num),
        hI (134 + 1) 146 (by norm_num) (by norm_num) (by norm_num)]
      norm_num
    · simp only [hF, AnalisisEu152.E_122, AnalisisEu152.ventana_low, a1, a2, a3, a4]
      norm_num
  · rw [IntegrarFotopico_netas]
    · simp only [hF, AnalisisEu152.E_HIGH, AnalisisEu152.ventana_high, AnalisisEu152.E_779,
        Bool.false_eq_true, if_false, b1, b2, b3, b4]
      rw [hI 759 799 (by norm_num) (by norm_num) (by norm_num),
        hI 739 (759 - 1) (by norm_num) (by norm_num) (by norm_num),
        hI (799 + 1) 819 (by norm_num) (by norm_num) (by norm_num)]
      norm_num
    · simp only [hF, AnalisisEu152.E_HIGH, AnalisisEu152.ventana_high, AnalisisEu152.E_779,
        Bool.false_eq_true, if_false, b1, b2, b3, b4]
      norm_num

/-- The first row of the sample loop of `AnalisisEu152` after a passed
reference guard: the reference file is processed again, and its peaks are the
reference peaks. -/
theorem filas_cabeza {α : Type} [LinearOrderedField α] [FloorRing α] (m : Libm α)
    (fs : Archivos α) (directorio : String) (usar_1408 : Bool)
    (ref_low ref_high : AnalisisEu152.Pico α)
    (hr : AnalisisEu152.referencia m fs directorio usar_1408 = Except.ok (ref_low, ref_high)) :
    ∃ resto, AnalisisEu152.MUESTRAS.filterMap
        (AnalisisEu152.pasoMuestra m fs directorio usar_1408 ref_low ref_high)
      = (0, AnalisisEu152.procesarMuestra m ref_low ref_high ref_low ref_high) :: resto := by
  obtain ⟨Energy, I0, J0, hfs, -, hl, hh, -, -, -, -⟩ :=
    referencia_ok m fs directorio usar_1408 ref_low ref_high hr
  have hpaso : AnalisisEu152.pasoMuestra m fs directorio usar_1408 ref_low ref_high
      ("Eu152_REE_0p00.root", 0)
      = some (0, AnalisisEu152.procesarMuestra m ref_low ref_high ref_low ref_high) := by
    unfold AnalisisEu152.pasoMuestra
    simp only [hfs]
    rw [← hl, ← hh]
  unfold AnalisisEu152.MUESTRAS
  rw [List.filterMap_cons, hpaso]
  exact ⟨_, rfl⟩

/-- The reference step of `AnalisisEu152` on a directory whose reference file
holds the tree `energiasEjemplo`: the guard passes. -/
theorem referencia_energiasEjemplo {α : Type} [LinearOrderedField α] [FloorRing α]
    (m : Libm α) (fs : Archivos α) (directorio : String)
    (hfs : fs (directorio ++ "Eu152_REE_0p00.root") = some (energiasEjemplo α)) :
    AnalisisEu152.referencia m fs directorio false
      = Except.ok
        (AnalisisEu152.IntegrarFotopico m (some (llenar 1600 0 1600 (energiasEjemplo α)))
          AnalisisEu152.E_122 AnalisisEu152.ventana_low,
         AnalisisEu152.IntegrarFotopico m (some (llenar 1600 0 1600 (energiasEjemplo α)))
          (AnalisisEu152.E_HIGH false) (AnalisisEu152.ventana_high false)) := by
  obtain ⟨h1, h2⟩ := energiasEjemplo_netas (α := α) m
  unfold AnalisisEu152.referencia
  rw [hfs]
  simp only [h1, h2, Dbl.le_fin_fin]
  rw [if_neg]
  simp only [Bool.or_eq_true, decide_eq_true_eq, not_or, not_le]
  exact ⟨one_pos, one_pos⟩

/-- The reference step of `AnalisisEu152_v4` on a directory whose reference
file holds the tree `energiasEjemplo`: the guard passes, with three events. -/
theorem referencia_v4_energiasEjemplo {α : Type} [LinearOrderedField α] [FloorRing α]
    (m : Libm α) (fs : Archivos α) (directorio : String)
    (hfs : fs (directorio ++ "Eu152_REE_0p00.root") = some (energiasEjemplo α)) :
    AnalisisEu152_v4.referencia m fs directorio false
      = Except.ok
        (AnalisisEu152_v4.IntegrarFotopico m (some (llenar 1600 0 1600 (energiasEjemplo α)))
          121.78 12 (Dbl.fin 1),
         AnalisisEu152_v4.IntegrarFotopico m (some (llenar 1600 0 1600 (energiasEjemplo α)))
          (AnalisisEu152_v4.E_HIGH false) (AnalisisEu152_v4.ventana_high false) (Dbl.fin 1),
         (llenar 1600 0 1600 (energiasEjemplo α)).GetEntries) := by
  obtain ⟨h1, h2⟩ := energiasEjemplo_netas (α := α) m
  have h1' : (AnalisisEu152_v4.IntegrarFotopico m
      (some (llenar 1600 0 1600 (energiasEjemplo α))) 121.78 12 (Dbl.fin 1)).cuentas_netas
      = Dbl.fin 1 := h1
  have h2' : (AnalisisEu152_v4.IntegrarFotopico m
      (some (llenar 1600 0 1600 (energiasEjemplo α))) (AnalisisEu152_v4.E_HIGH false)
      (AnalisisEu152_v4.ventana_high false) (Dbl.fin 1)).cuentas_netas = Dbl.fin 1 := h2
  unfold AnalisisEu152_v4.referencia
  rw [hfs]
  simp only [h1', h2', Dbl.le_fin_fin]
  rw [if_neg]
  simp only [Bool.or_eq_true, decide_eq_true_eq, not_or, not_le]
  exact ⟨one_pos, one_pos⟩

/-- The reference file of the sample directories that hold it. -/
theorem archivos_referencia {α : Type} [LinearOrderedField α] :
    archivosEjemplo α ("" ++ "Eu152_REE_0p00.root") = some (energiasEjemplo α)
    ∧ archivosSoloReferencia α ("" ++ "Eu152_REE_0p00.root") = some (energiasEjemplo α) := by
  constructor
  · simp [archivosEjemplo]
  · simp [archivosSoloReferencia]

/-- A reference peak of `AnalisisEu152_v4` is integrated with the
normalisation factor `1`: its normalised net counts are its net counts. -/
theorem netas_norm_referencia {α : Type} [LinearOrderedField α] (m : Libm α)
    (h : TH1D α) (E s : α) (I0 : α)
    (hI : (AnalisisEu152_v4.IntegrarFotopico m (some h) E s (Dbl.fin 1)).cuentas_netas
      = Dbl.fin I0) :
    (AnalisisEu152_v4.IntegrarFotopico m (some h) E s (Dbl.fin 1)).netas_norm = Dbl.fin I0 := by
  have h0 : (AnalisisEu152_v4.IntegrarFotopico m (some h) E s (Dbl.fin 1)).netas_norm
      = (AnalisisEu152_v4.IntegrarFotopico m (some h) E s (Dbl.fin 1)).cuentas_netas
        * Dbl.fin 1 := rfl
  rw [h0, hI, Dbl.fin_mul_fin, mul_one]

/-! ## The reference sample in the sample loop -/

/-- C14: whenever the reference guard passes, the first sample of the loop is
the 0 % sample, read from the reference file again and compared with its own
measurement.  In `AnalisisEu152` the run stores for it `T_low = T_high = 1`,
`L_low = L_high = 0`, `R = 0` and `errR = 0`; in `AnalisisEu152_v4` its
normalisation factor `N_eventos_ref / N_eventos` is exactly `1`, its peaks are
the reference peaks, and the loop stores the same values.  `log(1) = 0` is
what the C library returns. -/
theorem C14_muestra_cero_contra_si_misma {α : Type} [LinearOrderedField α] [FloorRing α]
    (m : Libm α) (hlog : m.log 1 = 0) (fs : Archivos α) (directorio : String)
    (usar_1408 : Bool) :
    (∀ ref_low ref_high,
      AnalisisEu152.referencia m fs directorio usar_1408 = Except.ok (ref_low, ref_high) →
      ∃ r resto,
        AnalisisEu152 m fs directorio usar_1408 = Except.ok ((0, r) :: resto)
        ∧ r = AnalisisEu152.procesarMuestra m ref_low ref_high ref_low ref_high
        ∧ r.T_low = Dbl.fin 1 ∧ r.T_high = Dbl.fin 1
        ∧ r.L_low = Dbl.fin 0 ∧ r.L_high = Dbl.fin 0
        ∧ r.R = Dbl.fin 0 ∧ r.errR = Dbl.fin 0)
    ∧ (∀ ref_low ref_high N_eventos_ref,
      AnalisisEu152_v4.referencia m fs directorio usar_1408
        = Except.ok (ref_low, ref_high, N_eventos_ref) →
      ∃ r resto,
        AnalisisEu152_v4.MUESTRAS.filterMap
          (AnalisisEu152_v4.pasoMuestra m fs directorio usar_1408 ref_low ref_high
            N_eventos_ref) = r :: resto
        ∧ r.conc = 0
        ∧ Dbl.fin N_eventos_ref / Dbl.fin N_eventos_ref = Dbl.fin 1
        ∧ r = AnalisisEu152_v4.calcularResultado m ref_low ref_high
            (AnalisisEu152_v4.Q0 ref_low ref_high) (AnalisisEu152_v4.errQ0 m ref_low ref_high)
            0 true ref_low ref_high
        ∧ r.T_low = Dbl.fin 1 ∧ r.T_high = Dbl.fin 1
        ∧ r.L_low = Dbl.fin 0 ∧ r.L_high = Dbl.fin 0
        ∧ r.R = Dbl.fin 0 ∧ r.errR = Dbl.fin 0) := by
  constructor
  · intro ref_low ref_high hr
    obtain ⟨Energy, I0, J0, -, -, -, -, hI, hJ, hnl, hnh⟩ :=
      referencia_ok m fs directorio usar_1408 ref_low ref_high hr
    obtain ⟨resto, hres⟩ := filas_cabeza m fs directorio usar_1408 ref_low ref_high hr
    refine ⟨_, resto, ?_, rfl, procesarMuestra_auto m hlog ref_low ref_high I0 J0 hI hJ hnl hnh⟩
    unfold AnalisisEu152
    rw [hr]
    simp only
    rw [hres]
  · intro ref_low ref_high N_eventos_ref hr
    obtain ⟨Energy, I0, J0, -, hne, hN, hl, hh, hI, hJ, hnl, hnh⟩ :=
      referencia_v4_ok m fs directorio usar_1408 ref_low ref_high N_eventos_ref hr
    obtain ⟨resto, hres⟩ :=
      resultados_v4_cabeza m fs directorio usar_1408 ref_low ref_high N_eventos_ref hr
    have hln : ref_low.netas_norm = Dbl.fin I0 := by
      rw [hl] at hnl ⊢
      exact netas_norm_referencia m _ _ _ I0 hnl
    have hhn : ref_high.netas_norm = Dbl.fin J0 := by
      rw [hh] at hnh ⊢
      exact netas_norm_referencia m _ _ _ J0 hnh
    have hlen : N_eventos_ref ≠ 0 := by
      rw [hN]
      have : Energy.length ≠ 0 := fun h0 => hne (List.length_eq_zero.mp h0)
      exact_mod_cast this
    obtain ⟨h1, h2, h3, -⟩ :=
      calcularResultado_auto m ref_low ref_high I0 J0 0 true hI hJ hnl hnh hln hhn
    obtain ⟨h4, h5, h6, h7⟩ := h3 hlog
    refine ⟨_, resto, hres, rfl, ?_, rfl, h1, h2, h4, h5, h6, h7⟩
    rw [Dbl.fin_div_fin _ _ hlen, div_self hlen]

/-- Witness of C14 over the reals, on the directory `archivosEjemplo`: the
reference guard passes in both scripts and the first sample gets the stated
values. -/
theorem C14_muestra_cero_contra_si_misma_witness :
    (∃ r resto,
        AnalisisEu152 libmReal (archivosEjemplo ℝ) "" false = Except.ok ((0, r) :: resto)
        ∧ r.T_low = Dbl.fin 1 ∧ r.T_high = Dbl.fin 1
        ∧ r.L_low = Dbl.fin 0 ∧ r.L_high = Dbl.fin 0
        ∧ r.R = Dbl.fin 0 ∧ r.errR = Dbl.fin 0)
    ∧ (∃ ref_low ref_high N_eventos_ref r resto,
        AnalisisEu152_v4.referencia libmReal (archivosEjemplo ℝ) "" false
          = Except.ok (ref_low, ref_high, N_eventos_ref)
        ∧ AnalisisEu152_v4.MUESTRAS.filterMap
          (AnalisisEu152_v4.pasoMuestra libmReal (archivosEjemplo ℝ) "" false ref_low ref_high
            N_eventos_ref) = r :: resto
        ∧ r.T_low = Dbl.fin 1 ∧ r.T_high = Dbl.fin 1
        ∧ r.L_low = Dbl.fin 0 ∧ r.L_high = Dbl.fin 0
        ∧ r.R = Dbl.fin 0 ∧ r.errR = Dbl.fin 0) := by
  have hlog : libmReal.log 1 = 0 := Real.log_one
  have hC := C14_muestra_cero_contra_si_misma libmReal hlog (archivosEjemplo ℝ) "" false
  constructor
  · obtain ⟨r, resto, h1, -, h2⟩ := hC.1 _ _
      (referencia_energiasEjemplo libmReal (archivosEjemplo ℝ) "" archivos_referencia.1)
    exact ⟨r, resto, h1, h2⟩
  · obtain ⟨r, resto, h1, -, -, -, h2⟩ := hC.2 _ _ _
      (referencia_v4_energiasEjemplo libmReal (archivosEjemplo ℝ) "" archivos_referencia.1)
    exact ⟨_, _, _, r, resto,
      referencia_v4_energiasEjemplo libmReal (archivosEjemplo ℝ) "" archivos_referencia.1,
      h1, h2⟩

/-- C17: in `AnalisisEu152_v4`, whenever the reference guard passes, the first
result of the sample loop is the 0 % reference sample, with `Q = Q0`,
`errQ = errQ0`, `Z_score = 0`, neither detectable nor quantifiable: step 8
sorts it into the list of the samples that are not detectable. -/
theorem C17_referencia_no_detectable {α : Type} [LinearOrderedField α] [FloorRing α]
    (m : Libm α) (fs : Archivos α) (directorio : String) (usar_1408 : Bool)
    (ref_low ref_high : AnalisisEu152_v4.Pico α) (N_eventos_ref : α)
    (hr : AnalisisEu152_v4.referencia m fs directorio usar_1408
      = Except.ok (ref_low, ref_high, N_eventos_ref)) :
    ∃ r resto,
      AnalisisEu152_v4.MUESTRAS.filterMap
        (AnalisisEu152_v4.pasoMuestra m fs directorio usar_1408 ref_low ref_high
          N_eventos_ref) = r :: resto
      ∧ r.conc = 0
      ∧ r.Q = AnalisisEu152_v4.Q0 ref_low ref_high
      ∧ r.errQ = AnalisisEu152_v4.errQ0 m ref_low ref_high
      ∧ r.Z_score = Dbl.fin 0 ∧ r.detectable = false ∧ r.cuantificable = false
      ∧ AnalisisEu152_v4.clasificar r = AnalisisEu152_v4.Clase.C_nodet := by
  obtain ⟨Energy, I0, J0, -, -, -, hl, hh, hI, hJ, hnl, hnh⟩ :=
    referencia_v4_ok m fs directorio usar_1408 ref_low ref_high N_eventos_ref hr
  obtain ⟨resto, hres⟩ :=
    resultados_v4_cabeza m fs directorio usar_1408 ref_low ref_high N_eventos_ref hr
  have hln : ref_low.netas_norm = Dbl.fin I0 := by
    rw [hl] at hnl ⊢
    exact netas_norm_referencia m _ _ _ I0 hnl
  have hhn : ref_high.netas_norm = Dbl.fin J0 := by
    rw [hh] at hnh ⊢
    exact netas_norm_referencia m _ _ _ J0 hnh
  obtain ⟨-, -, -, h4, h5, h6, h7, h8⟩ :=
    calcularResultado_auto m ref_low ref_high I0 J0 0 true hI hJ hnl hnh hln hhn
  refine ⟨_, resto, hres, rfl, h4, h5, h6, h7, h8, ?_⟩
  unfold AnalisisEu152_v4.clasificar
  rw [h8, h7]
  rfl

/-- Witness of C17 over the reals, on the directory `archivosEjemplo`. -/
theorem C17_referencia_no_detectable_witness :
    ∃ ref_low ref_high N_eventos_ref r resto,
      AnalisisEu152_v4.referencia libmReal (archivosEjemplo ℝ) "" false
        = Except.ok (ref_low, ref_high, N_eventos_ref)
      ∧ AnalisisEu152_v4.MUESTRAS.filterMap
        (AnalisisEu152_v4.pasoMuestra libmReal (archivosEjemplo ℝ) "" false ref_low ref_high
          N_eventos_ref) = r :: resto
      ∧ r.conc = 0
      ∧ r.Q = AnalisisEu152_v4.Q0 ref_low ref_high
      ∧ r.errQ = AnalisisEu152_v4.errQ0 libmReal ref_low ref_high
      ∧ r.Z_score = Dbl.fin 0 ∧ r.detectable = false ∧ r.cuantificable = false
      ∧ AnalisisEu152_v4.clasificar r = AnalisisEu152_v4.Clase.C_nodet := by
  have hr := referencia_v4_energiasEjemplo libmReal (archivosEjemplo ℝ) "" archivos_referencia.1
  obtain ⟨r, resto, h⟩ :=
    C17_referencia_no_detectable libmReal (archivosEjemplo ℝ) "" false _ _ _ hr
  exact ⟨_, _, _, r, resto, hr, h⟩

/-! ## Early returns and limits of the runs -/

/-- A failed reference guard of `AnalisisEu152_v4`: the run returns before the
sample loop, whatever the fit. -/
theorem referencia_v4_guardia {α : Type} [LinearOrderedField α] [FloorRing α] (m : Libm α)
    (ajuste : List (α × Dbl α × Dbl α) → Dbl α × Dbl α)
    (fs : Archivos α) (directorio : String) (usar_1408 : Bool) (Energy : List α)
    (hfs : fs (directorio ++ "Eu152_REE_0p00.root") = some Energy)
    (hg : Dbl.le (AnalisisEu152.IntegrarFotopico m (some (llenar 1600 0 1600 Energy))
          AnalisisEu152.E_122 AnalisisEu152.ventana_low).cuentas_netas (Dbl.fin 0) = true
      ∨ Dbl.le (AnalisisEu152.IntegrarFotopico m (some (llenar 1600 0 1600 Energy))
          (AnalisisEu152.E_HIGH usar_1408)
          (AnalisisEu152.ventana_high usar_1408)).cuentas_netas (Dbl.fin 0) = true) :
    AnalisisEu152_v4 m ajuste fs directorio usar_1408
      = Except.error Fallo.cuentas_netas_referencia := by
  have hg' : Dbl.le (AnalisisEu152_v4.IntegrarFotopico m (some (llenar 1600 0 1600 Energy))
          121.78 12 (Dbl.fin 1)).cuentas_netas (Dbl.fin 0) = true
      ∨ Dbl.le (AnalisisEu152_v4.IntegrarFotopico m (some (llenar 1600 0 1600 Energy))
          (AnalisisEu152_v4.E_HIGH usar_1408)
          (AnalisisEu152_v4.ventana_high usar_1408) (Dbl.fin 1)).cuentas_netas (Dbl.fin 0)
          = true := by
    rw [(E_HIGH_v4 usar_1408).1, (E_HIGH_v4 usar_1408).2]
    exact hg
  have hr : AnalisisEu152_v4.referencia m fs directorio usar_1408
      = Except.error Fallo.cuentas_netas_referencia := by
    unfold AnalisisEu152_v4.referencia
    rw [hfs]
    simp only
    rw [if_pos]
    simpa [Bool.or_eq_true] using hg'
  unfold AnalisisEu152_v4
  rw [hr]

/-- What a run of `AnalisisEu152_v4` that reaches its end reports. -/
theorem AnalisisEu152_v4_ok {α : Type} [LinearOrderedField α] [FloorRing α] (m : Libm α)
    (ajuste : List (α × Dbl α × Dbl α) → Dbl α × Dbl α)
    (fs : Archivos α) (directorio : String) (usar_1408 : Bool)
    (inf : AnalisisEu152_v4.Informe α)
    (hrun : AnalisisEu152_v4 m ajuste fs directorio usar_1408 = Except.ok inf) :
    ∃ ref_low ref_high N_eventos_ref,
      AnalisisEu152_v4.referencia m fs directorio usar_1408
        = Except.ok (ref_low, ref_high, N_eventos_ref)
      ∧ inf.resultados = AnalisisEu152_v4.MUESTRAS.filterMap
          (AnalisisEu152_v4.pasoMuestra m fs directorio usar_1408 ref_low ref_high
            N_eventos_ref)
      ∧ 3 ≤ inf.resultados.length
      ∧ (inf.p0, inf.p1) = ajuste (inf.resultados.map (fun r => (r.conc, r.Q, r.errQ)))
      ∧ (inf.precision_teorica, inf.LOD_teorico, inf.LOQ_teorico)
          = AnalisisEu152_v4.limites (AnalisisEu152_v4.errQ0 m ref_low ref_high) inf.p1 := by
  unfold AnalisisEu152_v4 at hrun
  cases hr : AnalisisEu152_v4.referencia m fs directorio usar_1408 with
  | error e => rw [hr] at hrun; simp at hrun
  | ok refs =>
    obtain ⟨ref_low, ref_high, N_eventos_ref⟩ := refs
    rw [hr] at hrun
    simp only at hrun
    split_ifs at hrun with hlen
    injection hrun with hrun
    subst hrun
    exact ⟨ref_low, ref_high, N_eventos_ref, rfl, rfl, not_lt.mp hlen, rfl, rfl⟩

/-- A run of `AnalisisEu152_v4` whose loop processed fewer than three samples
returns before the fit. -/
theorem AnalisisEu152_v4_pocas {α : Type} [LinearOrderedField α] [FloorRing α] (m : Libm α)
    (ajuste : List (α × Dbl α × Dbl α) → Dbl α × Dbl α)
    (fs : Archivos α) (directorio : String) (usar_1408 : Bool)
    (ref_low ref_high : AnalisisEu152_v4.Pico α) (N_eventos_ref : α)
    (hr : AnalisisEu152_v4.referencia m fs directorio usar_1408
      = Except.ok (ref_low, ref_high, N_eventos_ref))
    (hlen : (AnalisisEu152_v4.MUESTRAS.filterMap
      (AnalisisEu152_v4.pasoMuestra m fs directorio usar_1408 ref_low ref_high
        N_eventos_ref)).length < 3) :
    AnalisisEu152_v4 m ajuste fs directorio usar_1408 = Except.error Fallo.pocas_muestras := by
  unfold AnalisisEu152_v4
  rw [hr]
  simp only
  rw [if_pos hlen]

/-- A run of `AnalisisEu152_v4` whose loop processed at least three samples
reaches its end. -/
theorem AnalisisEu152_v4_suficientes {α : Type} [LinearOrderedField α] [FloorRing α]
    (m : Libm α) (ajuste : List (α × Dbl α × Dbl α) → Dbl α × Dbl α)
    (fs : Archivos α) (directorio : String) (usar_1408 : Bool)
    (ref_low ref_high : AnalisisEu152_v4.Pico α) (N_eventos_ref : α)
    (hr : AnalisisEu152_v4.referencia m fs directorio usar_1408
      = Except.ok (ref_low, ref_high, N_eventos_ref))
    (hlen : 3 ≤ (AnalisisEu152_v4.MUESTRAS.filterMap
      (AnalisisEu152_v4.pasoMuestra m fs directorio usar_1408 ref_low ref_high
        N_eventos_ref)).length) :
    ∃ inf, AnalisisEu152_v4 m ajuste fs directorio usar_1408 = Except.ok inf := by
  unfold AnalisisEu152_v4
  rw [hr]
  simp only
  rw [if_neg (not_lt.mpr hlen)]
  exact ⟨_, rfl⟩

/-- The number of samples the loop of `AnalisisEu152_v4` processes in the
sample directories: three in `archivosEjemplo`, one in
`archivosSoloReferencia`. -/
theorem resultados_v4_ejemplos {α : Type} [LinearOrderedField α] [FloorRing α] (m : Libm α)
    (ref_low ref_high : AnalisisEu152_v4.Pico α) (N_eventos_ref : α) :
    (AnalisisEu152_v4.MUESTRAS.filterMap
      (AnalisisEu152_v4.pasoMuestra m (archivosEjemplo α) "" false ref_low ref_high
        N_eventos_ref)).length = 3
    ∧ (AnalisisEu152_v4.MUESTRAS.filterMap
      (AnalisisEu152_v4.pasoMuestra m (archivosSoloReferencia α) "" false ref_low ref_high
        N_eventos_ref)).length = 1 := by
  constructor
  · simp [AnalisisEu152_v4.MUESTRAS, AnalisisEu152_v4.pasoMuestra, archivosEjemplo]
  · simp [AnalisisEu152_v4.MUESTRAS, AnalisisEu152_v4.pasoMuestra, archivosSoloReferencia]

/-- A row of the sample loop of `AnalisisEu152` comes from a sample whose file
was read, and its transmissions are the net counts of the sample divided by
the net counts of the reference. -/
theorem filas_transmision {α : Type} [LinearOrderedField α] [FloorRing α] (m : Libm α)
    (fs : Archivos α) (directorio : String) (usar_1408 : Bool)
    (ref_low ref_high : AnalisisEu152.Pico α) (fila : α × AnalisisEu152.Indices α)
    (hf : fila ∈ AnalisisEu152.MUESTRAS.filterMap
      (AnalisisEu152.pasoMuestra m fs directorio usar_1408 ref_low ref_high)) :
    ∃ muestra ∈ (AnalisisEu152.MUESTRAS : List (String × α)), ∃ Energy,
      fs (directorio ++ muestra.1) = some Energy ∧ fila.1 = muestra.2
      ∧ fila.2.T_low = (AnalisisEu152.IntegrarFotopico m (some (llenar 1600 0 1600 Energy))
          AnalisisEu152.E_122 AnalisisEu152.ventana_low).cuentas_netas
          / ref_low.cuentas_netas
      ∧ fila.2.T_high = (AnalisisEu152.IntegrarFotopico m (some (llenar 1600 0 1600 Energy))
          (AnalisisEu152.E_HIGH usar_1408) (AnalisisEu152.ventana_high usar_1408)).cuentas_netas
          / ref_high.cuentas_netas := by
  obtain ⟨muestra, hmem, hpaso⟩ := List.mem_filterMap.mp hf
  unfold AnalisisEu152.pasoMuestra at hpaso
  cases hfs : fs (directorio ++ muestra.1) with
  | none => rw [hfs] at hpaso; simp at hpaso
  | some Energy =>
    rw [hfs] at hpaso
    simp only [Option.some.injEq] at hpaso
    subst hpaso
    refine ⟨muestra, hmem, Energy, hfs, rfl, ?_, ?_⟩
    · exact (procesarMuestra_campos m ref_low ref_high _ _).1
    · exact (procesarMuestra_campos m ref_low ref_high _ _).2.1

/-- A result of the sample loop of `AnalisisEu152_v4` comes from a sample whose
file was read, and its transmissions are the normalised net counts of the
sample divided by the net counts of the reference. -/
theorem resultados_v4_transmision {α : Type} [LinearOrderedField α] [FloorRing α]
    (m : Libm α) (fs : Archivos α) (directorio : String) (usar_1408 : Bool)
    (ref_low ref_high : AnalisisEu152_v4.Pico α) (N_eventos_ref : α)
    (r : AnalisisEu152_v4.ResultadoMuestra α)
    (hf : r ∈ AnalisisEu152_v4.MUESTRAS.filterMap
      (AnalisisEu152_v4.pasoMuestra m fs directorio usar_1408 ref_low ref_high
        N_eventos_ref)) :
    ∃ muestra ∈ (AnalisisEu152_v4.MUESTRAS : List (AnalisisEu152_v4.MuestraInfo α)),
      ∃ Energy,
      fs (directorio ++ muestra.nombre) = some Energy ∧ r.conc = muestra.concentracion
      ∧ r.T_low = (AnalisisEu152_v4.IntegrarFotopico m (some (llenar 1600 0 1600 Energy))
          121.78 12 (Dbl.fin N_eventos_ref / Dbl.fin (Energy.length : α))).netas_norm
          / ref_low.cuentas_netas
      ∧ r.T_high = (AnalisisEu152_v4.IntegrarFotopico m (some (llenar 1600 0 1600 Energy))
          (AnalisisEu152_v4.E_HIGH usar_1408) (AnalisisEu152_v4.ventana_high usar_1408)
          (Dbl.fin N_eventos_ref / Dbl.fin (Energy.length : α))).netas_norm
          / ref_high.cuentas_netas := by
  obtain ⟨muestra, hmem, hpaso⟩ := List.mem_filterMap.mp hf
  unfold AnalisisEu152_v4.pasoMuestra at hpaso
  cases hfs : fs (directorio ++ muestra.nombre) with
  | none => rw [hfs] at hpaso; simp at hpaso
  | some Energy =>
    rw [hfs] at hpaso
    simp only [Option.some.injEq] at hpaso
    subst hpaso
    exact ⟨muestra, hmem, Energy, hfs, rfl, rfl, rfl⟩

/-- C18: in `AnalisisEu152`, `AnalisisEu152_v2` and `AnalisisEu152_v4`, a
reference whose net counts are `<= 0` in the low-energy or in the high-energy
ROI makes the run return at the guard, before the sample loop: no row, fit or
limit is produced.  Consequently, in every row the loops produce, the
transmissions are net counts of the sample divided by reference net counts
that are finite and strictly positive. -/
theorem C18_guardia_de_referencia {α : Type} [LinearOrderedField α] [FloorRing α]
    (m : Libm α) (ajuste : List (α × Dbl α × Dbl α) → Dbl α × Dbl α)
    (fs : Archivos α) (directorio : String) (usar_1408 : Bool) :
    (∀ Energy, fs (directorio ++ "Eu152_REE_0p00.root") = some Energy →
      (Dbl.le (AnalisisEu152.IntegrarFotopico m (some (llenar 1600 0 1600 Energy))
          AnalisisEu152.E_122 AnalisisEu152.ventana_low).cuentas_netas (Dbl.fin 0) = true
        ∨ Dbl.le (AnalisisEu152.IntegrarFotopico m (some (llenar 1600 0 1600 Energy))
          (AnalisisEu152.E_HIGH usar_1408)
          (AnalisisEu152.ventana_high usar_1408)).cuentas_netas (Dbl.fin 0) = true) →
      AnalisisEu152 m fs directorio usar_1408 = Except.error Fallo.cuentas_netas_referencia
      ∧ AnalisisEu152_v2 m fs directorio usar_1408
          = Except.error Fallo.cuentas_netas_referencia
      ∧ AnalisisEu152_v4 m ajuste fs directorio usar_1408
          = Except.error Fallo.cuentas_netas_referencia)
    ∧ (∀ filas, (AnalisisEu152 m fs directorio usar_1408 = Except.ok filas
          ∨ AnalisisEu152_v2 m fs directorio usar_1408 = Except.ok filas) →
      ∃ ref_low ref_high I0 J0,
        AnalisisEu152.referencia m fs directorio usar_1408 = Except.ok (ref_low, ref_high)
        ∧ ref_low.cuentas_netas = Dbl.fin I0 ∧ 0 < I0
        ∧ ref_high.cuentas_netas = Dbl.fin J0 ∧ 0 < J0
        ∧ ∀ fila ∈ filas, ∃ muestra ∈ (AnalisisEu152.MUESTRAS : List (String × α)),
          ∃ Energy, fs (directorio ++ muestra.1) = some Energy ∧ fila.1 = muestra.2
          ∧ fila.2.T_low
            = (AnalisisEu152.IntegrarFotopico m (some (llenar 1600 0 1600 Energy))
                AnalisisEu152.E_122 AnalisisEu152.ventana_low).cuentas_netas / Dbl.fin I0
          ∧ fila.2.T_high
            = (AnalisisEu152.IntegrarFotopico m (some (llenar 1600 0 1600 Energy))
                (AnalisisEu152.E_HIGH usar_1408)
                (AnalisisEu152.ventana_high usar_1408)).cuentas_netas / Dbl.fin J0)
    ∧ (∀ ref_low ref_high N_eventos_ref,
      AnalisisEu152_v4.referencia m fs directorio usar_1408
        = Except.ok (ref_low, ref_high, N_eventos_ref) →
      ∃ I0 J0,
        ref_low.cuentas_netas = Dbl.fin I0 ∧ 0 < I0
        ∧ ref_high.cuentas_netas = Dbl.fin J0 ∧ 0 < J0
        ∧ ∀ r ∈ AnalisisEu152_v4.MUESTRAS.filterMap
            (AnalisisEu152_v4.pasoMuestra m fs directorio usar_1408 ref_low ref_high
              N_eventos_ref),
          ∃ muestra ∈ (AnalisisEu152_v4.MUESTRAS : List (AnalisisEu152_v4.MuestraInfo α)),
          ∃ Energy, fs (directorio ++ muestra.nombre) = some Energy
          ∧ r.conc = muestra.concentracion
          ∧ r.T_low
            = (AnalisisEu152_v4.IntegrarFotopico m (some (llenar 1600 0 1600 Energy))
                121.78 12 (Dbl.fin N_eventos_ref / Dbl.fin (Energy.length : α))).netas_norm
              / Dbl.fin I0
          ∧ r.T_high
            = (AnalisisEu152_v4.IntegrarFotopico m (some (llenar 1600 0 1600 Energy))
                (AnalisisEu152_v4.E_HIGH usar_1408) (AnalisisEu152_v4.ventana_high usar_1408)
                (Dbl.fin N_eventos_ref / Dbl.fin (Energy.length : α))).netas_norm
              / Dbl.fin J0) := by
  refine ⟨?_, ?_, ?_⟩
  · intro Energy hfs hg
    have h1 : AnalisisEu152 m fs directorio usar_1408
        = Except.error Fallo.cuentas_netas_referencia := by
      unfold AnalisisEu152
      rw [referencia_guardia m fs directorio usar_1408 Energy hfs hg]
    exact ⟨h1, h1, referencia_v4_guardia m ajuste fs directorio usar_1408 Energy hfs hg⟩
  · intro filas hrun
    have hrun1 : AnalisisEu152 m fs directorio usar_1408 = Except.ok filas := by
      rcases hrun with h | h
      · exact h
      · exact h
    obtain ⟨ref_low, ref_high, hr, hfilas⟩ :=
      AnalisisEu152_ok m fs directorio usar_1408 filas hrun1
    obtain ⟨Energy0, I0, J0, -, -, -, -, hI, hJ, hnl, hnh⟩ :=
      referencia_ok m fs directorio usar_1408 ref_low ref_high hr
    refine ⟨ref_low, ref_high, I0, J0, hr, hnl, hI, hnh, hJ, ?_⟩
    intro fila hmem
    rw [hfilas] at hmem
    obtain ⟨muestra, hm, Energy, h1, h2, h3, h4⟩ :=
      filas_transmision m fs directorio usar_1408 ref_low ref_high fila hmem
    rw [hnl] at h3
    rw [hnh] at h4
    exact ⟨muestra, hm, Energy, h1, h2, h3, h4⟩
  · intro ref_low ref_high N_eventos_ref hr
    obtain ⟨Energy0, I0, J0, -, -, -, -, -, hI, hJ, hnl, hnh⟩ :=
      referencia_v4_ok m fs directorio usar_1408 ref_low ref_high N_eventos_ref hr
    refine ⟨I0, J0, hnl, hI, hnh, hJ, ?_⟩
    intro r hmem
    obtain ⟨muestra, hm, Energy, h1, h2, h3, h4⟩ :=
      resultados_v4_transmision m fs directorio usar_1408 ref_low ref_high N_eventos_ref r hmem
    rw [hnl] at h3
    rw [hnh] at h4
    exact ⟨muestra, hm, Energy, h1, h2, h3, h4⟩

/-- A run of `AnalisisEu152` on a directory whose reference file holds the
tree `energiasEjemplo` passes the reference guard and produces its rows. -/
theorem AnalisisEu152_energiasEjemplo {α : Type} [LinearOrderedField α] [FloorRing α]
    (m : Libm α) (fs : Archivos α) (directorio : String)
    (hfs : fs (directorio ++ "Eu152_REE_0p00.root") = some (energiasEjemplo α)) :
    ∃ filas, AnalisisEu152 m fs directorio false = Except.ok filas := by
  unfold AnalisisEu152
  rw [referencia_energiasEjemplo m fs directorio hfs]
  exact ⟨_, rfl⟩

/-- Witness of C18 over the reals: in the directory `archivosSinFilas` the
reference has net counts `0` and the three runs return at the guard; in the
directory `archivosEjemplo` the guard passes and every transmission divides by
a positive reference net count. -/
theorem C18_guardia_de_referencia_witness :
    (AnalisisEu152 libmReal (archivosSinFilas ℝ) "" false
        = Except.error Fallo.cuentas_netas_referencia
      ∧ AnalisisEu152_v2 libmReal (archivosSinFilas ℝ) "" false
        = Except.error Fallo.cuentas_netas_referencia
      ∧ AnalisisEu152_v4 libmReal (ajusteEjemplo ℝ) (archivosSinFilas ℝ) "" false
        = Except.error Fallo.cuentas_netas_referencia)
    ∧ (∃ filas ref_low ref_high I0 J0,
        AnalisisEu152 libmReal (archivosEjemplo ℝ) "" false = Except.ok filas
        ∧ AnalisisEu152.referencia libmReal (archivosEjemplo ℝ) "" false
          = Except.ok (ref_low, ref_high)
        ∧ ref_low.cuentas_netas = Dbl.fin I0 ∧ 0 < I0
        ∧ ref_high.cuentas_netas = Dbl.fin J0 ∧ 0 < J0
        ∧ ∀ fila ∈ filas, ∃ muestra ∈ (AnalisisEu152.MUESTRAS : List (String × ℝ)),
          ∃ Energy, archivosEjemplo ℝ ("" ++ muestra.1) = some Energy ∧ fila.1 = muestra.2
          ∧ fila.2.T_low
            = (AnalisisEu152.IntegrarFotopico libmReal (some (llenar 1600 0 1600 Energy))
                AnalisisEu152.E_122 AnalisisEu152.ventana_low).cuentas_netas / Dbl.fin I0
          ∧ fila.2.T_high
            = (AnalisisEu152.IntegrarFotopico libmReal (some (llenar 1600 0 1600 Energy))
                (AnalisisEu152.E_HIGH false)
                (AnalisisEu152.ventana_high false)).cuentas_netas / Dbl.fin J0) := by
  constructor
  · refine (C18_guardia_de_referencia libmReal (ajusteEjemplo ℝ) (archivosSinFilas ℝ) ""
      false).1 [] rfl ?_
    obtain ⟨⟨x, hx, hx0⟩, -⟩ := netas_llenar libmReal ([] : List ℝ) false
    left
    rw [hx, hx0 rfl]
    simp
  · obtain ⟨filas, hrun⟩ :=
      AnalisisEu152_energiasEjemplo libmReal (archivosEjemplo ℝ) "" archivos_referencia.1
    obtain ⟨ref_low, ref_high, I0, J0, h⟩ :=
      (C18_guardia_de_referencia libmReal (ajusteEjemplo ℝ) (archivosEjemplo ℝ) ""
        false).2.1 filas (Or.inl hrun)
    exact ⟨filas, ref_low, ref_high, I0, J0, hrun, h⟩

/-- C20: a run of `AnalisisEu152_v4` that reaches the fit processed at least
three samples, and the line it reports is the fit of their points
`(conc, Q, errQ)`; a run whose loop processed fewer than three samples returns
with the error of line 426, whatever the fit would give: it reports no fit, no
limit and no result. -/
theorem C20_minimo_tres_muestras {α : Type} [LinearOrderedField α] [FloorRing α]
    (m : Libm α) (ajuste : List (α × Dbl α × Dbl α) → Dbl α × Dbl α)
    (fs : Archivos α) (directorio : String) (usar_1408 : Bool) :
    (∀ inf, AnalisisEu152_v4 m ajuste fs directorio usar_1408 = Except.ok inf →
      3 ≤ inf.resultados.length
      ∧ (inf.p0, inf.p1) = ajuste (inf.resultados.map (fun r => (r.conc, r.Q, r.errQ))))
    ∧ (∀ ref_low ref_high N_eventos_ref,
      AnalisisEu152_v4.referencia m fs directorio usar_1408
        = Except.ok (ref_low, ref_high, N_eventos_ref) →
      ((AnalisisEu152_v4.MUESTRAS.filterMap
          (AnalisisEu152_v4.pasoMuestra m fs directorio usar_1408 ref_low ref_high
            N_eventos_ref)).length < 3 →
        AnalisisEu152_v4 m ajuste fs directorio usar_1408
          = Except.error Fallo.pocas_muestras)
      ∧ (3 ≤ (AnalisisEu152_v4.MUESTRAS.filterMap
          (AnalisisEu152_v4.pasoMuestra m fs directorio usar_1408 ref_low ref_high
            N_eventos_ref)).length →
        ∃ inf, AnalisisEu152_v4 m ajuste fs directorio usar_1408 = Except.ok inf)) := by
  constructor
  · intro inf hrun
    obtain ⟨ref_low, ref_high, N_eventos_ref, -, -, hlen, hfit, -⟩ :=
      AnalisisEu152_v4_ok m ajuste fs directorio usar_1408 inf hrun
    exact ⟨hlen, hfit⟩
  · intro ref_low ref_high N_eventos_ref hr
    exact ⟨AnalisisEu152_v4_pocas m ajuste fs directorio usar_1408 ref_low ref_high
        N_eventos_ref hr,
      AnalisisEu152_v4_suficientes m ajuste fs directorio usar_1408 ref_low ref_high
        N_eventos_ref hr⟩

/-- Witness of C20 over the reals: with the three files of `archivosEjemplo`
the run reaches the fit; with the reference file alone
(`archivosSoloReferencia`) the reference guard passes, one sample is
processed and the run returns with the error. -/
theorem C20_minimo_tres_muestras_witness :
    (∃ inf, AnalisisEu152_v4 libmReal (ajusteEjemplo ℝ) (archivosEjemplo ℝ) "" false
        = Except.ok inf
      ∧ 3 ≤ inf.resultados.length
      ∧ (inf.p0, inf.p1)
        = ajusteEjemplo ℝ (inf.resultados.map (fun r => (r.conc, r.Q, r.errQ))))
    ∧ AnalisisEu152_v4 libmReal (ajusteEjemplo ℝ) (archivosSoloReferencia ℝ) "" false
        = Except.error Fallo.pocas_muestras := by
  have hC := C20_minimo_tres_muestras libmReal (ajusteEjemplo ℝ) (archivosEjemplo ℝ) "" false
  have hS := C20_minimo_tres_muestras libmReal (ajusteEjemplo ℝ) (archivosSoloReferencia ℝ) ""
    false
  constructor
  · obtain ⟨inf, hrun⟩ := (hC.2 _ _ _
      (referencia_v4_energiasEjemplo libmReal (archivosEjemplo ℝ) ""
        archivos_referencia.1)).2
      (by rw [(resultados_v4_ejemplos libmReal _ _ _).1])
    exact ⟨inf, hrun, hC.1 inf hrun⟩
  · exact (hS.2 _ _ _
      (referencia_v4_energiasEjemplo libmReal (archivosSoloReferencia ℝ) ""
        archivos_referencia.2)).1
      (by rw [(resultados_v4_ejemplos libmReal _ _ _).2]; norm_num)

/-- What a run of `AnalisisEu152_v3` that computes limits computed them from:
the first entry of `resultados` and the fitted slope. -/
theorem AnalisisEu152_v3_limites {α : Type} [LinearOrderedField α] [FloorRing α]
    (m : Libm α) (ajuste : List (α × Dbl α × Dbl α) → Dbl α × Dbl α) (fs : Archivos α)
    (lim : AnalisisEu152_v3.Limites α) (h : (AnalisisEu152_v3 m ajuste fs).2 = some lim) :
    ∃ primero resto,
      AnalisisEu152_v3.lista_archivos.filterMap (AnalisisEu152_v3.pasoArchivo m fs)
        = primero :: resto
      ∧ lim = AnalisisEu152_v3.limites primero
          (ajuste ((primero :: resto).map (fun r => (r.concentracion_real, r.Q, r.err_Q)))).2 := by
  unfold AnalisisEu152_v3 at h
  cases hres : AnalisisEu152_v3.lista_archivos.filterMap (AnalisisEu152_v3.pasoArchivo m fs) with
  | nil => rw [hres] at h; simp at h
  | cons primero resto =>
    rw [hres] at h
    simp only [Option.some.injEq] at h
    exact ⟨primero, resto, rfl, h.symm⟩

/-- When the file of the 0 % sample opens, the first entry of `resultados` of
`AnalisisEu152_v3` is the 0 % sample. -/
theorem AnalisisEu152_v3_blanco {α : Type} [LinearOrderedField α] [FloorRing α]
    (m : Libm α) (fs : Archivos α) (Energy : List α)
    (hfs : fs "Eu152_REE_0p00.root" = some Energy) :
    ∃ blanco resto,
      AnalisisEu152_v3.lista_archivos.filterMap (AnalisisEu152_v3.pasoArchivo m fs)
        = blanco :: resto
      ∧ AnalisisEu152_v3.pasoArchivo m fs ("0p00", 0.0) = some blanco
      ∧ blanco.concentracion_real = 0 := by
  have hname : "Eu152_REE_" ++ "0p00" ++ ".root" = "Eu152_REE_0p00.root" := by decide
  have hpaso : ∃ blanco, AnalisisEu152_v3.pasoArchivo m fs ("0p00", 0.0) = some blanco
      ∧ blanco.concentracion_real = 0 := by
    unfold AnalisisEu152_v3.pasoArchivo
    simp only [hname, hfs]
    exact ⟨_, rfl, by norm_num⟩
  obtain ⟨blanco, hb, hc⟩ := hpaso
  have hlista : ∃ resto, AnalisisEu152_v3.lista_archivos.filterMap
      (AnalisisEu152_v3.pasoArchivo m fs) = blanco :: resto := by
    unfold AnalisisEu152_v3.lista_archivos
    rw [List.filterMap_cons, hb]
    exact ⟨_, rfl⟩
  obtain ⟨resto, hres⟩ := hlista
  exact ⟨blanco, resto, hres, hb, hc⟩

/-- A run of `AnalisisEu152_v3` whose `resultados` is not empty computes the
limits from its first entry. -/
theorem AnalisisEu152_v3_con_archivo {α : Type} [LinearOrderedField α] [FloorRing α]
    (m : Libm α) (ajuste : List (α × Dbl α × Dbl α) → Dbl α × Dbl α) (fs : Archivos α)
    (primero : AnalisisEu152_v3.Muestra α) (resto : List (AnalisisEu152_v3.Muestra α))
    (hres : AnalisisEu152_v3.lista_archivos.filterMap (AnalisisEu152_v3.pasoArchivo m fs)
      = primero :: resto) :
    AnalisisEu152_v3 m ajuste fs
      = (primero :: resto, some (AnalisisEu152_v3.limites primero
          (ajuste ((primero :: resto).map (fun r => (r.concentracion_real, r.Q, r.err_Q)))).2)) := by
  unfold AnalisisEu152_v3
  rw [hres]

/-- C11: a run of `AnalisisEu152_v4` that reaches its end reports, for a fitted
slope with `|p1| > 1e-9`, `LOD_teorico = 3 * errQ0 / |p1|` and
`LOQ_teorico = 10 * errQ0 / |p1|`, `errQ0` being the uncertainty of the ratio
`Q0` of the reference (0 %) peaks, and for any other slope the precision `999`
(and its multiples) without a division by the slope.  A run of
`AnalisisEu152_v3` that computes limits reports `LOD = 3 * sigma_blank / |p1|`
and `LOQ = 10 * sigma_blank / |p1|` for the fitted slope `p1`, and when the
file of the 0 % sample opens `sigma_blank` is the uncertainty of the ratio `Q`
of that sample. -/
theorem C11_limites_LOD_LOQ {α : Type} [LinearOrderedField α] [FloorRing α]
    (m : Libm α) (ajuste : List (α × Dbl α × Dbl α) → Dbl α × Dbl α)
    (fs : Archivos α) (directorio : String) (usar_1408 : Bool) :
    (∀ inf, AnalisisEu152_v4 m ajuste fs directorio usar_1408 = Except.ok inf →
      ∃ ref_low ref_high N_eventos_ref,
        AnalisisEu152_v4.referencia m fs directorio usar_1408
          = Except.ok (ref_low, ref_high, N_eventos_ref)
        ∧ inf.p1 = (ajuste (inf.resultados.map (fun r => (r.conc, r.Q, r.errQ)))).2
        ∧ (Dbl.gt (Dbl.abs inf.p1) (Dbl.fin 1e-9) = true →
            inf.LOD_teorico
              = Dbl.fin 3 * AnalisisEu152_v4.errQ0 m ref_low ref_high / Dbl.abs inf.p1
            ∧ inf.LOQ_teorico
              = Dbl.fin 10 * AnalisisEu152_v4.errQ0 m ref_low ref_high / Dbl.abs inf.p1)
        ∧ (Dbl.gt (Dbl.abs inf.p1) (Dbl.fin 1e-9) = false →
            inf.precision_teorica = Dbl.fin 999
            ∧ inf.LOD_teorico = Dbl.fin 3 * Dbl.fin 999
            ∧ inf.LOQ_teorico = Dbl.fin 10 * Dbl.fin 999))
    ∧ (∀ lim, (AnalisisEu152_v3 m ajuste fs).2 = some lim →
        lim.p1 = (ajuste ((AnalisisEu152_v3 m ajuste fs).1.map
            (fun r => (r.concentracion_real, r.Q, r.err_Q)))).2
        ∧ lim.LOD = Dbl.fin 3 * lim.sigma_blank / Dbl.abs lim.p1
        ∧ lim.LOQ = Dbl.fin 10 * lim.sigma_blank / Dbl.abs lim.p1
        ∧ ∀ Energy, fs "Eu152_REE_0p00.root" = some Energy →
            ∃ blanco, AnalisisEu152_v3.pasoArchivo m fs ("0p00", 0.0) = some blanco
              ∧ blanco.concentracion_real = 0 ∧ lim.sigma_blank = blanco.err_Q) := by
  constructor
  · intro inf hrun
    obtain ⟨ref_low, ref_high, N_eventos_ref, hr, -, -, hfit, hlim⟩ :=
      AnalisisEu152_v4_ok m ajuste fs directorio usar_1408 inf hrun
    have hp1 : inf.p1 = (ajuste (inf.resultados.map (fun r => (r.conc, r.Q, r.errQ)))).2 := by
      rw [← hfit]
    refine ⟨ref_low, ref_high, N_eventos_ref, hr, hp1, ?_, ?_⟩
    · intro hgt
      unfold AnalisisEu152_v4.limites at hlim
      simp only [hgt, if_true] at hlim
      have h2 := (Prod.mk.inj (Prod.mk.inj hlim).2)
      rw [h2.1, h2.2, Dbl.mul_div_assoc_pos 3 (by norm_num),
        Dbl.mul_div_assoc_pos 10 (by norm_num)]
      exact ⟨rfl, rfl⟩
    · intro hgt
      unfold AnalisisEu152_v4.limites at hlim
      simp only [hgt, Bool.false_eq_true, if_false] at hlim
      have h1 := (Prod.mk.inj hlim).1
      have h2 := (Prod.mk.inj (Prod.mk.inj hlim).2)
      exact ⟨h1, h2.1, h2.2⟩
  · intro lim hlim
    obtain ⟨primero, resto, hres, hl⟩ := AnalisisEu152_v3_limites m ajuste fs lim hlim
    have h3 : (3.0 : α) = 3 := by norm_num
    have h10 : (10.0 : α) = 10 := by norm_num
    have hrun := AnalisisEu152_v3_con_archivo m ajuste fs primero resto hres
    refine ⟨?_, ?_, ?_, ?_⟩
    · rw [hrun, hl]
      rfl
    · rw [hl]
      show Dbl.fin 3.0 * _ / _ = _
      rw [h3]
      rfl
    · rw [hl]
      show Dbl.fin 10.0 * _ / _ = _
      rw [h10]
      rfl
    · intro Energy hfs
      obtain ⟨blanco, resto2, hres2, hb, hc⟩ := AnalisisEu152_v3_blanco m fs Energy hfs
      rw [hres] at hres2
      have hpb : primero = blanco := (List.cons.inj hres2).1
      refine ⟨blanco, hb, hc, ?_⟩
      rw [hl, hpb]
      rfl

/-- Witness of C11 over the reals, in the directory `archivosEjemplo` with the
slope `-1/10`: both runs report their limits. -/
theorem C11_limites_LOD_LOQ_witness :
    (∃ inf ref_low ref_high N_eventos_ref,
      AnalisisEu152_v4 libmReal (ajusteEjemplo ℝ) (archivosEjemplo ℝ) "" false = Except.ok inf
      ∧ AnalisisEu152_v4.referencia libmReal (archivosEjemplo ℝ) "" false
          = Except.ok (ref_low, ref_high, N_eventos_ref)
      ∧ inf.p1 = Dbl.fin (-1 / 10)
      ∧ inf.LOD_teorico
          = Dbl.fin 3 * AnalisisEu152_v4.errQ0 libmReal ref_low ref_high / Dbl.abs inf.p1
      ∧ inf.LOQ_teorico
          = Dbl.fin 10 * AnalisisEu152_v4.errQ0 libmReal ref_low ref_high / Dbl.abs inf.p1)
    ∧ (∃ lim blanco,
      (AnalisisEu152_v3 libmReal (ajusteEjemplo ℝ) (archivosEjemplo ℝ)).2 = some lim
      ∧ AnalisisEu152_v3.pasoArchivo libmReal (archivosEjemplo ℝ) ("0p00", 0.0) = some blanco
      ∧ lim.sigma_blank = blanco.err_Q
      ∧ lim.LOD = Dbl.fin 3 * lim.sigma_blank / Dbl.abs lim.p1
      ∧ lim.LOQ = Dbl.fin 10 * lim.sigma_blank / Dbl.abs lim.p1) := by
  have hC := C11_limites_LOD_LOQ libmReal (ajusteEjemplo ℝ) (archivosEjemplo ℝ) "" false
  have hfs : archivosEjemplo ℝ "Eu152_REE_0p00.root" = some (energiasEjemplo ℝ) := by
    simp [archivosEjemplo]
  constructor
  · have hr := referencia_v4_energiasEjemplo libmReal (archivosEjemplo ℝ) ""
      archivos_referencia.1
    obtain ⟨inf, hrun⟩ := AnalisisEu152_v4_suficientes libmReal (ajusteEjemplo ℝ)
      (archivosEjemplo ℝ) "" false _ _ _ hr
      (by rw [(resultados_v4_ejemplos libmReal _ _ _).1])
    obtain ⟨ref_low, ref_high, N_eventos_ref, hr2, hp1, hgt, -⟩ := hC.1 inf hrun
    have hp : inf.p1 = Dbl.fin (-1 / 10) := by
      rw [hp1]
      rfl
    have hcond : Dbl.gt (Dbl.abs inf.p1) (Dbl.fin 1e-9) = true := by
      rw [hp, Dbl.abs_fin, Dbl.gt_fin_fin, decide_eq_true_eq]
      norm_num [abs_of_neg]
    exact ⟨inf, ref_low, ref_high, N_eventos_ref, hrun, hr2, hp, hgt hcond⟩
  · obtain ⟨blanco, resto, hres, hb, -⟩ :=
      AnalisisEu152_v3_blanco libmReal (archivosEjemplo ℝ) (energiasEjemplo ℝ) hfs
    have hrun := AnalisisEu152_v3_con_archivo libmReal (ajusteEjemplo ℝ) (archivosEjemplo ℝ)
      blanco resto hres
    have hlim : (AnalisisEu152_v3 libmReal (ajusteEjemplo ℝ) (archivosEjemplo ℝ)).2
        = some (AnalisisEu152_v3.limites blanco
          (ajusteEjemplo ℝ ((blanco :: resto).map
            (fun r => (r.concentracion_real, r.Q, r.err_Q)))).2) := by
      rw [hrun]
    obtain ⟨-, hLOD, hLOQ, hblanco⟩ := hC.2 _ hlim
    obtain ⟨blanco2, hb2, -, hs⟩ := hblanco _ hfs
    rw [hb] at hb2
    have hbb : blanco = blanco2 := Option.some.inj hb2
    rw [← hbb] at hs
    exact ⟨_, blanco, hlim, hb, hs, hLOD, hLOQ⟩

/-- C19, failing input: in the directory `archivosSinBlanco`, where the file
of the 0 % sample cannot be opened, `AnalisisEu152_v3` skips that sample, keeps
the 0.2 % sample as first entry of `resultados` and computes the limits all the
same, with the uncertainty of the ratio `Q` of the 0.2 % sample as
`sigma_blank`. -/
theorem C19_sigma_blank_de_muestra_dopada {α : Type} [LinearOrderedField α] [FloorRing α]
    (m : Libm α) (ajuste : List (α × Dbl α × Dbl α) → Dbl α × Dbl α) :
    archivosSinBlanco α "Eu152_REE_0p00.root" = none
    ∧ AnalisisEu152_v3.pasoArchivo m (archivosSinBlanco α) ("0p00", 0.0) = none
    ∧ ∃ dopada lim,
      AnalisisEu152_v3.pasoArchivo m (archivosSinBlanco α) ("0p002", 0.2) = some dopada
      ∧ dopada.concentracion_real = 0.2
      ∧ (AnalisisEu152_v3 m ajuste (archivosSinBlanco α)).1 = [dopada]
      ∧ (AnalisisEu152_v3 m ajuste (archivosSinBlanco α)).2 = some lim
      ∧ lim.sigma_blank = dopada.err_Q
      ∧ lim.LOD = Dbl.fin 3.0 * dopada.err_Q / Dbl.abs lim.p1
      ∧ lim.LOQ = Dbl.fin 10.0 * dopada.err_Q / Dbl.abs lim.p1 := by
  have h0 : archivosSinBlanco α "Eu152_REE_0p00.root" = none := by
    simp [archivosSinBlanco]
  have hp0 : AnalisisEu152_v3.pasoArchivo m (archivosSinBlanco α) ("0p00", 0.0) = none := by
    simp [AnalisisEu152_v3.pasoArchivo, archivosSinBlanco]
  have hp : ∃ dopada, AnalisisEu152_v3.pasoArchivo m (archivosSinBlanco α) ("0p002", 0.2)
      = some dopada ∧ dopada.concentracion_real = 0.2 := by
    have hfs : archivosSinBlanco α ("Eu152_REE_" ++ "0p002" ++ ".root")
        = some (energiasEjemplo α) := by
      simp [archivosSinBlanco]
    unfold AnalisisEu152_v3.pasoArchivo
    simp only [hfs]
    exact ⟨_, rfl, rfl⟩
  obtain ⟨dopada, hd, hc⟩ := hp
  have hres : AnalisisEu152_v3.lista_archivos.filterMap
      (AnalisisEu152_v3.pasoArchivo m (archivosSinBlanco α)) = [dopada] := by
    unfold AnalisisEu152_v3.lista_archivos
    rw [List.filterMap_cons, hp0, List.filterMap_cons, hd]
    simp [AnalisisEu152_v3.pasoArchivo, archivosSinBlanco]
  have hrun := AnalisisEu152_v3_con_archivo m ajuste (archivosSinBlanco α) dopada [] hres
  refine ⟨h0, hp0, dopada, AnalisisEu152_v3.limites dopada
    (ajuste ([dopada].map (fun r => (r.concentracion_real, r.Q, r.err_Q)))).2,
    hd, hc, ?_, ?_, rfl, rfl, rfl⟩
  · rw [hrun]
  · rw [hrun]

/-! ## Normalisation and self-comparison -/

/-- C15, failing input: a measurement of 10000 ± 100 counts compared with
itself as reference.  `analisis_Am241` stores `T = 1` with `eT = 0` for it
(the special case of lines 99-100); `analisis` stores `T = 1` with
`eT = sqrt(2 * (100/10000)^2) > 0`; and the sample loop of `AnalisisEu152_v4`
stores, for the sample reference (2500 ± 50 and 1600 ± 40 net counts)
processed against itself, `T = 1` with `errT = sqrt(2 * (50/2500)^2)` and
`sqrt(2 * (40/1600)^2)`, both positive. -/
theorem C15_errT_autocomparacion :
    (analisis_Am241.transmisiones libmReal [Dbl.fin 10000, Dbl.fin 8100]
        [Dbl.fin 100, Dbl.fin 90]).head? = some (Dbl.fin 1, Dbl.fin 0)
    ∧ (analisis.transmisiones libmReal [Dbl.fin 10000, Dbl.fin 8100]
        [Dbl.fin 100, Dbl.fin 90]).head? = some (Dbl.fin 1, Dbl.fin (Real.sqrt (1 / 5000)))
    ∧ (AnalisisEu152_v4.calcularResultado libmReal (AnalisisEu152_v4.refLow ℝ)
        (AnalisisEu152_v4.refHigh ℝ)
        (AnalisisEu152_v4.Q0 (AnalisisEu152_v4.refLow ℝ) (AnalisisEu152_v4.refHigh ℝ))
        (AnalisisEu152_v4.errQ0 libmReal (AnalisisEu152_v4.refLow ℝ)
          (AnalisisEu152_v4.refHigh ℝ))
        0 true (AnalisisEu152_v4.refLow ℝ) (AnalisisEu152_v4.refHigh ℝ)).T_low = Dbl.fin 1
    ∧ (AnalisisEu152_v4.calcularResultado libmReal (AnalisisEu152_v4.refLow ℝ)
        (AnalisisEu152_v4.refHigh ℝ)
        (AnalisisEu152_v4.Q0 (AnalisisEu152_v4.refLow ℝ) (AnalisisEu152_v4.refHigh ℝ))
        (AnalisisEu152_v4.errQ0 libmReal (AnalisisEu152_v4.refLow ℝ)
          (AnalisisEu152_v4.refHigh ℝ))
        0 true (AnalisisEu152_v4.refLow ℝ) (AnalisisEu152_v4.refHigh ℝ)).errT_low
      = Dbl.fin (Real.sqrt (1 / 1250))
    ∧ (AnalisisEu152_v4.calcularResultado libmReal (AnalisisEu152_v4.refLow ℝ)
        (AnalisisEu152_v4.refHigh ℝ)
        (AnalisisEu152_v4.Q0 (AnalisisEu152_v4.refLow ℝ) (AnalisisEu152_v4.refHigh ℝ))
        (AnalisisEu152_v4.errQ0 libmReal (AnalisisEu152_v4.refLow ℝ)
          (AnalisisEu152_v4.refHigh ℝ))
        0 true (AnalisisEu152_v4.refLow ℝ) (AnalisisEu152_v4.refHigh ℝ)).errT_high
      = Dbl.fin (Real.sqrt (1 / 800))
    ∧ 0 < Real.sqrt (1 / 5000) ∧ 0 < Real.sqrt (1 / 1250) ∧ 0 < Real.sqrt (1 / 800) := by
  refine ⟨?_, ?_, ?_, ?_, ?_, ?_, ?_, ?_⟩
  · simp [analisis_Am241.transmisiones, List.range_succ, Dbl.fin_div_fin]
    norm_num
  · have hs : (Dbl.sqrt libmReal (Dbl.fin ((100 / 10000) * (100 / 10000)
        + (100 / 10000) * (100 / 10000))) : Dbl ℝ) = Dbl.fin (Real.sqrt (1 / 5000)) := by
      rw [Dbl.sqrt_fin _ _ (by norm_num)]
      simp only [libmReal]
      norm_num
    simp [analisis.transmisiones, List.range_succ, Dbl.fin_div_fin, Dbl.pow2, hs]
  · simp only [AnalisisEu152_v4.calcularResultado, AnalisisEu152_v4.refLow]
    rw [Dbl.fin_div_fin _ _ (by norm_num)]
    norm_num
  · simp only [AnalisisEu152_v4.calcularResultado, AnalisisEu152_v4.refLow, Dbl.pow2]
    rw [Dbl.fin_div_fin _ _ (by norm_num), Dbl.fin_div_fin _ _ (by norm_num), Dbl.fin_mul_fin,
      Dbl.fin_add_fin, Dbl.sqrt_fin _ _ (by norm_num), Dbl.fin_mul_fin]
    simp only [libmReal]
    norm_num
  · simp only [AnalisisEu152_v4.calcularResultado, AnalisisEu152_v4.refHigh, Dbl.pow2]
    rw [Dbl.fin_div_fin _ _ (by norm_num), Dbl.fin_div_fin _ _ (by norm_num), Dbl.fin_mul_fin,
      Dbl.fin_add_fin, Dbl.sqrt_fin _ _ (by norm_num), Dbl.fin_mul_fin]
    simp only [libmReal]
    norm_num
  · exact Real.sqrt_pos.mpr (by norm_num)
  · exact Real.sqrt_pos.mpr (by norm_num)
  · exact Real.sqrt_pos.mpr (by norm_num)

/-! ## The windows of the peak integrators -/

/-- The bin of an abscissa `x` with `k - 1 <= x < k` on the axis of 2000 bins
of `[0, 2000)`, for `1 <= k <= 2000`. -/
theorem findBin_2000 {α : Type} [LinearOrderedField α] [FloorRing α] (x : α) (k : ℤ)
    (hk1 : 1 ≤ k) (hk2 : k ≤ 2000) (h1 : (k : α) - 1 ≤ x) (h2 : x < k) :
    TAxis.FindBin 2000 0 2000 x = k := by
  have hk1' : (1 : α) ≤ (k : α) := by exact_mod_cast hk1
  have hk2' : (k : α) ≤ 2000 := by exact_mod_cast hk2
  have c1 : ¬ (x < 0) := by
    intro h; linarith
  have c2 : x < (2000 : α) := by linarith
  unfold TAxis.FindBin
  rw [if_neg c1, if_neg (not_not.mpr c2)]
  have hf : ⌊((2000 : ℕ) : α) * (x - 0) / ((2000 : α) - 0)⌋ = k - 1 := by
    rw [Int.floor_eq_iff]
    push_cast
    constructor
    · rw [sub_zero, sub_zero, mul_div_assoc, mul_comm, div_mul_cancel₀ _ (by norm_num)]
      exact h1
    · rw [sub_zero, sub_zero, mul_div_assoc, mul_comm, div_mul_cancel₀ _ (by norm_num)]
      linarith
  rw [hf]
  ring

/-- C12, failing input: the histogram of `AnalisisEu152_v3` (2000 bins of
`[0, 2000)`) filled from a single row at 111.5 keV, integrated at the line
121.78 keV with the half-width 10 of the script.  The first bin of the peak
window and the last bin of the left sideband of `IntegrarPico` are both bin
112, which holds the row: the row is summed as peak (`Integral(112, 132) = 1`)
and as background (`Integral(102, 112) = 1`), and `IntegrarPico` returns
`Fondo = 21/22` and `N_netas = 1/22`.  `IntegrarFotopico` of `AnalisisEu152`,
whose sidebands end at bin 111 and start at bin 133, returns `fondo = 0` and
`cuentas_netas = 1` from the same histogram. -/
theorem C12_IntegrarPico_comparte_bines_de_borde :
    (llenar 2000 0 2000 ([0.1115] : List ℝ)).FindBin (121.78 - 10) = 112
    ∧ (llenar 2000 0 2000 ([0.1115] : List ℝ)).FindBin (121.78 - 1 * 10) = 112
    ∧ (llenar 2000 0 2000 ([0.1115] : List ℝ)).FindBin (121.78 + 10) = 132
    ∧ (llenar 2000 0 2000 ([0.1115] : List ℝ)).FindBin (121.78 + 1 * 10) = 132
    ∧ (llenar 2000 0 2000 ([0.1115] : List ℝ)).Integral 112 132 = 1
    ∧ (llenar 2000 0 2000 ([0.1115] : List ℝ)).Integral 102 112 = 1
    ∧ (AnalisisEu152_v3.IntegrarPico libmReal (some (llenar 2000 0 2000 ([0.1115] : List ℝ)))
        121.78 10 (Dbl.fin 0) (Dbl.fin 0)).2.2 = Dbl.fin (21 / 22)
    ∧ (AnalisisEu152_v3.IntegrarPico libmReal (some (llenar 2000 0 2000 ([0.1115] : List ℝ)))
        121.78 10 (Dbl.fin 0) (Dbl.fin 0)).1 = Dbl.fin (1 / 22)
    ∧ (AnalisisEu152.IntegrarFotopico libmReal (some (llenar 2000 0 2000 ([0.1115] : List ℝ)))
        121.78 10).fondo = Dbl.fin 0
    ∧ (AnalisisEu152.IntegrarFotopico libmReal (some (llenar 2000 0 2000 ([0.1115] : List ℝ)))
        121.78 10).cuentas_netas = Dbl.fin 1 := by
  have hF : ∀ x : ℝ, (llenar 2000 0 2000 ([0.1115] : List ℝ)).FindBin x
      = TAxis.FindBin 2000 0 2000 x := fun _ => rfl
  have f1 : TAxis.FindBin 2000 0 2000 ((121.78 : ℝ) - 10) = 112 := by
    apply findBin_2000 <;> norm_num
  have f2 : TAxis.FindBin 2000 0 2000 ((121.78 : ℝ) + 10) = 132 := by
    apply findBin_2000 <;> norm_num
  have f3 : TAxis.FindBin 2000 0 2000 ((121.78 : ℝ) - 2 * 10) = 102 := by
    apply findBin_2000 <;> norm_num
  have f4 : TAxis.FindBin 2000 0 2000 ((121.78 : ℝ) + 2 * 10) = 142 := by
    apply findBin_2000 <;> norm_num
  have e1 : TAxis.FindBin 2000 0 2000 ((0.1115 : ℝ) * 1000) = 112 := by
    apply findBin_2000 <;> norm_num
  have hI : ∀ b1 b2 : ℤ, 0 ≤ b1 → b1 ≤ b2 → b2 ≤ 2001 →
      (llenar 2000 0 2000 ([0.1115] : List ℝ)).Integral b1 b2
        = (((if b1 ≤ 112 ∧ 112 ≤ b2 then 1 else 0 : ℕ)) : ℝ) := by
    intro b1 b2 h1 h12 h2
    rw [llenar_Integral 2000 0 2000 _ b1 b2 h1 h12 (by push_cast; omega)]
    congr 1
    simp only [List.countP_cons, List.countP_nil, e1, decide_eq_true_eq]
    omega
  have i1 : (llenar 2000 0 2000 ([0.1115] : List ℝ)).Integral 112 132 = 1 := by
    rw [hI 112 132 (by norm_num) (by norm_num) (by norm_num)]; norm_num
  have i2 : (llenar 2000 0 2000 ([0.1115] : List ℝ)).Integral 102 112 = 1 := by
    rw [hI 102 112 (by norm_num) (by norm_num) (by norm_num)]; norm_num
  have i3 : (llenar 2000 0 2000 ([0.1115] : List ℝ)).Integral 132 142 = 0 := by
    rw [hI 132 142 (by norm_num) (by norm_num) (by norm_num)]; norm_num
  have i4 : (llenar 2000 0 2000 ([0.1115] : List ℝ)).Integral 102 (112 - 1) = 0 := by
    rw [hI 102 (112 - 1) (by norm_num) (by norm_num) (by norm_num)]; norm_num
  have i5 : (llenar 2000 0 2000 ([0.1115] : List ℝ)).Integral (132 + 1) 142 = 0 := by
    rw [hI (132 + 1) 142 (by norm_num) (by norm_num) (by norm_num)]; norm_num
  refine ⟨by rw [hF, f1], by rw [hF, one_mul, f1], by rw [hF, f2], by rw [hF, one_mul, f2],
    i1, i2, ?_, ?_, ?_, ?_⟩
  · simp only [AnalisisEu152_v3.IntegrarPico, one_mul, hF, f1, f2, f3, f4, i1, i2, i3]
    norm_num [Dbl.fin_div_fin]
  · simp only [AnalisisEu152_v3.IntegrarPico, one_mul, hF, f1, f2, f3, f4, i1, i2, i3]
    norm_num [Dbl.fin_div_fin]
  · simp only [AnalisisEu152.IntegrarFotopico, hF, f1, f2, f3, f4, i1, i4, i5]
    norm_num [Dbl.fin_div_fin]
  · simp only [AnalisisEu152.IntegrarFotopico, hF, f1, f2, f3, f4, i1, i4, i5]
    norm_num [Dbl.fin_div_fin]

/-- C27: on the histogram the Eu-152 scripts build (1600 bins of 1 keV on
`[0, 1600)`, whatever its contents) the six bin indices `IntegrarFotopico`
uses are 98, 109, 110, 134, 135, 146 for the line 121.78 keV (half-width 12),
739, 758, 759, 799, 800, 819 for 778.90 keV (half-width 20) and 1359, 1383,
1384, 1434, 1435, 1459 for 1408.01 keV (half-width 25), all within 1..1600;
the peak window has 25, 41 and 51 bins and the two sidebands together 24, 40
and 50 bins, so `n_bg_total` is positive and `fondo` is the result of a
division by a non-zero number: a finite value. -/
theorem C27_bines_de_las_ROI {α : Type} [LinearOrderedField α] [FloorRing α] (m : Libm α)
    (contents : ℤ → α) (entries : α) (usar_1408 : Bool) :
    let h := TH1D.ofBins 1600 0 1600 contents entries
    ((h.FindBin (AnalisisEu152.E_122 - 2 * AnalisisEu152.ventana_low) = 98
        ∧ h.FindBin (AnalisisEu152.E_122 - AnalisisEu152.ventana_low) - 1 = 109
        ∧ h.FindBin (AnalisisEu152.E_122 - AnalisisEu152.ventana_low) = 110
        ∧ h.FindBin (AnalisisEu152.E_122 + AnalisisEu152.ventana_low) = 134
        ∧ h.FindBin (AnalisisEu152.E_122 + AnalisisEu152.ventana_low) + 1 = 135
        ∧ h.FindBin (AnalisisEu152.E_122 + 2 * AnalisisEu152.ventana_low) = 146)
      ∧ (h.FindBin (AnalisisEu152.E_779 - 2 * 20) = 739
        ∧ h.FindBin (AnalisisEu152.E_779 - 20) - 1 = 758
        ∧ h.FindBin (AnalisisEu152.E_779 - 20) = 759
        ∧ h.FindBin (AnalisisEu152.E_779 + 20) = 799
        ∧ h.FindBin (AnalisisEu152.E_779 + 20) + 1 = 800
        ∧ h.FindBin (AnalisisEu152.E_779 + 2 * 20) = 819)
      ∧ (h.FindBin (AnalisisEu152.E_1408 - 2 * 25) = 1359
        ∧ h.FindBin (AnalisisEu152.E_1408 - 25) - 1 = 1383
        ∧ h.FindBin (AnalisisEu152.E_1408 - 25) = 1384
        ∧ h.FindBin (AnalisisEu152.E_1408 + 25) = 1434
        ∧ h.FindBin (AnalisisEu152.E_1408 + 25) + 1 = 1435
        ∧ h.FindBin (AnalisisEu152.E_1408 + 2 * 25) = 1459))
    ∧ (let E := (AnalisisEu152.E_122 : α)
       let s := (AnalisisEu152.ventana_low : α)
       h.FindBin (E + s) - h.FindBin (E - s) + 1 = 25
       ∧ ((h.FindBin (E - s) - 1) - h.FindBin (E - 2 * s) + 1)
          + (h.FindBin (E + 2 * s) - (h.FindBin (E + s) + 1) + 1) = 24
       ∧ ∃ v, (AnalisisEu152.IntegrarFotopico m (some h) E s).fondo = Dbl.fin v)
    ∧ (let E := (AnalisisEu152.E_HIGH usar_1408 : α)
       let s := (AnalisisEu152.ventana_high usar_1408 : α)
       h.FindBin (E + s) - h.FindBin (E - s) + 1 = (if usar_1408 then 51 else 41)
       ∧ ((h.FindBin (E - s) - 1) - h.FindBin (E - 2 * s) + 1)
          + (h.FindBin (E + 2 * s) - (h.FindBin (E + s) + 1) + 1)
          = (if usar_1408 then 50 else 40)
       ∧ ∃ v, (AnalisisEu152.IntegrarFotopico m (some h) E s).fondo = Dbl.fin v) := by
  intro h
  obtain ⟨⟨a1, a2, a3, a4⟩, ⟨b1, b2, b3, b4⟩, ⟨c1, c2, c3, c4⟩⟩ := bines_configurados (α := α)
  have hF : ∀ x : α, h.FindBin x = TAxis.FindBin 1600 0 1600 x := fun _ => rfl
  have hfin : ∀ (E s : α) (n : ℤ),
      ((h.FindBin (E - s) - 1) - h.FindBin (E - 2 * s) + 1)
        + (h.FindBin (E + 2 * s) - (h.FindBin (E + s) + 1) + 1) = n → n ≠ 0 →
      ∃ v, (AnalisisEu152.IntegrarFotopico m (some h) E s).fondo = Dbl.fin v := by
    intro E s n hn hn0
    have hne : ((((h.FindBin (E - s) - 1) - h.FindBin (E - 2 * s) + 1)
        + (h.FindBin (E + 2 * s) - (h.FindBin (E + s) + 1) + 1) : ℤ) : α) ≠ 0 := by
      rw [hn]
      exact_mod_cast hn0
    simp only [AnalisisEu152.IntegrarFotopico, Dbl.fin_add_fin, Dbl.fin_mul_fin,
      Dbl.fin_div_fin _ _ hne]
    exact ⟨_, rfl⟩
  refine ⟨⟨⟨?_, ?_, ?_, ?_, ?_, ?_⟩, ⟨?_, ?_, ?_, ?_, ?_, ?_⟩, ⟨?_, ?_, ?_, ?_, ?_, ?_⟩⟩,
    ?_, ?_⟩
  all_goals first
    | (simp only [hF, AnalisisEu152.E_122, AnalisisEu152.ventana_low, AnalisisEu152.E_779,
        AnalisisEu152.E_1408, a1, a2, a3, a4, b1, b2, b3, b4, c1, c2, c3, c4]; done)
    | (simp only [hF, AnalisisEu152.E_122, AnalisisEu152.ventana_low, AnalisisEu152.E_779,
        AnalisisEu152.E_1408, a1, a2, a3, a4, b1, b2, b3, b4, c1, c2, c3, c4]; norm_num; done)
    | skip
  · have hn : ((h.FindBin ((AnalisisEu152.E_122 : α) - AnalisisEu152.ventana_low) - 1)
          - h.FindBin ((AnalisisEu152.E_122 : α) - 2 * AnalisisEu152.ventana_low) + 1)
        + (h.FindBin ((AnalisisEu152.E_122 : α) + 2 * AnalisisEu152.ventana_low)
          - (h.FindBin ((AnalisisEu152.E_122 : α) + AnalisisEu152.ventana_low) + 1) + 1)
        = 24 := by
      simp only [hF, AnalisisEu152.E_122, AnalisisEu152.ventana_low, a1, a2, a3, a4]
      norm_num
    refine ⟨?_, hn, hfin _ _ 24 hn (by norm_num)⟩
    simp only [hF, AnalisisEu152.E_122, AnalisisEu152.ventana_low, a1, a2]
    norm_num
  · cases usar_1408
    · have hn : ((h.FindBin ((AnalisisEu152.E_HIGH false : α) - AnalisisEu152.ventana_high false)
            - 1)
            - h.FindBin ((AnalisisEu152.E_HIGH false : α)
              - 2 * AnalisisEu152.ventana_high false) + 1)
          + (h.FindBin ((AnalisisEu152.E_HIGH false : α)
              + 2 * AnalisisEu152.ventana_high false)
            - (h.FindBin ((AnalisisEu152.E_HIGH false : α)
              + AnalisisEu152.ventana_high false) + 1) + 1)
          = 40 := by
        simp only [hF, AnalisisEu152.E_HIGH, AnalisisEu152.ventana_high, AnalisisEu152.E_779,
          Bool.false_eq_true, if_false, b1, b2, b3, b4]
        norm_num
      refine ⟨?_, hn, hfin _ _ 40 hn (by norm_num)⟩
      simp only [hF, AnalisisEu152.E_HIGH, AnalisisEu152.ventana_high, AnalisisEu152.E_779,
        Bool.false_eq_true, if_false, b1, b2]
      norm_num
    · have hn : ((h.FindBin ((AnalisisEu152.E_HIGH true : α) - AnalisisEu152.ventana_high true)
            - 1)
            - h.FindBin ((AnalisisEu152.E_HIGH true : α)
              - 2 * AnalisisEu152.ventana_high true) + 1)
          + (h.FindBin ((AnalisisEu152.E_HIGH true : α)
              + 2 * AnalisisEu152.ventana_high true)
            - (h.FindBin ((AnalisisEu152.E_HIGH true : α)
              + AnalisisEu152.ventana_high true) + 1) + 1)
          = 50 := by
        simp only [hF, AnalisisEu152.E_HIGH, AnalisisEu152.ventana_high, AnalisisEu152.E_1408,
          if_true, c1, c2, c3, c4]
        norm_num
      refine ⟨?_, hn, hfin _ _ 50 hn (by norm_num)⟩
      simp only [hF, AnalisisEu152.E_HIGH, AnalisisEu152.ventana_high, AnalisisEu152.E_1408,
        if_true, c1, c2]
      norm_num

/-! ## The event bookkeeping of the simulation -/

/-- The steps of an event leave the rows alone and add to `fEdep`, in order,
the deposits of the steps in the detector volume that are `> 0`. -/
theorem pasos_acumulan {α : Type} [LinearOrderedField α] (e : EventAction.Estado α)
    (pasos : List (SteppingAction.G4Step α)) :
    pasos.foldl SteppingAction.UserSteppingAction e
      = ⟨((pasos.filter (fun p => decide (p.volumen = "Det_LV")
            && Dbl.gt p.edep (Dbl.fin 0))).map (fun p => p.edep)).foldl (· + ·) e.fEdep,
          e.filas⟩ := by
  induction pasos generalizing e with
  | nil => rfl
  | cons p ps ih =>
    rw [List.foldl_cons, ih]
    by_cases hv : p.volumen = "Det_LV"
    · by_cases hd : Dbl.gt p.edep (Dbl.fin 0) = true
      · simp [SteppingAction.UserSteppingAction, EventAction.AddEdep, hv, hd]
      · simp [SteppingAction.UserSteppingAction, hv, hd]
    · simp [SteppingAction.UserSteppingAction, hv]

/-- Adding a double that is `> 0` to a double that is `>= 0` gives a double
that is `>= 0`. -/
theorem suma_paso_no_negativa {α : Type} [LinearOrderedField α] (a x : Dbl α)
    (ha : Dbl.le (Dbl.fin 0) a = true) (hx : Dbl.gt x (Dbl.fin 0) = true) :
    Dbl.le (Dbl.fin 0) (a + x) = true := by
  cases a with
  | nan => simp [Dbl.le] at ha
  | ninf => simp [Dbl.le] at ha
  | pinf =>
    cases x with
    | nan => simp [Dbl.gt, Dbl.lt] at hx
    | ninf => simp [Dbl.gt, Dbl.lt] at hx
    | pinf => rfl
    | fin b => rfl
  | fin a =>
    cases x with
    | nan => simp [Dbl.gt, Dbl.lt] at hx
    | ninf => simp [Dbl.gt, Dbl.lt] at hx
    | pinf => rfl
    | fin b =>
      have ha' : 0 ≤ a := by simpa using ha
      have hb : 0 < b := by simpa using hx
      rw [Dbl.fin_add_fin, Dbl.le_fin_fin, decide_eq_true_eq]
      exact add_nonneg ha' hb.le

/-- A sum of doubles that are `> 0`, accumulated from a double that is `>= 0`,
is `>= 0`. -/
theorem suma_no_negativa {α : Type} [LinearOrderedField α] (l : List (Dbl α))
    (hl : ∀ x ∈ l, Dbl.gt x (Dbl.fin 0) = true) (a : Dbl α)
    (ha : Dbl.le (Dbl.fin 0) a = true) :
    Dbl.le (Dbl.fin 0) (l.foldl (· + ·) a) = true := by
  induction l generalizing a with
  | nil => exact ha
  | cons x xs ih =>
    rw [List.foldl_cons]
    exact ih (fun y hy => hl y (List.mem_cons_of_mem _ hy)) _
      (suma_paso_no_negativa a x ha (hl x (List.mem_cons_self _ _)))

/-- C30: one event of the simulation, from any state left by earlier events:
`BeginOfEventAction` sets `fEdep` to `0`; after the steps `fEdep` is the sum,
in order, of the deposits `> 0` of the steps whose volume is `Det_LV`, whatever
`fEdep` was before the event; that sum is `>= 0`; and `EndOfEventAction` adds
exactly one row holding the sum when it is `> 0` and no row otherwise. -/
theorem C30_contabilidad_del_evento {α : Type} [LinearOrderedField α]
    (e : EventAction.Estado α) (pasos : List (SteppingAction.G4Step α)) :
    let suma := ((pasos.filter (fun p => decide (p.volumen = "Det_LV")
        && Dbl.gt p.edep (Dbl.fin 0))).map (fun p => p.edep)).foldl (· + ·) (Dbl.fin 0)
    (EventAction.BeginOfEventAction e).fEdep = Dbl.fin 0
    ∧ (procesarEvento e pasos).fEdep = suma
    ∧ Dbl.le (Dbl.fin 0) suma = true
    ∧ (procesarEvento e pasos).filas
        = e.filas ++ (if Dbl.gt suma (Dbl.fin 0) then [suma] else []) := by
  intro suma
  have hfold : pasos.foldl SteppingAction.UserSteppingAction (EventAction.BeginOfEventAction e)
      = ⟨suma, e.filas⟩ := pasos_acumulan _ pasos
  have hpos : Dbl.le (Dbl.fin 0) suma = true := by
    apply suma_no_negativa
    · intro x hx
      obtain ⟨p, hp, rfl⟩ := List.mem_map.mp hx
      have := (List.mem_filter.mp hp).2
      simp only [Bool.and_eq_true] at this
      exact this.2
    · simp [Dbl.le]
  refine ⟨rfl, ?_, hpos, ?_⟩
  · unfold procesarEvento
    rw [hfold]
    unfold EventAction.EndOfEventAction
    split_ifs <;> rfl
  · unfold procesarEvento
    rw [hfold]
    unfold EventAction.EndOfEventAction
    split_ifs with h
    · rfl
    · simp

/-! ## Validation of the LOD in `AnalisisEu152_v4` -/

/-- C22: the multiplier `factor_needed` of step 4 of `AnalisisEu152_v4` is
`(3/|Z|)^2` when `|Z| > 0.1` and `999` otherwise; for a finite `Z` with
`|Z| > 0.1` it satisfies `|Z| * sqrt(factor_needed) = 3`; and for every `Z`,
`NaN` and the infinities included, the column prints `Ya detectado`
(`factor_needed < 1`) exactly when `|Z| > 3`, which for the `Z_score` of a
result of the sample loop is its flag `detectable`. -/
theorem C22_factor_needed (Z : Dbl ℝ)
    (ref_low ref_high : AnalisisEu152_v4.Pico ℝ) (Q0 errQ0 : Dbl ℝ) (conc : ℝ) (esFino : Bool)
    (p_low p_high : AnalisisEu152_v4.Pico ℝ) :
    (Dbl.gt (Dbl.abs Z) (Dbl.fin 0.1) = true →
      AnalisisEu152_v4.factor_needed Z = Dbl.pow2 (Dbl.fin 3 / Dbl.abs Z))
    ∧ (Dbl.gt (Dbl.abs Z) (Dbl.fin 0.1) = false →
      AnalisisEu152_v4.factor_needed Z = Dbl.fin 999)
    ∧ (∀ z : ℝ, Z = Dbl.fin z → 0.1 < |z| →
      AnalisisEu152_v4.factor_needed Z = Dbl.fin ((3 / |z|) ^ 2)
      ∧ Dbl.abs Z * Dbl.sqrt libmReal (AnalisisEu152_v4.factor_needed Z) = Dbl.fin 3)
    ∧ (AnalisisEu152_v4.columnaFactor (AnalisisEu152_v4.factor_needed Z)
        = AnalisisEu152_v4.Factor.ya_detectado ↔ Dbl.gt (Dbl.abs Z) (Dbl.fin 3) = true)
    ∧ (AnalisisEu152_v4.columnaFactor (AnalisisEu152_v4.factor_needed
          (AnalisisEu152_v4.calcularResultado libmReal ref_low ref_high Q0 errQ0 conc esFino
            p_low p_high).Z_score) = AnalisisEu152_v4.Factor.ya_detectado
        ↔ (AnalisisEu152_v4.calcularResultado libmReal ref_low ref_high Q0 errQ0 conc esFino
            p_low p_high).detectable = true) := by
  have h3 : (3.0 : ℝ) = 3 := by norm_num
  have hfin : ∀ z : ℝ, 0.1 < |z| →
      AnalisisEu152_v4.factor_needed (Dbl.fin z) = Dbl.fin ((3 / |z|) ^ 2) := by
    intro z hz
    have hz0 : |z| ≠ 0 := by
      intro h0
      rw [h0] at hz
      norm_num at hz
    unfold AnalisisEu152_v4.factor_needed
    rw [Dbl.abs_fin, Dbl.gt_fin_fin, if_pos (by simpa using hz)]
    unfold Dbl.pow2
    rw [Dbl.fin_div_fin _ _ hz0, Dbl.fin_mul_fin, h3]
    congr 1
    ring
  have h1 : (1.0 : ℝ) = 1 := by norm_num
  have hlt : ∀ f : Dbl ℝ, (AnalisisEu152_v4.columnaFactor f
      = AnalisisEu152_v4.Factor.ya_detectado ↔ Dbl.lt f (Dbl.fin 1) = true) := by
    intro f
    unfold AnalisisEu152_v4.columnaFactor
    rw [h1]
    by_cases h : Dbl.lt f (Dbl.fin 1) = true
    · rw [if_pos h]
      exact ⟨fun _ => h, fun _ => rfl⟩
    · rw [if_neg h]
      constructor
      · intro hc
        split_ifs at hc
      · intro hc
        exact absurd hc h
  have hcol : ∀ W : Dbl ℝ,
      (AnalisisEu152_v4.columnaFactor (AnalisisEu152_v4.factor_needed W)
        = AnalisisEu152_v4.Factor.ya_detectado ↔ Dbl.gt (Dbl.abs W) (Dbl.fin 3) = true) := by
    intro W
    rw [hlt]
    cases W with
    | nan =>
      have hf : AnalisisEu152_v4.factor_needed (Dbl.nan : Dbl ℝ) = Dbl.fin 999 := rfl
      rw [hf, Dbl.lt_fin_fin, Dbl.abs_nan]
      have hg : Dbl.gt (Dbl.nan : Dbl ℝ) (Dbl.fin 3) = false := rfl
      rw [hg]
      norm_num
    | pinf =>
      have hf : AnalisisEu152_v4.factor_needed (Dbl.pinf : Dbl ℝ) = Dbl.fin (0 * 0) := rfl
      have hg : Dbl.gt (Dbl.abs (Dbl.pinf : Dbl ℝ)) (Dbl.fin 3) = true := rfl
      rw [hf, hg, Dbl.lt_fin_fin]
      norm_num
    | ninf =>
      have hf : AnalisisEu152_v4.factor_needed (Dbl.ninf : Dbl ℝ) = Dbl.fin (0 * 0) := rfl
      have hg : Dbl.gt (Dbl.abs (Dbl.ninf : Dbl ℝ)) (Dbl.fin 3) = true := rfl
      rw [hf, hg, Dbl.lt_fin_fin]
      norm_num
    | fin z =>
      rw [Dbl.abs_fin, Dbl.gt_fin_fin, decide_eq_true_eq]
      by_cases hz : 0.1 < |z|
      · have hzpos : 0 < |z| := lt_trans (by norm_num) hz
        rw [hfin z hz, Dbl.lt_fin_fin, decide_eq_true_eq, div_pow, div_lt_iff₀ (by positivity)]
        constructor
        · intro h
          nlinarith [abs_nonneg z]
        · intro h
          nlinarith [abs_nonneg z]
      · have hz' : ¬ (3 < |z|) := by
          intro h
          apply hz
          linarith
        have hf : AnalisisEu152_v4.factor_needed (Dbl.fin z) = Dbl.fin 999 := by
          unfold AnalisisEu152_v4.factor_needed
          rw [Dbl.abs_fin, Dbl.gt_fin_fin, if_neg (by simpa using hz)]
        rw [hf, Dbl.lt_fin_fin, decide_eq_true_eq]
        constructor
        · intro h
          norm_num at h
        · intro h
          exact absurd h hz'
  refine ⟨?_, ?_, ?_, hcol Z, hcol _⟩
  · intro h
    unfold AnalisisEu152_v4.factor_needed
    rw [if_pos h, h3]
  · intro h
    unfold AnalisisEu152_v4.factor_needed
    rw [if_neg (by simp [h])]
  · intro z hZ hz
    subst hZ
    have hzpos : 0 < |z| := lt_trans (by norm_num) hz
    refine ⟨hfin z hz, ?_⟩
    rw [hfin z hz, Dbl.sqrt_fin _ _ (by positivity), Dbl.abs_fin, Dbl.fin_mul_fin]
    congr 1
    simp only [libmReal]
    rw [Real.sqrt_sq (by positivity)]
    field_simp

/-- Witness of C22: `Z = 1.5` needs 4 times the events (`1.5 * sqrt 4 = 3`)
and is not printed as detected; `Z = -6` has the factor `1/4` and is printed
as detected. -/
theorem C22_factor_needed_witness :
    AnalisisEu152_v4.factor_needed (Dbl.fin (1.5 : ℝ)) = Dbl.fin ((3 / |(1.5 : ℝ)|) ^ 2)
    ∧ Dbl.abs (Dbl.fin (1.5 : ℝ))
        * Dbl.sqrt libmReal (AnalisisEu152_v4.factor_needed (Dbl.fin (1.5 : ℝ))) = Dbl.fin 3
    ∧ AnalisisEu152_v4.columnaFactor (AnalisisEu152_v4.factor_needed (Dbl.fin (-6 : ℝ)))
        = AnalisisEu152_v4.Factor.ya_detectado := by
  have h1 := (C22_factor_needed (Dbl.fin (1.5 : ℝ)) (AnalisisEu152_v4.refLow ℝ)
    (AnalisisEu152_v4.refHigh ℝ) (Dbl.fin 1) (Dbl.fin 1) 0 true (AnalisisEu152_v4.refLow ℝ)
    (AnalisisEu152_v4.refHigh ℝ)).2.2.1 1.5 rfl (by norm_num [abs_of_pos])
  have h2 := (C22_factor_needed (Dbl.fin (-6 : ℝ)) (AnalisisEu152_v4.refLow ℝ)
    (AnalisisEu152_v4.refHigh ℝ) (Dbl.fin 1) (Dbl.fin 1) 0 true (AnalisisEu152_v4.refLow ℝ)
    (AnalisisEu152_v4.refHigh ℝ)).2.2.2.1
  refine ⟨h1.1, h1.2, h2.mpr ?_⟩
  rw [Dbl.abs_fin, Dbl.gt_fin_fin, decide_eq_true_eq]
  norm_num [abs_of_neg]

/-! ## Sign of the propagated uncertainties -/

/-- C29: the uncertainties `errQ = Q * sqrt(...)` and `errT = T * sqrt(...)`
carry the sign of `Q` and of `T`.  For peaks with finite non-zero net counts
`a` (low) and `b` (high), a positive error `da` of the low peak, a positive
normalisation factor `f` and a reference with positive net counts `I0`, the
sample loop of `AnalisisEu152_v4` stores `errQ = (a/b) * s` and
`errT_low = (a*f/I0) * t`, and the second loop of `AnalisisEu152_v2` stores
`errQ = (a/b) * s`, with `s > 0` and `t > 0`: when the net counts are negative
in the low-energy ROI only, the three stored uncertainties are strictly
negative, and `errQ` is the error of the point handed to the fit. -/
theorem C29_incertidumbre_con_signo
    (ref_low ref_high : AnalisisEu152_v4.Pico ℝ) (Q0 errQ0 : Dbl ℝ) (conc : ℝ) (esFino : Bool)
    (p_low p_high : AnalisisEu152_v4.Pico ℝ) (q_low q_high : AnalisisEu152.Pico ℝ)
    (a b da db f I0 e0 : ℝ)
    (ha : a ≠ 0) (hb : b ≠ 0) (hda : 0 < da) (hf : 0 < f) (hI0 : 0 < I0)
    (h1 : p_low.cuentas_netas = Dbl.fin a) (h2 : p_low.error = Dbl.fin da)
    (h3 : p_low.netas_norm = Dbl.fin (a * f)) (h4 : p_low.error_norm = Dbl.fin (da * f))
    (h5 : p_high.cuentas_netas = Dbl.fin b) (h6 : p_high.error = Dbl.fin db)
    (h7 : ref_low.cuentas_netas = Dbl.fin I0) (h8 : ref_low.error = Dbl.fin e0)
    (g1 : q_low.cuentas_netas = Dbl.fin a) (g2 : q_low.error = Dbl.fin da)
    (g3 : q_high.cuentas_netas = Dbl.fin b) (g4 : q_high.error = Dbl.fin db) :
    let r := AnalisisEu152_v4.calcularResultado libmReal ref_low ref_high Q0 errQ0 conc esFino
      p_low p_high
    ∃ s t : ℝ, 0 < s ∧ 0 < t
      ∧ r.Q = Dbl.fin (a / b) ∧ r.errQ = Dbl.fin (a / b * s)
      ∧ r.T_low = Dbl.fin (a * f / I0) ∧ r.errT_low = Dbl.fin (a * f / I0 * t)
      ∧ (AnalisisEu152_v2.indiceQ libmReal q_low q_high).1 = Dbl.fin (a / b)
      ∧ (AnalisisEu152_v2.indiceQ libmReal q_low q_high).2 = Dbl.fin (a / b * s)
      ∧ (a < 0 → 0 < b → a / b * s < 0 ∧ a * f / I0 * t < 0) := by
  intro r
  have hrel : (0 : ℝ) < da / a * (da / a) + db / b * (db / b) := by
    have hx : da / a ≠ 0 := div_ne_zero hda.ne' ha
    have : 0 < da / a * (da / a) := mul_self_pos.mpr hx
    linarith [mul_self_nonneg (db / b)]
  have hrelT : (0 : ℝ) < da * f / (a * f) * (da * f / (a * f)) + e0 / I0 * (e0 / I0) := by
    have hx : da * f / (a * f) ≠ 0 :=
      div_ne_zero (mul_ne_zero hda.ne' hf.ne') (mul_ne_zero ha hf.ne')
    have : 0 < da * f / (a * f) * (da * f / (a * f)) := mul_self_pos.mpr hx
    linarith [mul_self_nonneg (e0 / I0)]
  refine ⟨Real.sqrt (da / a * (da / a) + db / b * (db / b)),
    Real.sqrt (da * f / (a * f) * (da * f / (a * f)) + e0 / I0 * (e0 / I0)),
    Real.sqrt_pos.mpr hrel, Real.sqrt_pos.mpr hrelT, ?_, ?_, ?_, ?_, ?_, ?_, ?_⟩
  · show p_low.cuentas_netas / p_high.cuentas_netas = _
    rw [h1, h5, Dbl.fin_div_fin _ _ hb]
  · show p_low.cuentas_netas / p_high.cuentas_netas
      * Dbl.sqrt libmReal (p_low.error / p_low.cuentas_netas * (p_low.error / p_low.cuentas_netas)
        + p_high.error / p_high.cuentas_netas * (p_high.error / p_high.cuentas_netas)) = _
    simp only [h1, h2, h5, h6, Dbl.fin_div_fin _ _ hb, Dbl.fin_div_fin _ _ ha, Dbl.fin_mul_fin,
      Dbl.fin_add_fin]
    rw [Dbl.sqrt_fin _ _ hrel.le, Dbl.fin_mul_fin]
    rfl
  · show p_low.netas_norm / ref_low.cuentas_netas = _
    rw [h3, h7, Dbl.fin_div_fin _ _ hI0.ne']
  · show p_low.netas_norm / ref_low.cuentas_netas
      * Dbl.sqrt libmReal (Dbl.pow2 (p_low.error_norm / p_low.netas_norm)
        + Dbl.pow2 (ref_low.error / ref_low.cuentas_netas)) = _
    simp only [Dbl.pow2, h3, h4, h7, h8, Dbl.fin_div_fin _ _ hI0.ne',
      Dbl.fin_div_fin _ _ (mul_ne_zero ha hf.ne'), Dbl.fin_mul_fin, Dbl.fin_add_fin]
    rw [Dbl.sqrt_fin _ _ hrelT.le, Dbl.fin_mul_fin]
    rfl
  · show q_low.cuentas_netas / q_high.cuentas_netas = _
    rw [g1, g3, Dbl.fin_div_fin _ _ hb]
  · show q_low.cuentas_netas / q_high.cuentas_netas
      * Dbl.sqrt libmReal (Dbl.pow2 (q_low.error / q_low.cuentas_netas)
        + Dbl.pow2 (q_high.error / q_high.cuentas_netas)) = _
    simp only [Dbl.pow2, g1, g2, g3, g4, Dbl.fin_div_fin _ _ hb, Dbl.fin_div_fin _ _ ha,
      Dbl.fin_mul_fin, Dbl.fin_add_fin]
    rw [Dbl.sqrt_fin _ _ hrel.le, Dbl.fin_mul_fin]
    rfl
  · intro han hbp
    constructor
    · exact mul_neg_of_neg_of_pos (div_neg_of_neg_of_pos han hbp) (Real.sqrt_pos.mpr hrel)
    · exact mul_neg_of_neg_of_pos (div_neg_of_neg_of_pos (mul_neg_of_neg_of_pos han hf) hI0)
        (Real.sqrt_pos.mpr hrelT)

/-- Witness of C29: the peak of net counts `-9 ± 7` in the low-energy ROI with
the peak `1225 ± 35` in the high-energy ROI, against the sample reference:
`errQ` and `errT_low` are negative. -/
theorem C29_incertidumbre_con_signo_witness :
    ∃ eQ eT : ℝ, eQ < 0 ∧ eT < 0
      ∧ (AnalisisEu152_v4.calcularResultado libmReal (AnalisisEu152_v4.refLow ℝ)
          (AnalisisEu152_v4.refHigh ℝ) (Dbl.fin 1) (Dbl.fin 1) 1 true
          (AnalisisEu152_v4.picoNegativo ℝ) (AnalisisEu152_v4.muestraHigh ℝ)).errQ = Dbl.fin eQ
      ∧ (AnalisisEu152_v4.calcularResultado libmReal (AnalisisEu152_v4.refLow ℝ)
          (AnalisisEu152_v4.refHigh ℝ) (Dbl.fin 1) (Dbl.fin 1) 1 true
          (AnalisisEu152_v4.picoNegativo ℝ) (AnalisisEu152_v4.muestraHigh ℝ)).errT_low
          = Dbl.fin eT
      ∧ (AnalisisEu152_v2.indiceQ libmReal (AnalisisEu152.picoNegativo ℝ)
          (AnalisisEu152.muestraHigh ℝ)).2 = Dbl.fin eQ := by
  obtain ⟨s, t, -, -, -, hQ, -, hT, -, hQ2, hneg⟩ :=
    C29_incertidumbre_con_signo (AnalisisEu152_v4.refLow ℝ) (AnalisisEu152_v4.refHigh ℝ)
      (Dbl.fin 1) (Dbl.fin 1) 1 true (AnalisisEu152_v4.picoNegativo ℝ)
      (AnalisisEu152_v4.muestraHigh ℝ) (AnalisisEu152.picoNegativo ℝ)
      (AnalisisEu152.muestraHigh ℝ) (-9) 1225 7 35 1 2500 50
      (by norm_num) (by norm_num) (by norm_num) (by norm_num) (by norm_num)
      rfl rfl (by simp [AnalisisEu152_v4.picoNegativo])
      (by simp [AnalisisEu152_v4.picoNegativo]) rfl rfl rfl rfl rfl rfl rfl rfl
  obtain ⟨n1, n2⟩ := hneg (by norm_num) (by norm_num)
  exact ⟨_, _, n1, n2, hQ, hT, hQ2⟩

/-! ## The normalised uncertainty of `AnalisisEu152_v4` -/

/-- Squaring after scaling by a positive finite factor. -/
theorem Dbl.mul_fin_sq {α : Type} [LinearOrderedField α] (x : Dbl α) (c : α) (hc : 0 < c) :
    (x * Dbl.fin c) * (x * Dbl.fin c) = (x * x) * Dbl.fin (c * c) := by
  have hp : (Dbl.infOfSign c : Dbl α) = Dbl.pinf := Dbl.infOfSign_pos hc
  have hn : (Dbl.infOfSign (-c) : Dbl α) = Dbl.ninf := Dbl.infOfSign_neg (neg_neg_of_pos hc)
  have hpp : (Dbl.infOfSign (c * c) : Dbl α) = Dbl.pinf := Dbl.infOfSign_pos (mul_pos hc hc)
  cases x with
  | nan => simp
  | pinf => simp [hp, hpp]
  | ninf => simp [hn, hpp]
  | fin a =>
    rw [Dbl.fin_mul_fin, Dbl.fin_mul_fin, Dbl.fin_mul_fin, Dbl.fin_mul_fin]
    congr 1
    ring

/-- Adding after scaling by a positive finite factor. -/
theorem Dbl.add_mul_fin {α : Type} [LinearOrderedField α] (x y : Dbl α) (c : α)
    (hc : 0 < c) : x * Dbl.fin c + y * Dbl.fin c = (x + y) * Dbl.fin c := by
  have hp : (Dbl.infOfSign c : Dbl α) = Dbl.pinf := Dbl.infOfSign_pos hc
  have hn : (Dbl.infOfSign (-c) : Dbl α) = Dbl.ninf := Dbl.infOfSign_neg (neg_neg_of_pos hc)
  have hpn : (Dbl.pinf + Dbl.ninf : Dbl α) = Dbl.nan := rfl
  have hnp : (Dbl.ninf + Dbl.pinf : Dbl α) = Dbl.nan := rfl
  have hnn : (Dbl.ninf + Dbl.ninf : Dbl α) = Dbl.ninf := rfl
  have hfn : ∀ a : α, (Dbl.fin a + Dbl.ninf : Dbl α) = Dbl.ninf := fun _ => rfl
  have hnf : ∀ a : α, (Dbl.ninf + Dbl.fin a : Dbl α) = Dbl.ninf := fun _ => rfl
  cases x <;> cases y <;>
    simp only [Dbl.pinf_mul_fin, Dbl.ninf_mul_fin, Dbl.fin_mul_fin, Dbl.nan_mul, hp, hn,
      Dbl.nan_add, Dbl.add_nan, Dbl.fin_add_fin, Dbl.fin_add_pinf, Dbl.pinf_add_fin,
      Dbl.pinf_add_pinf, hpn, hnp, hnn, hfn, hnf, add_mul]

/-- Multiplying by a product with a positive finite factor. -/
theorem Dbl.mul_mul_fin {α : Type} [LinearOrderedField α] (x y : Dbl α) (c : α)
    (hc : 0 < c) : x * (y * Dbl.fin c) = (x * y) * Dbl.fin c := by
  have hp : (Dbl.infOfSign c : Dbl α) = Dbl.pinf := Dbl.infOfSign_pos hc
  have hn : (Dbl.infOfSign (-c) : Dbl α) = Dbl.ninf := Dbl.infOfSign_neg (neg_neg_of_pos hc)
  have hsig : ∀ a : α, (Dbl.infOfSign a : Dbl α) * Dbl.fin c = Dbl.infOfSign a := by
    intro a
    rcases lt_trichotomy a 0 with h | h | h
    · rw [Dbl.infOfSign_neg h, Dbl.ninf_mul_fin, hn]
    · subst h; simp
    · rw [Dbl.infOfSign_pos h, Dbl.pinf_mul_fin, hp]
  have hsig2 : ∀ a : α, (Dbl.infOfSign (a * c) : Dbl α) = Dbl.infOfSign a := by
    intro a
    rcases lt_trichotomy a 0 with h | h | h
    · rw [Dbl.infOfSign_neg h, Dbl.infOfSign_neg (mul_neg_of_neg_of_pos h hc)]
    · subst h; simp
    · rw [Dbl.infOfSign_pos h, Dbl.infOfSign_pos (mul_pos h hc)]
  have hsig3 : ∀ a : α, (Dbl.infOfSign (-(a * c)) : Dbl α) = Dbl.infOfSign (-a) := by
    intro a
    rw [← neg_mul]
    exact hsig2 (-a)
  cases x <;> cases y <;>
    simp only [Dbl.pinf_mul_fin, Dbl.ninf_mul_fin, Dbl.fin_mul_fin, Dbl.nan_mul, Dbl.mul_nan,
      Dbl.fin_mul_pinf, Dbl.fin_mul_ninf, Dbl.pinf_mul_pinf, Dbl.ninf_mul_ninf,
      Dbl.pinf_mul_ninf, Dbl.ninf_mul_pinf, hp, hn, hsig, hsig2, hsig3, mul_assoc]

/-- The square root after scaling by the square of a positive finite factor,
over the reals. -/
theorem Dbl.sqrt_mul_fin_sq (x : Dbl ℝ) (c : ℝ) (hc : 0 < c) :
    Dbl.sqrt libmReal (x * Dbl.fin (c * c)) = Dbl.sqrt libmReal x * Dbl.fin c := by
  have hp : (Dbl.infOfSign c : Dbl ℝ) = Dbl.pinf := Dbl.infOfSign_pos hc
  have hpp : (Dbl.infOfSign (c * c) : Dbl ℝ) = Dbl.pinf := Dbl.infOfSign_pos (mul_pos hc hc)
  have hnn : (Dbl.infOfSign (-(c * c)) : Dbl ℝ) = Dbl.ninf :=
    Dbl.infOfSign_neg (neg_neg_of_pos (mul_pos hc hc))
  cases x with
  | nan => simp
  | pinf => simp [hp, hpp]
  | ninf =>
    rw [Dbl.ninf_mul_fin, hnn]
    rfl
  | fin a =>
    rw [Dbl.fin_mul_fin]
    by_cases ha : a < 0
    · have hac : a * (c * c) < 0 := mul_neg_of_neg_of_pos ha (mul_pos hc hc)
      simp [Dbl.sqrt, ha, hac]
    · have ha' : 0 ≤ a := not_lt.mp ha
      rw [Dbl.sqrt_fin _ _ (mul_nonneg ha' (mul_pos hc hc).le), Dbl.sqrt_fin _ _ ha',
        Dbl.fin_mul_fin]
      congr 1
      simp only [libmReal]
      rw [Real.sqrt_mul ha', Real.sqrt_mul_self hc.le]

/-- C26: in `AnalisisEu152_v4`, for a sample with `N_eventos > 0` events and a
reference with `N_eventos_ref > 0` events, the normalised uncertainty is
`errQ_norm = errQ * sqrt(N_eventos / N_eventos_ref)`, whatever the peaks; when
`errQ` is finite and positive and `N_eventos < N_eventos_ref` it is positive
and strictly smaller than `errQ`, and then, for finite `Q`, `Q0` and `errQ0`,
`|Z_norm| >= |Z_real|`. -/
theorem C26_errQ_normalizado
    (ref_low ref_high : AnalisisEu152_v4.Pico ℝ) (Q0 errQ0 : Dbl ℝ) (conc : ℝ) (esFino : Bool)
    (p_low p_high : AnalisisEu152_v4.Pico ℝ) (N_eventos N_eventos_ref : ℝ)
    (hN : 0 < N_eventos) (hNref : 0 < N_eventos_ref) :
    let r := AnalisisEu152_v4.calcularResultado libmReal ref_low ref_high Q0 errQ0 conc esFino
      p_low p_high
    let n := AnalisisEu152_v4.normalizados libmReal N_eventos N_eventos_ref Q0 errQ0
      p_low p_high
    n.1 = r.errQ * Dbl.fin (Real.sqrt (N_eventos / N_eventos_ref))
    ∧ (∀ e : ℝ, r.errQ = Dbl.fin e → 0 < e → N_eventos < N_eventos_ref →
        ∃ e_norm : ℝ, n.1 = Dbl.fin e_norm ∧ 0 < e_norm ∧ e_norm < e
          ∧ ∀ q q0 e0 : ℝ, r.Q = Dbl.fin q → Q0 = Dbl.fin q0 → errQ0 = Dbl.fin e0 →
            ∃ z_real z_norm : ℝ, r.Z_score = Dbl.fin z_real ∧ n.2 = Dbl.fin z_norm
              ∧ |z_real| ≤ |z_norm|) := by
  intro r n
  have hρ : 0 < Real.sqrt (N_eventos / N_eventos_ref) := Real.sqrt_pos.mpr (div_pos hN hNref)
  have hratio : Dbl.sqrt libmReal (Dbl.fin N_eventos / Dbl.fin N_eventos_ref)
      = Dbl.fin (Real.sqrt (N_eventos / N_eventos_ref)) := by
    rw [Dbl.fin_div_fin _ _ hNref.ne', Dbl.sqrt_fin _ _ (div_pos hN hNref).le]
    rfl
  have hn1 : n.1 = p_low.cuentas_netas / p_high.cuentas_netas
      * Dbl.sqrt libmReal
        (p_low.error / p_low.cuentas_netas
            * Dbl.sqrt libmReal (Dbl.fin N_eventos / Dbl.fin N_eventos_ref)
          * (p_low.error / p_low.cuentas_netas
            * Dbl.sqrt libmReal (Dbl.fin N_eventos / Dbl.fin N_eventos_ref))
        + p_high.error / p_high.cuentas_netas
            * Dbl.sqrt libmReal (Dbl.fin N_eventos / Dbl.fin N_eventos_ref)
          * (p_high.error / p_high.cuentas_netas
            * Dbl.sqrt libmReal (Dbl.fin N_eventos / Dbl.fin N_eventos_ref))) := rfl
  have hrE : r.errQ = p_low.cuentas_netas / p_high.cuentas_netas
      * Dbl.sqrt libmReal
        (p_low.error / p_low.cuentas_netas * (p_low.error / p_low.cuentas_netas)
        + p_high.error / p_high.cuentas_netas * (p_high.error / p_high.cuentas_netas)) := rfl
  have hmain : n.1 = r.errQ * Dbl.fin (Real.sqrt (N_eventos / N_eventos_ref)) := by
    rw [hn1, hrE, hratio, Dbl.mul_fin_sq _ _ hρ, Dbl.mul_fin_sq _ _ hρ,
      Dbl.add_mul_fin _ _ _ (mul_pos hρ hρ), Dbl.sqrt_mul_fin_sq _ _ hρ,
      Dbl.mul_mul_fin _ _ _ hρ]
  refine ⟨hmain, ?_⟩
  intro e he hepos hlt
  have hρ1 : Real.sqrt (N_eventos / N_eventos_ref) < 1 := by
    rw [Real.sqrt_lt' one_pos, one_pow, div_lt_one hNref]
    exact hlt
  have hn1e : n.1 = Dbl.fin (e * Real.sqrt (N_eventos / N_eventos_ref)) := by
    rw [hmain, he, Dbl.fin_mul_fin]
  have hen_pos : 0 < e * Real.sqrt (N_eventos / N_eventos_ref) := mul_pos hepos hρ
  have hen_lt : e * Real.sqrt (N_eventos / N_eventos_ref) < e := by
    nlinarith
  refine ⟨_, hn1e, hen_pos, hen_lt, ?_⟩
  intro q q0 e0 hq hq0 he0
  have hσ : 0 < Real.sqrt (e * e + e0 * e0) :=
    Real.sqrt_pos.mpr (by nlinarith [mul_self_nonneg e0])
  have hσn : 0 < Real.sqrt (e * Real.sqrt (N_eventos / N_eventos_ref)
      * (e * Real.sqrt (N_eventos / N_eventos_ref)) + e0 * e0) :=
    Real.sqrt_pos.mpr (by nlinarith [mul_self_nonneg e0])
  have hle : Real.sqrt (e * Real.sqrt (N_eventos / N_eventos_ref)
      * (e * Real.sqrt (N_eventos / N_eventos_ref)) + e0 * e0)
      ≤ Real.sqrt (e * e + e0 * e0) := by
    apply Real.sqrt_le_sqrt
    have : e * Real.sqrt (N_eventos / N_eventos_ref)
        * (e * Real.sqrt (N_eventos / N_eventos_ref)) ≤ e * e :=
      mul_le_mul hen_lt.le hen_lt.le hen_pos.le hepos.le
    linarith
  have hZr : r.Z_score = (if Dbl.gt (Dbl.sqrt libmReal (r.errQ * r.errQ + errQ0 * errQ0))
        (Dbl.fin 0) then (r.Q - Q0) / Dbl.sqrt libmReal (r.errQ * r.errQ + errQ0 * errQ0)
      else Dbl.fin 0) := rfl
  have hZn : n.2 = (if Dbl.gt (Dbl.sqrt libmReal (n.1 * n.1 + errQ0 * errQ0))
        (Dbl.fin 0) then (r.Q - Q0) / Dbl.sqrt libmReal (n.1 * n.1 + errQ0 * errQ0)
      else Dbl.fin 0) := rfl
  have hZr' : r.Z_score = Dbl.fin ((q - q0) / Real.sqrt (e * e + e0 * e0)) := by
    rw [hZr, he, he0, hq, hq0, Dbl.fin_mul_fin, Dbl.fin_mul_fin, Dbl.fin_add_fin,
      Dbl.sqrt_fin _ _ (by nlinarith [mul_self_nonneg e, mul_self_nonneg e0])]
    have hs : libmReal.sqrt (e * e + e0 * e0) = Real.sqrt (e * e + e0 * e0) := rfl
    rw [hs, Dbl.gt_fin_fin, if_pos (by simpa using hσ), Dbl.fin_sub_fin,
      Dbl.fin_div_fin _ _ hσ.ne']
  have hZn' : n.2 = Dbl.fin ((q - q0) / Real.sqrt (e * Real.sqrt (N_eventos / N_eventos_ref)
      * (e * Real.sqrt (N_eventos / N_eventos_ref)) + e0 * e0)) := by
    rw [hZn, hn1e, he0, hq, hq0, Dbl.fin_mul_fin, Dbl.fin_mul_fin, Dbl.fin_add_fin,
      Dbl.sqrt_fin _ _ (by nlinarith [mul_self_nonneg e0, hen_pos])]
    have hs : libmReal.sqrt (e * Real.sqrt (N_eventos / N_eventos_ref)
        * (e * Real.sqrt (N_eventos / N_eventos_ref)) + e0 * e0)
        = Real.sqrt (e * Real.sqrt (N_eventos / N_eventos_ref)
          * (e * Real.sqrt (N_eventos / N_eventos_ref)) + e0 * e0) := rfl
    rw [hs, Dbl.gt_fin_fin, if_pos (by simpa using hσn), Dbl.fin_sub_fin,
      Dbl.fin_div_fin _ _ hσn.ne']
  refine ⟨_, _, hZr', hZn', ?_⟩
  rw [abs_div, abs_div, abs_of_pos hσ, abs_of_pos hσn]
  exact div_le_div_of_nonneg_left (abs_nonneg _) hσn hle

/-- The ratio and its uncertainty for the doped sample peaks: `Q = 900/1225`
with a finite positive `errQ`. -/
theorem resultadoDopada_Q_errQ :
    (AnalisisEu152_v4.resultadoDopada libmReal).Q = Dbl.fin (900 / 1225)
    ∧ (AnalisisEu152_v4.resultadoDopada libmReal).errQ
      = Dbl.fin (900 / 1225 * Real.sqrt (1 / 30 * (1 / 30) + 1 / 35 * (1 / 35)))
    ∧ (0 : ℝ) < 900 / 1225 * Real.sqrt (1 / 30 * (1 / 30) + 1 / 35 * (1 / 35)) := by
  refine ⟨?_, ?_, ?_⟩
  · show (AnalisisEu152_v4.muestraLow ℝ).cuentas_netas
        / (AnalisisEu152_v4.muestraHigh ℝ).cuentas_netas = _
    simp only [AnalisisEu152_v4.muestraLow, AnalisisEu152_v4.muestraHigh]
    exact Dbl.fin_div_fin _ _ (by norm_num)
  · show (AnalisisEu152_v4.muestraLow ℝ).cuentas_netas
        / (AnalisisEu152_v4.muestraHigh ℝ).cuentas_netas
      * Dbl.sqrt libmReal
        ((AnalisisEu152_v4.muestraLow ℝ).error / (AnalisisEu152_v4.muestraLow ℝ).cuentas_netas
          * ((AnalisisEu152_v4.muestraLow ℝ).error
            / (AnalisisEu152_v4.muestraLow ℝ).cuentas_netas)
        + (AnalisisEu152_v4.muestraHigh ℝ).error / (AnalisisEu152_v4.muestraHigh ℝ).cuentas_netas
          * ((AnalisisEu152_v4.muestraHigh ℝ).error
            / (AnalisisEu152_v4.muestraHigh ℝ).cuentas_netas)) = _
    have e1 : (Dbl.fin (30 : ℝ) / Dbl.fin 900 : Dbl ℝ) = Dbl.fin (1 / 30) := by
      rw [Dbl.fin_div_fin _ _ (by norm_num)]; norm_num
    have e2 : (Dbl.fin (35 : ℝ) / Dbl.fin 1225 : Dbl ℝ) = Dbl.fin (1 / 35) := by
      rw [Dbl.fin_div_fin _ _ (by norm_num)]; norm_num
    have e3 : (Dbl.fin (900 : ℝ) / Dbl.fin 1225 : Dbl ℝ) = Dbl.fin (900 / 1225) :=
      Dbl.fin_div_fin _ _ (by norm_num)
    simp only [AnalisisEu152_v4.muestraLow, AnalisisEu152_v4.muestraHigh, e1, e2, e3,
      Dbl.fin_mul_fin, Dbl.fin_add_fin]
    rw [Dbl.sqrt_fin _ _ (by norm_num), Dbl.fin_mul_fin]
    rfl
  · exact mul_pos (by norm_num) (Real.sqrt_pos.mpr (by norm_num))

/-- The doped sample with a quarter of the events of the reference: the
normalised uncertainty is positive and strictly smaller than `errQ`, and
`|Z_norm| >= |Z_real|`. -/
theorem C26_errQ_normalizado_witness :
    (0 : ℝ) < 250000 ∧ (0 : ℝ) < 1000000
    ∧ ∃ e e_norm z_real z_norm : ℝ,
      (AnalisisEu152_v4.resultadoDopada libmReal).errQ = Dbl.fin e
      ∧ (AnalisisEu152_v4.normalizados libmReal 250000 1000000
          (AnalisisEu152_v4.Q0 (AnalisisEu152_v4.refLow ℝ) (AnalisisEu152_v4.refHigh ℝ))
          (AnalisisEu152_v4.errQ0 libmReal (AnalisisEu152_v4.refLow ℝ)
            (AnalisisEu152_v4.refHigh ℝ))
          (AnalisisEu152_v4.muestraLow ℝ) (AnalisisEu152_v4.muestraHigh ℝ)).1 = Dbl.fin e_norm
      ∧ 0 < e_norm ∧ e_norm < e
      ∧ (AnalisisEu152_v4.resultadoDopada libmReal).Z_score = Dbl.fin z_real
      ∧ (AnalisisEu152_v4.normalizados libmReal 250000 1000000
          (AnalisisEu152_v4.Q0 (AnalisisEu152_v4.refLow ℝ) (AnalisisEu152_v4.refHigh ℝ))
          (AnalisisEu152_v4.errQ0 libmReal (AnalisisEu152_v4.refLow ℝ)
            (AnalisisEu152_v4.refHigh ℝ))
          (AnalisisEu152_v4.muestraLow ℝ) (AnalisisEu152_v4.muestraHigh ℝ)).2 = Dbl.fin z_norm
      ∧ |z_real| ≤ |z_norm| := by
  refine ⟨by norm_num, by norm_num, ?_⟩
  obtain ⟨hq0, he0, -⟩ := referencia_Q0
  obtain ⟨hq, he, hepos⟩ := resultadoDopada_Q_errQ
  have h := C26_errQ_normalizado (AnalisisEu152_v4.refLow ℝ) (AnalisisEu152_v4.refHigh ℝ)
    (AnalisisEu152_v4.Q0 (AnalisisEu152_v4.refLow ℝ) (AnalisisEu152_v4.refHigh ℝ))
    (AnalisisEu152_v4.errQ0 libmReal (AnalisisEu152_v4.refLow ℝ) (AnalisisEu152_v4.refHigh ℝ))
    1 true (AnalisisEu152_v4.muestraLow ℝ) (AnalisisEu152_v4.muestraHigh ℝ) 250000 1000000
    (by norm_num) (by norm_num)
  obtain ⟨e_norm, h1, h2, h3, h4⟩ := h.2 _ he hepos (by norm_num)
  obtain ⟨z_real, z_norm, h5, h6, h7⟩ := h4 _ _ _ hq hq0 he0
  exact ⟨_, e_norm, z_real, z_norm, he, h1, h2, h3, h5, h6, h7⟩

/-! ## The observed LOD of `AnalisisEu152_v4` -/

/-- A sample of `AnalisisEu152_v4` whose file holds the tree of the reference
file, after a passed reference guard: the normalisation factor is `1` and the
sample is compared with the reference peaks themselves. -/
theorem pasoMuestra_mismo_arbol {α : Type} [LinearOrderedField α] [FloorRing α] (m : Libm α)
    (fs : Archivos α) (directorio : String) (usar_1408 : Bool)
    (ref_low ref_high : AnalisisEu152_v4.Pico α) (N_eventos_ref : α)
    (muestra : AnalisisEu152_v4.MuestraInfo α)
    (hr : AnalisisEu152_v4.referencia m fs directorio usar_1408
      = Except.ok (ref_low, ref_high, N_eventos_ref))
    (hm : fs (directorio ++ muestra.nombre) = fs (directorio ++ "Eu152_REE_0p00.root")) :
    AnalisisEu152_v4.pasoMuestra m fs directorio usar_1408 ref_low ref_high N_eventos_ref muestra
      = some (AnalisisEu152_v4.calcularResultado m ref_low ref_high
          (AnalisisEu152_v4.Q0 ref_low ref_high) (AnalisisEu152_v4.errQ0 m ref_low ref_high)
          muestra.concentracion muestra.esFino ref_low ref_high) := by
  obtain ⟨Energy, I0, J0, hfs, hne, hN, hl, hh, -, -, -, -⟩ :=
    referencia_v4_ok m fs directorio usar_1408 ref_low ref_high N_eventos_ref hr
  have hlen : ((Energy.length : ℕ) : α) ≠ 0 := by
    have : Energy.length ≠ 0 := fun h0 => hne (List.length_eq_zero.mp h0)
    exact_mod_cast this
  have hfac : (Dbl.fin N_eventos_ref / Dbl.fin (llenar 1600 0 1600 Energy).GetEntries : Dbl α)
      = Dbl.fin 1 := by
    have hE : (llenar 1600 0 1600 Energy).GetEntries = (Energy.length : α) := rfl
    rw [hE, hN, Dbl.fin_div_fin _ _ hlen, div_self hlen]
  unfold AnalisisEu152_v4.pasoMuestra
  rw [hm]
  simp only [hfs, hfac]
  rw [← hl, ← hh]

/-- A sample that is neither detectable nor quantifiable leaves
`(LOD_experimental, LOQ_experimental)` as the scan of step 4 found them. -/
theorem pasoExploracion_no_detectable {α : Type} [LinearOrderedField α] (acc : α × α)
    (r : AnalisisEu152_v4.ResultadoMuestra α)
    (hd : r.detectable = false) (hc : r.cuantificable = false) :
    AnalisisEu152_v4.pasoExploracion acc r = acc := by
  unfold AnalisisEu152_v4.pasoExploracion
  rw [hd, hc]
  simp

/-- The results of the sample loop of `AnalisisEu152_v4` on the directory
`archivosEjemplo`: the samples 0 %, 0.2 % and 1 %, each compared with the
reference peaks themselves. -/
theorem resultados_v4_archivosEjemplo {α : Type} [LinearOrderedField α] [FloorRing α]
    (m : Libm α) (ref_low ref_high : AnalisisEu152_v4.Pico α) (N_eventos_ref : α)
    (hr : AnalisisEu152_v4.referencia m (archivosEjemplo α) "" false
      = Except.ok (ref_low, ref_high, N_eventos_ref)) :
    AnalisisEu152_v4.MUESTRAS.filterMap
        (AnalisisEu152_v4.pasoMuestra m (archivosEjemplo α) "" false ref_low ref_high
          N_eventos_ref)
      = [AnalisisEu152_v4.calcularResultado m ref_low ref_high
          (AnalisisEu152_v4.Q0 ref_low ref_high) (AnalisisEu152_v4.errQ0 m ref_low ref_high)
          0.00 true ref_low ref_high,
         AnalisisEu152_v4.calcularResultado m ref_low ref_high
          (AnalisisEu152_v4.Q0 ref_low ref_high) (AnalisisEu152_v4.errQ0 m ref_low ref_high)
          0.20 true ref_low ref_high,
         AnalisisEu152_v4.calcularResultado m ref_low ref_high
          (AnalisisEu152_v4.Q0 ref_low ref_high) (AnalisisEu152_v4.errQ0 m ref_low ref_high)
          1.00 true ref_low ref_high] := by
  have h0 := pasoMuestra_mismo_arbol m (archivosEjemplo α) "" false ref_low ref_high
    N_eventos_ref ⟨"Eu152_REE_0p00.root", 0.00, true⟩ hr rfl
  have h2 := pasoMuestra_mismo_arbol m (archivosEjemplo α) "" false ref_low ref_high
    N_eventos_ref ⟨"Eu152_REE_0p002.root", 0.20, true⟩ hr (by simp [archivosEjemplo])
  have h10 := pasoMuestra_mismo_arbol m (archivosEjemplo α) "" false ref_low ref_high
    N_eventos_ref ⟨"Eu152_REE_0p01.root", 1.00, true⟩ hr (by simp [archivosEjemplo])
  have hnone : ∀ (nombre : String) (c : α) (f : Bool),
      archivosEjemplo α ("" ++ nombre) = none →
      AnalisisEu152_v4.pasoMuestra m (archivosEjemplo α) "" false ref_low ref_high
        N_eventos_ref ⟨nombre, c, f⟩ = none := by
    intro nombre c f hn
    unfold AnalisisEu152_v4.pasoMuestra
    simp only [hn]
  unfold AnalisisEu152_v4.MUESTRAS
  rw [List.filterMap_cons, h0]
  simp only
  rw [List.filterMap_cons, h2]
  simp only
  rw [List.filterMap_cons, hnone _ _ _ (by simp [archivosEjemplo])]
  simp only
  rw [List.filterMap_cons, hnone _ _ _ (by simp [archivosEjemplo])]
  simp only
  rw [List.filterMap_cons, hnone _ _ _ (by simp [archivosEjemplo])]
  simp only
  rw [List.filterMap_cons, h10]
  simp only
  rw [List.filterMap_cons, hnone _ _ _ (by simp [archivosEjemplo])]
  simp only
  rw [List.filterMap_cons, hnone _ _ _ (by simp [archivosEjemplo])]
  simp only
  rw [List.filterMap_cons, hnone _ _ _ (by simp [archivosEjemplo])]
  simp only
  rw [List.filterMap_cons, hnone _ _ _ (by simp [archivosEjemplo])]
  simp only [List.filterMap_nil]

/-- C24: a run of `AnalisisEu152_v4` on a directory whose files of the 0 %,
0.2 % and 1 % samples hold the same tree reaches its end; no sample is
detectable (the 0.2 % sample, the lowest of the fine sweep after the reference,
has `Z_score = 0`), `LOD_experimental` is left at `-1`, and the report prints
`LOD observado: < 0.20 % REE (primera conc. medida)`. -/
theorem C24_LOD_sin_muestra_detectable :
    ∃ inf r0 r1 r2,
      AnalisisEu152_v4 libmReal (ajusteEjemplo ℝ) (archivosEjemplo ℝ) "" false = Except.ok inf
      ∧ inf.resultados = [r0, r1, r2]
      ∧ r0.conc = 0.00 ∧ r1.conc = 0.20 ∧ r2.conc = 1.00
      ∧ r1.esFino = true ∧ r1.Z_score = Dbl.fin 0 ∧ r1.detectable = false
      ∧ r2.detectable = false
      ∧ (AnalisisEu152_v4.LOD_LOQ_experimental inf.resultados).1 = -1
      ∧ AnalisisEu152_v4.lineaLOD (AnalisisEu152_v4.LOD_LOQ_experimental inf.resultados).1
        = AnalisisEu152_v4.LineaLOD.menor_que_primera_conc := by
  have hr := referencia_v4_energiasEjemplo libmReal (archivosEjemplo ℝ) ""
    (archivos_referencia (α := ℝ)).1
  have hres := resultados_v4_archivosEjemplo libmReal _ _ _ hr
  obtain ⟨inf, hrun⟩ := AnalisisEu152_v4_suficientes libmReal (ajusteEjemplo ℝ)
    (archivosEjemplo ℝ) "" false _ _ _ hr (by rw [hres]; simp)
  obtain ⟨rl, rh, N, hr', hinf, -, -, -⟩ := AnalisisEu152_v4_ok libmReal (ajusteEjemplo ℝ)
    (archivosEjemplo ℝ) "" false inf hrun
  rw [hr] at hr'
  injection hr' with hr'
  have hl := (Prod.mk.inj hr').1
  have hh := (Prod.mk.inj (Prod.mk.inj hr').2).1
  have hN := (Prod.mk.inj (Prod.mk.inj hr').2).2
  subst hl hh hN
  rw [hres] at hinf
  obtain ⟨h1, h2⟩ := energiasEjemplo_netas (α := ℝ) libmReal
  have h1' : (AnalisisEu152_v4.IntegrarFotopico libmReal
      (some (llenar 1600 0 1600 (energiasEjemplo ℝ))) 121.78 12 (Dbl.fin 1)).cuentas_netas
      = Dbl.fin 1 := h1
  have h2' : (AnalisisEu152_v4.IntegrarFotopico libmReal
      (some (llenar 1600 0 1600 (energiasEjemplo ℝ))) (AnalisisEu152_v4.E_HIGH false)
      (AnalisisEu152_v4.ventana_high false) (Dbl.fin 1)).cuentas_netas = Dbl.fin 1 := h2
  have hauto := fun (conc : ℝ) => calcularResultado_auto libmReal _ _ 1 1 conc true one_pos
    one_pos h1' h2' (netas_norm_referencia libmReal _ _ _ 1 h1')
    (netas_norm_referencia libmReal _ _ _ 1 h2')
  obtain ⟨-, -, -, -, -, -, d0, c0⟩ := hauto 0.00
  obtain ⟨-, -, -, -, -, z1, d1, c1⟩ := hauto 0.20
  obtain ⟨-, -, -, -, -, -, d2, c2⟩ := hauto 1.00
  have hscan : AnalisisEu152_v4.LOD_LOQ_experimental inf.resultados = (-1, -1) := by
    rw [hinf]
    unfold AnalisisEu152_v4.LOD_LOQ_experimental
    rw [List.foldl_cons, pasoExploracion_no_detectable _ _ d0 c0,
      List.foldl_cons, pasoExploracion_no_detectable _ _ d1 c1,
      List.foldl_cons, pasoExploracion_no_detectable _ _ d2 c2, List.foldl_nil]
  refine ⟨inf, _, _, _, hrun, hinf, rfl, rfl, rfl, rfl, z1, d1, d2, ?_, ?_⟩
  · rw [hscan]
  · rw [hscan]
    unfold AnalisisEu152_v4.lineaLOD
    rw [if_neg]
    norm_num

/-! ## Sloping backgrounds under `IntegrarFotopico` -/

/-- The bin ROOT's `TAxis::FindBin` returns lies in `0 .. nbins + 1`. -/
theorem findBin_rango {α : Type} [LinearOrderedField α] [FloorRing α]
    (nbins : ℕ) (xmin xmax x : α) :
    0 ≤ TAxis.FindBin nbins xmin xmax x ∧ TAxis.FindBin nbins xmin xmax x ≤ nbins + 1 := by
  unfold TAxis.FindBin
  by_cases h1 : x < xmin
  · rw [if_pos h1]
    exact ⟨le_refl _, by positivity⟩
  · by_cases hx2 : x < xmax
    · rw [if_neg h1, if_neg (not_not.mpr hx2)]
      have hx : xmin ≤ x := not_lt.mp h1
      have hd : 0 < xmax - xmin := by linarith
      have h0 : 0 ≤ (nbins : α) * (x - xmin) / (xmax - xmin) :=
        div_nonneg (mul_nonneg (Nat.cast_nonneg _) (by linarith)) hd.le
      have hle : (nbins : α) * (x - xmin) / (xmax - xmin) ≤ ((nbins : ℤ) : α) := by
        rw [div_le_iff₀ hd]
        push_cast
        exact mul_le_mul_of_nonneg_left (by linarith) (Nat.cast_nonneg _)
      have hf0 : 0 ≤ ⌊(nbins : α) * (x - xmin) / (xmax - xmin)⌋ := Int.floor_nonneg.mpr h0
      have hfn : ⌊(nbins : α) * (x - xmin) / (xmax - xmin)⌋ ≤ (nbins : ℤ) := by
        have := Int.floor_le_floor hle
        rwa [Int.floor_intCast] at this
      constructor <;> omega
    · rw [if_neg h1, if_pos hx2]
      exact ⟨by positivity, le_refl _⟩

/-- The bin ROOT's `TAxis::FindBin` returns does not decrease with the
abscissa. -/
theorem findBin_creciente {α : Type} [LinearOrderedField α] [FloorRing α]
    (nbins : ℕ) (xmin xmax x y : α) (hxy : x ≤ y) :
    TAxis.FindBin nbins xmin xmax x ≤ TAxis.FindBin nbins xmin xmax y := by
  by_cases hx1 : x < xmin
  · have : TAxis.FindBin nbins xmin xmax x = 0 := by
      unfold TAxis.FindBin
      rw [if_pos hx1]
    rw [this]
    exact (findBin_rango nbins xmin xmax y).1
  · by_cases hy2 : y < xmax
    · have hy1 : ¬ y < xmin := fun h => hx1 (lt_of_le_of_lt hxy h)
      have hx2 : x < xmax := lt_of_le_of_lt hxy hy2
      have hd : 0 < xmax - xmin := by linarith [not_lt.mp hx1]
      unfold TAxis.FindBin
      rw [if_neg hx1, if_neg (not_not.mpr hx2), if_neg hy1, if_neg (not_not.mpr hy2)]
      have : (nbins : α) * (x - xmin) / (xmax - xmin)
          ≤ (nbins : α) * (y - xmin) / (xmax - xmin) := by
        apply div_le_div_of_nonneg_right _ hd.le
        exact mul_le_mul_of_nonneg_left (by linarith) (Nat.cast_nonneg _)
      have := Int.floor_le_floor this
      omega
    · have : TAxis.FindBin nbins xmin xmax y = nbins + 1 := by
        have hy1 : ¬ y < xmin := fun h => hx1 (lt_of_le_of_lt hxy h)
        unfold TAxis.FindBin
        rw [if_neg hy1, if_pos hy2]
      rw [this]
      exact (findBin_rango nbins xmin xmax x).2

/-- The bin sum ROOT returns for a histogram over a bin range inside
`0 .. nbins + 1` is the sum of the contents of the bins of the range. -/
theorem ofBins_Integral {α : Type} [LinearOrderedField α] [FloorRing α]
    (nbins : ℕ) (xmin xmax : α) (contents : ℤ → α) (entries : α) (b1 b2 : ℤ)
    (h1 : 0 ≤ b1) (h12 : b1 ≤ b2) (h2 : b2 ≤ nbins + 1) :
    (TH1D.ofBins nbins xmin xmax contents entries).Integral b1 b2
      = sumaBins contents b1 (b2 - b1 + 1).toNat := by
  have c1 : ¬ (b1 < 0) := not_lt.mpr h1
  have c2 : ¬ (b2 ≥ (nbins : ℤ) + 2 ∨ b2 < b1) := by omega
  simp only [TH1D.ofBins, if_neg c1, if_neg c2]

/-- The sum of `k` consecutive bins whose contents are the affine function
`a + b * i` of the bin index `i`. -/
theorem sumaBins_afin {α : Type} [LinearOrderedField α] (contents : ℤ → α) (a b : α)
    (b1 : ℤ) (k : ℕ)
    (haf : ∀ i : ℤ, b1 ≤ i → i < b1 + k → contents i = a + b * (i : α)) :
    2 * sumaBins contents b1 k = (k : α) * (2 * a + b * (2 * (b1 : α) + (k : α) - 1)) := by
  induction k with
  | zero => simp [sumaBins]
  | succ n ih =>
    have ih' := ih (fun i h1 h2 => haf i h1 (by push_cast; omega))
    have hc := haf (b1 + n) (by omega) (by push_cast; omega)
    show 2 * (sumaBins contents b1 n + contents (b1 + n)) = _
    rw [mul_add, ih', hc]
    push_cast
    ring


/-- C28: `IntegrarFotopico` of `AnalisisEu152.cpp` on a histogram whose bin
contents are the affine function `a + b * i` of the bin index `i` over the
bins from the start of the left sideband to the end of the right sideband, and
whose two sidebands have the same non-zero number of bins: `cuentas_brutas` and
`fondo` are both the sum of the bins of the peak window, and
`cuentas_netas = 0`. -/
theorem C28_fondo_lineal_exacto {α : Type} [LinearOrderedField α] [FloorRing α] (m : Libm α)
    (nbins : ℕ) (xmin xmax : α) (contents : ℤ → α) (entries : α)
    (E_centro semi_ancho a b : α)
    (hn : 0 < (TAxis.FindBin nbins xmin xmax (E_centro - semi_ancho) - 1)
      - TAxis.FindBin nbins xmin xmax (E_centro - 2 * semi_ancho) + 1)
    (heq : (TAxis.FindBin nbins xmin xmax (E_centro - semi_ancho) - 1)
        - TAxis.FindBin nbins xmin xmax (E_centro - 2 * semi_ancho) + 1
      = TAxis.FindBin nbins xmin xmax (E_centro + 2 * semi_ancho)
        - (TAxis.FindBin nbins xmin xmax (E_centro + semi_ancho) + 1) + 1)
    (haf : ∀ i : ℤ, TAxis.FindBin nbins xmin xmax (E_centro - 2 * semi_ancho) ≤ i →
      i ≤ TAxis.FindBin nbins xmin xmax (E_centro + 2 * semi_ancho) →
      contents i = a + b * (i : α)) :
    let p := AnalisisEu152.IntegrarFotopico m
      (some (TH1D.ofBins nbins xmin xmax contents entries)) E_centro semi_ancho
    p.cuentas_brutas = Dbl.fin (sumaBins contents
        (TAxis.FindBin nbins xmin xmax (E_centro - semi_ancho))
        (TAxis.FindBin nbins xmin xmax (E_centro + semi_ancho)
          - TAxis.FindBin nbins xmin xmax (E_centro - semi_ancho) + 1).toNat)
    ∧ p.fondo = Dbl.fin (sumaBins contents
        (TAxis.FindBin nbins xmin xmax (E_centro - semi_ancho))
        (TAxis.FindBin nbins xmin xmax (E_centro + semi_ancho)
          - TAxis.FindBin nbins xmin xmax (E_centro - semi_ancho) + 1).toNat)
    ∧ p.cuentas_netas = Dbl.fin 0 := by
  intro p
  have hs : 0 < semi_ancho := by
    by_contra hs
    have := findBin_creciente nbins xmin xmax (E_centro - semi_ancho)
      (E_centro - 2 * semi_ancho) (by linarith [not_lt.mp hs])
    omega
  have hpp := findBin_creciente nbins xmin xmax (E_centro - semi_ancho)
    (E_centro + semi_ancho) (by linarith)
  obtain ⟨hL0, -⟩ := findBin_rango nbins xmin xmax (E_centro - 2 * semi_ancho)
  obtain ⟨-, hR2⟩ := findBin_rango nbins xmin xmax (E_centro + 2 * semi_ancho)
  have hbr : p.cuentas_brutas = Dbl.fin ((TH1D.ofBins nbins xmin xmax contents entries).Integral
      (TAxis.FindBin nbins xmin xmax (E_centro - semi_ancho))
      (TAxis.FindBin nbins xmin xmax (E_centro + semi_ancho))) := rfl
  have hfo : p.fondo = (Dbl.fin ((TH1D.ofBins nbins xmin xmax contents entries).Integral
        (TAxis.FindBin nbins xmin xmax (E_centro - 2 * semi_ancho))
        (TAxis.FindBin nbins xmin xmax (E_centro - semi_ancho) - 1))
      + Dbl.fin ((TH1D.ofBins nbins xmin xmax contents entries).Integral
        (TAxis.FindBin nbins xmin xmax (E_centro + semi_ancho) + 1)
        (TAxis.FindBin nbins xmin xmax (E_centro + 2 * semi_ancho))))
      * Dbl.fin (((TAxis.FindBin nbins xmin xmax (E_centro + semi_ancho)
          - TAxis.FindBin nbins xmin xmax (E_centro - semi_ancho) + 1 : ℤ)) : α)
      / Dbl.fin ((((TAxis.FindBin nbins xmin xmax (E_centro - semi_ancho) - 1)
          - TAxis.FindBin nbins xmin xmax (E_centro - 2 * semi_ancho) + 1
        + (TAxis.FindBin nbins xmin xmax (E_centro + 2 * semi_ancho)
          - (TAxis.FindBin nbins xmin xmax (E_centro + semi_ancho) + 1) + 1) : ℤ)) : α) := rfl
  have hne : p.cuentas_netas = p.cuentas_brutas - p.fondo := rfl
  revert hbr hfo hne
  generalize p.cuentas_brutas = cb
  generalize p.fondo = fo
  generalize p.cuentas_netas = cn
  clear p
  revert hn heq haf hpp hL0 hR2
  generalize TAxis.FindBin nbins xmin xmax (E_centro - 2 * semi_ancho) = L1
  generalize TAxis.FindBin nbins xmin xmax (E_centro - semi_ancho) = pmin
  generalize TAxis.FindBin nbins xmin xmax (E_centro + semi_ancho) = pmax
  generalize TAxis.FindBin nbins xmin xmax (E_centro + 2 * semi_ancho) = R2
  intro hn heq haf hpp hL0 hR2 hbr hfo hne
  rw [ofBins_Integral _ _ _ _ _ _ _ (by omega) hpp (by omega)] at hbr
  rw [ofBins_Integral _ _ _ _ _ _ _ hL0 (by omega) (by omega),
    ofBins_Integral _ _ _ _ _ _ _ (by omega) (by omega) hR2] at hfo
  have kp : (((pmax - pmin + 1).toNat : ℕ) : ℤ) = pmax - pmin + 1 :=
    Int.toNat_of_nonneg (by omega)
  have kl : (((pmin - 1 - L1 + 1).toNat : ℕ) : ℤ) = pmin - L1 := by
    rw [Int.toNat_of_nonneg (by omega)]; ring
  have kr : (((R2 - (pmax + 1) + 1).toNat : ℕ) : ℤ) = pmin - L1 := by
    rw [Int.toNat_of_nonneg (by omega)]; omega
  have cp : (((pmax - pmin + 1).toNat : ℕ) : α) = (pmax : α) - (pmin : α) + 1 := by
    rw [← Int.cast_natCast, kp]; push_cast; ring
  have cl : (((pmin - 1 - L1 + 1).toNat : ℕ) : α) = (pmin : α) - (L1 : α) := by
    rw [← Int.cast_natCast, kl]; push_cast; ring
  have cr : (((R2 - (pmax + 1) + 1).toNat : ℕ) : α) = (pmin : α) - (L1 : α) := by
    rw [← Int.cast_natCast, kr]; push_cast; ring
  have sp := sumaBins_afin contents a b pmin (pmax - pmin + 1).toNat
    (fun i h1 h2 => haf i (by omega) (by omega))
  have sl := sumaBins_afin contents a b L1 (pmin - 1 - L1 + 1).toNat
    (fun i h1 h2 => haf i h1 (by omega))
  have sr := sumaBins_afin contents a b (pmax + 1) (R2 - (pmax + 1) + 1).toNat
    (fun i h1 h2 => haf i (by omega) (by omega))
  rw [cp] at sp
  rw [cl] at sl
  rw [cr] at sr
  have hnα : (0 : α) < (pmin : α) - (L1 : α) := by
    have : L1 < pmin := by omega
    have : (L1 : α) < (pmin : α) := by exact_mod_cast this
    linarith
  have hden : ((((pmin - 1 - L1 + 1 + (R2 - (pmax + 1) + 1) : ℤ)) : α))
      = 2 * ((pmin : α) - (L1 : α)) := by
    have : pmin - 1 - L1 + 1 + (R2 - (pmax + 1) + 1) = 2 * (pmin - L1) := by omega
    rw [this]; push_cast; ring
  have hfo' : fo = Dbl.fin (sumaBins contents pmin (pmax - pmin + 1).toNat) := by
    rw [hfo, hden, Dbl.fin_add_fin, Dbl.fin_mul_fin, Dbl.fin_div_fin _ _ (by linarith)]
    congr 1
    rw [div_eq_iff (by linarith)]
    push_cast at sr ⊢
    have e1 : sumaBins contents pmin (pmax - pmin + 1).toNat
        = ((pmax : α) - pmin + 1) * (2 * a + b * (2 * (pmin : α) + ((pmax : α) - pmin + 1) - 1))
          / 2 := by
      rw [← sp]; ring
    have e2 : sumaBins contents L1 (pmin - 1 - L1 + 1).toNat
        = ((pmin : α) - L1) * (2 * a + b * (2 * (L1 : α) + ((pmin : α) - L1) - 1)) / 2 := by
      rw [← sl]; ring
    have e3 : sumaBins contents (pmax + 1) (R2 - (pmax + 1) + 1).toNat
        = ((pmin : α) - L1) * (2 * a + b * (2 * ((pmax : α) + 1) + ((pmin : α) - L1) - 1))
          / 2 := by
      rw [← sr]; ring
    rw [e1, e2, e3]
    ring
  refine ⟨hbr, hfo', ?_⟩
  rw [hne, hbr, hfo', Dbl.fin_sub_fin, sub_self]


/-- The 121.78 keV window (bins 110..134, sidebands 98..109 and 135..146) on a
histogram of 1600 bins with the contents `3000 - 2 i`: raw counts and
background are both `68900`, the net counts are `0`. -/
theorem C28_fondo_lineal_exacto_witness :
    (AnalisisEu152.IntegrarFotopico libmReal
      (some (TH1D.ofBins 1600 0 1600 (fun i : ℤ => (3000 : ℝ) + (-2) * (i : ℝ)) 4000000))
      121.78 12).cuentas_brutas = Dbl.fin 68900
    ∧ (AnalisisEu152.IntegrarFotopico libmReal
      (some (TH1D.ofBins 1600 0 1600 (fun i : ℤ => (3000 : ℝ) + (-2) * (i : ℝ)) 4000000))
      121.78 12).fondo = Dbl.fin 68900
    ∧ (AnalisisEu152.IntegrarFotopico libmReal
      (some (TH1D.ofBins 1600 0 1600 (fun i : ℤ => (3000 : ℝ) + (-2) * (i : ℝ)) 4000000))
      121.78 12).cuentas_netas = Dbl.fin 0 := by
  obtain ⟨⟨b1, b2, b3, b4⟩, -, -⟩ := bines_configurados (α := ℝ)
  have h := C28_fondo_lineal_exacto libmReal 1600 0 1600
    (fun i : ℤ => (3000 : ℝ) + (-2) * (i : ℝ)) 4000000 121.78 12 3000 (-2)
    (by rw [b1, b3]; norm_num) (by rw [b1, b2, b3, b4]; norm_num) (fun i _ _ => rfl)
  rw [b1, b2] at h
  have hs : sumaBins (fun i : ℤ => (3000 : ℝ) + (-2) * (i : ℝ)) 110 ((134 : ℤ) - 110 + 1).toNat
      = 68900 := by
    have h25 : ((134 : ℤ) - 110 + 1).toNat = 25 := by decide
    have := sumaBins_afin (fun i : ℤ => (3000 : ℝ) + (-2) * (i : ℝ)) 3000 (-2) 110 25
      (fun i _ _ => rfl)
    rw [h25]
    generalize sumaBins (fun i : ℤ => (3000 : ℝ) + (-2) * (i : ℝ)) 110 25 = S at this ⊢
    norm_num at this
    linarith
  rw [hs] at h
  exact h

/-! ## The round trip of the calibration fitter -/

/-- The sum of the squared deviations of a list from a value `μ`. -/
theorem suma_desviaciones {α : Type} [LinearOrderedField α] (xs : List α) (μ : α) :
    (xs.map (fun x => (x - μ) * (x - μ))).sum
      = (xs.map (fun x => x * x)).sum - 2 * μ * xs.sum + (xs.length : α) * (μ * μ) := by
  induction xs with
  | nil => simp
  | cons x xs ih =>
    simp only [List.map_cons, List.sum_cons, List.length_cons, ih]
    push_cast
    ring

/-- The sum of the squared deviations of a list from a value that is not one
of its members is positive. -/
theorem suma_desviaciones_pos {α : Type} [LinearOrderedField α] (xs : List α) (μ : α)
    (h : ∃ x ∈ xs, x ≠ μ) : 0 < (xs.map (fun x => (x - μ) * (x - μ))).sum := by
  have hnn : ∀ l : List α, 0 ≤ (l.map (fun x => (x - μ) * (x - μ))).sum := by
    intro l
    apply List.sum_nonneg
    intro y hy
    obtain ⟨x, -, rfl⟩ := List.mem_map.mp hy
    exact mul_self_nonneg _
  induction xs with
  | nil => obtain ⟨x, hx, -⟩ := h; simp at hx
  | cons y ys ih =>
    simp only [List.map_cons, List.sum_cons]
    obtain ⟨x, hx, hne⟩ := h
    rcases List.mem_cons.mp hx with rfl | hx
    · have : 0 < (x - μ) * (x - μ) := mul_self_pos.mpr (sub_ne_zero.mpr hne)
      linarith [hnn ys]
    · have := ih ⟨x, hx, hne⟩
      linarith [mul_self_nonneg (y - μ)]

/-- A list with two different members: `n * Σ x² - (Σ x)² > 0`. -/
theorem varianza_pos {α : Type} [LinearOrderedField α] (xs : List α)
    (h : ∃ x ∈ xs, ∃ y ∈ xs, x ≠ y) :
    0 < (xs.length : α) * (xs.map (fun x => x * x)).sum - xs.sum * xs.sum := by
  obtain ⟨x, hx, y, hy, hxy⟩ := h
  have hn : 0 < (xs.length : α) := by
    have : 0 < xs.length := List.length_pos_of_mem hx
    exact_mod_cast this
  have hex : ∃ z ∈ xs, z ≠ xs.sum / (xs.length : α) := by
    by_cases hxm : x = xs.sum / (xs.length : α)
    · exact ⟨y, hy, fun hym => hxy (hxm.trans hym.symm)⟩
    · exact ⟨x, hx, hxm⟩
  have hpos := suma_desviaciones_pos xs _ hex
  rw [suma_desviaciones] at hpos
  have hmul := mul_pos hn hpos
  have heq : (xs.length : α) * ((xs.map (fun x => x * x)).sum
        - 2 * (xs.sum / (xs.length : α)) * xs.sum
        + (xs.length : α) * (xs.sum / (xs.length : α) * (xs.sum / (xs.length : α))))
      = (xs.length : α) * (xs.map (fun x => x * x)).sum - xs.sum * xs.sum := by
    field_simp
    ring
  rw [heq] at hmul
  exact hmul

/-- The five weighted sums of the calibration fitter over points on the line
`a + b * c` with the common uncertainty `σ`. -/
theorem sumas_recta {α : Type} [LinearOrderedField α] (concs : List α) (a b σ : α) :
    ((concs.map (fun c => ((c, a + b * c, σ) : α × α × α))).map
        (fun p => 1 / (p.2.2 * p.2.2))).sum = (concs.length : α) * (1 / (σ * σ))
    ∧ ((concs.map (fun c => ((c, a + b * c, σ) : α × α × α))).map
        (fun p => p.1 / (p.2.2 * p.2.2))).sum = 1 / (σ * σ) * concs.sum
    ∧ ((concs.map (fun c => ((c, a + b * c, σ) : α × α × α))).map
        (fun p => p.2.1 / (p.2.2 * p.2.2))).sum
      = 1 / (σ * σ) * (a * (concs.length : α) + b * concs.sum)
    ∧ ((concs.map (fun c => ((c, a + b * c, σ) : α × α × α))).map
        (fun p => p.1 * p.1 / (p.2.2 * p.2.2))).sum
      = 1 / (σ * σ) * (concs.map (fun c => c * c)).sum
    ∧ ((concs.map (fun c => ((c, a + b * c, σ) : α × α × α))).map
        (fun p => p.1 * p.2.1 / (p.2.2 * p.2.2))).sum
      = 1 / (σ * σ) * (a * concs.sum + b * (concs.map (fun c => c * c)).sum) := by
  induction concs with
  | nil => simp
  | cons c cs ih =>
    obtain ⟨h1, h2, h3, h4, h5⟩ := ih
    simp only [List.map_cons, List.sum_cons, List.length_cons, h1, h2, h3, h4, h5]
    push_cast
    refine ⟨?_, ?_, ?_, ?_, ?_⟩ <;> ring

/-- A sum of terms that are all `0` in the `double` model. -/
theorem suma_de_ceros {α : Type} [LinearOrderedField α] {β : Type} (l : List β)
    (f : β → Dbl α) (hf : ∀ x ∈ l, f x = Dbl.fin 0) :
    (l.map f).foldl (· + ·) (Dbl.fin 0) = Dbl.fin 0 := by
  induction l with
  | nil => rfl
  | cons x xs ih =>
    simp only [List.map_cons, List.foldl_cons]
    rw [hf x (List.mem_cons_self _ _), Dbl.fin_add_fin, add_zero]
    exact ih (fun y hy => hf y (List.mem_cons_of_mem _ hy))

/-- The calibration fitter on at least three points of the line `a + b * c`
with a common positive uncertainty, two of them at different concentrations:
it returns the intercept `a`, the slope `b` and the chi-square `0`. -/
theorem fit_linear_recta {α : Type} [LinearOrderedField α] (m : Libm α) (concs : List α)
    (a b σ : α) (hσ : 0 < σ) (hlen : 3 ≤ concs.length)
    (hx : ∃ x ∈ concs, ∃ y ∈ concs, x ≠ y) :
    ∃ model, fit_linear m (concs.map (fun c => (c, Dbl.fin (a + b * c), Dbl.fin σ)))
        = Except.ok model
      ∧ model.theta0 = Dbl.fin a ∧ model.theta1 = Dbl.fin b ∧ model.chi2 = Dbl.fin 0 := by
  have hus : ∀ l : List α,
      (l.map (fun c => (c, Dbl.fin (a + b * c), Dbl.fin σ))).filterMap puntoUsado
      = l.map (fun c => ((c, a + b * c, σ) : α × α × α)) := by
    intro l
    induction l with
    | nil => rfl
    | cons c cs ih =>
      simp only [List.map_cons, List.filterMap_cons, puntoUsado, if_neg hσ.ne']
      congr 1
  obtain ⟨s1, s2, s3, s4, s5⟩ := sumas_recta concs a b σ
  have hV := varianza_pos concs hx
  have hw : 0 < 1 / (σ * σ) := by positivity
  have hD : (concs.length : α) * (1 / (σ * σ))
      * (1 / (σ * σ) * (concs.map (fun c => c * c)).sum)
      - 1 / (σ * σ) * concs.sum * (1 / (σ * σ) * concs.sum)
      = 1 / (σ * σ) * (1 / (σ * σ))
        * ((concs.length : α) * (concs.map (fun c => c * c)).sum - concs.sum * concs.sum) := by
    ring
  have hDne : (concs.length : α) * (1 / (σ * σ))
      * (1 / (σ * σ) * (concs.map (fun c => c * c)).sum)
      - 1 / (σ * σ) * concs.sum * (1 / (σ * σ) * concs.sum) ≠ 0 := by
    rw [hD]
    exact (mul_pos (mul_pos hw hw) hV).ne'
  have h0 : (Dbl.fin (1 / (σ * σ) * (concs.map (fun c => c * c)).sum
        * (1 / (σ * σ) * (a * (concs.length : α) + b * concs.sum))
        - 1 / (σ * σ) * concs.sum
          * (1 / (σ * σ) * (a * concs.sum + b * (concs.map (fun c => c * c)).sum)))
      / Dbl.fin ((concs.length : α) * (1 / (σ * σ))
        * (1 / (σ * σ) * (concs.map (fun c => c * c)).sum)
        - 1 / (σ * σ) * concs.sum * (1 / (σ * σ) * concs.sum)) : Dbl α) = Dbl.fin a := by
    rw [Dbl.fin_div_fin _ _ hDne]
    congr 1
    rw [div_eq_iff hDne]
    ring
  have h1 : (Dbl.fin ((concs.length : α) * (1 / (σ * σ))
        * (1 / (σ * σ) * (a * concs.sum + b * (concs.map (fun c => c * c)).sum))
        - 1 / (σ * σ) * concs.sum
          * (1 / (σ * σ) * (a * (concs.length : α) + b * concs.sum)))
      / Dbl.fin ((concs.length : α) * (1 / (σ * σ))
        * (1 / (σ * σ) * (concs.map (fun c => c * c)).sum)
        - 1 / (σ * σ) * concs.sum * (1 / (σ * σ) * concs.sum)) : Dbl α) = Dbl.fin b := by
    rw [Dbl.fin_div_fin _ _ hDne]
    congr 1
    rw [div_eq_iff hDne]
    ring
  unfold fit_linear
  simp only [hus, s1, s2, s3, s4, s5, h0, h1]
  rw [if_neg (by simp only [List.length_map]; omega)]
  refine ⟨_, rfl, rfl, rfl, ?_⟩
  apply suma_de_ceros
  intro p hp
  obtain ⟨c, -, rfl⟩ := List.mem_map.mp hp
  simp only [Dbl.fin_mul_fin, Dbl.fin_add_fin, Dbl.fin_sub_fin]
  rw [Dbl.fin_div_fin _ _ hσ.ne']
  have : (a + b * c - (a + b * c)) / σ = 0 := by rw [sub_self, zero_div]
  rw [this]
  show Dbl.fin (0 : α) * Dbl.fin 0 = Dbl.fin 0
  rw [Dbl.fin_mul_fin, mul_zero]

/-- C23: the calibration fitter on a set of at least three calibration points
generated exactly from `observable = 2.0 + 0.5 * concentration` (one point per
concentration) with equal positive uncertainties: the fit succeeds and returns
the intercept `2.0`, the slope `0.5` and the chi-square `0`. -/
theorem C23_ajuste_lineal_ida_y_vuelta {α : Type} [LinearOrderedField α] (m : Libm α)
    (concs : List α) (σ : α) (hσ : 0 < σ) (hlen : 3 ≤ concs.length) (hnd : concs.Nodup) :
    ∃ model, fit_linear m (concs.map (fun c => (c, Dbl.fin (2.0 + 0.5 * c), Dbl.fin σ)))
        = Except.ok model
      ∧ model.theta0 = Dbl.fin 2.0 ∧ model.theta1 = Dbl.fin 0.5 ∧ model.chi2 = Dbl.fin 0 := by
  apply fit_linear_recta m concs 2.0 0.5 σ hσ hlen
  match concs, hlen, hnd with
  | x :: y :: _, _, hnd =>
    refine ⟨x, by simp, y, by simp, ?_⟩
    intro hxy
    subst hxy
    simp at hnd

/-- The three calibration points at the concentrations 0 %, 1 % and 2 % with
the uncertainty `0.1`. -/
theorem C23_ajuste_lineal_ida_y_vuelta_witness :
    (0 : ℝ) < 0.1 ∧ 3 ≤ ([0, 1, 2] : List ℝ).length ∧ ([0, 1, 2] : List ℝ).Nodup
    ∧ ∃ model, fit_linear libmReal
        (([0, 1, 2] : List ℝ).map (fun c => (c, Dbl.fin (2.0 + 0.5 * c), Dbl.fin 0.1)))
        = Except.ok model
      ∧ model.theta0 = Dbl.fin 2.0 ∧ model.theta1 = Dbl.fin 0.5 ∧ model.chi2 = Dbl.fin 0 :=
  ⟨by norm_num, by decide, by simp,
    C23_ajuste_lineal_ida_y_vuelta libmReal [0, 1, 2] 0.1 (by norm_num) (by decide) (by simp)⟩

/-! ## The comparison of the indices in `AnalisisEu152_v2` -/

/-- A sum of uncertainties that passed the test `err > 0 && err < 1e6` is
finite and not negative. -/
theorem suma_validos {α : Type} [LinearOrderedField α] (l : List (Dbl α)) (acc : α)
    (hacc : 0 ≤ acc)
    (hl : ∀ e ∈ l, (Dbl.gt e (Dbl.fin 0) && Dbl.lt e (Dbl.fin 1e6)) = true) :
    ∃ v : α, 0 ≤ v ∧ l.foldl (· + ·) (Dbl.fin acc) = Dbl.fin v := by
  induction l generalizing acc with
  | nil => exact ⟨acc, hacc, rfl⟩
  | cons e es ih =>
    have he := hl e (List.mem_cons_self _ _)
    rw [Bool.and_eq_true] at he
    cases e with
    | fin x =>
      have hx : 0 < x := by simpa using he.1
      rw [List.foldl_cons, Dbl.fin_add_fin]
      exact ih (acc + x) (by linarith) (fun y hy => hl y (List.mem_cons_of_mem _ hy))
    | pinf => exact absurd he.2 (by simp [Dbl.lt])
    | ninf => exact absurd he.1 (by simp [Dbl.gt, Dbl.lt])
    | nan => exact absurd he.1 (by simp [Dbl.gt, Dbl.lt])

/-- The local `sigma_medio` of step 6 of `AnalisisEu152_v2` is finite and not
negative. -/
theorem sigma_medio_finita {α : Type} [LinearOrderedField α] (errs : List (Dbl α)) :
    ∃ v : α, 0 ≤ v ∧ AnalisisEu152_v2.sigma_medio errs = Dbl.fin v := by
  obtain ⟨v, hv, hs⟩ := suma_validos
    ((errs.drop 1).filter (fun err => Dbl.gt err (Dbl.fin 0) && Dbl.lt err (Dbl.fin 1e6)))
    (0 : α) (le_refl _) (fun e he => (List.mem_filter.mp he).2)
  unfold AnalisisEu152_v2.sigma_medio
  simp only [hs]
  split_ifs with hn
  · have hn' : (0 : α) < (((errs.drop 1).filter
        (fun err => Dbl.gt err (Dbl.fin 0) && Dbl.lt err (Dbl.fin 1e6))).length : α) := by
      exact_mod_cast hn
    rw [Dbl.fin_div_fin _ _ hn'.ne']
    exact ⟨_, div_nonneg hv hn'.le, rfl⟩
  · exact ⟨v, hv, rfl⟩

/-- Every entry of the array `precision_arr` of `AnalisisEu152_v2` is finite
and not negative, whatever the fits return. -/
theorem precision_arr_finita {α : Type} [LinearOrderedField α]
    (ajuste : List (α × Dbl α × Dbl α) → Dbl α × Dbl α)
    (filas : List (AnalisisEu152_v2.Fila α)) (idx : ℕ) :
    ∃ v : α, 0 ≤ v ∧ AnalisisEu152_v2.precision_arr ajuste filas idx = Dbl.fin v := by
  obtain ⟨s, hs, hsig⟩ := sigma_medio_finita (AnalisisEu152_v2.err_vecs filas idx)
  unfold AnalisisEu152_v2.precision_arr
  rw [hsig]
  generalize AnalisisEu152_v2.sens ajuste filas idx = k
  split_ifs with h
  · cases k with
    | fin a =>
      have ha : (1e-9 : α) < |a| := by simpa using h
      have hpos : (0 : α) < |a| := lt_trans (by norm_num) ha
      rw [Dbl.abs_fin, Dbl.fin_div_fin _ _ hpos.ne']
      exact ⟨_, div_nonneg hs hpos.le, rfl⟩
    | pinf => exact ⟨0, le_refl _, rfl⟩
    | ninf => exact ⟨0, le_refl _, rfl⟩
    | nan => exact absurd h (by simp [Dbl.gt, Dbl.lt, Dbl.abs])
  · exact ⟨999, by norm_num, rfl⟩

/-- The local `mejor` of `AnalisisEu152_v2` on four finite values: an index
below `4` whose value is the smallest, and the first such index. -/
theorem mejor_minimo {α : Type} [LinearOrderedField α] (p : ℕ → Dbl α)
    (hfin : ∀ idx, idx < 4 → ∃ v : α, p idx = Dbl.fin v) :
    AnalisisEu152_v2.mejor p < 4
    ∧ (∀ idx, idx < 4 → Dbl.le (p (AnalisisEu152_v2.mejor p)) (p idx) = true)
    ∧ (∀ idx, idx < AnalisisEu152_v2.mejor p →
        Dbl.lt (p (AnalisisEu152_v2.mejor p)) (p idx) = true) := by
  obtain ⟨a, ha⟩ := hfin 0 (by norm_num)
  obtain ⟨b, hb⟩ := hfin 1 (by norm_num)
  obtain ⟨c, hc⟩ := hfin 2 (by norm_num)
  obtain ⟨d, hd⟩ := hfin 3 (by norm_num)
  have hm : AnalisisEu152_v2.mejor p
      = (if Dbl.lt (p 3) (p (if Dbl.lt (p 2) (p (if Dbl.lt (p 1) (p 0) then 1 else 0))
            then 2 else (if Dbl.lt (p 1) (p 0) then 1 else 0))) then 3
          else (if Dbl.lt (p 2) (p (if Dbl.lt (p 1) (p 0) then 1 else 0))
            then 2 else (if Dbl.lt (p 1) (p 0) then 1 else 0))) := rfl
  rw [hm]
  by_cases h1 : b < a
  · have e1 : Dbl.lt (p 1) (p 0) = true := by rw [ha, hb]; simpa using h1
    simp only [e1, if_true]
    by_cases h2 : c < b
    · have e2 : Dbl.lt (p 2) (p 1) = true := by rw [hb, hc]; simpa using h2
      simp only [e2, if_true]
      by_cases h3 : d < c
      · have e3 : Dbl.lt (p 3) (p 2) = true := by rw [hc, hd]; simpa using h3
        simp only [e3, if_true]
        refine ⟨by norm_num, fun idx hidx => ?_, fun idx hidx => ?_⟩ <;> interval_cases idx <;>
          simp only [ha, hb, hc, hd, Dbl.le_fin_fin, Dbl.lt_fin_fin, decide_eq_true_eq] <;>
          linarith
      · have e3 : Dbl.lt (p 3) (p 2) = false := by rw [hc, hd]; simpa using h3
        simp only [e3, Bool.false_eq_true, if_false]
        refine ⟨by norm_num, fun idx hidx => ?_, fun idx hidx => ?_⟩ <;> interval_cases idx <;>
          simp only [ha, hb, hc, hd, Dbl.le_fin_fin, Dbl.lt_fin_fin, decide_eq_true_eq] <;>
          linarith
    · have e2 : Dbl.lt (p 2) (p 1) = false := by rw [hb, hc]; simpa using h2
      simp only [e2, Bool.false_eq_true, if_false]
      by_cases h3 : d < b
      · have e3 : Dbl.lt (p 3) (p 1) = true := by rw [hb, hd]; simpa using h3
        simp only [e3, if_true]
        refine ⟨by norm_num, fun idx hidx => ?_, fun idx hidx => ?_⟩ <;> interval_cases idx <;>
          simp only [ha, hb, hc, hd, Dbl.le_fin_fin, Dbl.lt_fin_fin, decide_eq_true_eq] <;>
          linarith
      · have e3 : Dbl.lt (p 3) (p 1) = false := by rw [hb, hd]; simpa using h3
        simp only [e3, Bool.false_eq_true, if_false]
        refine ⟨by norm_num, fun idx hidx => ?_, fun idx hidx => ?_⟩ <;> interval_cases idx <;>
          simp only [ha, hb, hc, hd, Dbl.le_fin_fin, Dbl.lt_fin_fin, decide_eq_true_eq] <;>
          linarith
  · have e1 : Dbl.lt (p 1) (p 0) = false := by rw [ha, hb]; simpa using h1
    simp only [e1, Bool.false_eq_true, if_false]
    by_cases h2 : c < a
    · have e2 : Dbl.lt (p 2) (p 0) = true := by rw [ha, hc]; simpa using h2
      simp only [e2, if_true]
      by_cases h3 : d < c
      · have e3 : Dbl.lt (p 3) (p 2) = true := by rw [hc, hd]; simpa using h3
        simp only [e3, if_true]
        refine ⟨by norm_num, fun idx hidx => ?_, fun idx hidx => ?_⟩ <;> interval_cases idx <;>
          simp only [ha, hb, hc, hd, Dbl.le_fin_fin, Dbl.lt_fin_fin, decide_eq_true_eq] <;>
          linarith
      · have e3 : Dbl.lt (p 3) (p 2) = false := by rw [hc, hd]; simpa using h3
        simp only [e3, Bool.false_eq_true, if_false]
        refine ⟨by norm_num, fun idx hidx => ?_, fun idx hidx => ?_⟩ <;> interval_cases idx <;>
          simp only [ha, hb, hc, hd, Dbl.le_fin_fin, Dbl.lt_fin_fin, decide_eq_true_eq] <;>
          linarith
    · have e2 : Dbl.lt (p 2) (p 0) = false := by rw [ha, hc]; simpa using h2
      simp only [e2, Bool.false_eq_true, if_false]
      by_cases h3 : d < a
      · have e3 : Dbl.lt (p 3) (p 0) = true := by rw [ha, hd]; simpa using h3
        simp only [e3, if_true]
        refine ⟨by norm_num, fun idx hidx => ?_, fun idx hidx => ?_⟩ <;> interval_cases idx <;>
          simp only [ha, hb, hc, hd, Dbl.le_fin_fin, Dbl.lt_fin_fin, decide_eq_true_eq] <;>
          linarith
      · have e3 : Dbl.lt (p 3) (p 0) = false := by rw [ha, hd]; simpa using h3
        simp only [e3, Bool.false_eq_true, if_false]
        refine ⟨by norm_num, fun idx hidx => ?_, fun idx hidx => ?_⟩ <;> interval_cases idx <;>
          simp only [ha, hb, hc, hd, Dbl.le_fin_fin, Dbl.lt_fin_fin, decide_eq_true_eq] <;>
          linarith


/-- The rows of `AnalisisEu152_v2` on the directory `archivosEjemplo`: the
samples 0 % and 1 %, each holding the tree of the reference. -/
theorem filas_v2_archivosEjemplo {α : Type} [LinearOrderedField α] [FloorRing α]
    (m : Libm α) :
    AnalisisEu152_v2.filas m (archivosEjemplo α) "" false
      = Except.ok [AnalisisEu152_v2.filaEjemplo m 0, AnalisisEu152_v2.filaEjemplo m 1] := by
  unfold AnalisisEu152_v2.filas
  rw [referencia_energiasEjemplo m (archivosEjemplo α) "" (archivos_referencia (α := α)).1]
  simp [AnalisisEu152.MUESTRAS, AnalisisEu152_v2.pasoMuestra,
    AnalisisEu152_v2.IntegrarFotopico, archivosEjemplo, AnalisisEu152_v2.filaEjemplo,
    picoEjemploLow, picoEjemploHigh]

/-- The values of the row `filaEjemplo` over the reals: `L_low = 0`, `R = 0`,
`errR = 0` and `Q = 1`. -/
theorem filaEjemplo_valores (C : ℝ) :
    (AnalisisEu152_v2.filaEjemplo libmReal C).C = C
    ∧ (AnalisisEu152_v2.filaEjemplo libmReal C).indices.L_low = Dbl.fin 0
    ∧ (AnalisisEu152_v2.filaEjemplo libmReal C).indices.R = Dbl.fin 0
    ∧ (AnalisisEu152_v2.filaEjemplo libmReal C).indices.errR = Dbl.fin 0
    ∧ (AnalisisEu152_v2.filaEjemplo libmReal C).otros.Q = Dbl.fin 1
    ∧ (AnalisisEu152_v2.filaEjemplo libmReal C).otros.Delta = Dbl.fin 0 := by
  obtain ⟨h1, h2⟩ := energiasEjemplo_netas (α := ℝ) libmReal
  have hlog : libmReal.log 1 = 0 := Real.log_one
  obtain ⟨-, -, a3, a4, a5, a6⟩ := procesarMuestra_auto libmReal hlog (picoEjemploLow libmReal)
    (picoEjemploHigh libmReal) 1 1 one_pos one_pos h1 h2
  refine ⟨rfl, a3, a5, a6, ?_, ?_⟩
  · show (picoEjemploLow libmReal).cuentas_netas / (picoEjemploHigh libmReal).cuentas_netas = _
    have h1' : (picoEjemploLow libmReal).cuentas_netas = Dbl.fin 1 := h1
    have h2' : (picoEjemploHigh libmReal).cuentas_netas = Dbl.fin 1 := h2
    rw [h1', h2', Dbl.fin_div_fin _ _ one_ne_zero, div_one]
  · show (AnalisisEu152.procesarMuestra libmReal (picoEjemploLow libmReal)
        (picoEjemploHigh libmReal) (picoEjemploLow libmReal) (picoEjemploHigh libmReal)).L_low
      - (AnalisisEu152.procesarMuestra libmReal (picoEjemploLow libmReal)
        (picoEjemploHigh libmReal) (picoEjemploLow libmReal) (picoEjemploHigh libmReal)).L_high
      = _
    rw [a3, a4, Dbl.fin_sub_fin, sub_zero]

/-- C25: in `AnalisisEu152_v2`, whatever the four fits return, the entries of
`precision_arr` are finite, `mejor` is an index below 4 whose entry is the
smallest and the first such index (every earlier entry is strictly larger);
the graph of step 7 is the graph of the index Q (`Q_vec`, `errQ_vec`) with the
range of `f2`, whatever `mejor` is. -/
theorem C25_mejor_indice {α : Type} [LinearOrderedField α]
    (ajuste : List (α × Dbl α × Dbl α) → Dbl α × Dbl α)
    (filas : List (AnalisisEu152_v2.Fila α)) :
    AnalisisEu152_v2.mejor (AnalisisEu152_v2.precision_arr ajuste filas) < 4
    ∧ (∀ idx, idx < 4 →
        Dbl.le (AnalisisEu152_v2.precision_arr ajuste filas
            (AnalisisEu152_v2.mejor (AnalisisEu152_v2.precision_arr ajuste filas)))
          (AnalisisEu152_v2.precision_arr ajuste filas idx) = true)
    ∧ (∀ idx, idx < AnalisisEu152_v2.mejor (AnalisisEu152_v2.precision_arr ajuste filas) →
        Dbl.lt (AnalisisEu152_v2.precision_arr ajuste filas
            (AnalisisEu152_v2.mejor (AnalisisEu152_v2.precision_arr ajuste filas)))
          (AnalisisEu152_v2.precision_arr ajuste filas idx) = true)
    ∧ AnalisisEu152_v2.gr filas = AnalisisEu152_v2.grafico filas 1
    ∧ (AnalisisEu152_v2.rango_fLin : α × α) = AnalisisEu152_v2.rango 1 := by
  obtain ⟨h1, h2, h3⟩ := mejor_minimo (AnalisisEu152_v2.precision_arr ajuste filas)
    (fun idx _ => by
      obtain ⟨v, -, hv⟩ := precision_arr_finita ajuste filas idx
      exact ⟨v, hv⟩)
  exact ⟨h1, h2, h3, rfl, rfl⟩

/-- The slope `0` for every fit on the rows of the directory `archivosEjemplo`
(the stand-in `ajustePlano`): every entry of `precision_arr` is `999`. -/
theorem precision_arr_ajustePlano (filas : List (AnalisisEu152_v2.Fila ℝ)) (idx : ℕ) :
    AnalisisEu152_v2.precision_arr (ajustePlano ℝ) filas idx = Dbl.fin 999 := by
  have hs : AnalisisEu152_v2.sens (ajustePlano ℝ) filas idx = Dbl.fin 0 := by
    unfold AnalisisEu152_v2.sens ajustePlano
    cases AnalisisEu152_v2.puntos filas idx <;> rfl
  unfold AnalisisEu152_v2.precision_arr
  rw [hs, Dbl.abs_fin, Dbl.gt_fin_fin, if_neg]
  norm_num

/-- In the directory `archivosEjemplo` with fits of slope `0`: `mejor` is the
index `0` (R), no entry of `precision_arr` is below its entry, and the graph
of step 7 is the graph of Q. -/
theorem C25_mejor_indice_witness :
    ∃ filas, AnalisisEu152_v2.filas libmReal (archivosEjemplo ℝ) "" false = Except.ok filas
      ∧ AnalisisEu152_v2.mejor (AnalisisEu152_v2.precision_arr (ajustePlano ℝ) filas) = 0
      ∧ (0 : ℕ) < 4 ∧ (3 : ℕ) < 4
      ∧ Dbl.le (AnalisisEu152_v2.precision_arr (ajustePlano ℝ) filas
            (AnalisisEu152_v2.mejor (AnalisisEu152_v2.precision_arr (ajustePlano ℝ) filas)))
          (AnalisisEu152_v2.precision_arr (ajustePlano ℝ) filas 3) = true
      ∧ AnalisisEu152_v2.gr filas = AnalisisEu152_v2.grafico filas 1 := by
  refine ⟨_, filas_v2_archivosEjemplo libmReal, ?_, by norm_num, by norm_num, ?_, ?_⟩
  · show (if Dbl.lt (AnalisisEu152_v2.precision_arr (ajustePlano ℝ) _ 3)
        (AnalisisEu152_v2.precision_arr (ajustePlano ℝ) _
          (if Dbl.lt (AnalisisEu152_v2.precision_arr (ajustePlano ℝ) _ 2)
            (AnalisisEu152_v2.precision_arr (ajustePlano ℝ) _
              (if Dbl.lt (AnalisisEu152_v2.precision_arr (ajustePlano ℝ) _ 1)
                (AnalisisEu152_v2.precision_arr (ajustePlano ℝ) _ 0) then 1 else 0))
            then 2 else (if Dbl.lt (AnalisisEu152_v2.precision_arr (ajustePlano ℝ) _ 1)
                (AnalisisEu152_v2.precision_arr (ajustePlano ℝ) _ 0) then 1 else 0))) then 3
        else (if Dbl.lt (AnalisisEu152_v2.precision_arr (ajustePlano ℝ) _ 2)
            (AnalisisEu152_v2.precision_arr (ajustePlano ℝ) _
              (if Dbl.lt (AnalisisEu152_v2.precision_arr (ajustePlano ℝ) _ 1)
                (AnalisisEu152_v2.precision_arr (ajustePlano ℝ) _ 0) then 1 else 0))
            then 2 else (if Dbl.lt (AnalisisEu152_v2.precision_arr (ajustePlano ℝ) _ 1)
                (AnalisisEu152_v2.precision_arr (ajustePlano ℝ) _ 0) then 1 else 0))) = 0
    simp [precision_arr_ajustePlano]
  · exact (C25_mejor_indice (ajustePlano ℝ) _).2.1 3 (by norm_num)
  · exact (C25_mejor_indice (ajustePlano ℝ) _).2.2.2.1

/-- In the directory `archivosEjemplo` with fits of slope `0`, `mejor` is the
index `0` (R), whose graph starts with the point `(0, 0, 0)`, while the graph
of step 7 starts with the point `(0, 1, errQ)` of the index Q: the curve of
step 7 is not built from the index `mejor`. -/
theorem C25_curva_final_con_Q :
    ∃ filas, AnalisisEu152_v2.filas libmReal (archivosEjemplo ℝ) "" false = Except.ok filas
      ∧ AnalisisEu152_v2.mejor (AnalisisEu152_v2.precision_arr (ajustePlano ℝ) filas) = 0
      ∧ (∃ resto, AnalisisEu152_v2.grafico filas
          (AnalisisEu152_v2.mejor (AnalisisEu152_v2.precision_arr (ajustePlano ℝ) filas))
          = (0, Dbl.fin 0, Dbl.fin 0) :: resto)
      ∧ (∃ errQ resto, AnalisisEu152_v2.gr filas = (0, Dbl.fin 1, errQ) :: resto)
      ∧ AnalisisEu152_v2.gr filas ≠ AnalisisEu152_v2.grafico filas
          (AnalisisEu152_v2.mejor (AnalisisEu152_v2.precision_arr (ajustePlano ℝ) filas)) := by
  have hm : ∀ filas : List (AnalisisEu152_v2.Fila ℝ),
      AnalisisEu152_v2.mejor (AnalisisEu152_v2.precision_arr (ajustePlano ℝ) filas) = 0 := by
    intro filas
    show (if Dbl.lt (AnalisisEu152_v2.precision_arr (ajustePlano ℝ) _ 3)
        (AnalisisEu152_v2.precision_arr (ajustePlano ℝ) _
          (if Dbl.lt (AnalisisEu152_v2.precision_arr (ajustePlano ℝ) _ 2)
            (AnalisisEu152_v2.precision_arr (ajustePlano ℝ) _
              (if Dbl.lt (AnalisisEu152_v2.precision_arr (ajustePlano ℝ) _ 1)
                (AnalisisEu152_v2.precision_arr (ajustePlano ℝ) _ 0) then 1 else 0))
            then 2 else (if Dbl.lt (AnalisisEu152_v2.precision_arr (ajustePlano ℝ) _ 1)
                (AnalisisEu152_v2.precision_arr (ajustePlano ℝ) _ 0) then 1 else 0))) then 3
        else (if Dbl.lt (AnalisisEu152_v2.precision_arr (ajustePlano ℝ) _ 2)
            (AnalisisEu152_v2.precision_arr (ajustePlano ℝ) _
              (if Dbl.lt (AnalisisEu152_v2.precision_arr (ajustePlano ℝ) _ 1)
                (AnalisisEu152_v2.precision_arr (ajustePlano ℝ) _ 0) then 1 else 0))
            then 2 else (if Dbl.lt (AnalisisEu152_v2.precision_arr (ajustePlano ℝ) _ 1)
                (AnalisisEu152_v2.precision_arr (ajustePlano ℝ) _ 0) then 1 else 0))) = 0
    simp [precision_arr_ajustePlano]
  obtain ⟨-, -, hR, hE, hQ, -⟩ := filaEjemplo_valores 0
  have hg0 : AnalisisEu152_v2.grafico
      [AnalisisEu152_v2.filaEjemplo libmReal 0, AnalisisEu152_v2.filaEjemplo libmReal 1] 0
      = (0, Dbl.fin 0, Dbl.fin 0)
        :: [((AnalisisEu152_v2.filaEjemplo libmReal 1).C,
            (AnalisisEu152_v2.filaEjemplo libmReal 1).indices.R,
            (AnalisisEu152_v2.filaEjemplo libmReal 1).indices.errR)] := by
    show [((AnalisisEu152_v2.filaEjemplo libmReal 0).C,
          (AnalisisEu152_v2.filaEjemplo libmReal 0).indices.R,
          (AnalisisEu152_v2.filaEjemplo libmReal 0).indices.errR),
        ((AnalisisEu152_v2.filaEjemplo libmReal 1).C,
          (AnalisisEu152_v2.filaEjemplo libmReal 1).indices.R,
          (AnalisisEu152_v2.filaEjemplo libmReal 1).indices.errR)] = _
    rw [hR, hE]
    rfl
  have hg : AnalisisEu152_v2.gr
      [AnalisisEu152_v2.filaEjemplo libmReal 0, AnalisisEu152_v2.filaEjemplo libmReal 1]
      = (0, Dbl.fin 1, (AnalisisEu152_v2.filaEjemplo libmReal 0).otros.errQ)
        :: [((AnalisisEu152_v2.filaEjemplo libmReal 1).C,
            (AnalisisEu152_v2.filaEjemplo libmReal 1).otros.Q,
            (AnalisisEu152_v2.filaEjemplo libmReal 1).otros.errQ)] := by
    show [((AnalisisEu152_v2.filaEjemplo libmReal 0).C,
          (AnalisisEu152_v2.filaEjemplo libmReal 0).otros.Q,
          (AnalisisEu152_v2.filaEjemplo libmReal 0).otros.errQ),
        ((AnalisisEu152_v2.filaEjemplo libmReal 1).C,
          (AnalisisEu152_v2.filaEjemplo libmReal 1).otros.Q,
          (AnalisisEu152_v2.filaEjemplo libmReal 1).otros.errQ)] = _
    rw [hQ]
    rfl
  refine ⟨_, filas_v2_archivosEjemplo libmReal, hm _, ?_, ⟨_, _, hg⟩, ?_⟩
  · rw [hm]
    exact ⟨_, hg0⟩
  · rw [hm, hg, hg0]
    intro h
    have h' := (Prod.mk.inj (Prod.mk.inj (List.cons.inj h).1).2).1
    have h'' : (1 : ℝ) = 0 := by injection h'
    exact one_ne_zero h''

/-! ## The ranges of the calibration fits -/

/-- A point a fit with the option `R` uses lies in the range of the
function. -/
theorem puntosEnRango_dentro {α : Type} [LinearOrderedField α] (rango : α × α)
    (gr : List (α × Dbl α × Dbl α)) (p : α × Dbl α × Dbl α) :
    p ∈ puntosEnRango rango gr ↔ p ∈ gr ∧ rango.1 ≤ p.1 ∧ p.1 ≤ rango.2 := by
  unfold puntosEnRango
  rw [List.mem_filter]
  simp only [Bool.not_eq_true', Bool.or_eq_false_iff, decide_eq_false_iff_not, not_lt,
    gt_iff_lt]

/-- The first row of `AnalisisEu152_v2` after a passed reference guard is the
row of the 0 % sample. -/
theorem filas_v2_cabeza {α : Type} [LinearOrderedField α] [FloorRing α] (m : Libm α)
    (fs : Archivos α) (directorio : String) (usar_1408 : Bool)
    (filas : List (AnalisisEu152_v2.Fila α))
    (hrun : AnalisisEu152_v2.filas m fs directorio usar_1408 = Except.ok filas) :
    ∃ f resto, filas = f :: resto ∧ f.C = 0 := by
  unfold AnalisisEu152_v2.filas at hrun
  cases hr : AnalisisEu152.referencia m fs directorio usar_1408 with
  | error e => rw [hr] at hrun; simp at hrun
  | ok refs =>
    obtain ⟨ref_low, ref_high⟩ := refs
    rw [hr] at hrun
    simp only at hrun
    injection hrun with hrun
    obtain ⟨Energy, I0, J0, hfs, -, -, -, -, -, -, -⟩ :=
      referencia_ok m fs directorio usar_1408 ref_low ref_high hr
    rw [← hrun]
    unfold AnalisisEu152.MUESTRAS
    rw [List.filterMap_cons]
    have hpaso : ∃ f, AnalisisEu152_v2.pasoMuestra m fs directorio usar_1408 ref_low ref_high
        ("Eu152_REE_0p00.root", 0) = some f ∧ f.C = 0 := by
      unfold AnalisisEu152_v2.pasoMuestra
      simp only [hfs]
      exact ⟨_, rfl, rfl⟩
    obtain ⟨f, hf, hC⟩ := hpaso
    rw [hf]
    exact ⟨f, _, rfl, hC⟩

/-- C21: the fit of the log-ratio R in `AnalisisEu152` (`fLin`) and in
`AnalisisEu152_v2` (`f1`) uses only points with a concentration in
`[0.5, 5.5]`, so that the concentration 0 point never enters it; the fits of
the difference Delta and of the attenuation `L_low` in `AnalisisEu152_v2`
(`f3`, `f4`) have the range `[-0.5, 5.5]`, and in every run that passes the
reference guard the point of the 0 % sample enters both; the fits of R in
`Resultados2/analisis_final.cpp`, `Resultados2/analisis_LaBr3_ROI.cpp`,
`build/analisis_final.cpp` and `build/analisis_dual.cpp` of
`Simulacion_Barrido` use no point at the concentration 0. -/
theorem C21_rangos_de_los_ajustes {α : Type} [LinearOrderedField α] [FloorRing α]
    (m : Libm α) (fs : Archivos α) (directorio : String) (usar_1408 : Bool) :
    (∀ (filas : List (α × AnalisisEu152.Indices α)) (p : α × Dbl α × Dbl α),
      p ∈ AnalisisEu152.puntos_fLin filas → 0.5 ≤ p.1 ∧ p.1 ≤ 5.5 ∧ p.1 ≠ 0)
    ∧ (∀ (filas : List (AnalisisEu152_v2.Fila α)) (p : α × Dbl α × Dbl α),
      p ∈ AnalisisEu152_v2.puntos filas 0 → 0.5 ≤ p.1 ∧ p.1 ≤ 5.5 ∧ p.1 ≠ 0)
    ∧ (∀ filas : List (AnalisisEu152_v2.Fila α),
      AnalisisEu152_v2.filas m fs directorio usar_1408 = Except.ok filas →
      ∃ f resto, filas = f :: resto ∧ f.C = 0
        ∧ (0, f.otros.Delta, f.otros.errDelta) ∈ AnalisisEu152_v2.puntos filas 2
        ∧ (0, f.indices.L_low, f.otros.errL_low) ∈ AnalisisEu152_v2.puntos filas 3)
    ∧ (∀ (gr : List (α × Dbl α × Dbl α)) (p : α × Dbl α × Dbl α),
      (p ∈ puntosEnRango analisis_final.rango_fLinear gr
        ∨ p ∈ puntosEnRango analisis_LaBr3_ROI.rango_f gr
        ∨ p ∈ puntosEnRango build.analisis_final.rango_fLin gr
        ∨ p ∈ puntosEnRango build.analisis_dual.rango_fLin gr) → p.1 ≠ 0) := by
  refine ⟨?_, ?_, ?_, ?_⟩
  rotate_right
  · intro gr p hp h0
    simp only [puntosEnRango_dentro] at hp
    rw [h0] at hp
    rcases hp with ⟨-, h, -⟩ | ⟨-, h, -⟩ | ⟨-, h, -⟩ | ⟨-, h, -⟩
    · have h' : (0.8 : α) ≤ 0 := h
      norm_num at h'
    · have h' : (0.9 : α) ≤ 0 := h
      norm_num at h'
    · have h' : (0.5 : α) ≤ 0 := h
      norm_num at h'
    · have h' : (0.5 : α) ≤ 0 := h
      norm_num at h'
  · intro filas p hp
    unfold AnalisisEu152.puntos_fLin at hp
    rw [puntosEnRango_dentro] at hp
    obtain ⟨-, h1, h2⟩ := hp
    have h1' : (0.5 : α) ≤ p.1 := h1
    have h2' : p.1 ≤ (5.5 : α) := h2
    refine ⟨h1', h2', ?_⟩
    intro h0
    rw [h0] at h1'
    norm_num at h1'
  · intro filas p hp
    unfold AnalisisEu152_v2.puntos at hp
    rw [puntosEnRango_dentro] at hp
    obtain ⟨-, h1, h2⟩ := hp
    have h1' : (0.5 : α) ≤ p.1 := h1
    have h2' : p.1 ≤ (5.5 : α) := h2
    refine ⟨h1', h2', ?_⟩
    intro h0
    rw [h0] at h1'
    norm_num at h1'
  · intro filas hrun
    obtain ⟨f, resto, hf, hC⟩ := filas_v2_cabeza m fs directorio usar_1408 filas hrun
    have hr1 : ((AnalisisEu152_v2.rango 2 : α × α)).1 ≤ 0
        ∧ (0 : α) ≤ ((AnalisisEu152_v2.rango 2 : α × α)).2 := by
      show (-0.5 : α) ≤ 0 ∧ (0 : α) ≤ 5.5
      constructor <;> norm_num
    have hr2 : ((AnalisisEu152_v2.rango 3 : α × α)).1 ≤ 0
        ∧ (0 : α) ≤ ((AnalisisEu152_v2.rango 3 : α × α)).2 := by
      show (-0.5 : α) ≤ 0 ∧ (0 : α) ≤ 5.5
      constructor <;> norm_num
    refine ⟨f, resto, hf, hC, ?_, ?_⟩
    · unfold AnalisisEu152_v2.puntos
      rw [puntosEnRango_dentro]
      refine ⟨?_, hr1.1, hr1.2⟩
      rw [hf, ← hC]
      exact List.mem_cons_self _ _
    · unfold AnalisisEu152_v2.puntos
      rw [puntosEnRango_dentro]
      refine ⟨?_, hr2.1, hr2.2⟩
      rw [hf, ← hC]
      exact List.mem_cons_self _ _

/-- The directory `archivosEjemplo`: the point of the 1 % sample is the only
point of the fit of R, and the point of the 0 % sample enters the fits of
Delta and of `L_low`. -/
theorem C21_rangos_de_los_ajustes_witness :
    ∃ filas f resto,
      AnalisisEu152_v2.filas libmReal (archivosEjemplo ℝ) "" false = Except.ok filas
      ∧ (1, Dbl.fin 0, Dbl.fin 0) ∈ AnalisisEu152_v2.puntos filas 0
      ∧ ((0.5 : ℝ) ≤ 1 ∧ (1 : ℝ) ≤ 5.5 ∧ (1 : ℝ) ≠ 0)
      ∧ filas = f :: resto ∧ f.C = 0
      ∧ (0, f.otros.Delta, f.otros.errDelta) ∈ AnalisisEu152_v2.puntos filas 2
      ∧ (0, f.indices.L_low, f.otros.errL_low) ∈ AnalisisEu152_v2.puntos filas 3 := by
  have hrun := filas_v2_archivosEjemplo libmReal
  obtain ⟨-, -, hR, hE, -, -⟩ := filaEjemplo_valores 1
  have hmem : ((1 : ℝ), (Dbl.fin 0 : Dbl ℝ), (Dbl.fin 0 : Dbl ℝ)) ∈ AnalisisEu152_v2.puntos
      [AnalisisEu152_v2.filaEjemplo libmReal 0, AnalisisEu152_v2.filaEjemplo libmReal 1] 0 := by
    unfold AnalisisEu152_v2.puntos
    rw [puntosEnRango_dentro]
    refine ⟨?_, ?_, ?_⟩
    · show _ ∈ [((AnalisisEu152_v2.filaEjemplo libmReal 0).C,
          (AnalisisEu152_v2.filaEjemplo libmReal 0).indices.R,
          (AnalisisEu152_v2.filaEjemplo libmReal 0).indices.errR),
        ((AnalisisEu152_v2.filaEjemplo libmReal 1).C,
          (AnalisisEu152_v2.filaEjemplo libmReal 1).indices.R,
          (AnalisisEu152_v2.filaEjemplo libmReal 1).indices.errR)]
      rw [hR, hE]
      exact List.mem_cons_of_mem _ (List.mem_cons_self _ _)
    · show (0.5 : ℝ) ≤ 1
      norm_num
    · show (1 : ℝ) ≤ 5.5
      norm_num
  obtain ⟨f, resto, h1, h2, h3, h4⟩ :=
    (C21_rangos_de_los_ajustes libmReal (archivosEjemplo ℝ) "" false).2.2.1 _ hrun
  exact ⟨_, f, resto, hrun, hmem,
    (C21_rangos_de_los_ajustes libmReal (archivosEjemplo ℝ) "" false).2.1 _ _ hmem,
    h1, h2, h3, h4⟩

/-- In the directory `archivosEjemplo`, the function `f4` of the fit of the
attenuation `L_low` in `AnalisisEu152_v2` has the range `(-0.5, 5.5)`, and the
point of the 0 % sample, `L_low = 0` at the concentration 0, is one of the
points of that fit. -/
theorem C21_punto_cero_en_el_ajuste_de_L :
    ∃ filas errL_low,
      AnalisisEu152_v2.filas libmReal (archivosEjemplo ℝ) "" false = Except.ok filas
      ∧ (AnalisisEu152_v2.rango 3 : ℝ × ℝ) = (-0.5, 5.5)
      ∧ (0, Dbl.fin 0, errL_low) ∈ AnalisisEu152_v2.puntos filas 3 := by
  obtain ⟨-, hL, -, -, -, -⟩ := filaEjemplo_valores 0
  refine ⟨_, (AnalisisEu152_v2.filaEjemplo libmReal 0).otros.errL_low,
    filas_v2_archivosEjemplo libmReal, rfl, ?_⟩
  unfold AnalisisEu152_v2.puntos
  rw [puntosEnRango_dentro]
  refine ⟨?_, ?_, ?_⟩
  · show _ ∈ [((AnalisisEu152_v2.filaEjemplo libmReal 0).C,
        (AnalisisEu152_v2.filaEjemplo libmReal 0).indices.L_low,
        (AnalisisEu152_v2.filaEjemplo libmReal 0).otros.errL_low),
      ((AnalisisEu152_v2.filaEjemplo libmReal 1).C,
        (AnalisisEu152_v2.filaEjemplo libmReal 1).indices.L_low,
        (AnalisisEu152_v2.filaEjemplo libmReal 1).otros.errL_low)]
    rw [hL]
    exact List.mem_cons_self _ _
  · show (-0.5 : ℝ) ≤ 0
    norm_num
  · show (0 : ℝ) ≤ 5.5
    norm_num

/-! ## The peak integrators on the bin contents -/

end REE
